import Mathlib

/-!
# N64 R4300i interpreter core: embedding and verified properties

Shallow embedding of the interpreter sources (`src/cpu/mips_instructions.c`,
`src/cpu/r4300i.c`, `src/cpu/mips.c`).  Machine integers are natural numbers
holding the two's-complement bit pattern, reduced explicitly modulo `2^32` or
`2^64` wherever the C code truncates.  A fatal diagnostic (`logfatal`) is the
result `none`.
-/

namespace N64

/-! ## Machine integers -/

/-- Conversion to `u32`: the low 32 bits. -/
def u32 (x : Nat) : Nat := x % 0x100000000

/-- Conversion to `u64`: the low 64 bits. -/
def u64 (x : Nat) : Nat := x % 0x10000000000000000

/-- Signed reading of a `bits`-wide two's-complement pattern (`x < 2^bits`). -/
def toSigned (bits : Nat) (x : Nat) : Int :=
  if x < 2 ^ (bits - 1) then (x : Int) else (x : Int) - (2 : Int) ^ bits

/-- The `bits`-wide two's-complement pattern of an integer. -/
def ofSigned (bits : Nat) (i : Int) : Nat := (i % (2 : Int) ^ bits).toNat

/-- The value is inside the signed range of a `bits`-wide integer. -/
def fitsSigned (bits : Nat) (i : Int) : Prop :=
  -((2 : Int) ^ (bits - 1)) ≤ i ∧ i < (2 : Int) ^ (bits - 1)

instance fitsSigned_decidable (bits : Nat) (i : Int) : Decidable (fitsSigned bits i) := by
  unfold fitsSigned
  infer_instance

/-- The cast chain `(s64)(s32)x`, as a 64-bit pattern: the low 32 bits of `x`
sign-extended from bit 31. -/
def sext32 (x : Nat) : Nat :=
  if x % 0x100000000 < 0x80000000 then x % 0x100000000
  else x % 0x100000000 + 0xFFFFFFFF00000000

/-- The cast chain `(s64)(s16)x`, as a 64-bit pattern. -/
def sext16 (x : Nat) : Nat :=
  if x % 0x10000 < 0x8000 then x % 0x10000
  else x % 0x10000 + 0xFFFFFFFFFFFF0000

/-- The cast chain `(s64)(s8)x`, as a 64-bit pattern. -/
def sext8 (x : Nat) : Nat :=
  if x % 0x100 < 0x80 then x % 0x100
  else x % 0x100 + 0xFFFFFFFFFFFFFF00

/-- Bitwise complement of a `bits`-wide pattern (the C operator `~`). -/
def bnot (bits : Nat) (x : Nat) : Nat := (2 ^ bits - 1) ^^^ x

/-- A 64-bit value equals the sign-extension of its own low 32 bits. -/
def IsSext32 (v : Nat) : Prop := v = sext32 v

/-! ## Overflow tests (`mips_instructions.c` lines 6-7)

`bits` is `sizeof(res) * 8`.  For the signed operand types of SUB and DSUB the
shift is arithmetic, and the final `& 1` keeps bit `bits - 1` all the same. -/

/-- The macro `check_signed_overflow_add(op1, op2, res)`. -/
def check_signed_overflow_add (bits : Nat) (op1 op2 res : Nat) : Nat :=
  ((bnot bits (op1 ^^^ op2) &&& (op1 ^^^ res)) >>> (bits - 1)) &&& 1

/-- The macro `check_signed_overflow_sub(op1, op2, res)`. -/
def check_signed_overflow_sub (bits : Nat) (op1 op2 res : Nat) : Nat :=
  (((op1 ^^^ op2) &&& (op1 ^^^ res)) >>> (bits - 1)) &&& 1

/-! ## Architectural state -/

/-- Views of the CP0 Status register used by the sources. -/
structure cp0_status_t where
  ie : Bool
  exl : Bool
  erl : Bool
  im : Nat
  bev : Bool
deriving DecidableEq

/-- Views of the CP0 Cause register used by the sources.  `interrupt_pending`
is the 8-bit IP field, whose bit 7 is `ip7`. -/
structure cp0_cause_t where
  exception_code : Nat
  interrupt_pending : Nat
  coprocessor_error : Nat
  branch_delay : Bool
deriving DecidableEq

/-- Kind of a failed translation (`tlb_error`). -/
inductive tlb_error_t where
  | TLB_ERROR_NONE
  | TLB_ERROR_MISS
  | TLB_ERROR_INVALID
  | TLB_ERROR_MODIFICATION
deriving DecidableEq

/-- Intent of a bus access. -/
inductive bus_access_t where
  | BUS_LOAD
  | BUS_STORE
deriving DecidableEq

/-- The CP0 registers the sources refer to. -/
structure cp0_t where
  status : cp0_status_t
  cause : cp0_cause_t
  EPC : Nat
  error_epc : Nat
  count : Nat
  compare : Nat
  lladdr : Nat
  bad_vaddr : Nat
  entry_hi : Nat
  is_64bit_addressing : Bool
  kernel_mode : Bool
  tlb_error : tlb_error_t
  /-- Every other CP0 register and the TLB entries, by index. -/
  other : Nat → Nat

/-- The FPU: register bank (raw 64-bit patterns) and control registers. -/
structure fpu_t where
  fgr : Nat → Nat
  fcr0 : Nat
  fcr31 : Nat

/-- The CPU object `r4300i_t` together with the physical memory it is
attached to (`mem` maps a physical byte address to a byte). -/
structure r4300i_t where
  gpr : Nat → Nat
  pc : Nat
  next_pc : Nat
  prev_pc : Nat
  mult_hi : Nat
  mult_lo : Nat
  branch : Bool
  branch_pc : Nat
  branch_delay : Nat
  exception : Bool
  llbit : Bool
  interrupts : Nat
  cp0 : cp0_t
  fpu : fpu_t
  mem : Nat → Nat

/-- Collaborators that the sources call but that live outside the files at
hand (bus wrappers behind the `cpu->read_*`/`write_*` function pointers, the
address translator, CP0/FPU register-file accessors, floating-point
arithmetic, the TLB instructions) and build constants.  Every property below
is proved for an arbitrary value of this record. -/
structure Ext where
  /-- The macro constant `CYCLES_PER_INSTR`. -/
  CYCLES_PER_INSTR : Nat
  /-- The function pointer `cpu->read_byte` (virtual address). -/
  read_byte : r4300i_t → Nat → Nat
  /-- The function pointer `cpu->read_half`. -/
  read_half : r4300i_t → Nat → Nat
  /-- The function pointer `cpu->read_word`; also the instruction fetch. -/
  read_word : r4300i_t → Nat → Nat
  /-- The function pointer `cpu->read_dword`. -/
  read_dword : r4300i_t → Nat → Nat
  /-- The function pointer `cpu->write_word`: the memory after the write. -/
  write_word : r4300i_t → Nat → Nat → (Nat → Nat)
  /-- The function pointer `cpu->write_dword`: the memory after the write. -/
  write_dword : r4300i_t → Nat → Nat → (Nat → Nat)
  /-- Address translation `resolve_virtual_address(address, intent, &physical)`:
  the physical address, or the kind of failure left in `tlb_error`. -/
  resolve_virtual_address : r4300i_t → Nat → bus_access_t → Except tlb_error_t Nat
  /-- Accessor `get_cp0_register_word(r)`. -/
  get_cp0_register_word : r4300i_t → Nat → Nat
  /-- Accessor `get_cp0_register_dword(r)`. -/
  get_cp0_register_dword : r4300i_t → Nat → Nat
  /-- Setter `set_cp0_register_word(r, value)`: the CP0 state afterwards, or a
  fatal diagnostic. -/
  set_cp0_register_word : r4300i_t → Nat → Nat → Option cp0_t
  /-- Setter `set_cp0_register_dword(r, value)`. -/
  set_cp0_register_dword : r4300i_t → Nat → Nat → Option cp0_t
  /-- The TLB instructions TLBWI, TLBP, TLBR (selected by the instruction
  word): the CP0 state afterwards. -/
  tlb_instruction : r4300i_t → Nat → Option cp0_t
  /-- Accessor `get_fpu_register_word(r)`. -/
  get_fpu_register_word : r4300i_t → Nat → Nat
  /-- Accessor `get_fpu_register_dword(r)`. -/
  get_fpu_register_dword : r4300i_t → Nat → Nat
  /-- Setter `set_fpu_register_word(r, value)`: the FPU state afterwards. -/
  set_fpu_register_word : r4300i_t → Nat → Nat → fpu_t
  /-- Setter `set_fpu_register_dword(r, value)`: the FPU state afterwards. -/
  set_fpu_register_dword : r4300i_t → Nat → Nat → fpu_t
  /-- Floating-point arithmetic, conversion, move and compare handlers
  (selected by the instruction word): the FPU state afterwards. -/
  fpu_instruction : r4300i_t → Nat → fpu_t
  /-- The value of a local variable that is read before it is assigned. -/
  indeterminate : Nat

/-! ## Instruction word

Modelled from the spec: the header declaring `mips_instruction_t` is absent;
the fields are those of the MIPS III formats.  The `fr` format names `fmt`,
`ft`, `fs`, `fd` occupy the bits of `rs`, `rt`, `rd`, `sa`; the `fi` format
names `base`, `ft`, `offset` occupy the bits of `rs`, `rt`, `immediate`. -/

/-- Field `op`, bits 31..26. -/
def instr_op (raw : Nat) : Nat := raw / 0x4000000 % 64

/-- Field `rs` (also `fr.fmt`, `fi.base`), bits 25..21. -/
def instr_rs (raw : Nat) : Nat := raw / 0x200000 % 32

/-- Field `rt` (also `fr.ft`, `fi.ft`), bits 20..16. -/
def instr_rt (raw : Nat) : Nat := raw / 0x10000 % 32

/-- Field `rd` (also `fr.fs`), bits 15..11. -/
def instr_rd (raw : Nat) : Nat := raw / 0x800 % 32

/-- Field `sa` (also `fr.fd`), bits 10..6. -/
def instr_sa (raw : Nat) : Nat := raw / 64 % 32

/-- Field `funct`, bits 5..0. -/
def instr_funct (raw : Nat) : Nat := raw % 64

/-- Field `immediate` (also `fi.offset`), bits 15..0. -/
def instr_immediate (raw : Nat) : Nat := raw % 0x10000

/-- Field `j.target`, bits 25..0. -/
def instr_target (raw : Nat) : Nat := raw % 0x4000000

/-- Field `last11`, bits 10..0. -/
def instr_last11 (raw : Nat) : Nat := raw % 0x800

/-! ## Exception codes

Modelled from the spec: the header defining the `EXCEPTION_*` constants is
absent; they are the MIPS Cause.ExcCode values (`r4300i_step` passes the
literal `0` for an interrupt). -/

/-- Interrupt. -/
def EXCEPTION_INTERRUPT : Nat := 0
/-- TLB modification. -/
def EXCEPTION_TLB_MODIFICATION : Nat := 1
/-- TLB miss on a load. -/
def EXCEPTION_TLB_MISS_LOAD : Nat := 2
/-- TLB miss on a store. -/
def EXCEPTION_TLB_MISS_STORE : Nat := 3
/-- Address error on a load. -/
def EXCEPTION_ADDRESS_ERROR_LOAD : Nat := 4
/-- Address error on a store. -/
def EXCEPTION_ADDRESS_ERROR_STORE : Nat := 5
/-- System call. -/
def EXCEPTION_SYSCALL : Nat := 8
/-- Breakpoint. -/
def EXCEPTION_BREAKPOINT : Nat := 9
/-- Reserved instruction. -/
def EXCEPTION_RESERVED_INSTR : Nat := 10
/-- Coprocessor unusable. -/
def EXCEPTION_COPROCESSOR_UNUSABLE : Nat := 11
/-- Arithmetic overflow. -/
def EXCEPTION_ARITHMETIC_OVERFLOW : Nat := 12
/-- Trap. -/
def EXCEPTION_TRAP : Nat := 13

/-- The link register `R4300I_REG_LR`. -/
def R4300I_REG_LR : Nat := 31

/-! ## Register file -/

/-- Modelled from the spec: `get_register` of the absent register-access
header.  It reads the stored value; that register 0 reads as zero is the
invariant kept by `set_register`. -/
def get_register (c : r4300i_t) (r : Nat) : Nat := c.gpr r

/-- Modelled from the spec: `set_register` of the absent register-access
header.  "Writes to register 0 are silently discarded"; "register 0 writes are
masked by the register setter, not by each op".  The value is a `u64`. -/
def set_register (c : r4300i_t) (r : Nat) (value : Nat) : r4300i_t :=
  if r = 0 then c else { c with gpr := fun i => if i = r then value else c.gpr i }

/-! ## Physical bus

Modelled from the spec: the bus callbacks `read_{byte,half,word,dword}(physical)`
and `write_{byte,half,word,dword}(physical, value)` of the absent bus, over flat
big-endian memory without device registers; "reads return zero-extended values
of the access width". -/

/-- Bus read of one byte. -/
def n64_read_physical_byte (m : Nat → Nat) (p : Nat) : Nat := m p % 256

/-- Bus read of a half word. -/
def n64_read_physical_half (m : Nat → Nat) (p : Nat) : Nat :=
  n64_read_physical_byte m p * 0x100 + n64_read_physical_byte m (p + 1)

/-- Bus read of a word. -/
def n64_read_physical_word (m : Nat → Nat) (p : Nat) : Nat :=
  n64_read_physical_half m p * 0x10000 + n64_read_physical_half m (p + 2)

/-- Bus read of a double word. -/
def n64_read_physical_dword (m : Nat → Nat) (p : Nat) : Nat :=
  n64_read_physical_word m p * 0x100000000 + n64_read_physical_word m (p + 4)

/-- Bus write of one byte (the low 8 bits of the value). -/
def n64_write_physical_byte (m : Nat → Nat) (p : Nat) (value : Nat) : Nat → Nat :=
  fun a => if a = p then value % 256 else m a

/-- Bus write of a half word. -/
def n64_write_physical_half (m : Nat → Nat) (p : Nat) (value : Nat) : Nat → Nat :=
  n64_write_physical_byte (n64_write_physical_byte m p (value / 0x100)) (p + 1) value

/-- Bus write of a word. -/
def n64_write_physical_word (m : Nat → Nat) (p : Nat) (value : Nat) : Nat → Nat :=
  n64_write_physical_half (n64_write_physical_half m p (value / 0x10000)) (p + 2) value

/-- Bus write of a double word. -/
def n64_write_physical_dword (m : Nat → Nat) (p : Nat) (value : Nat) : Nat → Nat :=
  n64_write_physical_word (n64_write_physical_word m p (value / 0x100000000)) (p + 4) value

/-! ## Exception engine (`r4300i.c`) -/

/-- The function `r4300i_interrupt_update` (`r4300i.c` lines 570-572). -/
def r4300i_interrupt_update (c : r4300i_t) : r4300i_t :=
  { c with interrupts := c.cp0.cause.interrupt_pending &&& c.cp0.status.im }

/-- Modelled from the spec: `cp0_status_updated` of the absent CPU header:
"re-derive the interrupt mask (IM ∧ IP) and refresh any cached interrupts
pending summary". -/
def cp0_status_updated (c : r4300i_t) : r4300i_t := r4300i_interrupt_update c

/-- Modelled from the spec: `set_pc_word_r4300i` of the absent CPU header.  The
PC becomes the 32-bit word sign-extended to 64 bits (a 64-bit address is valid
in 32-bit addressing mode only when it is the sign-extension of its low word,
see `check_address_error`), and `next_pc` follows it. -/
def set_pc_word_r4300i (c : r4300i_t) (new_pc : Nat) : r4300i_t :=
  { c with pc := sext32 new_pc, next_pc := u64 (sext32 new_pc + 4) }

/-- Modelled from the spec: `set_pc_dword_r4300i` of the absent CPU header: the
PC becomes the 64-bit value and `next_pc` follows it. -/
def set_pc_dword_r4300i (c : r4300i_t) (new_pc : Nat) : r4300i_t :=
  { c with pc := new_pc, next_pc := u64 (new_pc + 4) }

/-- Lines 54-71 of `r4300i_handle_exception`: delay-slot bookkeeping, EPC and
EXL, exception code and coprocessor error.  The macro `unimplemented(cond, _)`
is fatal when its condition holds.  `exception_code` is a 5-bit field and
`coprocessor_error` a 2-bit field of Cause. -/
def exception_entry (c : r4300i_t) (pc code : Nat) (coprocessor_error : Int) :
    Option r4300i_t :=
  if c.branch && c.cp0.status.exl then none
  else
    let c1 : r4300i_t :=
      if c.branch then
        { c with branch := false,
                 cp0 := { c.cp0 with cause := { c.cp0.cause with branch_delay := true } } }
      else
        { c with cp0 := { c.cp0 with cause := { c.cp0.cause with branch_delay := false } } }
    let pc1 : Nat := if c.branch then u64 (pc + 0x10000000000000000 - 4) else pc
    let c2 : r4300i_t :=
      if !c1.cp0.status.exl then
        { c1 with cp0 := { c1.cp0 with EPC := pc1,
                                       status := { c1.cp0.status with exl := true } } }
      else c1
    let c3 : r4300i_t :=
      { c2 with cp0 := { c2.cp0 with cause := { c2.cp0.cause with exception_code := code % 32 } } }
    some (if 0 < coprocessor_error then
      { c3 with cp0 := { c3.cp0 with cause :=
          { c3.cp0.cause with coprocessor_error := (coprocessor_error % 4).toNat } } }
    else c3)

/-- Lines 73-93 of `r4300i_handle_exception`: vector selection.  Every
`logfatal` is fatal: with BEV set both cases are, with BEV clear every code
other than interrupt and coprocessor-unusable is. -/
def exception_vector (c : r4300i_t) (code : Nat) : Option r4300i_t :=
  if c.cp0.status.bev then none
  else if code = EXCEPTION_INTERRUPT then some (set_pc_word_r4300i c 0x80000180)
  else if code = EXCEPTION_COPROCESSOR_UNUSABLE then some (set_pc_word_r4300i c 0x80000180)
  else none

/-- The function `r4300i_handle_exception` (`r4300i.c` lines 50-96). -/
def r4300i_handle_exception (c : r4300i_t) (pc code : Nat) (coprocessor_error : Int) :
    Option r4300i_t :=
  match exception_entry c pc code coprocessor_error with
  | none => none
  | some c1 =>
    match exception_vector c1 code with
    | none => none
    | some c2 => some { cp0_status_updated c2 with exception := true }

/-! ## Branch helpers (`mips.c` lines 27-62, and the branch-likely helper called by
`mips_instructions.c`) -/

/-- The function `link` of `mips.c`, for the register given to `link_r4300i`:
the return address skips the instruction in the delay slot. -/
def link_r4300i (c : r4300i_t) (reg : Nat) : r4300i_t :=
  set_register c reg (u64 (c.pc + 4))

/-- The function `branch_abs` (`mips.c` lines 31-39); `address` is a `word`. -/
def branch_abs (c : r4300i_t) (address : Nat) : r4300i_t :=
  { c with branch_pc := u32 address, branch := true, branch_delay := 1 }

/-- The function `branch_offset` (`mips.c` lines 41-48): the `shalf` offset is
widened, shifted left by two in 32 bits and added to the PC. -/
def branch_offset (c : r4300i_t) (offset : Nat) : r4300i_t :=
  branch_abs c (c.pc + sext32 (u32 (sext16 offset * 4)))

/-- The function `conditional_branch_likely` of `mips.c` (lines 50-56), called
by the handlers of that file; it belongs to a step loop that adds 4 to the PC
after each instruction. -/
def mips_c_conditional_branch_likely (c : r4300i_t) (offset : Nat) (condition : Bool) :
    r4300i_t :=
  if condition then branch_offset c offset
  else { c with pc := u64 (c.pc + 4) }

/-- Modelled from the spec: the two-argument `conditional_branch_likely(offset,
condition)` that the handlers of `mips_instructions.c` call, whose body is not
in the sources.  "BRANCH_LIKELY: if taken, same as BRANCH.  If not taken, the
delay slot is nullified (skipped) — the PC skips 4 extra bytes"; "Branches
mutate `next_pc` (taken) or leave it at `pc+4` (not taken).  Branch-likely
not-taken also nullifies the delay-slot instruction by advancing `pc` past it
before the next fetch".  When the handler runs, `pc` is the address of the
delay slot, so the not-taken case moves the PC to `pc + 4` with `next_pc`
following it. -/
def conditional_branch_likely (c : r4300i_t) (offset : Nat) (condition : Bool) : r4300i_t :=
  if condition then branch_offset c offset
  else set_pc_dword_r4300i c (u64 (c.pc + 4))

/-- The function `conditional_branch` (`mips.c` lines 58-62). -/
def conditional_branch (c : r4300i_t) (offset : Nat) (condition : Bool) : r4300i_t :=
  if condition then branch_offset c offset else c

/-! ## Address checks and translation faults -/

/-- The macro `check_address_error(mask, virtual)` (`mips_instructions.c`
line 8). -/
def check_address_error (c : r4300i_t) (mask : Nat) (virtual : Nat) : Bool :=
  ((!c.cp0.is_64bit_addressing) && decide (sext32 virtual ≠ virtual))
    || decide (virtual &&& mask ≠ 0)

/-- Modelled from the spec: `on_tlb_exception` of the absent TLB module: "write
BadVAddr and EntryHi(VPN2+ASID)"; VPN2 is bits 39..13 of the address, the ASID
in bits 7..0 is kept. -/
def on_tlb_exception (c : r4300i_t) (address : Nat) : r4300i_t :=
  { c with cp0 := { c.cp0 with bad_vaddr := address,
                               entry_hi := (address &&& 0xFFFFFFE000) ||| (c.cp0.entry_hi &&& 0xFF) } }

/-- Modelled from the spec: `get_tlb_exception_code` of the absent TLB module:
"map {REFILL, INVALID, MOD, intent} into the correct exception code (TLBL/TLBS,
TLB_MOD)". -/
def get_tlb_exception_code (e : tlb_error_t) (access : bus_access_t) : Nat :=
  match e, access with
  | tlb_error_t.TLB_ERROR_MODIFICATION, _ => EXCEPTION_TLB_MODIFICATION
  | _, bus_access_t.BUS_LOAD => EXCEPTION_TLB_MISS_LOAD
  | _, bus_access_t.BUS_STORE => EXCEPTION_TLB_MISS_STORE

/-- The block every load and store runs when translation fails: record the
failure kind in `tlb_error`, then `on_tlb_exception(address)` and
`r4300i_handle_exception(prev_pc, get_tlb_exception_code(tlb_error, access), 0)`. -/
def tlb_fault (c : r4300i_t) (e : tlb_error_t) (address : Nat) (access : bus_access_t) :
    Option r4300i_t :=
  let c1 : r4300i_t := on_tlb_exception { c with cp0 := { c.cp0 with tlb_error := e } } address
  r4300i_handle_exception c1 c1.prev_pc (get_tlb_exception_code e access) 0

/-- The effective address `get_register(rs) + (s16)immediate`, a `u64`. -/
def effective_address (c : r4300i_t) (raw : Nat) : Nat :=
  u64 (get_register c (instr_rs raw) + sext16 (instr_immediate raw))

/-! ## Handlers of `mips_instructions.c`

A handler takes the collaborators, the CPU and the instruction word and gives
the CPU afterwards, or `none` when it ends in a fatal diagnostic. -/

/-- Handler `mips_nop` (line 101). -/
def mips_nop (_ext : Ext) (c : r4300i_t) (_raw : Nat) : Option r4300i_t := some c

/-- Handler `mips_addi` (lines 103-112). -/
def mips_addi (_ext : Ext) (c : r4300i_t) (raw : Nat) : Option r4300i_t :=
  let reg_addend := u32 (get_register c (instr_rs raw))
  let imm_addend := u32 (sext16 (instr_immediate raw))
  let result := u32 (imm_addend + reg_addend)
  if check_signed_overflow_add 32 reg_addend imm_addend result ≠ 0 then
    r4300i_handle_exception c c.prev_pc EXCEPTION_ARITHMETIC_OVERFLOW 0
  else
    some (set_register c (instr_rt raw) (sext32 result))

/-- Handler `mips_addiu` (lines 114-120). -/
def mips_addiu (_ext : Ext) (c : r4300i_t) (raw : Nat) : Option r4300i_t :=
  let reg_addend := u32 (get_register c (instr_rs raw))
  let result := u32 (reg_addend + u32 (sext16 (instr_immediate raw)))
  some (set_register c (instr_rt raw) (sext32 result))

/-- Handler `mips_daddi` (lines 122-132). -/
def mips_daddi (_ext : Ext) (c : r4300i_t) (raw : Nat) : Option r4300i_t :=
  let addend1 := sext16 (instr_immediate raw)
  let addend2 := get_register c (instr_rs raw)
  let result := u64 (addend1 + addend2)
  if check_signed_overflow_add 64 addend1 addend2 result ≠ 0 then
    r4300i_handle_exception c c.prev_pc EXCEPTION_ARITHMETIC_OVERFLOW 0
  else
    some (set_register c (instr_rt raw) result)

/-- Handler `mips_andi` (lines 135-139). -/
def mips_andi (_ext : Ext) (c : r4300i_t) (raw : Nat) : Option r4300i_t :=
  some (set_register c (instr_rt raw) (instr_immediate raw &&& get_register c (instr_rs raw)))

/-- Handler `mips_beq` (lines 141-143). -/
def mips_beq (_ext : Ext) (c : r4300i_t) (raw : Nat) : Option r4300i_t :=
  some (conditional_branch c (instr_immediate raw)
    (decide (get_register c (instr_rs raw) = get_register c (instr_rt raw))))

/-- Handler `mips_beql` (lines 145-147). -/
def mips_beql (_ext : Ext) (c : r4300i_t) (raw : Nat) : Option r4300i_t :=
  some (conditional_branch_likely c (instr_immediate raw)
    (decide (get_register c (instr_rs raw) = get_register c (instr_rt raw))))

/-- Handler `mips_bgtz` (lines 149-152). -/
def mips_bgtz (_ext : Ext) (c : r4300i_t) (raw : Nat) : Option r4300i_t :=
  some (conditional_branch c (instr_immediate raw)
    (decide (0 < toSigned 64 (get_register c (instr_rs raw)))))

/-- Handler `mips_bgtzl` (lines 154-157). -/
def mips_bgtzl (_ext : Ext) (c : r4300i_t) (raw : Nat) : Option r4300i_t :=
  some (conditional_branch_likely c (instr_immediate raw)
    (decide (0 < toSigned 64 (get_register c (instr_rs raw)))))

/-- Handler `mips_blez` (lines 159-162). -/
def mips_blez (_ext : Ext) (c : r4300i_t) (raw : Nat) : Option r4300i_t :=
  some (conditional_branch c (instr_immediate raw)
    (decide (toSigned 64 (get_register c (instr_rs raw)) ≤ 0)))

/-- Handler `mips_blezl` (lines 164-167). -/
def mips_blezl (_ext : Ext) (c : r4300i_t) (raw : Nat) : Option r4300i_t :=
  some (conditional_branch_likely c (instr_immediate raw)
    (decide (toSigned 64 (get_register c (instr_rs raw)) ≤ 0)))

/-- Handler `mips_bne` (lines 169-171). -/
def mips_bne (_ext : Ext) (c : r4300i_t) (raw : Nat) : Option r4300i_t :=
  some (conditional_branch c (instr_immediate raw)
    (decide (get_register c (instr_rs raw) ≠ get_register c (instr_rt raw))))

/-- Handler `mips_bnel` (lines 173-178). -/
def mips_bnel (_ext : Ext) (c : r4300i_t) (raw : Nat) : Option r4300i_t :=
  some (conditional_branch_likely c (instr_immediate raw)
    (decide (get_register c (instr_rs raw) ≠ get_register c (instr_rt raw))))

/-- Handler `mips_cache` (lines 181-183). -/
def mips_cache (_ext : Ext) (c : r4300i_t) (_raw : Nat) : Option r4300i_t := some c

/-- The jump target of `mips_j` and `mips_jal` (lines 186-188, 196-198):
`target << 2` or-ed with the bits above bit 27 of `pc - 4`, in 64 bits. -/
def jump_target (c : r4300i_t) (raw : Nat) : Nat :=
  (instr_target raw * 4) ||| (u64 (c.pc + 0x10000000000000000 - 4) &&& 0xFFFFFFFFF0000000)

/-- Handler `mips_j` (lines 185-191). -/
def mips_j (_ext : Ext) (c : r4300i_t) (raw : Nat) : Option r4300i_t :=
  some (branch_abs c (jump_target c raw))

/-- Handler `mips_jal` (lines 193-201). -/
def mips_jal (_ext : Ext) (c : r4300i_t) (raw : Nat) : Option r4300i_t :=
  let c1 := link_r4300i c R4300I_REG_LR
  some (branch_abs c1 (jump_target c1 raw))

/-- Handler `mips_slti` (lines 203-212). -/
def mips_slti (_ext : Ext) (c : r4300i_t) (raw : Nat) : Option r4300i_t :=
  if toSigned 64 (get_register c (instr_rs raw)) < toSigned 16 (instr_immediate raw) then
    some (set_register c (instr_rt raw) 1)
  else
    some (set_register c (instr_rt raw) 0)

/-- Handler `mips_sltiu` (lines 214-222): the `s16` immediate is converted to
`u64` for the comparison. -/
def mips_sltiu (_ext : Ext) (c : r4300i_t) (raw : Nat) : Option r4300i_t :=
  if get_register c (instr_rs raw) < sext16 (instr_immediate raw) then
    some (set_register c (instr_rt raw) 1)
  else
    some (set_register c (instr_rt raw) 0)

/-- Handler `mips_mfc0` (lines 224-227). -/
def mips_mfc0 (ext : Ext) (c : r4300i_t) (raw : Nat) : Option r4300i_t :=
  some (set_register c (instr_rt raw) (sext32 (ext.get_cp0_register_word c (instr_rd raw))))

/-- Handler `mips_mtc0` (lines 229-232). -/
def mips_mtc0 (ext : Ext) (c : r4300i_t) (raw : Nat) : Option r4300i_t :=
  match ext.set_cp0_register_word c (instr_rd raw) (u32 (get_register c (instr_rt raw))) with
  | none => none
  | some cp0 => some { c with cp0 := cp0 }

/-- Handler `mips_dmfc0` (lines 234-237). -/
def mips_dmfc0 (ext : Ext) (c : r4300i_t) (raw : Nat) : Option r4300i_t :=
  some (set_register c (instr_rt raw) (u64 (ext.get_cp0_register_dword c (instr_rd raw))))

/-- Handler `mips_dmtc0` (lines 239-242). -/
def mips_dmtc0 (ext : Ext) (c : r4300i_t) (raw : Nat) : Option r4300i_t :=
  match ext.set_cp0_register_dword c (instr_rd raw) (get_register c (instr_rt raw)) with
  | none => none
  | some cp0 => some { c with cp0 := cp0 }

/-- Handler `mips_lui` (lines 263-270). -/
def mips_lui (_ext : Ext) (c : r4300i_t) (raw : Nat) : Option r4300i_t :=
  some (set_register c (instr_rt raw) (u64 (sext16 (instr_immediate raw) * 65536)))

/-- Handler `mips_ori` (lines 426-428). -/
def mips_ori (_ext : Ext) (c : r4300i_t) (raw : Nat) : Option r4300i_t :=
  some (set_register c (instr_rt raw) (instr_immediate raw ||| get_register c (instr_rs raw)))

/-- Handler `mips_xori` (lines 430-432). -/
def mips_xori (_ext : Ext) (c : r4300i_t) (raw : Nat) : Option r4300i_t :=
  some (set_register c (instr_rt raw) (instr_immediate raw ^^^ get_register c (instr_rs raw)))

/-- Handler `mips_daddiu` (lines 434-439). -/
def mips_daddiu (_ext : Ext) (c : r4300i_t) (raw : Nat) : Option r4300i_t :=
  some (set_register c (instr_rt raw)
    (u64 (sext16 (instr_immediate raw) + get_register c (instr_rs raw))))

/-! ### Loads and stores -/

/-- Handler `mips_ld` (lines 244-261). -/
def mips_ld (ext : Ext) (c : r4300i_t) (raw : Nat) : Option r4300i_t :=
  let address := effective_address c raw
  if check_address_error c 0b111 address then
    r4300i_handle_exception (on_tlb_exception c address) c.prev_pc EXCEPTION_ADDRESS_ERROR_LOAD 0
  else
    match ext.resolve_virtual_address c address bus_access_t.BUS_LOAD with
    | Except.error e => tlb_fault c e address bus_access_t.BUS_LOAD
    | Except.ok physical =>
      some (set_register c (instr_rt raw) (n64_read_physical_dword c.mem (u32 physical)))

/-- Handler `mips_lbu` (lines 272-284). -/
def mips_lbu (ext : Ext) (c : r4300i_t) (raw : Nat) : Option r4300i_t :=
  let address := effective_address c raw
  match ext.resolve_virtual_address c address bus_access_t.BUS_LOAD with
  | Except.error e => tlb_fault c e address bus_access_t.BUS_LOAD
  | Except.ok physical =>
    some (set_register c (instr_rt raw) (n64_read_physical_byte c.mem (u32 physical)))

/-- Handler `mips_lhu` (lines 286-302). -/
def mips_lhu (ext : Ext) (c : r4300i_t) (raw : Nat) : Option r4300i_t :=
  let address := effective_address c raw
  if 0 < address &&& 0b1 then none
  else
    match ext.resolve_virtual_address c address bus_access_t.BUS_LOAD with
    | Except.error e => tlb_fault c e address bus_access_t.BUS_LOAD
    | Except.ok physical =>
      some (set_register c (instr_rt raw) (n64_read_physical_half c.mem (u32 physical)))

/-- Handler `mips_lh` (lines 304-319). -/
def mips_lh (ext : Ext) (c : r4300i_t) (raw : Nat) : Option r4300i_t :=
  let address := effective_address c raw
  if 0 < address &&& 0b1 then none
  else
    match ext.resolve_virtual_address c address bus_access_t.BUS_LOAD with
    | Except.error e => tlb_fault c e address bus_access_t.BUS_LOAD
    | Except.ok physical =>
      some (set_register c (instr_rt raw) (sext16 (n64_read_physical_half c.mem (u32 physical))))

/-- Handler `mips_lw` (lines 321-338). -/
def mips_lw (ext : Ext) (c : r4300i_t) (raw : Nat) : Option r4300i_t :=
  let address := effective_address c raw
  if check_address_error c 0b11 address then
    r4300i_handle_exception (on_tlb_exception c address) c.prev_pc EXCEPTION_ADDRESS_ERROR_LOAD 0
  else
    match ext.resolve_virtual_address c address bus_access_t.BUS_LOAD with
    | Except.error e => tlb_fault c e address bus_access_t.BUS_LOAD
    | Except.ok physical =>
      some (set_register c (instr_rt raw) (sext32 (n64_read_physical_word c.mem (u32 physical))))

/-- Handler `mips_lwu` (lines 340-355). -/
def mips_lwu (ext : Ext) (c : r4300i_t) (raw : Nat) : Option r4300i_t :=
  let address := effective_address c raw
  if 0 < address &&& 0b11 then none
  else
    match ext.resolve_virtual_address c address bus_access_t.BUS_LOAD with
    | Except.error e => tlb_fault c e address bus_access_t.BUS_LOAD
    | Except.ok physical =>
      some (set_register c (instr_rt raw) (n64_read_physical_word c.mem (u32 physical)))

/-- Handler `mips_sb` (lines 357-370). -/
def mips_sb (ext : Ext) (c : r4300i_t) (raw : Nat) : Option r4300i_t :=
  let address := effective_address c raw
  let value := u32 (get_register c (instr_rt raw))
  match ext.resolve_virtual_address c address bus_access_t.BUS_STORE with
  | Except.error e => tlb_fault c e address bus_access_t.BUS_STORE
  | Except.ok physical =>
    some { c with mem := n64_write_physical_byte c.mem (u32 physical) value }

/-- Handler `mips_sh` (lines 372-384). -/
def mips_sh (ext : Ext) (c : r4300i_t) (raw : Nat) : Option r4300i_t :=
  let address := effective_address c raw
  let value := u32 (get_register c (instr_rt raw))
  match ext.resolve_virtual_address c address bus_access_t.BUS_STORE with
  | Except.error e => tlb_fault c e address bus_access_t.BUS_STORE
  | Except.ok physical =>
    some { c with mem := n64_write_physical_half c.mem (u32 physical) value }

/-- Handler `mips_sw` (lines 386-404). -/
def mips_sw (ext : Ext) (c : r4300i_t) (raw : Nat) : Option r4300i_t :=
  let address := effective_address c raw
  if check_address_error c 0b11 address then
    r4300i_handle_exception (on_tlb_exception c address) c.prev_pc EXCEPTION_ADDRESS_ERROR_STORE 0
  else
    match ext.resolve_virtual_address c address bus_access_t.BUS_STORE with
    | Except.error e => tlb_fault c e address bus_access_t.BUS_STORE
    | Except.ok physical =>
      let value := u32 (get_register c (instr_rt raw))
      some { c with mem := n64_write_physical_word c.mem (u32 physical) value }

/-- Handler `mips_sd` (lines 406-424). -/
def mips_sd (ext : Ext) (c : r4300i_t) (raw : Nat) : Option r4300i_t :=
  let address := effective_address c raw
  let value := get_register c (instr_rt raw)
  if check_address_error c 0b111 address then
    r4300i_handle_exception (on_tlb_exception c address) c.prev_pc EXCEPTION_ADDRESS_ERROR_STORE 0
  else
    match ext.resolve_virtual_address c address bus_access_t.BUS_STORE with
    | Except.error e => tlb_fault c e address bus_access_t.BUS_STORE
    | Except.ok physical =>
      some { c with mem := n64_write_physical_dword c.mem (u32 physical) value }

/-- Handler `mips_lb` (lines 441-453). -/
def mips_lb (ext : Ext) (c : r4300i_t) (raw : Nat) : Option r4300i_t :=
  let address := effective_address c raw
  match ext.resolve_virtual_address c address bus_access_t.BUS_LOAD with
  | Except.error e => tlb_fault c e address bus_access_t.BUS_LOAD
  | Except.ok physical =>
    some (set_register c (instr_rt raw) (sext8 (n64_read_physical_byte c.mem (u32 physical))))

/-- Handler `mips_lwl` (lines 455-471). -/
def mips_lwl (ext : Ext) (c : r4300i_t) (raw : Nat) : Option r4300i_t :=
  let address := effective_address c raw
  match ext.resolve_virtual_address c address bus_access_t.BUS_LOAD with
  | Except.error e => tlb_fault c e address bus_access_t.BUS_LOAD
  | Except.ok physical =>
    let shift := 8 * ((address ^^^ 0) &&& 3)
    let mask := u32 (0xFFFFFFFF <<< shift)
    let data := n64_read_physical_word c.mem (u32 physical &&& 0xFFFFFFFC)
    let result := (get_register c (instr_rt raw) &&& bnot 32 mask) ||| u32 (data <<< shift)
    some (set_register c (instr_rt raw) (sext32 result))

/-- Handler `mips_lwr` (lines 473-488). -/
def mips_lwr (ext : Ext) (c : r4300i_t) (raw : Nat) : Option r4300i_t :=
  let address := effective_address c raw
  match ext.resolve_virtual_address c address bus_access_t.BUS_LOAD with
  | Except.error e => tlb_fault c e address bus_access_t.BUS_LOAD
  | Except.ok physical =>
    let shift := 8 * ((address ^^^ 3) &&& 3)
    let mask := 0xFFFFFFFF >>> shift
    let data := n64_read_physical_word c.mem (u32 physical &&& 0xFFFFFFFC)
    let result := (get_register c (instr_rt raw) &&& bnot 32 mask) ||| (data >>> shift)
    some (set_register c (instr_rt raw) (sext32 result))

/-- Handler `mips_swl` (lines 490-505). -/
def mips_swl (ext : Ext) (c : r4300i_t) (raw : Nat) : Option r4300i_t :=
  let address := effective_address c raw
  match ext.resolve_virtual_address c address bus_access_t.BUS_STORE with
  | Except.error e => tlb_fault c e address bus_access_t.BUS_STORE
  | Except.ok physical =>
    let shift := 8 * ((address ^^^ 0) &&& 3)
    let mask := 0xFFFFFFFF >>> shift
    let data := n64_read_physical_word c.mem (u32 physical &&& 0xFFFFFFFC)
    let oldreg := u32 (get_register c (instr_rt raw))
    let value := (data &&& bnot 32 mask) ||| (oldreg >>> shift)
    some { c with mem := n64_write_physical_word c.mem (u32 physical &&& 0xFFFFFFFC) value }

/-- Handler `mips_swr` (lines 507-521). -/
def mips_swr (ext : Ext) (c : r4300i_t) (raw : Nat) : Option r4300i_t :=
  let address := effective_address c raw
  match ext.resolve_virtual_address c address bus_access_t.BUS_STORE with
  | Except.error e => tlb_fault c e address bus_access_t.BUS_STORE
  | Except.ok physical =>
    let shift := 8 * ((address ^^^ 3) &&& 3)
    let mask := u32 (0xFFFFFFFF <<< shift)
    let data := n64_read_physical_word c.mem (u32 physical &&& 0xFFFFFFFC)
    let oldreg := u32 (get_register c (instr_rt raw))
    let value := (data &&& bnot 32 mask) ||| u32 (oldreg <<< shift)
    some { c with mem := n64_write_physical_word c.mem (u32 physical &&& 0xFFFFFFFC) value }

/-- Handler `mips_ldl` (lines 523-538). -/
def mips_ldl (ext : Ext) (c : r4300i_t) (raw : Nat) : Option r4300i_t :=
  let address := effective_address c raw
  match ext.resolve_virtual_address c address bus_access_t.BUS_LOAD with
  | Except.error e => tlb_fault c e address bus_access_t.BUS_LOAD
  | Except.ok physical =>
    let shift := 8 * ((address ^^^ 0) &&& 7)
    let mask := u64 (0xFFFFFFFFFFFFFFFF <<< shift)
    let data := n64_read_physical_dword c.mem (u32 physical &&& 0xFFFFFFF8)
    let oldreg := get_register c (instr_rt raw)
    some (set_register c (instr_rt raw) ((oldreg &&& bnot 64 mask) ||| u64 (data <<< shift)))

/-- Handler `mips_ldr` (lines 540-555). -/
def mips_ldr (ext : Ext) (c : r4300i_t) (raw : Nat) : Option r4300i_t :=
  let address := effective_address c raw
  match ext.resolve_virtual_address c address bus_access_t.BUS_LOAD with
  | Except.error e => tlb_fault c e address bus_access_t.BUS_LOAD
  | Except.ok physical =>
    let shift := 8 * ((address ^^^ 7) &&& 7)
    let mask := 0xFFFFFFFFFFFFFFFF >>> shift
    let data := n64_read_physical_dword c.mem (u32 physical &&& 0xFFFFFFF8)
    let oldreg := get_register c (instr_rt raw)
    some (set_register c (instr_rt raw) ((oldreg &&& bnot 64 mask) ||| (data >>> shift)))

/-- Handler `mips_sdl` (lines 557-573). -/
def mips_sdl (ext : Ext) (c : r4300i_t) (raw : Nat) : Option r4300i_t :=
  let address := effective_address c raw
  match ext.resolve_virtual_address c address bus_access_t.BUS_STORE with
  | Except.error e => tlb_fault c e address bus_access_t.BUS_STORE
  | Except.ok physical =>
    let shift := 8 * ((address ^^^ 0) &&& 7)
    let mask := 0xFFFFFFFFFFFFFFFF >>> shift
    let data := n64_read_physical_dword c.mem (u32 physical &&& 0xFFFFFFF8)
    let oldreg := get_register c (instr_rt raw)
    let value := (data &&& bnot 64 mask) ||| (oldreg >>> shift)
    some { c with mem := n64_write_physical_dword c.mem (u32 physical &&& 0xFFFFFFF8) value }

/-- Handler `mips_sdr` (lines 575-590). -/
def mips_sdr (ext : Ext) (c : r4300i_t) (raw : Nat) : Option r4300i_t :=
  let address := effective_address c raw
  match ext.resolve_virtual_address c address bus_access_t.BUS_STORE with
  | Except.error e => tlb_fault c e address bus_access_t.BUS_STORE
  | Except.ok physical =>
    let shift := 8 * ((address ^^^ 7) &&& 7)
    let mask := u64 (0xFFFFFFFFFFFFFFFF <<< shift)
    let data := n64_read_physical_dword c.mem (u32 physical &&& 0xFFFFFFF8)
    let oldreg := get_register c (instr_rt raw)
    let value := (data &&& bnot 64 mask) ||| u64 (oldreg <<< shift)
    some { c with mem := n64_write_physical_dword c.mem (u32 physical &&& 0xFFFFFFF8) value }

/-- The tail of `mips_ll` (lines 608-616), run on both paths of the
translation: alignment check, register write, `lladdr` and `llbit`. -/
def mips_ll_finish (c : r4300i_t) (raw address result physical : Nat) : Option r4300i_t :=
  if 0 < address &&& 0b11 then none
  else
    let c1 := set_register c (instr_rt raw) (sext32 result)
    some { c1 with cp0 := { c1.cp0 with lladdr := u32 physical / 16 }, llbit := true }

/-- Handler `mips_ll` (lines 592-617).  When translation fails the handler
does not return after raising the exception: `result` and `physical` are then
read without having been assigned. -/
def mips_ll (ext : Ext) (c : r4300i_t) (raw : Nat) : Option r4300i_t :=
  let address := effective_address c raw
  match ext.resolve_virtual_address c address bus_access_t.BUS_LOAD with
  | Except.error e =>
    match tlb_fault c e address bus_access_t.BUS_LOAD with
    | none => none
    | some c1 => mips_ll_finish c1 raw address ext.indeterminate ext.indeterminate
  | Except.ok physical =>
    mips_ll_finish c raw address (n64_read_physical_word c.mem (u32 physical)) physical

/-- Handler `mips_lld` (lines 619-645). -/
def mips_lld (ext : Ext) (c : r4300i_t) (raw : Nat) : Option r4300i_t :=
  if !c.cp0.is_64bit_addressing && !c.cp0.kernel_mode then none
  else
    let address := effective_address c raw
    match ext.resolve_virtual_address c address bus_access_t.BUS_LOAD with
    | Except.error e => tlb_fault c e address bus_access_t.BUS_LOAD
    | Except.ok physical =>
      let result := n64_read_physical_dword c.mem (u32 physical)
      if 0 < address &&& 0b111 then none
      else
        let c1 := set_register c (instr_rt raw) result
        some { c1 with cp0 := { c1.cp0 with lladdr := u32 physical / 16 }, llbit := true }

/-- Handler `mips_sc` (lines 647-671). -/
def mips_sc (ext : Ext) (c : r4300i_t) (raw : Nat) : Option r4300i_t :=
  let address := effective_address c raw
  if 0 < address &&& 0b11 then none
  else if c.llbit then
    let c1 : r4300i_t := { c with llbit := false }
    match ext.resolve_virtual_address c1 address bus_access_t.BUS_STORE with
    | Except.error e => tlb_fault c1 e address bus_access_t.BUS_STORE
    | Except.ok physical_address =>
      let value := u32 (get_register c1 (instr_rt raw))
      let c2 : r4300i_t :=
        { c1 with mem := n64_write_physical_word c1.mem (u32 physical_address) value }
      some (set_register c2 (instr_rt raw) 1)
  else
    some (set_register c (instr_rt raw) 0)

/-- Handler `mips_scd` (lines 673-700); `resolve_virtual_address_or_die` is
fatal when translation fails. -/
def mips_scd (ext : Ext) (c : r4300i_t) (raw : Nat) : Option r4300i_t :=
  if !c.cp0.is_64bit_addressing && !c.cp0.kernel_mode then none
  else
    let address := effective_address c raw
    if 0 < address &&& 0b111 then none
    else if c.llbit then
      let c1 : r4300i_t := { c with llbit := false }
      match ext.resolve_virtual_address c1 address bus_access_t.BUS_STORE with
      | Except.error _ => none
      | Except.ok physical_address =>
        let value := get_register c1 (instr_rt raw)
        let c2 : r4300i_t :=
          { c1 with mem := n64_write_physical_dword c1.mem (u32 physical_address) value }
        some (set_register c2 (instr_rt raw) 1)
    else
      some (set_register c (instr_rt raw) 0)

/-! ### SPECIAL -/

/-- Arithmetic right shift of an `s64` pattern (the C operator `>>` on a
signed operand). -/
def asr64 (v n : Nat) : Nat := ofSigned 64 (toSigned 64 v / (2 : Int) ^ n)

/-- Handler `mips_spc_sll` (lines 702-705). -/
def mips_spc_sll (_ext : Ext) (c : r4300i_t) (raw : Nat) : Option r4300i_t :=
  some (set_register c (instr_rd raw) (sext32 (u64 (get_register c (instr_rt raw) <<< instr_sa raw))))

/-- Handler `mips_spc_srl` (lines 707-711). -/
def mips_spc_srl (_ext : Ext) (c : r4300i_t) (raw : Nat) : Option r4300i_t :=
  some (set_register c (instr_rd raw) (sext32 (u32 (get_register c (instr_rt raw)) >>> instr_sa raw)))

/-- Handler `mips_spc_sra` (lines 713-717). -/
def mips_spc_sra (_ext : Ext) (c : r4300i_t) (raw : Nat) : Option r4300i_t :=
  some (set_register c (instr_rd raw) (sext32 (asr64 (get_register c (instr_rt raw)) (instr_sa raw))))

/-- Handler `mips_spc_srav` (lines 719-723). -/
def mips_spc_srav (_ext : Ext) (c : r4300i_t) (raw : Nat) : Option r4300i_t :=
  some (set_register c (instr_rd raw)
    (sext32 (asr64 (get_register c (instr_rt raw)) (get_register c (instr_rs raw) &&& 0b11111))))

/-- Handler `mips_spc_sllv` (lines 725-729). -/
def mips_spc_sllv (_ext : Ext) (c : r4300i_t) (raw : Nat) : Option r4300i_t :=
  some (set_register c (instr_rd raw)
    (sext32 (u32 (u32 (get_register c (instr_rt raw)) <<< (get_register c (instr_rs raw) &&& 0b11111)))))

/-- Handler `mips_spc_srlv` (lines 731-735). -/
def mips_spc_srlv (_ext : Ext) (c : r4300i_t) (raw : Nat) : Option r4300i_t :=
  some (set_register c (instr_rd raw)
    (sext32 (u32 (get_register c (instr_rt raw)) >>> (get_register c (instr_rs raw) &&& 0b11111))))

/-- Handler `mips_spc_jr` (lines 737-739). -/
def mips_spc_jr (_ext : Ext) (c : r4300i_t) (raw : Nat) : Option r4300i_t :=
  some (branch_abs c (get_register c (instr_rs raw)))

/-- Handler `mips_spc_jalr` (lines 741-744). -/
def mips_spc_jalr (_ext : Ext) (c : r4300i_t) (raw : Nat) : Option r4300i_t :=
  some (link_r4300i (branch_abs c (get_register c (instr_rs raw))) (instr_rd raw))

/-- Handler `mips_spc_syscall` (lines 746-748). -/
def mips_spc_syscall (_ext : Ext) (c : r4300i_t) (_raw : Nat) : Option r4300i_t :=
  r4300i_handle_exception c c.prev_pc EXCEPTION_SYSCALL 0

/-- Handler `mips_spc_mfhi` (lines 750-752). -/
def mips_spc_mfhi (_ext : Ext) (c : r4300i_t) (raw : Nat) : Option r4300i_t :=
  some (set_register c (instr_rd raw) c.mult_hi)

/-- Handler `mips_spc_mthi` (lines 754-756). -/
def mips_spc_mthi (_ext : Ext) (c : r4300i_t) (raw : Nat) : Option r4300i_t :=
  some { c with mult_hi := get_register c (instr_rs raw) }

/-- Handler `mips_spc_mflo` (lines 758-760). -/
def mips_spc_mflo (_ext : Ext) (c : r4300i_t) (raw : Nat) : Option r4300i_t :=
  some (set_register c (instr_rd raw) c.mult_lo)

/-- Handler `mips_spc_mtlo` (lines 762-764). -/
def mips_spc_mtlo (_ext : Ext) (c : r4300i_t) (raw : Nat) : Option r4300i_t :=
  some { c with mult_lo := get_register c (instr_rs raw) }

/-- Handler `mips_spc_dsllv` (lines 766-770). -/
def mips_spc_dsllv (_ext : Ext) (c : r4300i_t) (raw : Nat) : Option r4300i_t :=
  some (set_register c (instr_rd raw)
    (u64 (get_register c (instr_rt raw) <<< (get_register c (instr_rs raw) &&& 0b111111))))

/-- Handler `mips_spc_dsrlv` (lines 772-776). -/
def mips_spc_dsrlv (_ext : Ext) (c : r4300i_t) (raw : Nat) : Option r4300i_t :=
  some (set_register c (instr_rd raw)
    (get_register c (instr_rt raw) >>> (get_register c (instr_rs raw) &&& 0b111111)))

/-- Handler `mips_spc_dsrav` (lines 778-782). -/
def mips_spc_dsrav (_ext : Ext) (c : r4300i_t) (raw : Nat) : Option r4300i_t :=
  some (set_register c (instr_rd raw)
    (asr64 (get_register c (instr_rt raw)) (get_register c (instr_rs raw) &&& 0b111111)))

/-- Handler `mips_spc_mult` (lines 784-798). -/
def mips_spc_mult (_ext : Ext) (c : r4300i_t) (raw : Nat) : Option r4300i_t :=
  let multiplicand_1 := toSigned 32 (u32 (get_register c (instr_rs raw)))
  let multiplicand_2 := toSigned 32 (u32 (get_register c (instr_rt raw)))
  let result := ofSigned 64 (multiplicand_1 * multiplicand_2)
  let result_lower := result &&& 0xFFFFFFFF
  let result_upper := asr64 result 32 &&& 0xFFFFFFFF
  some { c with mult_lo := sext32 result_lower, mult_hi := sext32 result_upper }

/-- Handler `mips_spc_multu` (lines 800-811). -/
def mips_spc_multu (_ext : Ext) (c : r4300i_t) (raw : Nat) : Option r4300i_t :=
  let multiplicand_1 := get_register c (instr_rs raw) &&& 0xFFFFFFFF
  let multiplicand_2 := get_register c (instr_rt raw) &&& 0xFFFFFFFF
  let result := u64 (multiplicand_1 * multiplicand_2)
  let result_lower := result &&& 0xFFFFFFFF
  let result_upper := (result >>> 32) &&& 0xFFFFFFFF
  some { c with mult_lo := sext32 result_lower, mult_hi := sext32 result_upper }

/-- Handler `mips_spc_div` (lines 813-833); C division truncates toward
zero. -/
def mips_spc_div (_ext : Ext) (c : r4300i_t) (raw : Nat) : Option r4300i_t :=
  let dividend := toSigned 32 (u32 (get_register c (instr_rs raw)))
  let divisor := toSigned 32 (u32 (get_register c (instr_rt raw)))
  if divisor = 0 then
    some { c with mult_hi := ofSigned 64 dividend,
                  mult_lo := if 0 ≤ dividend then ofSigned 64 (-1) else ofSigned 64 1 }
  else
    let quotient := sext32 (ofSigned 64 (Int.tdiv dividend divisor))
    let remainder := sext32 (ofSigned 64 (Int.tmod dividend divisor))
    some { c with mult_lo := quotient, mult_hi := remainder }

/-- Handler `mips_spc_divu` (lines 835-849). -/
def mips_spc_divu (_ext : Ext) (c : r4300i_t) (raw : Nat) : Option r4300i_t :=
  let dividend := u32 (get_register c (instr_rs raw))
  let divisor := u32 (get_register c (instr_rt raw))
  if divisor = 0 then
    some { c with mult_lo := 0xFFFFFFFFFFFFFFFF, mult_hi := sext32 dividend }
  else
    let quotient := sext32 (dividend / divisor)
    let remainder := sext32 (dividend % divisor)
    some { c with mult_lo := quotient, mult_hi := remainder }

/-- The function `multu_64_to_128` (lines 15-53), 128-bit-integer branch: the
low half, and the high half stored through `high`. -/
def multu_64_to_128 (lhs rhs : Nat) : Nat × Nat :=
  let product := (lhs * rhs) % 2 ^ 128
  (product &&& 0xFFFFFFFFFFFFFFFF, u64 (product >>> 64))

/-- The function `mult_64_to_128` (lines 59-99), 128-bit-integer branch. -/
def mult_64_to_128 (lhs rhs : Nat) : Nat × Nat :=
  let product := ofSigned 128 (toSigned 64 lhs * toSigned 64 rhs)
  (product &&& 0xFFFFFFFFFFFFFFFF, u64 (product >>> 64))

/-- Handler `mips_spc_dmult` (lines 851-857). -/
def mips_spc_dmult (_ext : Ext) (c : r4300i_t) (raw : Nat) : Option r4300i_t :=
  let r := mult_64_to_128 (get_register c (instr_rs raw)) (get_register c (instr_rt raw))
  some { c with mult_lo := r.1, mult_hi := r.2 }

/-- Handler `mips_spc_dmultu` (lines 859-865). -/
def mips_spc_dmultu (_ext : Ext) (c : r4300i_t) (raw : Nat) : Option r4300i_t :=
  let r := multu_64_to_128 (get_register c (instr_rs raw)) (get_register c (instr_rt raw))
  some { c with mult_lo := r.1, mult_hi := r.2 }

/-- Handler `mips_spc_ddiv` (lines 867-889). -/
def mips_spc_ddiv (_ext : Ext) (c : r4300i_t) (raw : Nat) : Option r4300i_t :=
  let dividend := toSigned 64 (get_register c (instr_rs raw))
  let divisor := toSigned 64 (get_register c (instr_rt raw))
  if divisor = 0 then
    some { c with mult_hi := ofSigned 64 dividend,
                  mult_lo := if 0 ≤ dividend then ofSigned 64 (-1) else ofSigned 64 1 }
  else if divisor = -1 ∧ dividend = -(2 : Int) ^ 63 then
    some { c with mult_lo := ofSigned 64 dividend, mult_hi := 0 }
  else
    let quotient := ofSigned 64 (Int.tdiv dividend divisor)
    let remainder := ofSigned 64 (Int.tmod dividend divisor)
    some { c with mult_lo := quotient, mult_hi := remainder }

/-- Handler `mips_spc_ddivu` (lines 891-905). -/
def mips_spc_ddivu (_ext : Ext) (c : r4300i_t) (raw : Nat) : Option r4300i_t :=
  let dividend := get_register c (instr_rs raw)
  let divisor := get_register c (instr_rt raw)
  if divisor = 0 then
    some { c with mult_lo := 0xFFFFFFFFFFFFFFFF, mult_hi := dividend }
  else
    some { c with mult_lo := dividend / divisor, mult_hi := dividend % divisor }

/-- Handler `mips_spc_add` (lines 907-917). -/
def mips_spc_add (_ext : Ext) (c : r4300i_t) (raw : Nat) : Option r4300i_t :=
  let addend1 := u32 (get_register c (instr_rs raw))
  let addend2 := u32 (get_register c (instr_rt raw))
  let result := u32 (addend1 + addend2)
  if check_signed_overflow_add 32 addend1 addend2 result ≠ 0 then
    r4300i_handle_exception c c.prev_pc EXCEPTION_ARITHMETIC_OVERFLOW 0
  else
    some (set_register c (instr_rd raw) (sext32 result))

/-- Handler `mips_spc_addu` (lines 919-924). -/
def mips_spc_addu (_ext : Ext) (c : r4300i_t) (raw : Nat) : Option r4300i_t :=
  let rs := u32 (get_register c (instr_rs raw))
  let rt := u32 (get_register c (instr_rt raw))
  some (set_register c (instr_rd raw) (sext32 (u32 (rs + rt))))

/-- Handler `mips_spc_and` (lines 926-929). -/
def mips_spc_and (_ext : Ext) (c : r4300i_t) (raw : Nat) : Option r4300i_t :=
  some (set_register c (instr_rd raw)
    (get_register c (instr_rs raw) &&& get_register c (instr_rt raw)))

/-- Handler `mips_spc_nor` (lines 931-934). -/
def mips_spc_nor (_ext : Ext) (c : r4300i_t) (raw : Nat) : Option r4300i_t :=
  some (set_register c (instr_rd raw)
    (bnot 64 (get_register c (instr_rs raw) ||| get_register c (instr_rt raw))))

/-- Handler `mips_spc_sub` (lines 936-948); the operands are `s32` patterns. -/
def mips_spc_sub (_ext : Ext) (c : r4300i_t) (raw : Nat) : Option r4300i_t :=
  let operand1 := u32 (get_register c (instr_rs raw))
  let operand2 := u32 (get_register c (instr_rt raw))
  let result := u32 (operand1 + 0x100000000 - operand2)
  if check_signed_overflow_sub 32 operand1 operand2 result ≠ 0 then
    r4300i_handle_exception c c.prev_pc EXCEPTION_ARITHMETIC_OVERFLOW 0
  else
    some (set_register c (instr_rd raw) (sext32 result))

/-- Handler `mips_spc_subu` (lines 950-956). -/
def mips_spc_subu (_ext : Ext) (c : r4300i_t) (raw : Nat) : Option r4300i_t :=
  let operand1 := u32 (get_register c (instr_rs raw))
  let operand2 := u32 (get_register c (instr_rt raw))
  some (set_register c (instr_rd raw) (sext32 (u32 (operand1 + 0x100000000 - operand2))))

/-- Handler `mips_spc_or` (lines 958-960). -/
def mips_spc_or (_ext : Ext) (c : r4300i_t) (raw : Nat) : Option r4300i_t :=
  some (set_register c (instr_rd raw)
    (get_register c (instr_rs raw) ||| get_register c (instr_rt raw)))

/-- Handler `mips_spc_xor` (lines 962-964). -/
def mips_spc_xor (_ext : Ext) (c : r4300i_t) (raw : Nat) : Option r4300i_t :=
  some (set_register c (instr_rd raw)
    (get_register c (instr_rs raw) ^^^ get_register c (instr_rt raw)))

/-- Handler `mips_spc_slt` (lines 966-970). -/
def mips_spc_slt (_ext : Ext) (c : r4300i_t) (raw : Nat) : Option r4300i_t :=
  some (set_register c (instr_rd raw)
    (if toSigned 64 (get_register c (instr_rs raw)) < toSigned 64 (get_register c (instr_rt raw)) then 1 else 0))

/-- Handler `mips_spc_sltu` (lines 972-982). -/
def mips_spc_sltu (_ext : Ext) (c : r4300i_t) (raw : Nat) : Option r4300i_t :=
  some (set_register c (instr_rd raw)
    (if get_register c (instr_rs raw) < get_register c (instr_rt raw) then 1 else 0))

/-- Handler `mips_spc_dadd` (lines 984-994). -/
def mips_spc_dadd (_ext : Ext) (c : r4300i_t) (raw : Nat) : Option r4300i_t :=
  let addend1 := get_register c (instr_rs raw)
  let addend2 := get_register c (instr_rt raw)
  let result := u64 (addend1 + addend2)
  if check_signed_overflow_add 64 addend1 addend2 result ≠ 0 then
    r4300i_handle_exception c c.prev_pc EXCEPTION_ARITHMETIC_OVERFLOW 0
  else
    some (set_register c (instr_rd raw) result)

/-- Handler `mips_spc_daddu` (lines 996-1001). -/
def mips_spc_daddu (_ext : Ext) (c : r4300i_t) (raw : Nat) : Option r4300i_t :=
  some (set_register c (instr_rd raw)
    (u64 (get_register c (instr_rs raw) + get_register c (instr_rt raw))))

/-- Handler `mips_spc_dsub` (lines 1003-1013); the operands are `s64`
patterns. -/
def mips_spc_dsub (_ext : Ext) (c : r4300i_t) (raw : Nat) : Option r4300i_t :=
  let minuend := get_register c (instr_rs raw)
  let subtrahend := get_register c (instr_rt raw)
  let difference := u64 (minuend + 0x10000000000000000 - subtrahend)
  if check_signed_overflow_sub 64 minuend subtrahend difference ≠ 0 then
    r4300i_handle_exception c c.prev_pc EXCEPTION_ARITHMETIC_OVERFLOW 0
  else
    some (set_register c (instr_rd raw) difference)

/-- Handler `mips_spc_dsubu` (lines 1015-1020). -/
def mips_spc_dsubu (_ext : Ext) (c : r4300i_t) (raw : Nat) : Option r4300i_t :=
  some (set_register c (instr_rd raw)
    (u64 (get_register c (instr_rs raw) + 0x10000000000000000 - get_register c (instr_rt raw))))

/-- Handler `mips_spc_teq` (lines 1022-1029). -/
def mips_spc_teq (_ext : Ext) (c : r4300i_t) (raw : Nat) : Option r4300i_t :=
  if get_register c (instr_rs raw) = get_register c (instr_rt raw) then
    r4300i_handle_exception c c.prev_pc EXCEPTION_TRAP 0
  else some c

/-- Handler `mips_spc_break` (lines 1031-1033). -/
def mips_spc_break (_ext : Ext) (c : r4300i_t) (_raw : Nat) : Option r4300i_t :=
  r4300i_handle_exception c c.prev_pc EXCEPTION_BREAKPOINT 0

/-- Handler `mips_spc_tne` (lines 1035-1042). -/
def mips_spc_tne (_ext : Ext) (c : r4300i_t) (raw : Nat) : Option r4300i_t :=
  if get_register c (instr_rs raw) ≠ get_register c (instr_rt raw) then
    r4300i_handle_exception c c.prev_pc EXCEPTION_TRAP 0
  else some c

/-- Handler `mips_spc_dsll` (lines 1081-1085). -/
def mips_spc_dsll (_ext : Ext) (c : r4300i_t) (raw : Nat) : Option r4300i_t :=
  some (set_register c (instr_rd raw)
    (u64 (get_register c (instr_rt raw) <<< instr_sa raw)))

/-- Handler `mips_spc_dsrl` (lines 1087-1091). -/
def mips_spc_dsrl (_ext : Ext) (c : r4300i_t) (raw : Nat) : Option r4300i_t :=
  some (set_register c (instr_rd raw)
    (get_register c (instr_rt raw) >>> instr_sa raw))

/-- Handler `mips_spc_dsra` (lines 1093-1097). -/
def mips_spc_dsra (_ext : Ext) (c : r4300i_t) (raw : Nat) : Option r4300i_t :=
  some (set_register c (instr_rd raw)
    (asr64 (get_register c (instr_rt raw)) (instr_sa raw)))

/-- Handler `mips_spc_dsll32` (lines 1099-1103). -/
def mips_spc_dsll32 (_ext : Ext) (c : r4300i_t) (raw : Nat) : Option r4300i_t :=
  some (set_register c (instr_rd raw)
    (u64 (get_register c (instr_rt raw) <<< (instr_sa raw + 32))))

/-- Handler `mips_spc_dsrl32` (lines 1105-1109). -/
def mips_spc_dsrl32 (_ext : Ext) (c : r4300i_t) (raw : Nat) : Option r4300i_t :=
  some (set_register c (instr_rd raw)
    (get_register c (instr_rt raw) >>> (instr_sa raw + 32)))

/-- Handler `mips_spc_dsra32` (lines 1111-1115). -/
def mips_spc_dsra32 (_ext : Ext) (c : r4300i_t) (raw : Nat) : Option r4300i_t :=
  some (set_register c (instr_rd raw)
    (asr64 (get_register c (instr_rt raw)) (instr_sa raw + 32)))

/-! ### REGIMM and ERET -/

/-- Handler `mips_ri_bltz` (lines 1117-1120). -/
def mips_ri_bltz (_ext : Ext) (c : r4300i_t) (raw : Nat) : Option r4300i_t :=
  some (conditional_branch c (instr_immediate raw)
    (decide (toSigned 64 (get_register c (instr_rs raw)) < 0)))

/-- Handler `mips_ri_bltzl` (lines 1122-1125). -/
def mips_ri_bltzl (_ext : Ext) (c : r4300i_t) (raw : Nat) : Option r4300i_t :=
  some (conditional_branch_likely c (instr_immediate raw)
    (decide (toSigned 64 (get_register c (instr_rs raw)) < 0)))

/-- Handler `mips_ri_bgez` (lines 1127-1130). -/
def mips_ri_bgez (_ext : Ext) (c : r4300i_t) (raw : Nat) : Option r4300i_t :=
  some (conditional_branch c (instr_immediate raw)
    (decide (0 ≤ toSigned 64 (get_register c (instr_rs raw)))))

/-- Handler `mips_ri_bgezl` (lines 1132-1135). -/
def mips_ri_bgezl (_ext : Ext) (c : r4300i_t) (raw : Nat) : Option r4300i_t :=
  some (conditional_branch_likely c (instr_immediate raw)
    (decide (0 ≤ toSigned 64 (get_register c (instr_rs raw)))))

/-- Handler `mips_ri_bltzal` (lines 1137-1141). -/
def mips_ri_bltzal (_ext : Ext) (c : r4300i_t) (raw : Nat) : Option r4300i_t :=
  let reg := toSigned 64 (get_register c (instr_rs raw))
  some (link_r4300i (conditional_branch c (instr_immediate raw) (decide (reg < 0))) R4300I_REG_LR)

/-- Handler `mips_ri_bgezal` (lines 1143-1147). -/
def mips_ri_bgezal (_ext : Ext) (c : r4300i_t) (raw : Nat) : Option r4300i_t :=
  let reg := toSigned 64 (get_register c (instr_rs raw))
  some (link_r4300i (conditional_branch c (instr_immediate raw) (decide (0 ≤ reg))) R4300I_REG_LR)

/-- Handler `mips_eret` of `mips_instructions.c` (lines 1155-1165). -/
def mips_eret (_ext : Ext) (c : r4300i_t) (_raw : Nat) : Option r4300i_t :=
  let c1 : r4300i_t :=
    if c.cp0.status.erl then
      let c0 := set_pc_dword_r4300i c c.cp0.error_epc
      { c0 with cp0 := { c0.cp0 with status := { c0.cp0.status with erl := false } } }
    else
      let c0 := set_pc_dword_r4300i c c.cp0.EPC
      { c0 with cp0 := { c0.cp0 with status := { c0.cp0.status with exl := false } } }
  some { cp0_status_updated c1 with llbit := false }

/-- Handler `mips_eret` of `mips.c` (lines 202-210). -/
def mips_c_mips_eret (c : r4300i_t) : r4300i_t :=
  if c.cp0.status.erl then
    { c with pc := c.cp0.error_epc,
             cp0 := { c.cp0 with status := { c.cp0.status with erl := false } } }
  else
    { c with pc := c.cp0.EPC,
             cp0 := { c.cp0 with status := { c.cp0.status with exl := false } } }

/-! ### Coprocessor 1 handlers (`mips.c`) and absent handlers -/

/-- Modelled from the spec: the bit `compare` of FCR31 ("a `compare` bit
written by FP compare ops"), the condition bit 23 of the control register. -/
def fcr31_compare (c : r4300i_t) : Bool := c.fpu.fcr31.testBit 23

/-- Handler `mips_mfc1` (`mips.c` lines 192-195). -/
def mips_mfc1 (ext : Ext) (c : r4300i_t) (raw : Nat) : Option r4300i_t :=
  some (set_register c (instr_rt raw) (sext32 (ext.get_fpu_register_word c (instr_rd raw))))

/-- Handler `mips_mtc1` (`mips.c` lines 197-200). -/
def mips_mtc1 (ext : Ext) (c : r4300i_t) (raw : Nat) : Option r4300i_t :=
  some { c with fpu := ext.set_fpu_register_word c (instr_rd raw) (u32 (get_register c (instr_rt raw))) }

/-- Modelled from the spec: handler `mips_dmfc1`, absent from the sources; the
double-word counterpart of `mips_mfc1`. -/
def mips_dmfc1 (ext : Ext) (c : r4300i_t) (raw : Nat) : Option r4300i_t :=
  some (set_register c (instr_rt raw) (u64 (ext.get_fpu_register_dword c (instr_rd raw))))

/-- Modelled from the spec: handler `mips_dmtc1`, absent from the sources; the
double-word counterpart of `mips_mtc1`. -/
def mips_dmtc1 (ext : Ext) (c : r4300i_t) (raw : Nat) : Option r4300i_t :=
  some { c with fpu := ext.set_fpu_register_dword c (instr_rd raw) (get_register c (instr_rt raw)) }

/-- Handler `mips_cfc1` (`mips.c` lines 212-227). -/
def mips_cfc1 (_ext : Ext) (c : r4300i_t) (raw : Nat) : Option r4300i_t :=
  if instr_rd raw = 0 then some (set_register c (instr_rt raw) (sext32 c.fpu.fcr0))
  else if instr_rd raw = 31 then some (set_register c (instr_rt raw) (sext32 c.fpu.fcr31))
  else none

/-- Handler `mips_ctc1` (`mips.c` lines 229-243). -/
def mips_ctc1 (_ext : Ext) (c : r4300i_t) (raw : Nat) : Option r4300i_t :=
  let value := u32 (get_register c (instr_rt raw))
  if instr_rd raw = 0 then some { c with fpu := { c.fpu with fcr0 := value } }
  else if instr_rd raw = 31 then some { c with fpu := { c.fpu with fcr31 := value } }
  else none

/-- Handler `mips_cp_bc1f` (`mips.c` lines 245-247). -/
def mips_cp_bc1f (_ext : Ext) (c : r4300i_t) (raw : Nat) : Option r4300i_t :=
  some (conditional_branch c (instr_immediate raw) (!fcr31_compare c))

/-- Handler `mips_cp_bc1fl` (`mips.c` lines 249-251). -/
def mips_cp_bc1fl (_ext : Ext) (c : r4300i_t) (raw : Nat) : Option r4300i_t :=
  some (mips_c_conditional_branch_likely c (instr_immediate raw) (!fcr31_compare c))

/-- Handler `mips_cp_bc1t` (`mips.c` lines 253-255). -/
def mips_cp_bc1t (_ext : Ext) (c : r4300i_t) (raw : Nat) : Option r4300i_t :=
  some (conditional_branch c (instr_immediate raw) (fcr31_compare c))

/-- Handler `mips_cp_bc1tl` (`mips.c` lines 256-258). -/
def mips_cp_bc1tl (_ext : Ext) (c : r4300i_t) (raw : Nat) : Option r4300i_t :=
  some (mips_c_conditional_branch_likely c (instr_immediate raw) (fcr31_compare c))

/-- The floating-point handlers of `mips.c` with a body (lines 260-386,
448-462, 529-558: `mul`, `div`, `add`, `trunc`, `cvt`, `c.lt`, `c.le`, `mov`):
each reads FPU registers and writes one FPU register or the `compare` bit.
The arithmetic itself is the collaborator `fpu_instruction`. -/
def mips_cp_arith (ext : Ext) (c : r4300i_t) (raw : Nat) : Option r4300i_t :=
  some { c with fpu := ext.fpu_instruction c raw }

/-- The compare handlers of `mips.c` that end in
`logfatal("Unimplemented: ...")` (`c.un`, `c.eq`, `c.ule`). -/
def mips_cp_unimplemented (_ext : Ext) (_c : r4300i_t) (_raw : Nat) : Option r4300i_t := none

/-- Modelled from the spec: the handlers `mips_cp_abs_*`, `mips_cp_neg_*`,
`mips_cp_sqrt_*`, `mips_cp_sub_*`, absent from the sources: floating-point
operations on the FPU register bank. -/
def mips_cp_absent (ext : Ext) (c : r4300i_t) (raw : Nat) : Option r4300i_t :=
  some { c with fpu := ext.fpu_instruction c raw }

/-- Modelled from the spec: the handlers `mips_tlbwi`, `mips_tlbp`,
`mips_tlbr` of the absent TLB module: they read and write CP0 and the TLB. -/
def mips_tlb (ext : Ext) (c : r4300i_t) (raw : Nat) : Option r4300i_t :=
  match ext.tlb_instruction c raw with
  | none => none
  | some cp0 => some { c with cp0 := cp0 }

/-- The effective address of the `mips.c` handlers, a `word`. -/
def effective_address_word (c : r4300i_t) (raw : Nat) : Nat :=
  u32 (get_register c (instr_rs raw) + sext16 (instr_immediate raw))

/-- Handler `mips_ldc1` (`mips.c` lines 666-675). -/
def mips_ldc1 (ext : Ext) (c : r4300i_t) (raw : Nat) : Option r4300i_t :=
  let address := effective_address_word c raw
  if address &&& 0b111 ≠ 0 then none
  else
    some { c with fpu := ext.set_fpu_register_dword c (instr_rt raw) (ext.read_dword c address) }

/-- Handler `mips_sdc1` (`mips.c` lines 677-683). -/
def mips_sdc1 (ext : Ext) (c : r4300i_t) (raw : Nat) : Option r4300i_t :=
  let address := effective_address_word c raw
  some { c with mem := ext.write_dword c address (ext.get_fpu_register_dword c (instr_rt raw)) }

/-- Handler `mips_lwc1` (`mips.c` lines 685-691). -/
def mips_lwc1 (ext : Ext) (c : r4300i_t) (raw : Nat) : Option r4300i_t :=
  let address := effective_address_word c raw
  some { c with fpu := ext.set_fpu_register_word c (instr_rt raw) (ext.read_word c address) }

/-- Handler `mips_swc1` (`mips.c` lines 693-699). -/
def mips_swc1 (ext : Ext) (c : r4300i_t) (raw : Nat) : Option r4300i_t :=
  let address := effective_address_word c raw
  some { c with mem := ext.write_word c address (ext.get_fpu_register_word c (instr_rt raw)) }

/-! ## Decoder (`r4300i.c` lines 98-530)

Modelled from the spec: the header defining the opcode constants is absent;
the values are the MIPS III encodings of the named instructions. -/

/-- Encoding constant `OPC_CP0`. -/
def OPC_CP0 : Nat := 16
/-- Encoding constant `OPC_CP1`. -/
def OPC_CP1 : Nat := 17
/-- Encoding constant `OPC_SPCL`. -/
def OPC_SPCL : Nat := 0
/-- Encoding constant `OPC_REGIMM`. -/
def OPC_REGIMM : Nat := 1
/-- Encoding constant `OPC_LD`. -/
def OPC_LD : Nat := 55
/-- Encoding constant `OPC_LUI`. -/
def OPC_LUI : Nat := 15
/-- Encoding constant `OPC_ADDIU`. -/
def OPC_ADDIU : Nat := 9
/-- Encoding constant `OPC_ADDI`. -/
def OPC_ADDI : Nat := 8
/-- Encoding constant `OPC_DADDI`. -/
def OPC_DADDI : Nat := 24
/-- Encoding constant `OPC_ANDI`. -/
def OPC_ANDI : Nat := 12
/-- Encoding constant `OPC_LBU`. -/
def OPC_LBU : Nat := 36
/-- Encoding constant `OPC_LHU`. -/
def OPC_LHU : Nat := 37
/-- Encoding constant `OPC_LH`. -/
def OPC_LH : Nat := 33
/-- Encoding constant `OPC_LW`. -/
def OPC_LW : Nat := 35
/-- Encoding constant `OPC_LWU`. -/
def OPC_LWU : Nat := 39
/-- Encoding constant `OPC_BEQ`. -/
def OPC_BEQ : Nat := 4
/-- Encoding constant `OPC_BEQL`. -/
def OPC_BEQL : Nat := 20
/-- Encoding constant `OPC_BGTZ`. -/
def OPC_BGTZ : Nat := 7
/-- Encoding constant `OPC_BGTZL`. -/
def OPC_BGTZL : Nat := 23
/-- Encoding constant `OPC_BLEZ`. -/
def OPC_BLEZ : Nat := 6
/-- Encoding constant `OPC_BLEZL`. -/
def OPC_BLEZL : Nat := 22
/-- Encoding constant `OPC_BNE`. -/
def OPC_BNE : Nat := 5
/-- Encoding constant `OPC_BNEL`. -/
def OPC_BNEL : Nat := 21
/-- Encoding constant `OPC_CACHE`. -/
def OPC_CACHE : Nat := 47
/-- Encoding constant `OPC_SB`. -/
def OPC_SB : Nat := 40
/-- Encoding constant `OPC_SH`. -/
def OPC_SH : Nat := 41
/-- Encoding constant `OPC_SW`. -/
def OPC_SW : Nat := 43
/-- Encoding constant `OPC_SD`. -/
def OPC_SD : Nat := 63
/-- Encoding constant `OPC_ORI`. -/
def OPC_ORI : Nat := 13
/-- Encoding constant `OPC_J`. -/
def OPC_J : Nat := 2
/-- Encoding constant `OPC_JAL`. -/
def OPC_JAL : Nat := 3
/-- Encoding constant `OPC_SLTI`. -/
def OPC_SLTI : Nat := 10
/-- Encoding constant `OPC_SLTIU`. -/
def OPC_SLTIU : Nat := 11
/-- Encoding constant `OPC_XORI`. -/
def OPC_XORI : Nat := 14
/-- Encoding constant `OPC_DADDIU`. -/
def OPC_DADDIU : Nat := 25
/-- Encoding constant `OPC_LB`. -/
def OPC_LB : Nat := 32
/-- Encoding constant `OPC_LDC1`. -/
def OPC_LDC1 : Nat := 53
/-- Encoding constant `OPC_SDC1`. -/
def OPC_SDC1 : Nat := 61
/-- Encoding constant `OPC_LWC1`. -/
def OPC_LWC1 : Nat := 49
/-- Encoding constant `OPC_SWC1`. -/
def OPC_SWC1 : Nat := 57
/-- Encoding constant `OPC_LWL`. -/
def OPC_LWL : Nat := 34
/-- Encoding constant `OPC_LWR`. -/
def OPC_LWR : Nat := 38
/-- Encoding constant `OPC_SWL`. -/
def OPC_SWL : Nat := 42
/-- Encoding constant `OPC_SWR`. -/
def OPC_SWR : Nat := 46
/-- Encoding constant `OPC_LDL`. -/
def OPC_LDL : Nat := 26
/-- Encoding constant `OPC_LDR`. -/
def OPC_LDR : Nat := 27
/-- Encoding constant `OPC_SDL`. -/
def OPC_SDL : Nat := 44
/-- Encoding constant `OPC_SDR`. -/
def OPC_SDR : Nat := 45
/-- Encoding constant `OPC_LL`. -/
def OPC_LL : Nat := 48
/-- Encoding constant `OPC_LLD`. -/
def OPC_LLD : Nat := 52
/-- Encoding constant `OPC_SC`. -/
def OPC_SC : Nat := 56
/-- Encoding constant `OPC_SCD`. -/
def OPC_SCD : Nat := 60
/-- Encoding constant `FUNCT_SLL`. -/
def FUNCT_SLL : Nat := 0
/-- Encoding constant `FUNCT_SRL`. -/
def FUNCT_SRL : Nat := 2
/-- Encoding constant `FUNCT_SRA`. -/
def FUNCT_SRA : Nat := 3
/-- Encoding constant `FUNCT_SRAV`. -/
def FUNCT_SRAV : Nat := 7
/-- Encoding constant `FUNCT_SLLV`. -/
def FUNCT_SLLV : Nat := 4
/-- Encoding constant `FUNCT_SRLV`. -/
def FUNCT_SRLV : Nat := 6
/-- Encoding constant `FUNCT_JR`. -/
def FUNCT_JR : Nat := 8
/-- Encoding constant `FUNCT_JALR`. -/
def FUNCT_JALR : Nat := 9
/-- Encoding constant `FUNCT_MFHI`. -/
def FUNCT_MFHI : Nat := 16
/-- Encoding constant `FUNCT_MTHI`. -/
def FUNCT_MTHI : Nat := 17
/-- Encoding constant `FUNCT_MFLO`. -/
def FUNCT_MFLO : Nat := 18
/-- Encoding constant `FUNCT_MTLO`. -/
def FUNCT_MTLO : Nat := 19
/-- Encoding constant `FUNCT_DSLLV`. -/
def FUNCT_DSLLV : Nat := 20
/-- Encoding constant `FUNCT_DSRLV`. -/
def FUNCT_DSRLV : Nat := 22
/-- Encoding constant `FUNCT_MULT`. -/
def FUNCT_MULT : Nat := 24
/-- Encoding constant `FUNCT_MULTU`. -/
def FUNCT_MULTU : Nat := 25
/-- Encoding constant `FUNCT_DIV`. -/
def FUNCT_DIV : Nat := 26
/-- Encoding constant `FUNCT_DIVU`. -/
def FUNCT_DIVU : Nat := 27
/-- Encoding constant `FUNCT_DMULT`. -/
def FUNCT_DMULT : Nat := 28
/-- Encoding constant `FUNCT_DMULTU`. -/
def FUNCT_DMULTU : Nat := 29
/-- Encoding constant `FUNCT_DDIV`. -/
def FUNCT_DDIV : Nat := 30
/-- Encoding constant `FUNCT_DDIVU`. -/
def FUNCT_DDIVU : Nat := 31
/-- Encoding constant `FUNCT_ADD`. -/
def FUNCT_ADD : Nat := 32
/-- Encoding constant `FUNCT_ADDU`. -/
def FUNCT_ADDU : Nat := 33
/-- Encoding constant `FUNCT_AND`. -/
def FUNCT_AND : Nat := 36
/-- Encoding constant `FUNCT_NOR`. -/
def FUNCT_NOR : Nat := 39
/-- Encoding constant `FUNCT_SUB`. -/
def FUNCT_SUB : Nat := 34
/-- Encoding constant `FUNCT_SUBU`. -/
def FUNCT_SUBU : Nat := 35
/-- Encoding constant `FUNCT_OR`. -/
def FUNCT_OR : Nat := 37
/-- Encoding constant `FUNCT_XOR`. -/
def FUNCT_XOR : Nat := 38
/-- Encoding constant `FUNCT_SLT`. -/
def FUNCT_SLT : Nat := 42
/-- Encoding constant `FUNCT_SLTU`. -/
def FUNCT_SLTU : Nat := 43
/-- Encoding constant `FUNCT_DADD`. -/
def FUNCT_DADD : Nat := 44
/-- Encoding constant `FUNCT_DADDU`. -/
def FUNCT_DADDU : Nat := 45
/-- Encoding constant `FUNCT_DSUBU`. -/
def FUNCT_DSUBU : Nat := 47
/-- Encoding constant `FUNCT_TEQ`. -/
def FUNCT_TEQ : Nat := 52
/-- Encoding constant `FUNCT_TNE`. -/
def FUNCT_TNE : Nat := 54
/-- Encoding constant `FUNCT_DSLL`. -/
def FUNCT_DSLL : Nat := 56
/-- Encoding constant `FUNCT_DSRL`. -/
def FUNCT_DSRL : Nat := 58
/-- Encoding constant `FUNCT_DSRA`. -/
def FUNCT_DSRA : Nat := 59
/-- Encoding constant `FUNCT_DSLL32`. -/
def FUNCT_DSLL32 : Nat := 60
/-- Encoding constant `FUNCT_DSRL32`. -/
def FUNCT_DSRL32 : Nat := 62
/-- Encoding constant `FUNCT_DSRA32`. -/
def FUNCT_DSRA32 : Nat := 63
/-- Encoding constant `RT_BLTZ`. -/
def RT_BLTZ : Nat := 0
/-- Encoding constant `RT_BLTZL`. -/
def RT_BLTZL : Nat := 2
/-- Encoding constant `RT_BGEZ`. -/
def RT_BGEZ : Nat := 1
/-- Encoding constant `RT_BGEZL`. -/
def RT_BGEZL : Nat := 3
/-- Encoding constant `RT_BLTZAL`. -/
def RT_BLTZAL : Nat := 16
/-- Encoding constant `RT_BGEZAL`. -/
def RT_BGEZAL : Nat := 17
/-- Encoding constant `COP_MF`. -/
def COP_MF : Nat := 0
/-- Encoding constant `COP_DMF`. -/
def COP_DMF : Nat := 1
/-- Encoding constant `COP_CF`. -/
def COP_CF : Nat := 2
/-- Encoding constant `COP_MT`. -/
def COP_MT : Nat := 4
/-- Encoding constant `COP_DMT`. -/
def COP_DMT : Nat := 5
/-- Encoding constant `COP_CT`. -/
def COP_CT : Nat := 6
/-- Encoding constant `COP_BC`. -/
def COP_BC : Nat := 8
/-- Encoding constant `COP_BC_BCF`. -/
def COP_BC_BCF : Nat := 0
/-- Encoding constant `COP_BC_BCT`. -/
def COP_BC_BCT : Nat := 1
/-- Encoding constant `COP_BC_BCFL`. -/
def COP_BC_BCFL : Nat := 2
/-- Encoding constant `COP_BC_BCTL`. -/
def COP_BC_BCTL : Nat := 3
/-- Encoding constant `COP_FUNCT_ADD`. -/
def COP_FUNCT_ADD : Nat := 0
/-- Encoding constant `COP_FUNCT_TLBR_SUB`. -/
def COP_FUNCT_TLBR_SUB : Nat := 1
/-- Encoding constant `COP_FUNCT_TLBWI_MULT`. -/
def COP_FUNCT_TLBWI_MULT : Nat := 2
/-- Encoding constant `COP_FUNCT_DIV`. -/
def COP_FUNCT_DIV : Nat := 3
/-- Encoding constant `COP_FUNCT_SQRT`. -/
def COP_FUNCT_SQRT : Nat := 4
/-- Encoding constant `COP_FUNCT_ABS`. -/
def COP_FUNCT_ABS : Nat := 5
/-- Encoding constant `COP_FUNCT_MOV`. -/
def COP_FUNCT_MOV : Nat := 6
/-- Encoding constant `COP_FUNCT_NEG`. -/
def COP_FUNCT_NEG : Nat := 7
/-- Encoding constant `COP_FUNCT_TLBP`. -/
def COP_FUNCT_TLBP : Nat := 8
/-- Encoding constant `COP_FUNCT_TRUNC_L`. -/
def COP_FUNCT_TRUNC_L : Nat := 9
/-- Encoding constant `COP_FUNCT_TRUNC_W`. -/
def COP_FUNCT_TRUNC_W : Nat := 13
/-- Encoding constant `COP_FUNCT_ERET`. -/
def COP_FUNCT_ERET : Nat := 24
/-- Encoding constant `COP_FUNCT_CVT_S`. -/
def COP_FUNCT_CVT_S : Nat := 32
/-- Encoding constant `COP_FUNCT_CVT_D`. -/
def COP_FUNCT_CVT_D : Nat := 33
/-- Encoding constant `COP_FUNCT_CVT_W`. -/
def COP_FUNCT_CVT_W : Nat := 36
/-- Encoding constant `COP_FUNCT_CVT_L`. -/
def COP_FUNCT_CVT_L : Nat := 37
/-- Encoding constant `COP_FUNCT_C_F`. -/
def COP_FUNCT_C_F : Nat := 48
/-- Encoding constant `COP_FUNCT_C_UN`. -/
def COP_FUNCT_C_UN : Nat := 49
/-- Encoding constant `COP_FUNCT_C_EQ`. -/
def COP_FUNCT_C_EQ : Nat := 50
/-- Encoding constant `COP_FUNCT_C_UEQ`. -/
def COP_FUNCT_C_UEQ : Nat := 51
/-- Encoding constant `COP_FUNCT_C_OLT`. -/
def COP_FUNCT_C_OLT : Nat := 52
/-- Encoding constant `COP_FUNCT_C_ULT`. -/
def COP_FUNCT_C_ULT : Nat := 53
/-- Encoding constant `COP_FUNCT_C_OLE`. -/
def COP_FUNCT_C_OLE : Nat := 54
/-- Encoding constant `COP_FUNCT_C_ULE`. -/
def COP_FUNCT_C_ULE : Nat := 55
/-- Encoding constant `COP_FUNCT_C_SF`. -/
def COP_FUNCT_C_SF : Nat := 56
/-- Encoding constant `COP_FUNCT_C_NGLE`. -/
def COP_FUNCT_C_NGLE : Nat := 57
/-- Encoding constant `COP_FUNCT_C_SEQ`. -/
def COP_FUNCT_C_SEQ : Nat := 58
/-- Encoding constant `COP_FUNCT_C_NGL`. -/
def COP_FUNCT_C_NGL : Nat := 59
/-- Encoding constant `COP_FUNCT_C_LT`. -/
def COP_FUNCT_C_LT : Nat := 60
/-- Encoding constant `COP_FUNCT_C_NGE`. -/
def COP_FUNCT_C_NGE : Nat := 61
/-- Encoding constant `COP_FUNCT_C_LE`. -/
def COP_FUNCT_C_LE : Nat := 62
/-- Encoding constant `COP_FUNCT_C_NGT`. -/
def COP_FUNCT_C_NGT : Nat := 63
/-- Encoding constant `FP_FMT_SINGLE`. -/
def FP_FMT_SINGLE : Nat := 16
/-- Encoding constant `FP_FMT_DOUBLE`. -/
def FP_FMT_DOUBLE : Nat := 17
/-- Encoding constant `FP_FMT_W`. -/
def FP_FMT_W : Nat := 20
/-- Encoding constant `FP_FMT_L`. -/
def FP_FMT_L : Nat := 21

/-- The handler identities the decoder can return (`mipsinstr_handler_t`). -/
inductive mipsinstr_handler_t where
  | mips_addi
  | mips_addiu
  | mips_andi
  | mips_beq
  | mips_beql
  | mips_bgtz
  | mips_bgtzl
  | mips_blez
  | mips_blezl
  | mips_bne
  | mips_bnel
  | mips_cache
  | mips_cfc1
  | mips_cp_abs_d
  | mips_cp_abs_s
  | mips_cp_add_d
  | mips_cp_add_s
  | mips_cp_bc1f
  | mips_cp_bc1fl
  | mips_cp_bc1t
  | mips_cp_bc1tl
  | mips_cp_c_eq_d
  | mips_cp_c_eq_s
  | mips_cp_c_le_d
  | mips_cp_c_le_s
  | mips_cp_c_lt_d
  | mips_cp_c_lt_s
  | mips_cp_c_ule_d
  | mips_cp_c_ule_s
  | mips_cp_c_un_d
  | mips_cp_c_un_s
  | mips_cp_cvt_d_l
  | mips_cp_cvt_d_s
  | mips_cp_cvt_d_w
  | mips_cp_cvt_l_d
  | mips_cp_cvt_l_s
  | mips_cp_cvt_s_d
  | mips_cp_cvt_s_l
  | mips_cp_cvt_s_w
  | mips_cp_cvt_w_d
  | mips_cp_cvt_w_s
  | mips_cp_div_d
  | mips_cp_div_s
  | mips_cp_mov_d
  | mips_cp_mov_s
  | mips_cp_mul_d
  | mips_cp_mul_s
  | mips_cp_neg_d
  | mips_cp_neg_s
  | mips_cp_sqrt_d
  | mips_cp_sqrt_s
  | mips_cp_sub_d
  | mips_cp_sub_s
  | mips_cp_trunc_l_d
  | mips_cp_trunc_l_s
  | mips_cp_trunc_w_d
  | mips_cp_trunc_w_s
  | mips_ctc1
  | mips_daddi
  | mips_daddiu
  | mips_dmfc0
  | mips_dmfc1
  | mips_dmtc0
  | mips_dmtc1
  | mips_eret
  | mips_j
  | mips_jal
  | mips_lb
  | mips_lbu
  | mips_ld
  | mips_ldc1
  | mips_ldl
  | mips_ldr
  | mips_lh
  | mips_lhu
  | mips_ll
  | mips_lld
  | mips_lui
  | mips_lw
  | mips_lwc1
  | mips_lwl
  | mips_lwr
  | mips_lwu
  | mips_mfc0
  | mips_mfc1
  | mips_mtc0
  | mips_mtc1
  | mips_nop
  | mips_ori
  | mips_ri_bgez
  | mips_ri_bgezal
  | mips_ri_bgezl
  | mips_ri_bltz
  | mips_ri_bltzal
  | mips_ri_bltzl
  | mips_sb
  | mips_sc
  | mips_scd
  | mips_sd
  | mips_sdc1
  | mips_sdl
  | mips_sdr
  | mips_sh
  | mips_slti
  | mips_sltiu
  | mips_spc_add
  | mips_spc_addu
  | mips_spc_and
  | mips_spc_dadd
  | mips_spc_daddu
  | mips_spc_ddiv
  | mips_spc_ddivu
  | mips_spc_div
  | mips_spc_divu
  | mips_spc_dmult
  | mips_spc_dmultu
  | mips_spc_dsll
  | mips_spc_dsll32
  | mips_spc_dsllv
  | mips_spc_dsra
  | mips_spc_dsra32
  | mips_spc_dsrl
  | mips_spc_dsrl32
  | mips_spc_dsrlv
  | mips_spc_dsubu
  | mips_spc_jalr
  | mips_spc_jr
  | mips_spc_mfhi
  | mips_spc_mflo
  | mips_spc_mthi
  | mips_spc_mtlo
  | mips_spc_mult
  | mips_spc_multu
  | mips_spc_nor
  | mips_spc_or
  | mips_spc_sll
  | mips_spc_sllv
  | mips_spc_slt
  | mips_spc_sltu
  | mips_spc_sra
  | mips_spc_srav
  | mips_spc_srl
  | mips_spc_srlv
  | mips_spc_sub
  | mips_spc_subu
  | mips_spc_teq
  | mips_spc_tne
  | mips_spc_xor
  | mips_sw
  | mips_swc1
  | mips_swl
  | mips_swr
  | mips_tlbp
  | mips_tlbr
  | mips_tlbwi
  | mips_xori
deriving DecidableEq

/-- The function `r4300i_cp0_decode` (lines 98-134); `none` is `logfatal`. -/
def r4300i_cp0_decode (raw : Nat) : Option mipsinstr_handler_t :=
  if instr_last11 raw = 0 then
    if instr_rs raw = COP_MF then some mipsinstr_handler_t.mips_mfc0
    else if instr_rs raw = COP_MT then some mipsinstr_handler_t.mips_mtc0
    else if instr_rs raw = COP_DMT then some mipsinstr_handler_t.mips_dmtc0
    else if instr_rs raw = COP_DMF then some mipsinstr_handler_t.mips_dmfc0
    else none
  else
    if instr_funct raw = COP_FUNCT_TLBWI_MULT then some mipsinstr_handler_t.mips_tlbwi
    else if instr_funct raw = COP_FUNCT_TLBP then some mipsinstr_handler_t.mips_tlbp
    else if instr_funct raw = COP_FUNCT_TLBR_SUB then some mipsinstr_handler_t.mips_tlbr
    else if instr_funct raw = COP_FUNCT_ERET then some mipsinstr_handler_t.mips_eret
    else none

/-- Selection by `fmt` between a double and a single handler, fatal
otherwise. -/
def fmt_d_s (raw : Nat) (d s : mipsinstr_handler_t) : Option mipsinstr_handler_t :=
  if instr_rs raw = FP_FMT_DOUBLE then some d
  else if instr_rs raw = FP_FMT_SINGLE then some s
  else none

/-- The second switch of `r4300i_cp1_decode` (lines 170-380), on `funct`. -/
def r4300i_cp1_decode_funct (raw : Nat) : Option mipsinstr_handler_t :=
  let f := instr_funct raw
  if f = COP_FUNCT_ADD then
    fmt_d_s raw mipsinstr_handler_t.mips_cp_add_d mipsinstr_handler_t.mips_cp_add_s
  else if f = COP_FUNCT_TLBR_SUB then
    fmt_d_s raw mipsinstr_handler_t.mips_cp_sub_d mipsinstr_handler_t.mips_cp_sub_s
  else if f = COP_FUNCT_TLBWI_MULT then
    fmt_d_s raw mipsinstr_handler_t.mips_cp_mul_d mipsinstr_handler_t.mips_cp_mul_s
  else if f = COP_FUNCT_DIV then
    fmt_d_s raw mipsinstr_handler_t.mips_cp_div_d mipsinstr_handler_t.mips_cp_div_s
  else if f = COP_FUNCT_TRUNC_L then
    fmt_d_s raw mipsinstr_handler_t.mips_cp_trunc_l_d mipsinstr_handler_t.mips_cp_trunc_l_s
  else if f = COP_FUNCT_TRUNC_W then
    fmt_d_s raw mipsinstr_handler_t.mips_cp_trunc_w_d mipsinstr_handler_t.mips_cp_trunc_w_s
  else if f = COP_FUNCT_CVT_D then
    if instr_rs raw = FP_FMT_SINGLE then some mipsinstr_handler_t.mips_cp_cvt_d_s
    else if instr_rs raw = FP_FMT_W then some mipsinstr_handler_t.mips_cp_cvt_d_w
    else if instr_rs raw = FP_FMT_L then some mipsinstr_handler_t.mips_cp_cvt_d_l
    else none
  else if f = COP_FUNCT_CVT_L then
    fmt_d_s raw mipsinstr_handler_t.mips_cp_cvt_l_d mipsinstr_handler_t.mips_cp_cvt_l_s
  else if f = COP_FUNCT_CVT_S then
    if instr_rs raw = FP_FMT_DOUBLE then some mipsinstr_handler_t.mips_cp_cvt_s_d
    else if instr_rs raw = FP_FMT_W then some mipsinstr_handler_t.mips_cp_cvt_s_w
    else if instr_rs raw = FP_FMT_L then some mipsinstr_handler_t.mips_cp_cvt_s_l
    else none
  else if f = COP_FUNCT_CVT_W then
    fmt_d_s raw mipsinstr_handler_t.mips_cp_cvt_w_d mipsinstr_handler_t.mips_cp_cvt_w_s
  else if f = COP_FUNCT_SQRT then
    fmt_d_s raw mipsinstr_handler_t.mips_cp_sqrt_d mipsinstr_handler_t.mips_cp_sqrt_s
  else if f = COP_FUNCT_ABS then
    fmt_d_s raw mipsinstr_handler_t.mips_cp_abs_d mipsinstr_handler_t.mips_cp_abs_s
  else if f = COP_FUNCT_MOV then
    fmt_d_s raw mipsinstr_handler_t.mips_cp_mov_d mipsinstr_handler_t.mips_cp_mov_s
  else if f = COP_FUNCT_NEG then
    fmt_d_s raw mipsinstr_handler_t.mips_cp_neg_d mipsinstr_handler_t.mips_cp_neg_s
  else if f = COP_FUNCT_C_F then none
  else if f = COP_FUNCT_C_UN then
    fmt_d_s raw mipsinstr_handler_t.mips_cp_c_un_d mipsinstr_handler_t.mips_cp_c_un_s
  else if f = COP_FUNCT_C_EQ then
    fmt_d_s raw mipsinstr_handler_t.mips_cp_c_eq_d mipsinstr_handler_t.mips_cp_c_eq_s
  else if f = COP_FUNCT_C_UEQ then none
  else if f = COP_FUNCT_C_OLT then none
  else if f = COP_FUNCT_C_ULT then none
  else if f = COP_FUNCT_C_OLE then none
  else if f = COP_FUNCT_C_ULE then
    fmt_d_s raw mipsinstr_handler_t.mips_cp_c_ule_d mipsinstr_handler_t.mips_cp_c_ule_s
  else if f = COP_FUNCT_C_SF then none
  else if f = COP_FUNCT_C_NGLE then none
  else if f = COP_FUNCT_C_SEQ then none
  else if f = COP_FUNCT_C_NGL then none
  else if f = COP_FUNCT_C_LT then
    fmt_d_s raw mipsinstr_handler_t.mips_cp_c_lt_d mipsinstr_handler_t.mips_cp_c_lt_s
  else if f = COP_FUNCT_C_NGE then none
  else if f = COP_FUNCT_C_LE then
    fmt_d_s raw mipsinstr_handler_t.mips_cp_c_le_d mipsinstr_handler_t.mips_cp_c_le_s
  else if f = COP_FUNCT_C_NGT then none
  else none

/-- The function `r4300i_cp1_decode` (lines 136-380): the switch on `rs`, then
for every other `rs` the switch on `funct`. -/
def r4300i_cp1_decode (raw : Nat) : Option mipsinstr_handler_t :=
  if instr_rs raw = COP_CF then some mipsinstr_handler_t.mips_cfc1
  else if instr_rs raw = COP_MF then some mipsinstr_handler_t.mips_mfc1
  else if instr_rs raw = COP_DMF then some mipsinstr_handler_t.mips_dmfc1
  else if instr_rs raw = COP_MT then some mipsinstr_handler_t.mips_mtc1
  else if instr_rs raw = COP_DMT then some mipsinstr_handler_t.mips_dmtc1
  else if instr_rs raw = COP_CT then some mipsinstr_handler_t.mips_ctc1
  else if instr_rs raw = COP_BC then
    if instr_rt raw = COP_BC_BCT then some mipsinstr_handler_t.mips_cp_bc1t
    else if instr_rt raw = COP_BC_BCF then some mipsinstr_handler_t.mips_cp_bc1f
    else if instr_rt raw = COP_BC_BCTL then some mipsinstr_handler_t.mips_cp_bc1tl
    else if instr_rt raw = COP_BC_BCFL then some mipsinstr_handler_t.mips_cp_bc1fl
    else none
  else r4300i_cp1_decode_funct raw

/-- The function `r4300i_special_decode` (lines 382-434). -/
def r4300i_special_decode (raw : Nat) : Option mipsinstr_handler_t :=
  if instr_funct raw = FUNCT_SLL then some mipsinstr_handler_t.mips_spc_sll
  else if instr_funct raw = FUNCT_SRL then some mipsinstr_handler_t.mips_spc_srl
  else if instr_funct raw = FUNCT_SRA then some mipsinstr_handler_t.mips_spc_sra
  else if instr_funct raw = FUNCT_SRAV then some mipsinstr_handler_t.mips_spc_srav
  else if instr_funct raw = FUNCT_SLLV then some mipsinstr_handler_t.mips_spc_sllv
  else if instr_funct raw = FUNCT_SRLV then some mipsinstr_handler_t.mips_spc_srlv
  else if instr_funct raw = FUNCT_JR then some mipsinstr_handler_t.mips_spc_jr
  else if instr_funct raw = FUNCT_JALR then some mipsinstr_handler_t.mips_spc_jalr
  else if instr_funct raw = FUNCT_MFHI then some mipsinstr_handler_t.mips_spc_mfhi
  else if instr_funct raw = FUNCT_MTHI then some mipsinstr_handler_t.mips_spc_mthi
  else if instr_funct raw = FUNCT_MFLO then some mipsinstr_handler_t.mips_spc_mflo
  else if instr_funct raw = FUNCT_MTLO then some mipsinstr_handler_t.mips_spc_mtlo
  else if instr_funct raw = FUNCT_DSLLV then some mipsinstr_handler_t.mips_spc_dsllv
  else if instr_funct raw = FUNCT_DSRLV then some mipsinstr_handler_t.mips_spc_dsrlv
  else if instr_funct raw = FUNCT_MULT then some mipsinstr_handler_t.mips_spc_mult
  else if instr_funct raw = FUNCT_MULTU then some mipsinstr_handler_t.mips_spc_multu
  else if instr_funct raw = FUNCT_DIV then some mipsinstr_handler_t.mips_spc_div
  else if instr_funct raw = FUNCT_DIVU then some mipsinstr_handler_t.mips_spc_divu
  else if instr_funct raw = FUNCT_DMULT then some mipsinstr_handler_t.mips_spc_dmult
  else if instr_funct raw = FUNCT_DMULTU then some mipsinstr_handler_t.mips_spc_dmultu
  else if instr_funct raw = FUNCT_DDIV then some mipsinstr_handler_t.mips_spc_ddiv
  else if instr_funct raw = FUNCT_DDIVU then some mipsinstr_handler_t.mips_spc_ddivu
  else if instr_funct raw = FUNCT_ADD then some mipsinstr_handler_t.mips_spc_add
  else if instr_funct raw = FUNCT_ADDU then some mipsinstr_handler_t.mips_spc_addu
  else if instr_funct raw = FUNCT_AND then some mipsinstr_handler_t.mips_spc_and
  else if instr_funct raw = FUNCT_NOR then some mipsinstr_handler_t.mips_spc_nor
  else if instr_funct raw = FUNCT_SUB then some mipsinstr_handler_t.mips_spc_sub
  else if instr_funct raw = FUNCT_SUBU then some mipsinstr_handler_t.mips_spc_subu
  else if instr_funct raw = FUNCT_OR then some mipsinstr_handler_t.mips_spc_or
  else if instr_funct raw = FUNCT_XOR then some mipsinstr_handler_t.mips_spc_xor
  else if instr_funct raw = FUNCT_SLT then some mipsinstr_handler_t.mips_spc_slt
  else if instr_funct raw = FUNCT_SLTU then some mipsinstr_handler_t.mips_spc_sltu
  else if instr_funct raw = FUNCT_DADD then some mipsinstr_handler_t.mips_spc_dadd
  else if instr_funct raw = FUNCT_DADDU then some mipsinstr_handler_t.mips_spc_daddu
  else if instr_funct raw = FUNCT_DSUBU then some mipsinstr_handler_t.mips_spc_dsubu
  else if instr_funct raw = FUNCT_TEQ then some mipsinstr_handler_t.mips_spc_teq
  else if instr_funct raw = FUNCT_TNE then some mipsinstr_handler_t.mips_spc_tne
  else if instr_funct raw = FUNCT_DSLL then some mipsinstr_handler_t.mips_spc_dsll
  else if instr_funct raw = FUNCT_DSRL then some mipsinstr_handler_t.mips_spc_dsrl
  else if instr_funct raw = FUNCT_DSRA then some mipsinstr_handler_t.mips_spc_dsra
  else if instr_funct raw = FUNCT_DSLL32 then some mipsinstr_handler_t.mips_spc_dsll32
  else if instr_funct raw = FUNCT_DSRL32 then some mipsinstr_handler_t.mips_spc_dsrl32
  else if instr_funct raw = FUNCT_DSRA32 then some mipsinstr_handler_t.mips_spc_dsra32
  else none

/-- The function `r4300i_regimm_decode` (lines 436-451). -/
def r4300i_regimm_decode (raw : Nat) : Option mipsinstr_handler_t :=
  if instr_rt raw = RT_BLTZ then some mipsinstr_handler_t.mips_ri_bltz
  else if instr_rt raw = RT_BLTZL then some mipsinstr_handler_t.mips_ri_bltzl
  else if instr_rt raw = RT_BGEZ then some mipsinstr_handler_t.mips_ri_bgez
  else if instr_rt raw = RT_BGEZL then some mipsinstr_handler_t.mips_ri_bgezl
  else if instr_rt raw = RT_BLTZAL then some mipsinstr_handler_t.mips_ri_bltzal
  else if instr_rt raw = RT_BGEZAL then some mipsinstr_handler_t.mips_ri_bgezal
  else none

/-- The function `r4300i_instruction_decode` (lines 453-530); the fetch PC is
used for diagnostics only. -/
def r4300i_instruction_decode (_pc : Nat) (raw : Nat) : Option mipsinstr_handler_t :=
  if raw = 0 then some mipsinstr_handler_t.mips_nop
  else if instr_op raw = OPC_CP0 then r4300i_cp0_decode raw
  else if instr_op raw = OPC_CP1 then r4300i_cp1_decode raw
  else if instr_op raw = OPC_SPCL then r4300i_special_decode raw
  else if instr_op raw = OPC_REGIMM then r4300i_regimm_decode raw
  else if instr_op raw = OPC_LD then some mipsinstr_handler_t.mips_ld
  else if instr_op raw = OPC_LUI then some mipsinstr_handler_t.mips_lui
  else if instr_op raw = OPC_ADDIU then some mipsinstr_handler_t.mips_addiu
  else if instr_op raw = OPC_ADDI then some mipsinstr_handler_t.mips_addi
  else if instr_op raw = OPC_DADDI then some mipsinstr_handler_t.mips_daddi
  else if instr_op raw = OPC_ANDI then some mipsinstr_handler_t.mips_andi
  else if instr_op raw = OPC_LBU then some mipsinstr_handler_t.mips_lbu
  else if instr_op raw = OPC_LHU then some mipsinstr_handler_t.mips_lhu
  else if instr_op raw = OPC_LH then some mipsinstr_handler_t.mips_lh
  else if instr_op raw = OPC_LW then some mipsinstr_handler_t.mips_lw
  else if instr_op raw = OPC_LWU then some mipsinstr_handler_t.mips_lwu
  else if instr_op raw = OPC_BEQ then some mipsinstr_handler_t.mips_beq
  else if instr_op raw = OPC_BEQL then some mipsinstr_handler_t.mips_beql
  else if instr_op raw = OPC_BGTZ then some mipsinstr_handler_t.mips_bgtz
  else if instr_op raw = OPC_BGTZL then some mipsinstr_handler_t.mips_bgtzl
  else if instr_op raw = OPC_BLEZ then some mipsinstr_handler_t.mips_blez
  else if instr_op raw = OPC_BLEZL then some mipsinstr_handler_t.mips_blezl
  else if instr_op raw = OPC_BNE then some mipsinstr_handler_t.mips_bne
  else if instr_op raw = OPC_BNEL then some mipsinstr_handler_t.mips_bnel
  else if instr_op raw = OPC_CACHE then some mipsinstr_handler_t.mips_cache
  else if instr_op raw = OPC_SB then some mipsinstr_handler_t.mips_sb
  else if instr_op raw = OPC_SH then some mipsinstr_handler_t.mips_sh
  else if instr_op raw = OPC_SW then some mipsinstr_handler_t.mips_sw
  else if instr_op raw = OPC_SD then some mipsinstr_handler_t.mips_sd
  else if instr_op raw = OPC_ORI then some mipsinstr_handler_t.mips_ori
  else if instr_op raw = OPC_J then some mipsinstr_handler_t.mips_j
  else if instr_op raw = OPC_JAL then some mipsinstr_handler_t.mips_jal
  else if instr_op raw = OPC_SLTI then some mipsinstr_handler_t.mips_slti
  else if instr_op raw = OPC_SLTIU then some mipsinstr_handler_t.mips_sltiu
  else if instr_op raw = OPC_XORI then some mipsinstr_handler_t.mips_xori
  else if instr_op raw = OPC_DADDIU then some mipsinstr_handler_t.mips_daddiu
  else if instr_op raw = OPC_LB then some mipsinstr_handler_t.mips_lb
  else if instr_op raw = OPC_LDC1 then some mipsinstr_handler_t.mips_ldc1
  else if instr_op raw = OPC_SDC1 then some mipsinstr_handler_t.mips_sdc1
  else if instr_op raw = OPC_LWC1 then some mipsinstr_handler_t.mips_lwc1
  else if instr_op raw = OPC_SWC1 then some mipsinstr_handler_t.mips_swc1
  else if instr_op raw = OPC_LWL then some mipsinstr_handler_t.mips_lwl
  else if instr_op raw = OPC_LWR then some mipsinstr_handler_t.mips_lwr
  else if instr_op raw = OPC_SWL then some mipsinstr_handler_t.mips_swl
  else if instr_op raw = OPC_SWR then some mipsinstr_handler_t.mips_swr
  else if instr_op raw = OPC_LDL then some mipsinstr_handler_t.mips_ldl
  else if instr_op raw = OPC_LDR then some mipsinstr_handler_t.mips_ldr
  else if instr_op raw = OPC_SDL then some mipsinstr_handler_t.mips_sdl
  else if instr_op raw = OPC_SDR then some mipsinstr_handler_t.mips_sdr
  else if instr_op raw = OPC_LL then some mipsinstr_handler_t.mips_ll
  else if instr_op raw = OPC_LLD then some mipsinstr_handler_t.mips_lld
  else if instr_op raw = OPC_SC then some mipsinstr_handler_t.mips_sc
  else if instr_op raw = OPC_SCD then some mipsinstr_handler_t.mips_scd
  else none

/-- Call of the handler the decoder returned. -/
def run_handler (ext : Ext) (h : mipsinstr_handler_t) (c : r4300i_t) (raw : Nat) :
    Option r4300i_t :=
  match h with
  | mipsinstr_handler_t.mips_addi => mips_addi ext c raw
  | mipsinstr_handler_t.mips_addiu => mips_addiu ext c raw
  | mipsinstr_handler_t.mips_andi => mips_andi ext c raw
  | mipsinstr_handler_t.mips_beq => mips_beq ext c raw
  | mipsinstr_handler_t.mips_beql => mips_beql ext c raw
  | mipsinstr_handler_t.mips_bgtz => mips_bgtz ext c raw
  | mipsinstr_handler_t.mips_bgtzl => mips_bgtzl ext c raw
  | mipsinstr_handler_t.mips_blez => mips_blez ext c raw
  | mipsinstr_handler_t.mips_blezl => mips_blezl ext c raw
  | mipsinstr_handler_t.mips_bne => mips_bne ext c raw
  | mipsinstr_handler_t.mips_bnel => mips_bnel ext c raw
  | mipsinstr_handler_t.mips_cache => mips_cache ext c raw
  | mipsinstr_handler_t.mips_cfc1 => mips_cfc1 ext c raw
  | mipsinstr_handler_t.mips_cp_abs_d => mips_cp_absent ext c raw
  | mipsinstr_handler_t.mips_cp_abs_s => mips_cp_absent ext c raw
  | mipsinstr_handler_t.mips_cp_add_d => mips_cp_arith ext c raw
  | mipsinstr_handler_t.mips_cp_add_s => mips_cp_arith ext c raw
  | mipsinstr_handler_t.mips_cp_bc1f => mips_cp_bc1f ext c raw
  | mipsinstr_handler_t.mips_cp_bc1fl => mips_cp_bc1fl ext c raw
  | mipsinstr_handler_t.mips_cp_bc1t => mips_cp_bc1t ext c raw
  | mipsinstr_handler_t.mips_cp_bc1tl => mips_cp_bc1tl ext c raw
  | mipsinstr_handler_t.mips_cp_c_eq_d => mips_cp_unimplemented ext c raw
  | mipsinstr_handler_t.mips_cp_c_eq_s => mips_cp_unimplemented ext c raw
  | mipsinstr_handler_t.mips_cp_c_le_d => mips_cp_arith ext c raw
  | mipsinstr_handler_t.mips_cp_c_le_s => mips_cp_arith ext c raw
  | mipsinstr_handler_t.mips_cp_c_lt_d => mips_cp_arith ext c raw
  | mipsinstr_handler_t.mips_cp_c_lt_s => mips_cp_arith ext c raw
  | mipsinstr_handler_t.mips_cp_c_ule_d => mips_cp_unimplemented ext c raw
  | mipsinstr_handler_t.mips_cp_c_ule_s => mips_cp_unimplemented ext c raw
  | mipsinstr_handler_t.mips_cp_c_un_d => mips_cp_unimplemented ext c raw
  | mipsinstr_handler_t.mips_cp_c_un_s => mips_cp_unimplemented ext c raw
  | mipsinstr_handler_t.mips_cp_cvt_d_l => mips_cp_arith ext c raw
  | mipsinstr_handler_t.mips_cp_cvt_d_s => mips_cp_arith ext c raw
  | mipsinstr_handler_t.mips_cp_cvt_d_w => mips_cp_arith ext c raw
  | mipsinstr_handler_t.mips_cp_cvt_l_d => mips_cp_arith ext c raw
  | mipsinstr_handler_t.mips_cp_cvt_l_s => mips_cp_arith ext c raw
  | mipsinstr_handler_t.mips_cp_cvt_s_d => mips_cp_arith ext c raw
  | mipsinstr_handler_t.mips_cp_cvt_s_l => mips_cp_arith ext c raw
  | mipsinstr_handler_t.mips_cp_cvt_s_w => mips_cp_arith ext c raw
  | mipsinstr_handler_t.mips_cp_cvt_w_d => mips_cp_arith ext c raw
  | mipsinstr_handler_t.mips_cp_cvt_w_s => mips_cp_arith ext c raw
  | mipsinstr_handler_t.mips_cp_div_d => mips_cp_arith ext c raw
  | mipsinstr_handler_t.mips_cp_div_s => mips_cp_arith ext c raw
  | mipsinstr_handler_t.mips_cp_mov_d => mips_cp_arith ext c raw
  | mipsinstr_handler_t.mips_cp_mov_s => mips_cp_arith ext c raw
  | mipsinstr_handler_t.mips_cp_mul_d => mips_cp_arith ext c raw
  | mipsinstr_handler_t.mips_cp_mul_s => mips_cp_arith ext c raw
  | mipsinstr_handler_t.mips_cp_neg_d => mips_cp_absent ext c raw
  | mipsinstr_handler_t.mips_cp_neg_s => mips_cp_absent ext c raw
  | mipsinstr_handler_t.mips_cp_sqrt_d => mips_cp_absent ext c raw
  | mipsinstr_handler_t.mips_cp_sqrt_s => mips_cp_absent ext c raw
  | mipsinstr_handler_t.mips_cp_sub_d => mips_cp_absent ext c raw
  | mipsinstr_handler_t.mips_cp_sub_s => mips_cp_absent ext c raw
  | mipsinstr_handler_t.mips_cp_trunc_l_d => mips_cp_arith ext c raw
  | mipsinstr_handler_t.mips_cp_trunc_l_s => mips_cp_arith ext c raw
  | mipsinstr_handler_t.mips_cp_trunc_w_d => mips_cp_arith ext c raw
  | mipsinstr_handler_t.mips_cp_trunc_w_s => mips_cp_arith ext c raw
  | mipsinstr_handler_t.mips_ctc1 => mips_ctc1 ext c raw
  | mipsinstr_handler_t.mips_daddi => mips_daddi ext c raw
  | mipsinstr_handler_t.mips_daddiu => mips_daddiu ext c raw
  | mipsinstr_handler_t.mips_dmfc0 => mips_dmfc0 ext c raw
  | mipsinstr_handler_t.mips_dmfc1 => mips_dmfc1 ext c raw
  | mipsinstr_handler_t.mips_dmtc0 => mips_dmtc0 ext c raw
  | mipsinstr_handler_t.mips_dmtc1 => mips_dmtc1 ext c raw
  | mipsinstr_handler_t.mips_eret => mips_eret ext c raw
  | mipsinstr_handler_t.mips_j => mips_j ext c raw
  | mipsinstr_handler_t.mips_jal => mips_jal ext c raw
  | mipsinstr_handler_t.mips_lb => mips_lb ext c raw
  | mipsinstr_handler_t.mips_lbu => mips_lbu ext c raw
  | mipsinstr_handler_t.mips_ld => mips_ld ext c raw
  | mipsinstr_handler_t.mips_ldc1 => mips_ldc1 ext c raw
  | mipsinstr_handler_t.mips_ldl => mips_ldl ext c raw
  | mipsinstr_handler_t.mips_ldr => mips_ldr ext c raw
  | mipsinstr_handler_t.mips_lh => mips_lh ext c raw
  | mipsinstr_handler_t.mips_lhu => mips_lhu ext c raw
  | mipsinstr_handler_t.mips_ll => mips_ll ext c raw
  | mipsinstr_handler_t.mips_lld => mips_lld ext c raw
  | mipsinstr_handler_t.mips_lui => mips_lui ext c raw
  | mipsinstr_handler_t.mips_lw => mips_lw ext c raw
  | mipsinstr_handler_t.mips_lwc1 => mips_lwc1 ext c raw
  | mipsinstr_handler_t.mips_lwl => mips_lwl ext c raw
  | mipsinstr_handler_t.mips_lwr => mips_lwr ext c raw
  | mipsinstr_handler_t.mips_lwu => mips_lwu ext c raw
  | mipsinstr_handler_t.mips_mfc0 => mips_mfc0 ext c raw
  | mipsinstr_handler_t.mips_mfc1 => mips_mfc1 ext c raw
  | mipsinstr_handler_t.mips_mtc0 => mips_mtc0 ext c raw
  | mipsinstr_handler_t.mips_mtc1 => mips_mtc1 ext c raw
  | mipsinstr_handler_t.mips_nop => mips_nop ext c raw
  | mipsinstr_handler_t.mips_ori => mips_ori ext c raw
  | mipsinstr_handler_t.mips_ri_bgez => mips_ri_bgez ext c raw
  | mipsinstr_handler_t.mips_ri_bgezal => mips_ri_bgezal ext c raw
  | mipsinstr_handler_t.mips_ri_bgezl => mips_ri_bgezl ext c raw
  | mipsinstr_handler_t.mips_ri_bltz => mips_ri_bltz ext c raw
  | mipsinstr_handler_t.mips_ri_bltzal => mips_ri_bltzal ext c raw
  | mipsinstr_handler_t.mips_ri_bltzl => mips_ri_bltzl ext c raw
  | mipsinstr_handler_t.mips_sb => mips_sb ext c raw
  | mipsinstr_handler_t.mips_sc => mips_sc ext c raw
  | mipsinstr_handler_t.mips_scd => mips_scd ext c raw
  | mipsinstr_handler_t.mips_sd => mips_sd ext c raw
  | mipsinstr_handler_t.mips_sdc1 => mips_sdc1 ext c raw
  | mipsinstr_handler_t.mips_sdl => mips_sdl ext c raw
  | mipsinstr_handler_t.mips_sdr => mips_sdr ext c raw
  | mipsinstr_handler_t.mips_sh => mips_sh ext c raw
  | mipsinstr_handler_t.mips_slti => mips_slti ext c raw
  | mipsinstr_handler_t.mips_sltiu => mips_sltiu ext c raw
  | mipsinstr_handler_t.mips_spc_add => mips_spc_add ext c raw
  | mipsinstr_handler_t.mips_spc_addu => mips_spc_addu ext c raw
  | mipsinstr_handler_t.mips_spc_and => mips_spc_and ext c raw
  | mipsinstr_handler_t.mips_spc_dadd => mips_spc_dadd ext c raw
  | mipsinstr_handler_t.mips_spc_daddu => mips_spc_daddu ext c raw
  | mipsinstr_handler_t.mips_spc_ddiv => mips_spc_ddiv ext c raw
  | mipsinstr_handler_t.mips_spc_ddivu => mips_spc_ddivu ext c raw
  | mipsinstr_handler_t.mips_spc_div => mips_spc_div ext c raw
  | mipsinstr_handler_t.mips_spc_divu => mips_spc_divu ext c raw
  | mipsinstr_handler_t.mips_spc_dmult => mips_spc_dmult ext c raw
  | mipsinstr_handler_t.mips_spc_dmultu => mips_spc_dmultu ext c raw
  | mipsinstr_handler_t.mips_spc_dsll => mips_spc_dsll ext c raw
  | mipsinstr_handler_t.mips_spc_dsll32 => mips_spc_dsll32 ext c raw
  | mipsinstr_handler_t.mips_spc_dsllv => mips_spc_dsllv ext c raw
  | mipsinstr_handler_t.mips_spc_dsra => mips_spc_dsra ext c raw
  | mipsinstr_handler_t.mips_spc_dsra32 => mips_spc_dsra32 ext c raw
  | mipsinstr_handler_t.mips_spc_dsrl => mips_spc_dsrl ext c raw
  | mipsinstr_handler_t.mips_spc_dsrl32 => mips_spc_dsrl32 ext c raw
  | mipsinstr_handler_t.mips_spc_dsrlv => mips_spc_dsrlv ext c raw
  | mipsinstr_handler_t.mips_spc_dsubu => mips_spc_dsubu ext c raw
  | mipsinstr_handler_t.mips_spc_jalr => mips_spc_jalr ext c raw
  | mipsinstr_handler_t.mips_spc_jr => mips_spc_jr ext c raw
  | mipsinstr_handler_t.mips_spc_mfhi => mips_spc_mfhi ext c raw
  | mipsinstr_handler_t.mips_spc_mflo => mips_spc_mflo ext c raw
  | mipsinstr_handler_t.mips_spc_mthi => mips_spc_mthi ext c raw
  | mipsinstr_handler_t.mips_spc_mtlo => mips_spc_mtlo ext c raw
  | mipsinstr_handler_t.mips_spc_mult => mips_spc_mult ext c raw
  | mipsinstr_handler_t.mips_spc_multu => mips_spc_multu ext c raw
  | mipsinstr_handler_t.mips_spc_nor => mips_spc_nor ext c raw
  | mipsinstr_handler_t.mips_spc_or => mips_spc_or ext c raw
  | mipsinstr_handler_t.mips_spc_sll => mips_spc_sll ext c raw
  | mipsinstr_handler_t.mips_spc_sllv => mips_spc_sllv ext c raw
  | mipsinstr_handler_t.mips_spc_slt => mips_spc_slt ext c raw
  | mipsinstr_handler_t.mips_spc_sltu => mips_spc_sltu ext c raw
  | mipsinstr_handler_t.mips_spc_sra => mips_spc_sra ext c raw
  | mipsinstr_handler_t.mips_spc_srav => mips_spc_srav ext c raw
  | mipsinstr_handler_t.mips_spc_srl => mips_spc_srl ext c raw
  | mipsinstr_handler_t.mips_spc_srlv => mips_spc_srlv ext c raw
  | mipsinstr_handler_t.mips_spc_sub => mips_spc_sub ext c raw
  | mipsinstr_handler_t.mips_spc_subu => mips_spc_subu ext c raw
  | mipsinstr_handler_t.mips_spc_teq => mips_spc_teq ext c raw
  | mipsinstr_handler_t.mips_spc_tne => mips_spc_tne ext c raw
  | mipsinstr_handler_t.mips_spc_xor => mips_spc_xor ext c raw
  | mipsinstr_handler_t.mips_sw => mips_sw ext c raw
  | mipsinstr_handler_t.mips_swc1 => mips_swc1 ext c raw
  | mipsinstr_handler_t.mips_swl => mips_swl ext c raw
  | mipsinstr_handler_t.mips_swr => mips_swr ext c raw
  | mipsinstr_handler_t.mips_tlbp => mips_tlb ext c raw
  | mipsinstr_handler_t.mips_tlbr => mips_tlb ext c raw
  | mipsinstr_handler_t.mips_tlbwi => mips_tlb ext c raw
  | mipsinstr_handler_t.mips_xori => mips_xori ext c raw

/-! ## Interpreter step (`r4300i.c` lines 532-568) -/

/-- Lines 533-539 of `r4300i_step`: advance Count, mask it to 33 bits, post the
timer interrupt (`ip7` is bit 7 of the IP field). -/
def r4300i_step_count (ext : Ext) (c : r4300i_t) : r4300i_t :=
  let count := u64 (c.cp0.count + ext.CYCLES_PER_INSTR) &&& 0x1FFFFFFFF
  let c1 : r4300i_t := { c with cp0 := { c.cp0 with count := count } }
  if count >>> 1 = c1.cp0.compare then
    r4300i_interrupt_update
      { c1 with cp0 := { c1.cp0 with cause :=
          { c1.cp0.cause with interrupt_pending := c1.cp0.cause.interrupt_pending ||| 0x80 } } }
  else c1

/-- Lines 561-564 of `r4300i_step`: the PC bookkeeping done before the handler
runs. -/
def r4300i_step_advance (c : r4300i_t) : r4300i_t :=
  { c with prev_pc := c.pc, pc := c.next_pc, next_pc := u64 (c.next_pc + 4), branch := false }

/-- The function `r4300i_step` (`r4300i.c` lines 532-568). -/
def r4300i_step (ext : Ext) (c : r4300i_t) : Option r4300i_t :=
  let c1 := r4300i_step_count ext c
  let pc := c1.pc
  let raw := u32 (ext.read_word c1 pc)
  if 0 < c1.interrupts ∧ c1.cp0.status.ie ∧ !c1.cp0.status.exl ∧ !c1.cp0.status.erl then
    r4300i_handle_exception c1 pc 0 (-1)
  else
    let c2 := r4300i_step_advance c1
    match r4300i_instruction_decode pc raw with
    | none => none
    | some h =>
      match run_handler ext h c2 raw with
      | none => none
      | some c3 => some { c3 with exception := false }

/-! ## Concrete states for the scenarios -/

/-- A CPU with every register, flag and memory byte zero. -/
def cpu_zero : r4300i_t :=
  { gpr := fun _ => 0, pc := 0, next_pc := 0, prev_pc := 0, mult_hi := 0, mult_lo := 0,
    branch := false, branch_pc := 0, branch_delay := 0, exception := false, llbit := false,
    interrupts := 0,
    cp0 := { status := { ie := false, exl := false, erl := false, im := 0, bev := false },
             cause := { exception_code := 0, interrupt_pending := 0, coprocessor_error := 0,
                        branch_delay := false },
             EPC := 0, error_epc := 0, count := 0, compare := 0, lladdr := 0, bad_vaddr := 0,
             entry_hi := 0, is_64bit_addressing := false, kernel_mode := true,
             tlb_error := tlb_error_t.TLB_ERROR_NONE, other := fun _ => 0 },
    fpu := { fgr := fun _ => 0, fcr0 := 0, fcr31 := 0 },
    mem := fun _ => 0 }

/-- Memory holding the big-endian words `ws` from physical address `base` on,
zero elsewhere. -/
def mem_of_words (base : Nat) (ws : List Nat) : Nat → Nat :=
  fun a =>
    if base ≤ a ∧ a < base + 4 * ws.length then
      (ws.getD ((a - base) / 4) 0 / 256 ^ (3 - (a - base) % 4)) % 256
    else 0

/-- Modelled from the spec: a collaborator record for the scenarios.  Virtual
accesses use the fixed mapping of kseg0/kseg1 ("skip the TLB and mask the top
bits") over the flat memory; there is no TLB entry, no CP0 side effect and no
floating-point arithmetic. -/
def flat_ext : Ext :=
  { CYCLES_PER_INSTR := 1,
    read_byte := fun c a => n64_read_physical_byte c.mem (a % 0x20000000),
    read_half := fun c a => n64_read_physical_half c.mem (a % 0x20000000),
    read_word := fun c a => n64_read_physical_word c.mem (a % 0x20000000),
    read_dword := fun c a => n64_read_physical_dword c.mem (a % 0x20000000),
    write_word := fun c a v => n64_write_physical_word c.mem (a % 0x20000000) v,
    write_dword := fun c a v => n64_write_physical_dword c.mem (a % 0x20000000) v,
    resolve_virtual_address := fun _ a _ =>
      if 0xFFFFFFFF80000000 ≤ a ∧ a < 0xFFFFFFFFC0000000 then Except.ok (a % 0x20000000)
      else Except.error tlb_error_t.TLB_ERROR_MISS,
    get_cp0_register_word := fun c r => c.cp0.other r,
    get_cp0_register_dword := fun c r => c.cp0.other r,
    set_cp0_register_word := fun c _ _ => some c.cp0,
    set_cp0_register_dword := fun c _ _ => some c.cp0,
    tlb_instruction := fun c _ => some c.cp0,
    get_fpu_register_word := fun c r => u32 (c.fpu.fgr r),
    get_fpu_register_dword := fun c r => c.fpu.fgr r,
    set_fpu_register_word := fun c _ _ => c.fpu,
    set_fpu_register_dword := fun c _ _ => c.fpu,
    fpu_instruction := fun c _ => c.fpu,
    indeterminate := 0 }

/-- Scenario "exception in a delay slot": the taken branch `BEQ r0, r0, +4` at
`A = 0xFFFFFFFF80001000` followed by `TEQ r0, r0` in its delay slot. -/
def delay_slot_state : r4300i_t :=
  { cpu_zero with
    pc := 0xFFFFFFFF80001000, next_pc := 0xFFFFFFFF80001004,
    cp0 := { cpu_zero.cp0 with compare := 0x1000 },
    mem := mem_of_words 0x1000 [0x10000004, 0x00000034, 0, 0] }

/-! ## Predicates on handler results -/

/-- The result `res` of a handler run from `c` is the exception path: the
exception engine is entered and the handler itself has written no general
register, HI or LO. -/
def RaisesException (c : r4300i_t) (res : Option r4300i_t) : Prop :=
  ∃ c1 pc code, c1.gpr = c.gpr ∧ c1.mult_hi = c.mult_hi ∧ c1.mult_lo = c.mult_lo ∧
    res = r4300i_handle_exception c1 pc code 0

/-- The handler returns after one call `set_register(r, v)` whose value `v` is
the sign-extension of its own low 32 bits. -/
def WritesSext32 (c : r4300i_t) (r : Nat) (res : Option r4300i_t) : Prop :=
  ∃ v, IsSext32 v ∧ res = some (set_register c r v)

/-- The handler returns after writing HI and LO, each with a value that is the
sign-extension of its own low 32 bits. -/
def WritesHiLoSext32 (c : r4300i_t) (res : Option r4300i_t) : Prop :=
  ∃ hi lo, IsSext32 hi ∧ IsSext32 lo ∧ res = some { c with mult_hi := hi, mult_lo := lo }

/-- Whenever the result `res` of work started in `c` is a state, register 0
holds in it what it held in `c`. -/
def KeepsZeroReg (c : r4300i_t) (res : Option r4300i_t) : Prop :=
  ∀ c', res = some c' → c'.gpr 0 = c.gpr 0

/-- Scenario "write to register 0": `ORI r0, r1, 0xBEEF` at 0xFFFFFFFF80001000
with r1 = 0x10000. -/
def ori_zero_state : r4300i_t :=
  { cpu_zero with
    gpr := fun i => if i = 1 then 0x10000 else 0,
    pc := 0xFFFFFFFF80001000, next_pc := 0xFFFFFFFF80001004,
    cp0 := { cpu_zero.cp0 with compare := 0x1000 },
    mem := mem_of_words 0x1000 [0x3420BEEF] }

/-- Scenario "jump in the last word of a 256 MiB region": `J 0` (target field
0) at `A = 0xFFFFFFFF8FFFFFFC`, whose delay slot is at 0xFFFFFFFF90000000. -/
def jump_state : r4300i_t :=
  { cpu_zero with
    pc := 0xFFFFFFFF8FFFFFFC, next_pc := 0xFFFFFFFF90000000,
    cp0 := { cpu_zero.cp0 with compare := 0x1000 },
    mem := mem_of_words 0x0FFFFFFC [0x08000000, 0] }

/-- Scenario "DIV by zero": `DIV r1, r2` with r1 = 0xFFFFFFFF80000000 and
r2 = 0. -/
def div_zero_state : r4300i_t :=
  { cpu_zero with gpr := fun i => if i = 1 then 0xFFFFFFFF80000000 else 0 }

/-- Scenario "DDIV": `DDIV r1, r2` with r1 = -7 and r2 = 2. -/
def ddiv_state : r4300i_t :=
  { cpu_zero with gpr := fun i => if i = 1 then 0xFFFFFFFFFFFFFFF9 else if i = 2 then 2 else 0 }

/-- Scenario "SCD in 32-bit user mode": r1 = 0xFFFFFFFF80000100 is an aligned
kseg0 address, r2 = 0x1234, the link bit is set, 64-bit addressing is off and
the processor is not in kernel mode. -/
def scd_user_state : r4300i_t :=
  { cpu_zero with
    gpr := fun i => if i = 1 then 0xFFFFFFFF80000100 else if i = 2 then 0x1234 else 0,
    llbit := true,
    cp0 := { cpu_zero.cp0 with kernel_mode := false } }

/-- Scenario "LL, store, SC": r1 = 0xFFFFFFFF80000100 is an aligned kseg0
address, r2 = 0x1234, the link bit is clear, kernel mode. -/
def llsc_state : r4300i_t :=
  { cpu_zero with
    gpr := fun i => if i = 1 then 0xFFFFFFFF80000100 else if i = 2 then 0x1234 else 0 }

/-- Scenario "unaligned access": r1 = 0xFFFFFFFF80000101 is a kseg0 address
with low bits 01, r2 = 0xAABBCCDD, and physical memory holds the words
0x11223344 and 0x55667788 at 0x100 and 0x104. -/
def unaligned_state : r4300i_t :=
  { cpu_zero with
    gpr := fun i => if i = 1 then 0xFFFFFFFF80000101 else if i = 2 then 0xAABBCCDD else 0,
    mem := mem_of_words 0x100 [0x11223344, 0x55667788] }

/-- Scenario "store and reload through the unaligned pair": r1 is the kseg0
address 0xFFFFFFFF80000100 + k, r2 = 0x11223344, and the memory word at 0x100
is 0xDEADBEEF. -/
def roundtrip_state (k : Nat) : r4300i_t :=
  { cpu_zero with
    gpr := fun i => if i = 1 then 0xFFFFFFFF80000100 + k else if i = 2 then 0x11223344 else 0,
    mem := mem_of_words 0x100 [0xDEADBEEF] }

/-- Modelled from the spec: the collaborators of the scenario "LWL/LWR merge",
which addresses memory through r0: as `flat_ext`, but every virtual address
names the physical address of the same low 32 bits. -/
def direct_ext : Ext :=
  { flat_ext with resolve_virtual_address := fun _ a _ => Except.ok (u32 a) }

/-- Scenario "LWL/LWR merge": memory at 0x100 = 0x11223344 and r1 = 0xAABBCCDD. -/
def lwl_lwr_state : r4300i_t :=
  { cpu_zero with
    gpr := fun i => if i = 1 then 0xAABBCCDD else 0,
    mem := mem_of_words 0x100 [0x11223344] }

/-- Scenario "pending interrupt": pc = 0xFFFFFFFF80001000 holds
`ORI r2, r0, 0xBEEF`, the summary `interrupts` and IP are 4 with IM = 4, IE is
set, EXL and ERL are clear; `bev` is the value of Status.bev. -/
def interrupt_state (bev : Bool) : r4300i_t :=
  { cpu_zero with
    pc := 0xFFFFFFFF80001000, next_pc := 0xFFFFFFFF80001004,
    interrupts := 4,
    cp0 := { cpu_zero.cp0 with
      compare := 0x1000,
      status := { ie := true, exl := false, erl := false, im := 4, bev := bev },
      cause := { cpu_zero.cp0.cause with interrupt_pending := 4 } },
    mem := mem_of_words 0x1000 [0x3402BEEF] }

/-! ## Dynarec (`dynarec.c`) -/

/-- Modelled from the spec: `dynarec_instruction_category_t` of the absent
dynarec header: "category ∈ {NORMAL, BRANCH, BRANCH_LIKELY, ERET, TLB_WRITE,
STORE}". -/
inductive dynarec_instruction_category_t where
  | NORMAL
  | BRANCH
  | BRANCH_LIKELY
  | ERET
  | TLB_WRITE
  | STORE
deriving DecidableEq

/-- Modelled from the spec: the fields of `dynarec_ir_t` that `compile_new_block`
reads besides the emitter: "(handler_id, category, exception_possible)". -/
structure dynarec_ir_t where
  category : dynarec_instruction_category_t
  exception_possible : Bool

/-- What `compile_new_block` has emitted for one block: the physical address and
the word of every instruction it compiled, in order, and the `block_length`
given to `end_block`. -/
structure compiled_block_t where
  instructions : List (Nat × Nat)
  block_length : Nat

/-- The function pointer `run` of a block: the trampoline `missing_block_handler`
or the entry of code emitted by `compile_new_block`. -/
inductive block_run_t where
  | missing_block_handler
  | compiled (code : compiled_block_t)

/-- The structure `n64_dynarec_block_t`. -/
structure n64_dynarec_block_t where
  run : block_run_t

/-- The structure `n64_dynarec_t`: the outer table `blockcache`, whose slots are
null or point to an inner page of blocks. -/
structure n64_dynarec_t where
  blockcache : Nat → Option (Nat → n64_dynarec_block_t)

/-- Modelled from the spec: `BLOCKCACHE_OUTER_SHIFT` of the absent dynarec
header: "Pages are PAGE_SIZE bytes of physical address space (power of two,
e.g. 4 KiB)". -/
def BLOCKCACHE_OUTER_SHIFT : Nat := 12

/-- Modelled from the spec: `BLOCKCACHE_PAGE_SIZE`, the page size belonging to
the outer shift. -/
def BLOCKCACHE_PAGE_SIZE : Nat := 1 <<< BLOCKCACHE_OUTER_SHIFT

/-- Modelled from the spec: `BLOCKCACHE_INNER_SIZE`: "one slot per 4-byte
instruction on a page". -/
def BLOCKCACHE_INNER_SIZE : Nat := BLOCKCACHE_PAGE_SIZE >>> 2

/-- The macro `IS_PAGE_BOUNDARY(address)` (`dynarec.c` line 8). -/
def IS_PAGE_BOUNDARY (address : Nat) : Bool :=
  (address &&& (BLOCKCACHE_PAGE_SIZE - 1)) == 0

/-! ## System (`n64system.c`) -/

/-- The flag `rsp.status.halt`. -/
structure rsp_status_t where
  halt : Bool

/-- The fields of `system->rsp` read by the scheduler; `steps` is an `int`. -/
structure rsp_t where
  status : rsp_status_t
  steps : Int

/-- The registers `mi.intr` and `mi.intr_mask`, through their `raw` words. -/
structure mi_t where
  intr : Nat
  intr_mask : Nat

/-- The enumeration `n64_interrupt_t` with the members named by the `switch`
of `interrupt_raise` and `interrupt_lower`; their `default` branch is for values
outside the enumeration. -/
inductive n64_interrupt_t where
  | INTERRUPT_VI
  | INTERRUPT_SI
  | INTERRUPT_PI
  | INTERRUPT_DP
  | INTERRUPT_AI
  | INTERRUPT_SP
deriving DecidableEq

/-- The structure `n64_system_t`, with the parts the scheduler, the interrupt
functions and the dynarec use. -/
structure n64_system_t where
  cpu : r4300i_t
  rsp : rsp_t
  mi : mi_t
  dynarec : n64_dynarec_t

/-- Collaborators of the system and the dynarec that are not in the sources:
the IR table `instruction_ir` and the extra cycles reported by its emitters, the
two-argument `resolve_virtual_address(pc, &cp0)` of `dynarec.c`, the execution
of emitted code (`none` when it ends in a fatal diagnostic) and `rsp_run`. -/
structure SysExt where
  instruction_ir : Nat → Nat → dynarec_ir_t
  extra_cycles : Nat → Nat → Nat
  resolve_virtual_address : Nat → cp0_t → Nat
  run_compiled : compiled_block_t → n64_system_t → Option (n64_system_t × Int)
  rsp_run : n64_system_t → n64_system_t

/-- Outcome of code with a loop: the fuel given to the model ran out, the code
ended in a fatal diagnostic, or it returned. -/
inductive loop_result_t (α : Type) where
  | out_of_fuel
  | fatal
  | done (a : α)

/-- The value a loop result returned, if it returned. -/
def loop_result_t.returned {α : Type} : loop_result_t α → Option α
  | loop_result_t.done a => some a
  | _ => none

/-- Locals of `compile_new_block` carried round its loop, with the instructions
emitted so far. -/
structure compile_state_t where
  physical_address : Nat
  virtual_address : Nat
  block_length : Nat
  instructions_left_in_block : Int
  prev_instr_category : dynarec_instruction_category_t
  emitted : List (Nat × Nat)

/-- The test `prev_instr_category == BRANCH || prev_instr_category ==
BRANCH_LIKELY`. -/
def prev_is_branch (cat : dynarec_instruction_category_t) : Bool :=
  cat == dynarec_instruction_category_t.BRANCH
    || cat == dynarec_instruction_category_t.BRANCH_LIKELY

/-- The `switch (ir->category)` of `compile_new_block` (lines 65-108): `none`
is the fatal diagnostic for a branch in a delay slot, otherwise
`instr_ends_block` and the new `instructions_left_in_block`. -/
def compile_category (cat prev : dynarec_instruction_category_t) (left : Int) :
    Option (Bool × Int) :=
  match cat with
  | dynarec_instruction_category_t.NORMAL => some (left == 0, left)
  | dynarec_instruction_category_t.BRANCH =>
    if prev_is_branch prev then none else some (false, 1)
  | dynarec_instruction_category_t.BRANCH_LIKELY =>
    if prev_is_branch prev then none else some (false, 1)
  | dynarec_instruction_category_t.ERET => some (true, left)
  | dynarec_instruction_category_t.TLB_WRITE => some (true, left)
  | dynarec_instruction_category_t.STORE => some (true, left)

/-- The body of the `do ... while` of `compile_new_block` (lines 36-130): `none`
is a fatal diagnostic, otherwise the locals after the iteration and
`should_continue_block`.  `physical_address` is a `word`, `virtual_address` a
`dword`. -/
def compile_iteration (sx : SysExt) (mem : Nat → Nat) (st : compile_state_t) :
    Option (compile_state_t × Bool) :=
  let raw := n64_read_physical_word mem st.physical_address
  let next_physical_address := u32 (st.physical_address + 4)
  let next_virtual_address := u64 (st.virtual_address + 4)
  let left := st.instructions_left_in_block - 1
  let ir := sx.instruction_ir raw st.physical_address
  let block_length := st.block_length + 1 + sx.extra_cycles raw st.physical_address
  match compile_category ir.category st.prev_instr_category left with
  | none => none
  | some (instr_ends_block, left1) =>
    let page_boundary_ends_block :=
      if left1 = 1 then false else IS_PAGE_BOUNDARY next_physical_address
    let should_continue_block := !(instr_ends_block || page_boundary_ends_block)
    some ({ physical_address := next_physical_address,
            virtual_address := next_virtual_address,
            block_length := block_length,
            instructions_left_in_block := left1,
            prev_instr_category := ir.category,
            emitted := st.emitted ++ [(st.physical_address, raw)] },
          should_continue_block)

/-- The `do ... while (should_continue_block)` of `compile_new_block`, run for at
most `fuel` iterations. -/
def compile_loop (sx : SysExt) (mem : Nat → Nat) :
    Nat → compile_state_t → loop_result_t compile_state_t
  | 0, _ => loop_result_t.out_of_fuel
  | fuel + 1, st =>
    match compile_iteration sx mem st with
    | none => loop_result_t.fatal
    | some (st1, true) => compile_loop sx mem fuel st1
    | some (st1, false) => loop_result_t.done st1

/-- The locals of `compile_new_block` on entry to its loop (lines 27-34). -/
def compile_start (virtual_address physical_address : Nat) : compile_state_t :=
  { physical_address := physical_address, virtual_address := virtual_address,
    block_length := 0, instructions_left_in_block := -1,
    prev_instr_category := dynarec_instruction_category_t.NORMAL, emitted := [] }

/-- The function `compile_new_block` (`dynarec.c` lines 23-137), giving the block
whose entry it stores in `block->run`. -/
def compile_new_block (sx : SysExt) (fuel : Nat) (mem : Nat → Nat)
    (virtual_address physical_address : Nat) : loop_result_t compiled_block_t :=
  match compile_loop sx mem fuel (compile_start virtual_address physical_address) with
  | loop_result_t.out_of_fuel => loop_result_t.out_of_fuel
  | loop_result_t.fatal => loop_result_t.fatal
  | loop_result_t.done st =>
    loop_result_t.done { instructions := st.emitted, block_length := st.block_length }

/-- The call `block->run(cpu)` for a slot holding emitted code. -/
def run_block (sx : SysExt) (code : compiled_block_t) (s : n64_system_t) :
    loop_result_t (n64_system_t × Int) :=
  match sx.run_compiled code s with
  | none => loop_result_t.fatal
  | some r => loop_result_t.done r

/-- The outer index `physical >> BLOCKCACHE_OUTER_SHIFT` of a `word`. -/
def outer_index (physical : Nat) : Nat := u32 physical >>> BLOCKCACHE_OUTER_SHIFT

/-- The inner index `(physical & (BLOCKCACHE_PAGE_SIZE - 1)) >> 2`. -/
def inner_index (physical : Nat) : Nat :=
  (u32 physical &&& (BLOCKCACHE_PAGE_SIZE - 1)) >>> 2

/-- The function `missing_block_handler` (`dynarec.c` lines 140-156): compile the
block at the PC into its slot and run it.  A null page is dereferenced there,
which is taken as fatal. -/
def missing_block_handler (sx : SysExt) (fuel : Nat) (s : n64_system_t) :
    loop_result_t (n64_system_t × Int) :=
  let physical := u32 (sx.resolve_virtual_address s.cpu.pc s.cpu.cp0)
  match s.dynarec.blockcache (outer_index physical) with
  | none => loop_result_t.fatal
  | some block_list =>
    match compile_new_block sx fuel s.cpu.mem s.cpu.pc physical with
    | loop_result_t.out_of_fuel => loop_result_t.out_of_fuel
    | loop_result_t.fatal => loop_result_t.fatal
    | loop_result_t.done code =>
      let block_list1 : Nat → n64_dynarec_block_t := fun i =>
        if i = inner_index physical then { run := block_run_t.compiled code } else block_list i
      let blockcache1 : Nat → Option (Nat → n64_dynarec_block_t) := fun i =>
        if i = outer_index physical then some block_list1 else s.dynarec.blockcache i
      run_block sx code { s with dynarec := { blockcache := blockcache1 } }

/-- Lines 159-172 of `n64_dynarec_step`: a null outer slot gets a fresh inner
page whose blocks all run `missing_block_handler`. -/
def n64_dynarec_step_page (sx : SysExt) (s : n64_system_t) : n64_system_t :=
  let physical := u32 (sx.resolve_virtual_address s.cpu.pc s.cpu.cp0)
  match s.dynarec.blockcache (outer_index physical) with
  | none =>
    let block_list : Nat → n64_dynarec_block_t :=
      fun _ => { run := block_run_t.missing_block_handler }
    { s with dynarec := { blockcache := fun i =>
        if i = outer_index physical then some block_list else s.dynarec.blockcache i } }
  | some _ => s

/-- Line 174 of `n64_dynarec_step`: the block `&block_list[inner_index]` that
is run. -/
def n64_dynarec_step_block (sx : SysExt) (s : n64_system_t) : Option n64_dynarec_block_t :=
  let physical := u32 (sx.resolve_virtual_address s.cpu.pc s.cpu.cp0)
  match s.dynarec.blockcache (outer_index physical) with
  | none => none
  | some block_list => some (block_list (inner_index physical))

/-- The function `n64_dynarec_step` (`dynarec.c` lines 158-195), returning the
system and `taken * CYCLES_PER_INSTR`. -/
def n64_dynarec_step (ext : Ext) (sx : SysExt) (fuel : Nat) (s : n64_system_t) :
    loop_result_t (n64_system_t × Int) :=
  let s1 := n64_dynarec_step_page sx s
  match n64_dynarec_step_block sx s1 with
  | none => loop_result_t.fatal
  | some block =>
    let r := match block.run with
      | block_run_t.missing_block_handler => missing_block_handler sx fuel s1
      | block_run_t.compiled code => run_block sx code s1
    match r with
    | loop_result_t.out_of_fuel => loop_result_t.out_of_fuel
    | loop_result_t.fatal => loop_result_t.fatal
    | loop_result_t.done (s2, taken) => loop_result_t.done (s2, taken * ext.CYCLES_PER_INSTR)

/-- The function `invalidate_dynarec_page` (`dynarec.c` lines 214-217). -/
def invalidate_dynarec_page (dynarec : n64_dynarec_t) (physical_address : Nat) :
    n64_dynarec_t :=
  { blockcache := fun i =>
      if i = outer_index physical_address then none else dynarec.blockcache i }

/-- The block shared by `jit_system_step` (lines 214-220) and
`interpreter_system_step` (lines 241-246): credit the RSP and run it.  The
second component is the static `cpu_steps` afterwards.  The operators `/` and
`%` are those of C on `int`. -/
def rsp_credit (sx : SysExt) (s : n64_system_t) (cpu_steps : Int) : n64_system_t × Int :=
  if !s.rsp.status.halt then
    let s1 : n64_system_t :=
      { s with rsp := { s.rsp with steps := s.rsp.steps + Int.tdiv cpu_steps 3 * 2 } }
    (sx.rsp_run s1, cpu_steps - Int.tmod cpu_steps 3)
  else (s, cpu_steps)

/-- Lines 188-194 of `jit_system_step`: advance Count and post the timer
interrupt. -/
def jit_system_step_count (ext : Ext) (c : r4300i_t) : r4300i_t :=
  let count := u64 (c.cp0.count + ext.CYCLES_PER_INSTR)
  let c1 : r4300i_t := { c with cp0 := { c.cp0 with count := count } }
  if count >>> 1 = c1.cp0.compare then
    r4300i_interrupt_update
      { c1 with cp0 := { c1.cp0 with cause :=
          { c1.cp0.cause with interrupt_pending := c1.cp0.cause.interrupt_pending ||| 0x80 } } }
  else c1

/-- The function `jit_system_step` (`n64system.c` lines 186-224); `cpu_steps` is
its static counter, returned as the third component. -/
def jit_system_step (ext : Ext) (sx : SysExt) (fuel : Nat) (cpu_steps : Int)
    (s : n64_system_t) : loop_result_t (n64_system_t × Int × Int) :=
  let c1 := jit_system_step_count ext s.cpu
  if 0 < c1.interrupts ∧ c1.cp0.status.ie ∧ !c1.cp0.status.exl ∧ !c1.cp0.status.erl then
    let c2 : r4300i_t :=
      { c1 with cp0 := { c1.cp0 with cause :=
          { c1.cp0.cause with interrupt_pending := c1.interrupts } } }
    match r4300i_handle_exception c2 c2.pc 0 c2.interrupts with
    | none => loop_result_t.fatal
    | some c3 => loop_result_t.done ({ s with cpu := c3 }, ext.CYCLES_PER_INSTR, cpu_steps)
  else
    match n64_dynarec_step ext sx fuel { s with cpu := c1 } with
    | loop_result_t.out_of_fuel => loop_result_t.out_of_fuel
    | loop_result_t.fatal => loop_result_t.fatal
    | loop_result_t.done (s2, taken) =>
      let r := rsp_credit sx s2 (cpu_steps + taken)
      loop_result_t.done (r.1, taken, r.2)

/-- The function `interpreter_system_step` (`n64system.c` lines 226-250) without
the debugger hooks; `cpu_steps` is its static counter, returned as the third
component. -/
def interpreter_system_step (ext : Ext) (sx : SysExt) (cpu_steps : Int) (s : n64_system_t) :
    Option (n64_system_t × Int × Int) :=
  let taken : Int := ext.CYCLES_PER_INSTR
  match r4300i_step ext s.cpu with
  | none => none
  | some c1 =>
    let r := rsp_credit sx { s with cpu := c1 } (cpu_steps + taken)
    some (r.1, taken, r.2)

/-- The bit-field assignment `mi.intr.<field> = value` on the raw word, for the
field at bit `bit` of `mi_intr_t`. -/
def mi_intr_assign (raw bit : Nat) (value : Bool) : Nat :=
  if value then raw ||| (1 <<< bit) else raw &&& bnot 32 (1 <<< bit)

/-- Bit of each interrupt in `mi_intr_t` (`n64system.h`: sp, si, ai, vi, pi, dp
from bit 0). -/
def mi_intr_bit : n64_interrupt_t → Nat
  | n64_interrupt_t.INTERRUPT_VI => 3
  | n64_interrupt_t.INTERRUPT_SI => 1
  | n64_interrupt_t.INTERRUPT_PI => 4
  | n64_interrupt_t.INTERRUPT_DP => 5
  | n64_interrupt_t.INTERRUPT_AI => 2
  | n64_interrupt_t.INTERRUPT_SP => 0

/-- The function `on_interrupt_change` (`n64system.c` lines 316-321); `ip2` is
bit 2 of the IP field. -/
def on_interrupt_change (s : n64_system_t) : n64_system_t :=
  let interrupt : Bool := decide (s.mi.intr &&& s.mi.intr_mask ≠ 0)
  let ip := s.cpu.cp0.cause.interrupt_pending
  let ip1 := if interrupt then ip ||| 0x04 else ip &&& 0xFB
  let cpu : r4300i_t :=
    { s.cpu with cp0 := { s.cpu.cp0 with cause :=
        { s.cpu.cp0.cause with interrupt_pending := ip1 } } }
  { s with cpu := r4300i_interrupt_update cpu }

/-- The function `interrupt_raise` (`n64system.c` lines 323-354). -/
def interrupt_raise (s : n64_system_t) (interrupt : n64_interrupt_t) : n64_system_t :=
  on_interrupt_change
    { s with mi := { s.mi with intr := mi_intr_assign s.mi.intr (mi_intr_bit interrupt) true } }

/-- The function `interrupt_lower` (`n64system.c` lines 356-387). -/
def interrupt_lower (s : n64_system_t) (interrupt : n64_interrupt_t) : n64_system_t :=
  on_interrupt_change
    { s with mi := { s.mi with intr := mi_intr_assign s.mi.intr (mi_intr_bit interrupt) false } }

/-- Modelled from the spec: the category of the IR table, "Category
assignment": branches, likely branches, ERET, TLBWI and the stores; everything
else, and every word the decoder rejects, is NORMAL. -/
def spec_category (raw : Nat) : dynarec_instruction_category_t :=
  match r4300i_instruction_decode 0 raw with
  | some mipsinstr_handler_t.mips_beq => dynarec_instruction_category_t.BRANCH
  | some mipsinstr_handler_t.mips_bne => dynarec_instruction_category_t.BRANCH
  | some mipsinstr_handler_t.mips_bgtz => dynarec_instruction_category_t.BRANCH
  | some mipsinstr_handler_t.mips_blez => dynarec_instruction_category_t.BRANCH
  | some mipsinstr_handler_t.mips_ri_bltz => dynarec_instruction_category_t.BRANCH
  | some mipsinstr_handler_t.mips_ri_bgez => dynarec_instruction_category_t.BRANCH
  | some mipsinstr_handler_t.mips_ri_bltzal => dynarec_instruction_category_t.BRANCH
  | some mipsinstr_handler_t.mips_ri_bgezal => dynarec_instruction_category_t.BRANCH
  | some mipsinstr_handler_t.mips_j => dynarec_instruction_category_t.BRANCH
  | some mipsinstr_handler_t.mips_jal => dynarec_instruction_category_t.BRANCH
  | some mipsinstr_handler_t.mips_spc_jr => dynarec_instruction_category_t.BRANCH
  | some mipsinstr_handler_t.mips_spc_jalr => dynarec_instruction_category_t.BRANCH
  | some mipsinstr_handler_t.mips_cp_bc1t => dynarec_instruction_category_t.BRANCH
  | some mipsinstr_handler_t.mips_cp_bc1f => dynarec_instruction_category_t.BRANCH
  | some mipsinstr_handler_t.mips_beql => dynarec_instruction_category_t.BRANCH_LIKELY
  | some mipsinstr_handler_t.mips_bnel => dynarec_instruction_category_t.BRANCH_LIKELY
  | some mipsinstr_handler_t.mips_bgtzl => dynarec_instruction_category_t.BRANCH_LIKELY
  | some mipsinstr_handler_t.mips_blezl => dynarec_instruction_category_t.BRANCH_LIKELY
  | some mipsinstr_handler_t.mips_ri_bltzl => dynarec_instruction_category_t.BRANCH_LIKELY
  | some mipsinstr_handler_t.mips_ri_bgezl => dynarec_instruction_category_t.BRANCH_LIKELY
  | some mipsinstr_handler_t.mips_cp_bc1tl => dynarec_instruction_category_t.BRANCH_LIKELY
  | some mipsinstr_handler_t.mips_cp_bc1fl => dynarec_instruction_category_t.BRANCH_LIKELY
  | some mipsinstr_handler_t.mips_eret => dynarec_instruction_category_t.ERET
  | some mipsinstr_handler_t.mips_tlbwi => dynarec_instruction_category_t.TLB_WRITE
  | some mipsinstr_handler_t.mips_sb => dynarec_instruction_category_t.STORE
  | some mipsinstr_handler_t.mips_sh => dynarec_instruction_category_t.STORE
  | some mipsinstr_handler_t.mips_sw => dynarec_instruction_category_t.STORE
  | some mipsinstr_handler_t.mips_sd => dynarec_instruction_category_t.STORE
  | some mipsinstr_handler_t.mips_swl => dynarec_instruction_category_t.STORE
  | some mipsinstr_handler_t.mips_swr => dynarec_instruction_category_t.STORE
  | some mipsinstr_handler_t.mips_sdl => dynarec_instruction_category_t.STORE
  | some mipsinstr_handler_t.mips_sdr => dynarec_instruction_category_t.STORE
  | some mipsinstr_handler_t.mips_sc => dynarec_instruction_category_t.STORE
  | some mipsinstr_handler_t.mips_scd => dynarec_instruction_category_t.STORE
  | some mipsinstr_handler_t.mips_swc1 => dynarec_instruction_category_t.STORE
  | some mipsinstr_handler_t.mips_sdc1 => dynarec_instruction_category_t.STORE
  | _ => dynarec_instruction_category_t.NORMAL

/-- Modelled from the spec: collaborators of the system for the scenarios: the
categories of the spec, no extra cycles, the fixed kseg0/kseg1 mapping for the
PC, an RSP that consumes nothing; emitted code is not in the sources and is
not executed here, a block only reports its length. -/
def flat_sys_ext : SysExt :=
  { instruction_ir := fun raw _ => { category := spec_category raw, exception_possible := false },
    extra_cycles := fun _ _ => 0,
    resolve_virtual_address := fun pc _ => pc % 0x20000000,
    run_compiled := fun code s => some (s, (code.block_length : Int)),
    rsp_run := fun s => s }

/-- A system around a CPU: RSP halted with no steps, no MI interrupt, every
outer slot of the block cache null. -/
def system_of (c : r4300i_t) : n64_system_t :=
  { cpu := c,
    rsp := { status := { halt := true }, steps := 0 },
    mi := { intr := 0, intr_mask := 0 },
    dynarec := { blockcache := fun _ => none } }

/-- Scenario "Count at the top of its 33 bits": the pending-interrupt scenario
with Status.bev clear and cp0.count = 0x1FFFFFFFF. -/
def count_wrap_state : r4300i_t :=
  { interrupt_state false with
    cp0 := { (interrupt_state false).cp0 with count := 0x1FFFFFFFF } }

/-- A system around a CPU whose RSP is running (`halt` false) with no steps
credited. -/
def running_system (c : r4300i_t) : n64_system_t :=
  { system_of c with rsp := { status := { halt := false }, steps := 0 } }

/-- Scenario "block of one store": pc = 0xFFFFFFFF80001000 holds
`SW r2, 0(r1)`, which ends a compiled block after one instruction. -/
def store_block_state : r4300i_t :=
  { cpu_zero with
    gpr := fun i => if i = 1 then 0xFFFFFFFF80000100 else 0,
    pc := 0xFFFFFFFF80001000, next_pc := 0xFFFFFFFF80001004,
    cp0 := { cpu_zero.cp0 with compare := 0x1000 },
    mem := mem_of_words 0x1000 [0xAC220000] }

/-- Scenario "VI interrupt enabled": no MI interrupt is raised, the VI bit of
`mi.intr_mask` is set and Status.im enables IP2. -/
def vi_enabled_system : n64_system_t :=
  { system_of { cpu_zero with
      cp0 := { cpu_zero.cp0 with status := { cpu_zero.cp0.status with im := 4 } } } with
    mi := { intr := 0, intr_mask := 8 } }

/-- Scenario "stale page": the system of the one-store block whose page
(outer index 1) holds, in every slot, code of length 7 compiled earlier. -/
def stale_page_system : n64_system_t :=
  let stale : n64_dynarec_block_t :=
    { run := block_run_t.compiled { instructions := [], block_length := 7 } }
  let blockcache : Nat → Option (Nat → n64_dynarec_block_t) :=
    fun i => if i = 1 then some (fun _ => stale) else none
  { system_of store_block_state with dynarec := { blockcache := blockcache } }

/-! ## The stop rule of the block compiler -/

/-- Physical address of the instruction `i` words after `start`, as a `word`. -/
def block_address (start i : Nat) : Nat := u32 (start + 4 * i)

/-- Category the IR table gives to the instruction `i` words after `start`. -/
def block_category (sx : SysExt) (mem : Nat → Nat) (start i : Nat) :
    dynarec_instruction_category_t :=
  (sx.instruction_ir (n64_read_physical_word mem (block_address start i))
    (block_address start i)).category

/-- The stop rule in the words of the specification, for the instruction `i`
words after `start`: (a) its category is STORE, ERET or TLB_WRITE, or (b) it
directly follows a BRANCH or BRANCH_LIKELY, or (c) it is the last word of its
page and not itself a BRANCH or BRANCH_LIKELY. -/
def stop_rule (sx : SysExt) (mem : Nat → Nat) (start i : Nat) : Bool :=
  (block_category sx mem start i == dynarec_instruction_category_t.STORE
    || block_category sx mem start i == dynarec_instruction_category_t.ERET
    || block_category sx mem start i == dynarec_instruction_category_t.TLB_WRITE)
  || (decide (0 < i) && prev_is_branch (block_category sx mem start (i - 1)))
  || (IS_PAGE_BOUNDARY (u32 (block_address start i + 4))
      && !prev_is_branch (block_category sx mem start i))

/-- The instructions `0 .. n - 1` after `start` with their addresses, as the
compiler records them. -/
def block_instructions (mem : Nat → Nat) (start n : Nat) : List (Nat × Nat) :=
  (List.range n).map
    (fun i => (block_address start i, n64_read_physical_word mem (block_address start i)))

/-- Invariant of the compile loop before it handles instruction `i`. -/
def CompileInv (sx : SysExt) (mem : Nat → Nat) (start i : Nat) (st : compile_state_t) : Prop :=
  st.physical_address = block_address start i
  ∧ st.emitted = block_instructions mem start i
  ∧ ((0 < i ∧ prev_is_branch (block_category sx mem start (i - 1)) = true) →
      st.instructions_left_in_block = 1 ∧ prev_is_branch st.prev_instr_category = true)
  ∧ (¬ (0 < i ∧ prev_is_branch (block_category sx mem start (i - 1)) = true) →
      st.instructions_left_in_block ≤ -1 ∧ prev_is_branch st.prev_instr_category = false)

/-- The condition of the fatal diagnostic at instruction `n`: a BRANCH or
BRANCH_LIKELY directly after a BRANCH or BRANCH_LIKELY. -/
def branch_in_delay_slot (sx : SysExt) (mem : Nat → Nat) (start n : Nat) : Prop :=
  prev_is_branch (block_category sx mem start n) = true
  ∧ 0 < n ∧ prev_is_branch (block_category sx mem start (n - 1)) = true

/-! ## Decode tables and an undecodable word -/

/-- The primary opcodes that have a `case` in the switch of
`r4300i_instruction_decode` (lines 453-530), in the order of the source. -/
def primary_opcodes : List Nat :=
  [OPC_CP0, OPC_CP1, OPC_SPCL, OPC_REGIMM, OPC_LD, OPC_LUI, OPC_ADDIU, OPC_ADDI, OPC_DADDI,
   OPC_ANDI, OPC_LBU, OPC_LHU, OPC_LH, OPC_LW, OPC_LWU, OPC_BEQ, OPC_BEQL, OPC_BGTZ,
   OPC_BGTZL, OPC_BLEZ, OPC_BLEZL, OPC_BNE, OPC_BNEL, OPC_CACHE, OPC_SB, OPC_SH, OPC_SW,
   OPC_SD, OPC_ORI, OPC_J, OPC_JAL, OPC_SLTI, OPC_SLTIU, OPC_XORI, OPC_DADDIU, OPC_LB,
   OPC_LDC1, OPC_SDC1, OPC_LWC1, OPC_SWC1, OPC_LWL, OPC_LWR, OPC_SWL, OPC_SWR, OPC_LDL,
   OPC_LDR, OPC_SDL, OPC_SDR, OPC_LL, OPC_LLD, OPC_SC, OPC_SCD]

/-- The `funct` values that have a `case` in the switch of
`r4300i_special_decode` (lines 382-432). -/
def special_functs : List Nat :=
  [FUNCT_SLL, FUNCT_SRL, FUNCT_SRA, FUNCT_SRAV, FUNCT_SLLV, FUNCT_SRLV, FUNCT_JR, FUNCT_JALR,
   FUNCT_MFHI, FUNCT_MTHI, FUNCT_MFLO, FUNCT_MTLO, FUNCT_DSLLV, FUNCT_DSRLV, FUNCT_MULT,
   FUNCT_MULTU, FUNCT_DIV, FUNCT_DIVU, FUNCT_DMULT, FUNCT_DMULTU, FUNCT_DDIV, FUNCT_DDIVU,
   FUNCT_ADD, FUNCT_ADDU, FUNCT_AND, FUNCT_NOR, FUNCT_SUB, FUNCT_SUBU, FUNCT_OR, FUNCT_XOR,
   FUNCT_SLT, FUNCT_SLTU, FUNCT_DADD, FUNCT_DADDU, FUNCT_DSUBU, FUNCT_TEQ, FUNCT_TNE,
   FUNCT_DSLL, FUNCT_DSRL, FUNCT_DSRA, FUNCT_DSLL32, FUNCT_DSRL32, FUNCT_DSRA32]

/-- The `rt` values that have a `case` in the switch of `r4300i_regimm_decode`
(lines 434-451). -/
def regimm_rts : List Nat :=
  [RT_BLTZ, RT_BLTZL, RT_BGEZ, RT_BGEZL, RT_BLTZAL, RT_BGEZAL]

/-- The `rs` values that have a `case` in the first switch of
`r4300i_cp0_decode`, taken when the low eleven bits of the word are zero. -/
def cp0_rs_codes : List Nat := [COP_MF, COP_MT, COP_DMT, COP_DMF]

/-- The `funct` values that have a `case` in the second switch of
`r4300i_cp0_decode`. -/
def cp0_functs : List Nat :=
  [COP_FUNCT_TLBWI_MULT, COP_FUNCT_TLBP, COP_FUNCT_TLBR_SUB, COP_FUNCT_ERET]

/-- The `rt` values that have a `case` in the `COP_BC` switch of
`r4300i_cp1_decode`. -/
def cp1_bc_rts : List Nat := [COP_BC_BCT, COP_BC_BCF, COP_BC_BCTL, COP_BC_BCFL]

/-- Scenario "undecodable word": the word 0x7C000000 (primary opcode 31, which
has no `case`) at 0xFFFFFFFF80001000, EXL clear, no interrupt pending. -/
def undecodable_state : r4300i_t :=
  { cpu_zero with
    pc := 0xFFFFFFFF80001000, next_pc := 0xFFFFFFFF80001004,
    cp0 := { cpu_zero.cp0 with compare := 0x1000 },
    mem := mem_of_words 0x1000 [0x7C000000] }

/-! ## Trap-immediate handlers and the `mips.c` variants compared with
`mips_instructions.c` -/

/-- Handler `mips_ri_tgeiu` (lines 1175-1182): `imm` is the `s16` immediate
converted to `u64`. -/
def mips_ri_tgeiu (_ext : Ext) (c : r4300i_t) (raw : Nat) : Option r4300i_t :=
  let rs := get_register c (instr_rs raw)
  let imm := sext16 (instr_immediate raw)
  if imm ≤ rs then r4300i_handle_exception c c.prev_pc EXCEPTION_TRAP 0
  else some c

/-- Handler `mips_ri_tltiu` (lines 1193-1200). -/
def mips_ri_tltiu (_ext : Ext) (c : r4300i_t) (raw : Nat) : Option r4300i_t :=
  let rs := get_register c (instr_rs raw)
  let imm := sext16 (instr_immediate raw)
  if rs < imm then r4300i_handle_exception c c.prev_pc EXCEPTION_TRAP 0
  else some c

/-- Handler `mips_spc_slt` of `mips.c` (lines 965-980): the `sdword` difference
`op1 - op2` wraps to 64 bits and its sign decides. -/
def mips_c_mips_spc_slt (c : r4300i_t) (raw : Nat) : r4300i_t :=
  let op1 := get_register c (instr_rs raw)
  let op2 := get_register c (instr_rt raw)
  let result := u64 (op1 + 0x10000000000000000 - op2)
  if toSigned 64 result < 0 then set_register c (instr_rd raw) 1
  else set_register c (instr_rd raw) 0

/-- The function `check_sword_add_overflow` (`mips.c` lines 3-13) on three
`sword` patterns; `none` is its fatal diagnostic "Integer overflow
exception". -/
def check_sword_add_overflow (addend1 addend2 result : Nat) : Option Unit :=
  if 0 < toSigned 32 addend1 ∧ 0 < toSigned 32 addend2 then
    if toSigned 32 result < 0 then none else some ()
  else if toSigned 32 addend1 < 0 ∧ toSigned 32 addend2 < 0 then
    if 0 < toSigned 32 result then none else some ()
  else some ()

/-- The function `check_sdword_add_overflow` (`mips.c` lines 15-25). -/
def check_sdword_add_overflow (addend1 addend2 result : Nat) : Option Unit :=
  if 0 < toSigned 64 addend1 ∧ 0 < toSigned 64 addend2 then
    if toSigned 64 result < 0 then none else some ()
  else if toSigned 64 addend1 < 0 ∧ toSigned 64 addend2 < 0 then
    if 0 < toSigned 64 result then none else some ()
  else some ()

/-- Scenario "SLT across the signed range": rs = r1 = INT64_MIN and rt = r2 = 1,
for the word `SLT r3, r1, r2`. -/
def slt_overflow_state : r4300i_t :=
  { cpu_zero with
    gpr := fun i => if i = 1 then 0x8000000000000000 else if i = 2 then 1 else 0 }

/-! ## Portable 64 x 64 -> 128 multiplication -/

/-- The sum assigned to `cross` in the portable branch of `multu_64_to_128`
(line 47), before it is stored into a `uint64_t`; the four partial products are
`uint64_t` values. -/
def multu_cross_sum (lhs rhs : Nat) : Nat :=
  let lo_lo := u64 ((lhs &&& 0xFFFFFFFF) * (rhs &&& 0xFFFFFFFF))
  let hi_lo := u64 ((lhs >>> 32) * (rhs &&& 0xFFFFFFFF))
  let lo_hi := u64 ((lhs &&& 0xFFFFFFFF) * (rhs >>> 32))
  (lo_lo >>> 32) + (hi_lo &&& 0xFFFFFFFF) + lo_hi

/-- The sum assigned to `upper` in the portable branch of `multu_64_to_128`
(line 48), before it is stored into a `uint64_t`. -/
def multu_upper_sum (lhs rhs : Nat) : Nat :=
  let hi_lo := u64 ((lhs >>> 32) * (rhs &&& 0xFFFFFFFF))
  let hi_hi := u64 ((lhs >>> 32) * (rhs >>> 32))
  let cross := u64 (multu_cross_sum lhs rhs)
  (hi_lo >>> 32) + (cross >>> 32) + hi_hi

/-- The function `multu_64_to_128` (lines 15-53), portable branch (lines
41-51): the low half, and the high half stored through `high`. -/
def multu_64_to_128_portable (lhs rhs : Nat) : Nat × Nat :=
  let lo_lo := u64 ((lhs &&& 0xFFFFFFFF) * (rhs &&& 0xFFFFFFFF))
  let cross := u64 (multu_cross_sum lhs rhs)
  let upper := u64 (multu_upper_sum lhs rhs)
  (u64 (cross <<< 32) ||| (lo_lo &&& 0xFFFFFFFF), upper)

/-- Scenario "masked pending interrupt": as the pending-interrupt scenario with
Status.bev clear, but IP = 5 (lines 0 and 2 pending), IM = 1, so that the
summary `interrupts` is 1, and Cause.coprocessor_error = 0. -/
def masked_interrupt_state : r4300i_t :=
  { interrupt_state false with
    interrupts := 1,
    cp0 := { (interrupt_state false).cp0 with
      status := { ie := true, exl := false, erl := false, im := 1, bev := false },
      cause := { cpu_zero.cp0.cause with interrupt_pending := 5 } } }

/-- Handler `mips_lwl` of `mips.c` (lines 701-712): the address is a `word`, the
bus is read through `cpu->read_word`, and the register is written only when the
memory word is non-zero. -/
def mips_c_mips_lwl (ext : Ext) (c : r4300i_t) (raw : Nat) : r4300i_t :=
  let address := effective_address_word c raw
  let shift := 8 * ((address ^^^ 0) &&& 3)
  let mask := u32 (0xFFFFFFFF <<< shift)
  let data := u32 (ext.read_word c (address &&& 0xFFFFFFFC))
  if data ≠ 0 then
    let result := (get_register c (instr_rt raw) &&& bnot 32 mask) ||| u32 (data <<< shift)
    set_register c (instr_rt raw) (sext32 result)
  else c

/-- Handler `mips_lwr` of `mips.c` (lines 714-726). -/
def mips_c_mips_lwr (ext : Ext) (c : r4300i_t) (raw : Nat) : r4300i_t :=
  let address := effective_address_word c raw
  let shift := 8 * ((address ^^^ 3) &&& 3)
  let mask := 0xFFFFFFFF >>> shift
  let data := u32 (ext.read_word c (address &&& 0xFFFFFFFC))
  if data ≠ 0 then
    let result := (get_register c (instr_rt raw) &&& bnot 32 mask) ||| (data >>> shift)
    set_register c (instr_rt raw) (sext32 result)
  else c

/-- Scenario "LWL of a zero word": r1 = 0xFFFFFFFF80000100 is a kseg0 address,
r2 = 0x1234 and memory is all zero, for the words `LWL r2, 0(r1)` and
`LWR r2, 3(r1)`. -/
def zero_word_state : r4300i_t :=
  { cpu_zero with
    gpr := fun i => if i = 1 then 0xFFFFFFFF80000100 else if i = 2 then 0x1234 else 0 }

/-! ## RSP test runner (`tests/test_rsp.c`) -/

/-- The parts of the system that `run_test` reads or writes itself: the flag
`rsp.status.halt`, `rsp.pc`, the bytes of `mem.sp_dmem`, and every other
register of the RSP behind the index `core`. -/
structure rsp_test_system_t where
  halt : Bool
  pc : Nat
  sp_dmem : Nat → Nat
  core : Nat → Nat

/-- Collaborators of the test runner that are not in the sources: the function
pointer `rsp.write_word`, `rsp_step`, and the comparison of the RSP registers
with the next line of the log file (lines 98-166 of `run_test`; `false` when it
ends in a fatal diagnostic, `true` also at the end of the log). -/
structure TestExt where
  write_word : rsp_test_system_t → Nat → Nat → rsp_test_system_t
  rsp_step : rsp_test_system_t → rsp_test_system_t
  log_line_ok : Nat → Nat → rsp_test_system_t → Bool

/-- One subtest of `main`: the next `input_size` bytes of the input file as
words, the next `output_size` bytes of the golden file, and the log file. -/
structure rsp_subtest_t where
  input : Nat → Nat
  output : Nat → Nat
  log : Nat

/-- The constant `MAX_CYCLES`. -/
def MAX_CYCLES : Nat := 100000

/-- The function `load_rsp_dmem` (lines 24-30). -/
def load_rsp_dmem (x : TestExt) (s : rsp_test_system_t) (input : Nat → Nat)
    (input_size : Nat) : rsp_test_system_t :=
  (List.range input_size).foldl (fun s i => x.write_word s (i * 4) (input i)) s

/-- The `while (!system->rsp.status.halt)` loop of `run_test` (lines 94-170),
entered with `cycles` cycles done; `none` is a fatal diagnostic.  The loop body
runs at most `MAX_CYCLES` times, so the recursion on `n` started from
`MAX_CYCLES + 1` never reaches zero. -/
def run_until_halt (x : TestExt) (log : Nat) :
    Nat → Nat → rsp_test_system_t → Option rsp_test_system_t
  | 0, _, _ => none
  | n + 1, cycles, s =>
    if s.halt then some s
    else if MAX_CYCLES ≤ cycles then none
    else if x.log_line_ok log cycles s then
      run_until_halt x log n (cycles + 1) (x.rsp_step s)
    else none

/-- The second inner loop of `run_test` (lines 191-210) for the row starting at
byte `i`: `failed` is set when a byte in range differs. -/
def compare_row (sp_dmem output : Nat → Nat) (output_size i : Nat) (failed : Bool) : Bool :=
  (List.range 16).foldl (fun f b =>
    if i + b < output_size then
      if sp_dmem (0x800 + i + b) ≠ output (i + b) then true else f
    else f) failed

/-- The comparison loop of `run_test` (lines 172-218): rows of 16 bytes from
`i = 0` while `i < output_size`. -/
def compare_output (sp_dmem output : Nat → Nat) (output_size : Nat) : Bool :=
  (List.range ((output_size + 15) / 16)).foldl
    (fun f r => compare_row sp_dmem output output_size (16 * r) f) false

/-- The function `run_test` (lines 86-219): the system afterwards and the
returned `failed`, or `none` when it ends in a fatal diagnostic. -/
def run_test (x : TestExt) (s : rsp_test_system_t) (t : rsp_subtest_t)
    (input_size output_size : Nat) : Option (rsp_test_system_t × Bool) :=
  let s1 := load_rsp_dmem x s t.input (input_size / 4)
  let s2 : rsp_test_system_t := { s1 with halt := false, pc := 0 }
  match run_until_halt x t.log (MAX_CYCLES + 1) 0 s2 with
  | none => none
  | some s3 => some (s3, compare_output s3.sp_dmem t.output output_size)

/-- The subtest loop of `main` (lines 264-290): the value of `failed` at its
end. -/
def main_subtests (x : TestExt) (input_size output_size : Nat) :
    List rsp_subtest_t → rsp_test_system_t → Bool → Option Bool
  | [], _, failed => some failed
  | t :: ts, s, failed =>
    match run_test x s t input_size output_size with
    | none => none
    | some (s1, subtest_failed) =>
      if failed || subtest_failed then some true
      else main_subtests x input_size output_size ts s1 (failed || subtest_failed)

/-- The function `main` (lines 227-294) from the loaded system `s` on: the exit
status, or `none` when a fatal diagnostic ends the process.  `tests` are the
subtests named by `argv[4..]`. -/
def test_main (x : TestExt) (input_size output_size : Nat) (tests : List rsp_subtest_t)
    (s : rsp_test_system_t) : Option Nat :=
  if tests.length = 0 then none
  else if input_size % 4 ≠ 0 then none
  else if output_size % 4 ≠ 0 then none
  else
    match main_subtests x input_size output_size tests s false with
    | none => none
    | some failed => some (if failed then 1 else 0)

/-- The system after the subtests `tests` have all run from `s` and passed
(`run_test` returned `false` for each), `none` when one of them did not. -/
def after_passing (x : TestExt) (input_size output_size : Nat) :
    List rsp_subtest_t → rsp_test_system_t → Option rsp_test_system_t
  | [], s => some s
  | t :: ts, s =>
    match run_test x s t input_size output_size with
    | some (s1, false) => after_passing x input_size output_size ts s1
    | _ => none

/-- Collaborators for the test-runner scenario: `write_word` stores the low
byte of the value at the address, one `rsp_step` halts the RSP, every log line
matches. -/
def halting_test_ext : TestExt :=
  { write_word := fun s a v => { s with sp_dmem := fun i => if i = a then v % 256 else s.sp_dmem i },
    rsp_step := fun s => { s with halt := true },
    log_line_ok := fun _ _ _ => true }

/-- A halted RSP with zeroed data memory. -/
def rsp_test_zero : rsp_test_system_t :=
  { halt := true, pc := 0, sp_dmem := fun _ => 0, core := fun _ => 0 }

/-- A subtest with empty input whose golden output is `output`. -/
def subtest_of (output : Nat → Nat) : rsp_subtest_t :=
  { input := fun _ => 0, output := output, log := 0 }

/-! ## Lemmas on bit extraction -/

theorem shift_and_one_eq (x k : Nat) : (x >>> k) &&& 1 = (x.testBit k).toNat := by
  rw [Nat.and_one_is_mod, Nat.shiftRight_eq_div_pow, Nat.testBit_to_div_mod]
  rcases Nat.mod_two_eq_zero_or_one (x / 2 ^ k) with h | h <;> simp [h]

theorem testBit_msb (bits x : Nat) (hb : 0 < bits) (hx : x < 2 ^ bits) :
    x.testBit (bits - 1) = decide (2 ^ (bits - 1) ≤ x) := by
  have hp : 2 ^ bits = 2 * 2 ^ (bits - 1) := by
    rw [← pow_succ']
    congr 1
    omega
  rw [Nat.testBit_to_div_mod]
  have hlt : x / 2 ^ (bits - 1) < 2 := by
    apply Nat.div_lt_of_lt_mul
    rw [Nat.mul_comm]
    omega
  by_cases h : 2 ^ (bits - 1) ≤ x
  · have : 0 < x / 2 ^ (bits - 1) := Nat.div_pos h (by positivity)
    have : x / 2 ^ (bits - 1) % 2 = 1 := by omega
    simp [this, h]
  · have : x / 2 ^ (bits - 1) = 0 := Nat.div_eq_of_lt (by omega)
    simp [this, h]

theorem testBit_bnot_msb (bits x : Nat) (hb : 0 < bits) :
    (bnot bits x).testBit (bits - 1) = !(x.testBit (bits - 1)) := by
  unfold bnot
  rw [Nat.testBit_xor, Nat.testBit_two_pow_sub_one]
  have : bits - 1 < bits := by omega
  simp [this]

theorem overflow_add_bits (bits a b r : Nat) (hb : 0 < bits)
    (ha : a < 2 ^ bits) (hbb : b < 2 ^ bits) (hr : r < 2 ^ bits) :
    (check_signed_overflow_add bits a b r = 1 ↔
      ((2 ^ (bits - 1) ≤ a ↔ 2 ^ (bits - 1) ≤ b) ∧ ¬ (2 ^ (bits - 1) ≤ a ↔ 2 ^ (bits - 1) ≤ r))) := by
  unfold check_signed_overflow_add
  rw [shift_and_one_eq, Nat.testBit_and, testBit_bnot_msb _ _ hb, Nat.testBit_xor, Nat.testBit_xor,
    testBit_msb bits a hb ha, testBit_msb bits b hb hbb, testBit_msb bits r hb hr]
  by_cases h1 : 2 ^ (bits - 1) ≤ a <;> by_cases h2 : 2 ^ (bits - 1) ≤ b <;>
    by_cases h3 : 2 ^ (bits - 1) ≤ r <;> simp [h1, h2, h3]

theorem overflow_sub_bits (bits a b r : Nat) (hb : 0 < bits)
    (ha : a < 2 ^ bits) (hbb : b < 2 ^ bits) (hr : r < 2 ^ bits) :
    (check_signed_overflow_sub bits a b r = 1 ↔
      (¬ (2 ^ (bits - 1) ≤ a ↔ 2 ^ (bits - 1) ≤ b) ∧ ¬ (2 ^ (bits - 1) ≤ a ↔ 2 ^ (bits - 1) ≤ r))) := by
  unfold check_signed_overflow_sub
  rw [shift_and_one_eq, Nat.testBit_and, Nat.testBit_xor, Nat.testBit_xor,
    testBit_msb bits a hb ha, testBit_msb bits b hb hbb, testBit_msb bits r hb hr]
  by_cases h1 : 2 ^ (bits - 1) ≤ a <;> by_cases h2 : 2 ^ (bits - 1) ≤ b <;>
    by_cases h3 : 2 ^ (bits - 1) ≤ r <;> simp [h1, h2, h3]

theorem overflow_add_32 (a b : Nat) (ha : a < 0x100000000) (hb : b < 0x100000000) :
    (check_signed_overflow_add 32 a b (u32 (a + b)) = 1 ↔
      ¬ fitsSigned 32 (toSigned 32 a + toSigned 32 b)) := by
  have hr : u32 (a + b) < 2 ^ 32 := Nat.mod_lt _ (by norm_num)
  rw [overflow_add_bits 32 a b _ (by norm_num) (by norm_num; exact ha) (by norm_num; exact hb) hr]
  unfold u32 fitsSigned toSigned
  norm_num
  split_ifs <;> omega

theorem overflow_sub_32 (a b : Nat) (ha : a < 0x100000000) (hb : b < 0x100000000) :
    (check_signed_overflow_sub 32 a b (u32 (a + 0x100000000 - b)) = 1 ↔
      ¬ fitsSigned 32 (toSigned 32 a - toSigned 32 b)) := by
  have hr : u32 (a + 0x100000000 - b) < 2 ^ 32 := Nat.mod_lt _ (by norm_num)
  rw [overflow_sub_bits 32 a b _ (by norm_num) (by norm_num; exact ha) (by norm_num; exact hb) hr]
  unfold u32 fitsSigned toSigned
  norm_num
  split_ifs <;> omega

theorem overflow_add_64 (a b : Nat) (ha : a < 0x10000000000000000)
    (hb : b < 0x10000000000000000) :
    (check_signed_overflow_add 64 a b (u64 (a + b)) = 1 ↔
      ¬ fitsSigned 64 (toSigned 64 a + toSigned 64 b)) := by
  have hr : u64 (a + b) < 2 ^ 64 := Nat.mod_lt _ (by norm_num)
  rw [overflow_add_bits 64 a b _ (by norm_num) (by norm_num; exact ha) (by norm_num; exact hb) hr]
  unfold u64 fitsSigned toSigned
  norm_num
  split_ifs <;> omega

theorem overflow_sub_64 (a b : Nat) (ha : a < 0x10000000000000000)
    (hb : b < 0x10000000000000000) :
    (check_signed_overflow_sub 64 a b (u64 (a + 0x10000000000000000 - b)) = 1 ↔
      ¬ fitsSigned 64 (toSigned 64 a - toSigned 64 b)) := by
  have hr : u64 (a + 0x10000000000000000 - b) < 2 ^ 64 := Nat.mod_lt _ (by norm_num)
  rw [overflow_sub_bits 64 a b _ (by norm_num) (by norm_num; exact ha) (by norm_num; exact hb) hr]
  unfold u64 fitsSigned toSigned
  norm_num
  split_ifs <;> omega

theorem u32_lt (x : Nat) : u32 x < 0x100000000 := Nat.mod_lt _ (by norm_num)

theorem u64_lt (x : Nat) : u64 x < 0x10000000000000000 := Nat.mod_lt _ (by norm_num)

/-! ## Claims -/

/-- C1: for every pair of operands, the overflow test of ADD, ADDI and SUB (32
bits, on the low words of the operands) and of DADD, DADDI and DSUB (64 bits)
yields 1 exactly when the exact signed sum (for add) or difference (for sub)
of the operands lies outside the signed range of that width.  The operands
and the wrapped result have the shape the handlers pass to the macros. -/
theorem C1_overflow_test_exact (a b : Nat) :
    (check_signed_overflow_add 32 (u32 a) (u32 b) (u32 (u32 a + u32 b)) = 1 ↔
        ¬ fitsSigned 32 (toSigned 32 (u32 a) + toSigned 32 (u32 b)))
    ∧ (check_signed_overflow_sub 32 (u32 a) (u32 b) (u32 (u32 a + 0x100000000 - u32 b)) = 1 ↔
        ¬ fitsSigned 32 (toSigned 32 (u32 a) - toSigned 32 (u32 b)))
    ∧ (check_signed_overflow_add 64 (u64 a) (u64 b) (u64 (u64 a + u64 b)) = 1 ↔
        ¬ fitsSigned 64 (toSigned 64 (u64 a) + toSigned 64 (u64 b)))
    ∧ (check_signed_overflow_sub 64 (u64 a) (u64 b)
          (u64 (u64 a + 0x10000000000000000 - u64 b)) = 1 ↔
        ¬ fitsSigned 64 (toSigned 64 (u64 a) - toSigned 64 (u64 b))) :=
  ⟨overflow_add_32 _ _ (u32_lt a) (u32_lt b), overflow_sub_32 _ _ (u32_lt a) (u32_lt b),
   overflow_add_64 _ _ (u64_lt a) (u64_lt b), overflow_sub_64 _ _ (u64_lt a) (u64_lt b)⟩

/-! ### Exception engine -/

theorem handle_exception_some (c : r4300i_t) (pc code : Nat) (ce : Int)
    (hb : ¬ (c.branch = true ∧ c.cp0.status.exl = true)) (hbev : c.cp0.status.bev = false)
    (hcode : code = EXCEPTION_INTERRUPT ∨ code = EXCEPTION_COPROCESSOR_UNUSABLE) :
    ∃ c1, exception_entry c pc code ce = some c1 ∧
      c1.cp0.status.bev = false ∧
      r4300i_handle_exception c pc code ce =
        some { cp0_status_updated (set_pc_word_r4300i c1 0x80000180) with exception := true } := by
  have he : ∃ c1, exception_entry c pc code ce = some c1 ∧ c1.cp0.status.bev = false := by
    unfold exception_entry
    cases hbr : c.branch <;> cases hexl : c.cp0.status.exl <;>
      simp_all <;> split <;> simp_all
  obtain ⟨c1, h1, h2⟩ := he
  refine ⟨c1, h1, h2, ?_⟩
  unfold r4300i_handle_exception
  rw [h1]
  unfold exception_vector
  rcases hcode with h | h <;> simp [h, h2, EXCEPTION_INTERRUPT, EXCEPTION_COPROCESSOR_UNUSABLE]

theorem exception_entry_spec (c : r4300i_t) (pc code : Nat) (ce : Int)
    (hb : ¬ (c.branch = true ∧ c.cp0.status.exl = true)) :
    ∃ c1, exception_entry c pc code ce = some c1 ∧
      c1.cp0.cause.branch_delay = c.branch ∧ c1.branch = false ∧
      c1.cp0.status.exl = true ∧
      c1.cp0.EPC = (if c.cp0.status.exl = true then c.cp0.EPC
        else if c.branch = true then u64 (pc + 0x10000000000000000 - 4) else pc) ∧
      c1.cp0.cause.exception_code = code % 32 ∧
      c1.cp0.status.bev = c.cp0.status.bev ∧
      c1.cp0.status.erl = c.cp0.status.erl ∧
      c1.gpr = c.gpr ∧ c1.mult_hi = c.mult_hi ∧ c1.mult_lo = c.mult_lo ∧
      c1.llbit = c.llbit ∧ c1.mem = c.mem := by
  unfold exception_entry
  cases hbr : c.branch <;> cases hexl : c.cp0.status.exl <;>
    simp_all <;> split <;> simp_all

theorem set_pc_status (c : r4300i_t) (v : Nat) :
    (cp0_status_updated (set_pc_word_r4300i c v)).cp0 = c.cp0 := rfl

/-- C6 (amended): for every CPU state with BEV clear and not both the branch
flag and EXL set, every faulting pc, and the codes INTERRUPT and
COPROCESSOR_UNUSABLE (the inputs on which the handler returns),
`r4300i_handle_exception` sets Cause.branch_delay to 1 and uses pc-4 as the
exception PC when the branch flag is set, sets Cause.branch_delay to 0 and uses
pc otherwise; it writes that exception PC to EPC when EXL was clear on entry
and leaves EPC unchanged when EXL was set; EXL is set afterwards and the branch
flag is clear. -/
theorem C6_exception_entry_bookkeeping (c : r4300i_t) (pc code : Nat) (ce : Int)
    (hb : ¬ (c.branch = true ∧ c.cp0.status.exl = true)) (hbev : c.cp0.status.bev = false)
    (hcode : code = EXCEPTION_INTERRUPT ∨ code = EXCEPTION_COPROCESSOR_UNUSABLE) :
    ∃ c', r4300i_handle_exception c pc code ce = some c' ∧
      c'.cp0.cause.branch_delay = c.branch ∧
      c'.cp0.EPC = (if c.cp0.status.exl = true then c.cp0.EPC
        else if c.branch = true then u64 (pc + 0x10000000000000000 - 4) else pc) ∧
      c'.cp0.status.exl = true ∧
      c'.branch = false := by
  obtain ⟨c1, h1, h2, h3, h4, h5, -⟩ := exception_entry_spec c pc code ce hb
  obtain ⟨c2, h1', -, hres⟩ := handle_exception_some c pc code ce hb hbev hcode
  rw [h1] at h1'
  cases h1'
  exact ⟨_, hres, h2, h5, h4, h3⟩

/-- Witness of C6: an interrupt taken in a delay slot at 0xFFFFFFFF80001004. -/
theorem C6_exception_entry_bookkeeping_witness :
    ∃ c', r4300i_handle_exception { cpu_zero with branch := true } 0xFFFFFFFF80001004
        EXCEPTION_INTERRUPT (-1) = some c' ∧
      c'.cp0.cause.branch_delay = true ∧
      c'.cp0.EPC = 0xFFFFFFFF80001000 ∧
      c'.cp0.status.exl = true ∧
      c'.branch = false := by
  have h := C6_exception_entry_bookkeeping { cpu_zero with branch := true } 0xFFFFFFFF80001004
    EXCEPTION_INTERRUPT (-1) (by simp [cpu_zero]) rfl (Or.inl rfl)
  obtain ⟨c', h1, h2, h3, h4, h5⟩ := h
  exact ⟨c', h1, h2, by rw [h3]; simp [cpu_zero, u64], h4, h5⟩

/-- Counterexample to C6 as stated: on an arithmetic-overflow code, on a state
with BEV set, and on a state with both the branch flag and EXL set, the handler
ends in a fatal diagnostic, so no EPC, branch_delay or EXL "afterwards"
exists. -/
theorem C6_counterexample :
    r4300i_handle_exception cpu_zero 0xFFFFFFFF80001000 EXCEPTION_ARITHMETIC_OVERFLOW 0 = none
    ∧ r4300i_handle_exception
        { cpu_zero with cp0 := { cpu_zero.cp0 with status := { cpu_zero.cp0.status with bev := true } } }
        0xFFFFFFFF80001000 EXCEPTION_INTERRUPT (-1) = none
    ∧ r4300i_handle_exception
        { cpu_zero with branch := true,
                        cp0 := { cpu_zero.cp0 with status := { cpu_zero.cp0.status with exl := true } } }
        0xFFFFFFFF80001000 EXCEPTION_INTERRUPT (-1) = none := by
  refine ⟨rfl, rfl, rfl⟩

/-- C7 (amended): `r4300i_handle_exception` returns exactly when BEV is clear,
the code is INTERRUPT or COPROCESSOR_UNUSABLE and not both the branch flag and
EXL are set; it then redirects execution to the vector 0x80000180 (the PC is
that word sign-extended, `next_pc` follows it, and the `exception` flag is
set).  For every other exception code, and for every code when BEV is set, it
ends in a fatal diagnostic. -/
theorem C7_exception_vector (c : r4300i_t) (pc code : Nat) (ce : Int) :
    ((∃ c', r4300i_handle_exception c pc code ce = some c') ↔
      (¬ (c.branch = true ∧ c.cp0.status.exl = true) ∧ c.cp0.status.bev = false ∧
        (code = EXCEPTION_INTERRUPT ∨ code = EXCEPTION_COPROCESSOR_UNUSABLE)))
    ∧ (∀ c', r4300i_handle_exception c pc code ce = some c' →
        c'.pc = 0xFFFFFFFF80000180 ∧ u32 c'.pc = 0x80000180 ∧
        c'.next_pc = 0xFFFFFFFF80000184 ∧ c'.exception = true) := by
  have key : ∀ c', r4300i_handle_exception c pc code ce = some c' →
      (¬ (c.branch = true ∧ c.cp0.status.exl = true) ∧ c.cp0.status.bev = false ∧
        (code = EXCEPTION_INTERRUPT ∨ code = EXCEPTION_COPROCESSOR_UNUSABLE)) := by
    intro c' h
    by_cases hb : (c.branch = true ∧ c.cp0.status.exl = true)
    · simp [r4300i_handle_exception, exception_entry, hb.1, hb.2] at h
    · obtain ⟨c1, h1, -, -, -, -, -, hbev, -⟩ := exception_entry_spec c pc code ce hb
      simp only [r4300i_handle_exception, h1, exception_vector, hbev] at h
      refine ⟨hb, ?_, ?_⟩
      · cases hv : c.cp0.status.bev
        · rfl
        · simp [hv] at h
      · by_cases h0 : code = EXCEPTION_INTERRUPT
        · exact Or.inl h0
        · by_cases h11 : code = EXCEPTION_COPROCESSOR_UNUSABLE
          · exact Or.inr h11
          · cases hv : c.cp0.status.bev <;> simp [hv, h0, h11] at h
  refine ⟨⟨fun ⟨c', h⟩ => key c' h, fun ⟨hb, hbev, hcode⟩ => ?_⟩, ?_⟩
  · obtain ⟨c1, -, -, hres⟩ := handle_exception_some c pc code ce hb hbev hcode
    exact ⟨_, hres⟩
  · intro c' h
    obtain ⟨hb, hbev, hcode⟩ := key c' h
    obtain ⟨c1, -, -, hres⟩ := handle_exception_some c pc code ce hb hbev hcode
    rw [hres] at h
    cases h
    refine ⟨rfl, ?_, rfl, rfl⟩
    show u32 (sext32 0x80000180) = 0x80000180
    decide

/-- Witness of C7: an interrupt on the zero CPU is redirected to 0x80000180. -/
theorem C7_exception_vector_witness :
    ∃ c', r4300i_handle_exception cpu_zero 0xFFFFFFFF80001000 EXCEPTION_INTERRUPT (-1) = some c' ∧
      c'.pc = 0xFFFFFFFF80000180 ∧ u32 c'.pc = 0x80000180 := by
  obtain ⟨c', h⟩ := (C7_exception_vector cpu_zero 0xFFFFFFFF80001000 EXCEPTION_INTERRUPT (-1)).1.mpr
    ⟨by simp [cpu_zero], rfl, Or.inl rfl⟩
  have h2 := (C7_exception_vector cpu_zero 0xFFFFFFFF80001000 EXCEPTION_INTERRUPT (-1)).2 c' h
  exact ⟨c', h, h2.1, h2.2.1⟩

/-- Counterexample to C7 as stated: an arithmetic overflow with BEV clear, and
a coprocessor-unusable exception with BEV set, end in a fatal diagnostic. -/
theorem C7_counterexample :
    r4300i_handle_exception cpu_zero 0xFFFFFFFF80001000 EXCEPTION_ARITHMETIC_OVERFLOW 0 = none
    ∧ r4300i_handle_exception
        { cpu_zero with cp0 := { cpu_zero.cp0 with status := { cpu_zero.cp0.status with bev := true } } }
        0xFFFFFFFF80001000 EXCEPTION_COPROCESSOR_UNUSABLE 1 = none := by
  refine ⟨rfl, rfl⟩

/-! ### ERET -/

/-- C8 (amended): for every CPU state, ERET of `mips_instructions.c` sets the
PC to ErrorEPC and clears ERL when ERL is set, and otherwise sets the PC to EPC
and clears EXL; the other of the two status bits is unchanged and `llbit` is
false afterwards.  ERET of `mips.c` sets the PC and clears the status bit in
the same way and leaves `llbit` as it was. -/
theorem C8_eret (ext : Ext) (c : r4300i_t) (raw : Nat) :
    (∃ c', mips_eret ext c raw = some c' ∧
      c'.pc = (if c.cp0.status.erl = true then c.cp0.error_epc else c.cp0.EPC) ∧
      c'.cp0.status.erl = false ∧
      c'.cp0.status.exl = (if c.cp0.status.erl = true then c.cp0.status.exl else false) ∧
      c'.llbit = false)
    ∧ ((mips_c_mips_eret c).pc = (if c.cp0.status.erl = true then c.cp0.error_epc else c.cp0.EPC) ∧
      (mips_c_mips_eret c).cp0.status.erl = false ∧
      (mips_c_mips_eret c).cp0.status.exl
        = (if c.cp0.status.erl = true then c.cp0.status.exl else false) ∧
      (mips_c_mips_eret c).llbit = c.llbit) := by
  constructor
  · refine ⟨_, rfl, ?_⟩
    cases h : c.cp0.status.erl <;>
      simp [h, cp0_status_updated, r4300i_interrupt_update, set_pc_dword_r4300i]
  · unfold mips_c_mips_eret
    cases h : c.cp0.status.erl <;> simp [h]

/-- Counterexample to C8 as stated: ERET of `mips.c` on a state with `llbit`
set returns with `llbit` still set. -/
theorem C8_counterexample :
    (mips_c_mips_eret { cpu_zero with llbit := true }).llbit = true := rfl

/-! ### Jump target -/

/-- C10 (amended): for every J or JAL at address `A` executed by `r4300i_step`
in sequence (`next_pc = A + 4`), with target field `T`, the jump target is
`T << 2` combined with the bits above bit 27 of `pc - 4`, which is the address
`A` of the jump instruction itself, and `branch_abs` records its low word. -/
theorem C10_jump_target (s : r4300i_t) (raw : Nat) (ext : Ext)
    (hA : s.pc < 0x10000000000000000) (hseq : s.next_pc = u64 (s.pc + 4)) :
    jump_target (r4300i_step_advance s) raw
        = (instr_target raw * 4) ||| (s.pc &&& 0xFFFFFFFFF0000000)
    ∧ (∃ c', mips_j ext (r4300i_step_advance s) raw = some c' ∧
        c'.branch_pc = u32 ((instr_target raw * 4) ||| (s.pc &&& 0xFFFFFFFFF0000000)))
    ∧ (∃ c', mips_jal ext (r4300i_step_advance s) raw = some c' ∧
        c'.branch_pc = u32 ((instr_target raw * 4) ||| (s.pc &&& 0xFFFFFFFFF0000000))) := by
  have hpc : u64 (u64 (s.pc + 4) + 0x10000000000000000 - 4) = s.pc := by
    unfold u64
    omega
  have h1 : jump_target (r4300i_step_advance s) raw
      = (instr_target raw * 4) ||| (s.pc &&& 0xFFFFFFFFF0000000) := by
    simp only [jump_target, r4300i_step_advance, hseq, hpc]
  refine ⟨h1, ⟨_, rfl, ?_⟩, ⟨_, rfl, ?_⟩⟩
  · simp only [branch_abs, h1]
  · have h2 : jump_target (link_r4300i (r4300i_step_advance s) R4300I_REG_LR) raw
        = jump_target (r4300i_step_advance s) raw := by
      simp [jump_target, link_r4300i, set_register, R4300I_REG_LR]
    simp only [branch_abs, h2, h1]

/-- Witness of C10: a J with target field 0 at 0xFFFFFFFF8FFFFFFC. -/
theorem C10_jump_target_witness :
    jump_target (r4300i_step_advance jump_state) 0x08000000
      = (instr_target 0x08000000 * 4) ||| (0xFFFFFFFF8FFFFFFC &&& 0xFFFFFFFFF0000000) :=
  (C10_jump_target jump_state 0x08000000 flat_ext (by decide) (by decide)).1

/-- Counterexample to C10 as stated: for the J at `A = 0xFFFFFFFF8FFFFFFC` with
target field 0, `r4300i_step` computes the target 0xFFFFFFFF80000000, built
from the upper bits of `A`, and records its low word 0x80000000; the upper bits
of the delay-slot address `A + 4` would give 0xFFFFFFFF90000000. -/
theorem C10_counterexample :
    (∃ c', r4300i_step flat_ext jump_state = some c' ∧ c'.branch_pc = 0x80000000 ∧
      c'.prev_pc = 0xFFFFFFFF8FFFFFFC ∧ c'.pc = 0xFFFFFFFF90000000)
    ∧ jump_target (r4300i_step_advance jump_state) 0x08000000 = 0xFFFFFFFF80000000
    ∧ (instr_target 0x08000000 * 4) ||| ((0xFFFFFFFF8FFFFFFC + 4) &&& 0xFFFFFFFFF0000000)
      = 0xFFFFFFFF90000000 := by
  refine ⟨⟨_, rfl, rfl, rfl, rfl⟩, ?_, ?_⟩ <;> decide

/-! ### Scenarios -/

theorem handle_exception_fatal (c : r4300i_t) (pc code : Nat) (ce : Int)
    (h0 : code ≠ EXCEPTION_INTERRUPT) (h11 : code ≠ EXCEPTION_COPROCESSOR_UNUSABLE) :
    r4300i_handle_exception c pc code ce = none := by
  unfold r4300i_handle_exception
  cases h : exception_entry c pc code ce with
  | none => rfl
  | some c1 =>
    simp only [exception_vector, h0, h11]
    cases c1.cp0.status.bev <;> simp

theorem step_count_pc (ext : Ext) (s : r4300i_t) :
    (r4300i_step_count ext s).pc = s.pc ∧ (r4300i_step_count ext s).gpr = s.gpr ∧
    (r4300i_step_count ext s).next_pc = s.next_pc ∧
    (r4300i_step_count ext s).branch = s.branch ∧
    (r4300i_step_count ext s).mult_hi = s.mult_hi ∧
    (r4300i_step_count ext s).mult_lo = s.mult_lo ∧
    (r4300i_step_count ext s).cp0.status = s.cp0.status ∧
    (r4300i_step_count ext s).cp0.EPC = s.cp0.EPC := by
  unfold r4300i_step_count
  simp only
  split <;> simp [r4300i_interrupt_update]

/-- C5 (code at the failing input): `r4300i_step` clears the branch flag before
it runs any handler, so the exception entry of an instruction in a delay slot
never sees the flag: for every state, entry from the state the handler runs in
leaves Cause.branch_delay 0 and, with EXL clear, puts the faulting PC itself in
EPC.  In the scenario (taken `BEQ` at `A`, `TEQ r0, r0` in its delay slot) the
branch step sets the flag, the next step clears it, the trap is raised with
`prev_pc = A + 4`, entry puts `A + 4` (not `A`) in EPC with branch_delay 0, and
the engine then ends in its fatal diagnostic for the trap code. -/
theorem C5_delay_slot_exception_sees_no_branch :
    (∀ (s s' : r4300i_t) (pc code : Nat) (ce : Int),
      exception_entry (r4300i_step_advance s) pc code ce = some s' →
        s'.cp0.cause.branch_delay = false ∧ (s.cp0.status.exl = false → s'.cp0.EPC = pc))
    ∧ (∃ c1, r4300i_step flat_ext delay_slot_state = some c1 ∧ c1.branch = true ∧
        c1.pc = 0xFFFFFFFF80001004 ∧
        u32 (flat_ext.read_word (r4300i_step_count flat_ext c1) c1.pc) = 0x34 ∧
        (r4300i_step_advance (r4300i_step_count flat_ext c1)).branch = false ∧
        run_handler flat_ext mipsinstr_handler_t.mips_spc_teq
            (r4300i_step_advance (r4300i_step_count flat_ext c1)) 0x34
          = r4300i_handle_exception (r4300i_step_advance (r4300i_step_count flat_ext c1))
              0xFFFFFFFF80001004 EXCEPTION_TRAP 0 ∧
        (∃ s', exception_entry (r4300i_step_advance (r4300i_step_count flat_ext c1))
              0xFFFFFFFF80001004 EXCEPTION_TRAP 0 = some s' ∧
            s'.cp0.EPC = 0xFFFFFFFF80001004 ∧ s'.cp0.cause.branch_delay = false) ∧
        r4300i_step flat_ext c1 = none) := by
  constructor
  · intro s s' pc code ce h
    have hb : ¬ ((r4300i_step_advance s).branch = true ∧
        (r4300i_step_advance s).cp0.status.exl = true) := by
      simp [r4300i_step_advance]
    obtain ⟨c1, h1, h2, -, -, h5, -⟩ := exception_entry_spec (r4300i_step_advance s) pc code ce hb
    rw [h1] at h
    cases h
    refine ⟨by rw [h2]; rfl, fun hexl => ?_⟩
    rw [h5]
    simp [r4300i_step_advance, hexl]
  · refine ⟨_, rfl, rfl, rfl, rfl, rfl, rfl, ⟨_, rfl, rfl, rfl⟩, rfl⟩

/-! ### Sign extension of 32-bit results -/

theorem isSext32_sext32 (x : Nat) : IsSext32 (sext32 x) := by
  unfold IsSext32 sext32
  split_ifs <;> omega

theorem isSext32_lui (i : Nat) : IsSext32 (u64 (sext16 i * 65536)) := by
  unfold IsSext32 sext32 u64 sext16
  split_ifs <;> omega

theorem isSext32_ofSigned (x : Nat) : IsSext32 (ofSigned 64 (toSigned 32 (u32 x))) := by
  unfold IsSext32 sext32 ofSigned toSigned u32
  norm_num
  split_ifs <;> omega

theorem writes_sext32 (c : r4300i_t) (r x : Nat) :
    WritesSext32 c r (some (set_register c r (sext32 x))) :=
  ⟨_, isSext32_sext32 x, rfl⟩

theorem raises_self (c : r4300i_t) (pc code : Nat) :
    RaisesException c (r4300i_handle_exception c pc code 0) :=
  ⟨c, pc, code, rfl, rfl, rfl, rfl⟩

theorem raises_tlb_fault (c : r4300i_t) (e : tlb_error_t) (address : Nat) (a : bus_access_t) :
    RaisesException c (tlb_fault c e address a) :=
  ⟨on_tlb_exception { c with cp0 := { c.cp0 with tlb_error := e } } address, _, _,
    rfl, rfl, rfl, rfl⟩

theorem raises_address_error (c : r4300i_t) (address pc code : Nat) :
    RaisesException c (r4300i_handle_exception (on_tlb_exception c address) pc code 0) :=
  ⟨on_tlb_exception c address, pc, code, rfl, rfl, rfl, rfl⟩

theorem sext32_add (ext : Ext) (c : r4300i_t) (raw : Nat) :
    RaisesException c (mips_spc_add ext c raw)
      ∨ WritesSext32 c (instr_rd raw) (mips_spc_add ext c raw) := by
  unfold mips_spc_add
  simp only
  split
  · exact Or.inl (raises_self _ _ _)
  · exact Or.inr (writes_sext32 _ _ _)

theorem sext32_addi (ext : Ext) (c : r4300i_t) (raw : Nat) :
    RaisesException c (mips_addi ext c raw)
      ∨ WritesSext32 c (instr_rt raw) (mips_addi ext c raw) := by
  unfold mips_addi
  simp only
  split
  · exact Or.inl (raises_self _ _ _)
  · exact Or.inr (writes_sext32 _ _ _)

theorem sext32_sub (ext : Ext) (c : r4300i_t) (raw : Nat) :
    RaisesException c (mips_spc_sub ext c raw)
      ∨ WritesSext32 c (instr_rd raw) (mips_spc_sub ext c raw) := by
  unfold mips_spc_sub
  simp only
  split
  · exact Or.inl (raises_self _ _ _)
  · exact Or.inr (writes_sext32 _ _ _)

theorem sext32_lw (ext : Ext) (c : r4300i_t) (raw : Nat) :
    RaisesException c (mips_lw ext c raw)
      ∨ WritesSext32 c (instr_rt raw) (mips_lw ext c raw) := by
  unfold mips_lw
  simp only
  split
  · exact Or.inl (raises_address_error _ _ _ _)
  · split
    · exact Or.inl (raises_tlb_fault _ _ _ _)
    · exact Or.inr (writes_sext32 _ _ _)

theorem sext32_lwl (ext : Ext) (c : r4300i_t) (raw : Nat) :
    RaisesException c (mips_lwl ext c raw)
      ∨ WritesSext32 c (instr_rt raw) (mips_lwl ext c raw) := by
  unfold mips_lwl
  simp only
  split
  · exact Or.inl (raises_tlb_fault _ _ _ _)
  · exact Or.inr (writes_sext32 _ _ _)

theorem sext32_lwr (ext : Ext) (c : r4300i_t) (raw : Nat) :
    RaisesException c (mips_lwr ext c raw)
      ∨ WritesSext32 c (instr_rt raw) (mips_lwr ext c raw) := by
  unfold mips_lwr
  simp only
  split
  · exact Or.inl (raises_tlb_fault _ _ _ _)
  · exact Or.inr (writes_sext32 _ _ _)

theorem sext32_div (ext : Ext) (c : r4300i_t) (raw : Nat) :
    WritesHiLoSext32 c (mips_spc_div ext c raw) := by
  unfold mips_spc_div
  simp only
  split
  · refine ⟨_, _, isSext32_ofSigned _, ?_, rfl⟩
    split
    · show IsSext32 0xFFFFFFFFFFFFFFFF
      unfold IsSext32
      decide
    · show IsSext32 1
      unfold IsSext32
      decide
  · exact ⟨_, _, isSext32_sext32 _, isSext32_sext32 _, rfl⟩

theorem sext32_divu (ext : Ext) (c : r4300i_t) (raw : Nat) :
    WritesHiLoSext32 c (mips_spc_divu ext c raw) := by
  unfold mips_spc_divu
  simp only
  split
  · refine ⟨_, _, isSext32_sext32 _, ?_, rfl⟩
    unfold IsSext32
    decide
  · exact ⟨_, _, isSext32_sext32 _, isSext32_sext32 _, rfl⟩

/-- C3: for every input state and instruction word, each 32-bit-result
operation either takes the exception path without writing (ADD, ADDI, SUB on
overflow; LW, LWL, LWR on an address or translation fault) or writes a value
that equals the sign-extension of its own low 32 bits: ADD, ADDU, SUB, SUBU,
SLL, SRL, SRA, SLLV, SRLV, SRAV to rd, ADDI, ADDIU, LUI, LW, LWL, LWR to rt,
and MULT, MULTU, DIV, DIVU to both HI and LO. -/
theorem C3_32bit_results_sign_extended (ext : Ext) (c : r4300i_t) (raw : Nat) :
    (RaisesException c (mips_spc_add ext c raw)
      ∨ WritesSext32 c (instr_rd raw) (mips_spc_add ext c raw))
    ∧ WritesSext32 c (instr_rd raw) (mips_spc_addu ext c raw)
    ∧ (RaisesException c (mips_addi ext c raw)
      ∨ WritesSext32 c (instr_rt raw) (mips_addi ext c raw))
    ∧ WritesSext32 c (instr_rt raw) (mips_addiu ext c raw)
    ∧ (RaisesException c (mips_spc_sub ext c raw)
      ∨ WritesSext32 c (instr_rd raw) (mips_spc_sub ext c raw))
    ∧ WritesSext32 c (instr_rd raw) (mips_spc_subu ext c raw)
    ∧ WritesSext32 c (instr_rd raw) (mips_spc_sll ext c raw)
    ∧ WritesSext32 c (instr_rd raw) (mips_spc_srl ext c raw)
    ∧ WritesSext32 c (instr_rd raw) (mips_spc_sra ext c raw)
    ∧ WritesSext32 c (instr_rd raw) (mips_spc_sllv ext c raw)
    ∧ WritesSext32 c (instr_rd raw) (mips_spc_srlv ext c raw)
    ∧ WritesSext32 c (instr_rd raw) (mips_spc_srav ext c raw)
    ∧ WritesSext32 c (instr_rt raw) (mips_lui ext c raw)
    ∧ (RaisesException c (mips_lw ext c raw)
      ∨ WritesSext32 c (instr_rt raw) (mips_lw ext c raw))
    ∧ (RaisesException c (mips_lwl ext c raw)
      ∨ WritesSext32 c (instr_rt raw) (mips_lwl ext c raw))
    ∧ (RaisesException c (mips_lwr ext c raw)
      ∨ WritesSext32 c (instr_rt raw) (mips_lwr ext c raw))
    ∧ WritesHiLoSext32 c (mips_spc_mult ext c raw)
    ∧ WritesHiLoSext32 c (mips_spc_multu ext c raw)
    ∧ WritesHiLoSext32 c (mips_spc_div ext c raw)
    ∧ WritesHiLoSext32 c (mips_spc_divu ext c raw) :=
  ⟨sext32_add ext c raw, writes_sext32 _ _ _, sext32_addi ext c raw, writes_sext32 _ _ _,
   sext32_sub ext c raw, writes_sext32 _ _ _, writes_sext32 _ _ _, writes_sext32 _ _ _,
   writes_sext32 _ _ _, writes_sext32 _ _ _, writes_sext32 _ _ _, writes_sext32 _ _ _,
   ⟨_, isSext32_lui _, rfl⟩, sext32_lw ext c raw, sext32_lwl ext c raw, sext32_lwr ext c raw,
   ⟨_, _, isSext32_sext32 _, isSext32_sext32 _, rfl⟩,
   ⟨_, _, isSext32_sext32 _, isSext32_sext32 _, rfl⟩,
   sext32_div ext c raw, sext32_divu ext c raw⟩

/-! ### Register 0 -/

theorem set_register_gpr0 (c : r4300i_t) (r v : Nat) : (set_register c r v).gpr 0 = c.gpr 0 := by
  unfold set_register
  split
  · rfl
  · next h =>
    have : ¬ (0 = r) := fun e => h e.symm
    simp [this]

theorem handle_exception_gpr (c c' : r4300i_t) (pc code : Nat) (ce : Int)
    (h : r4300i_handle_exception c pc code ce = some c') : c'.gpr = c.gpr := by
  by_cases hb : (c.branch = true ∧ c.cp0.status.exl = true)
  · simp [r4300i_handle_exception, exception_entry, hb.1, hb.2] at h
  · obtain ⟨c1, h1, -, -, -, -, -, -, -, hg, -⟩ := exception_entry_spec c pc code ce hb
    simp only [r4300i_handle_exception, h1, exception_vector] at h
    split at h
    · cases h
    · next c2 hv =>
      cases h
      split at hv
      · cases hv
      · split at hv
        · cases hv
          exact hg
        · split at hv
          · cases hv
            exact hg
          · cases hv

theorem keeps_none (c : r4300i_t) : KeepsZeroReg c none := by
  intro c' h
  cases h

theorem keeps_some (c x : r4300i_t) (h : x.gpr 0 = c.gpr 0) : KeepsZeroReg c (some x) := by
  intro c' e
  cases e
  exact h

theorem keeps_handle (c c1 : r4300i_t) (pc code : Nat) (ce : Int) (h : c1.gpr 0 = c.gpr 0) :
    KeepsZeroReg c (r4300i_handle_exception c1 pc code ce) := by
  intro c' e
  rw [handle_exception_gpr c1 c' pc code ce e]
  exact h

theorem keeps_tlb_fault (c c1 : r4300i_t) (e : tlb_error_t) (address : Nat) (a : bus_access_t)
    (h : c1.gpr 0 = c.gpr 0) : KeepsZeroReg c (tlb_fault c1 e address a) :=
  keeps_handle _ _ _ _ _ h

theorem branch_abs_gpr (c : r4300i_t) (a : Nat) : (branch_abs c a).gpr = c.gpr := rfl

theorem conditional_branch_gpr (c : r4300i_t) (o : Nat) (b : Bool) :
    (conditional_branch c o b).gpr = c.gpr := by
  unfold conditional_branch
  split <;> rfl

theorem conditional_branch_likely_gpr (c : r4300i_t) (o : Nat) (b : Bool) :
    (conditional_branch_likely c o b).gpr = c.gpr := by
  unfold conditional_branch_likely
  split <;> rfl

theorem mips_c_conditional_branch_likely_gpr (c : r4300i_t) (o : Nat) (b : Bool) :
    (mips_c_conditional_branch_likely c o b).gpr = c.gpr := by
  unfold mips_c_conditional_branch_likely
  split <;> rfl

theorem link_gpr0 (c : r4300i_t) (r : Nat) : (link_r4300i c r).gpr 0 = c.gpr 0 :=
  set_register_gpr0 _ _ _

theorem keeps_ll_finish (c c1 : r4300i_t) (raw address result physical : Nat)
    (h : c1.gpr 0 = c.gpr 0) : KeepsZeroReg c (mips_ll_finish c1 raw address result physical) := by
  unfold mips_ll_finish
  split
  · exact keeps_none _
  · apply keeps_some
    show (set_register c1 _ _).gpr 0 = c.gpr 0
    rw [set_register_gpr0, h]

theorem keeps_ll (ext : Ext) (c : r4300i_t) (raw : Nat) : KeepsZeroReg c (mips_ll ext c raw) := by
  unfold mips_ll
  simp only
  split
  · next e he =>
    split
    · exact keeps_none _
    · next c1 h1 =>
      apply keeps_ll_finish
      exact keeps_tlb_fault c c e _ _ rfl c1 h1
  · exact keeps_ll_finish _ _ _ _ _ _ rfl

theorem keeps_mips_addi (ext : Ext) (c : r4300i_t) (raw : Nat) :
    KeepsZeroReg c (mips_addi ext c raw) := by
  unfold mips_addi
  simp only []
  repeat' split
  all_goals first
    | exact keeps_none _
    | exact keeps_handle _ _ _ _ _ rfl
    | exact keeps_tlb_fault _ _ _ _ _ rfl
    | (apply keeps_some
       simp [set_register_gpr0, branch_abs_gpr, conditional_branch_gpr,
         conditional_branch_likely_gpr, link_gpr0, cp0_status_updated,
         r4300i_interrupt_update, set_pc_dword_r4300i])

theorem keeps_mips_addiu (ext : Ext) (c : r4300i_t) (raw : Nat) :
    KeepsZeroReg c (mips_addiu ext c raw) := by
  unfold mips_addiu
  simp only []
  all_goals first
    | exact keeps_none _
    | exact keeps_handle _ _ _ _ _ rfl
    | exact keeps_tlb_fault _ _ _ _ _ rfl
    | (apply keeps_some
       simp [set_register_gpr0, branch_abs_gpr, conditional_branch_gpr,
         conditional_branch_likely_gpr, link_gpr0, cp0_status_updated,
         r4300i_interrupt_update, set_pc_dword_r4300i])

theorem keeps_mips_andi (ext : Ext) (c : r4300i_t) (raw : Nat) :
    KeepsZeroReg c (mips_andi ext c raw) := by
  unfold mips_andi
  all_goals first
    | exact keeps_none _
    | exact keeps_handle _ _ _ _ _ rfl
    | exact keeps_tlb_fault _ _ _ _ _ rfl
    | (apply keeps_some
       simp [set_register_gpr0, branch_abs_gpr, conditional_branch_gpr,
         conditional_branch_likely_gpr, link_gpr0, cp0_status_updated,
         r4300i_interrupt_update, set_pc_dword_r4300i])

theorem keeps_mips_beq (ext : Ext) (c : r4300i_t) (raw : Nat) :
    KeepsZeroReg c (mips_beq ext c raw) := by
  unfold mips_beq
  all_goals first
    | exact keeps_none _
    | exact keeps_handle _ _ _ _ _ rfl
    | exact keeps_tlb_fault _ _ _ _ _ rfl
    | (apply keeps_some
       simp [set_register_gpr0, branch_abs_gpr, conditional_branch_gpr,
         conditional_branch_likely_gpr, link_gpr0, cp0_status_updated,
         r4300i_interrupt_update, set_pc_dword_r4300i])

theorem keeps_mips_beql (ext : Ext) (c : r4300i_t) (raw : Nat) :
    KeepsZeroReg c (mips_beql ext c raw) := by
  unfold mips_beql
  all_goals first
    | exact keeps_none _
    | exact keeps_handle _ _ _ _ _ rfl
    | exact keeps_tlb_fault _ _ _ _ _ rfl
    | (apply keeps_some
       simp [set_register_gpr0, branch_abs_gpr, conditional_branch_gpr,
         conditional_branch_likely_gpr, link_gpr0, cp0_status_updated,
         r4300i_interrupt_update, set_pc_dword_r4300i])

theorem keeps_mips_bgtz (ext : Ext) (c : r4300i_t) (raw : Nat) :
    KeepsZeroReg c (mips_bgtz ext c raw) := by
  unfold mips_bgtz
  all_goals first
    | exact keeps_none _
    | exact keeps_handle _ _ _ _ _ rfl
    | exact keeps_tlb_fault _ _ _ _ _ rfl
    | (apply keeps_some
       simp [set_register_gpr0, branch_abs_gpr, conditional_branch_gpr,
         conditional_branch_likely_gpr, link_gpr0, cp0_status_updated,
         r4300i_interrupt_update, set_pc_dword_r4300i])

theorem keeps_mips_bgtzl (ext : Ext) (c : r4300i_t) (raw : Nat) :
    KeepsZeroReg c (mips_bgtzl ext c raw) := by
  unfold mips_bgtzl
  all_goals first
    | exact keeps_none _
    | exact keeps_handle _ _ _ _ _ rfl
    | exact keeps_tlb_fault _ _ _ _ _ rfl
    | (apply keeps_some
       simp [set_register_gpr0, branch_abs_gpr, conditional_branch_gpr,
         conditional_branch_likely_gpr, link_gpr0, cp0_status_updated,
         r4300i_interrupt_update, set_pc_dword_r4300i])

theorem keeps_mips_blez (ext : Ext) (c : r4300i_t) (raw : Nat) :
    KeepsZeroReg c (mips_blez ext c raw) := by
  unfold mips_blez
  all_goals first
    | exact keeps_none _
    | exact keeps_handle _ _ _ _ _ rfl
    | exact keeps_tlb_fault _ _ _ _ _ rfl
    | (apply keeps_some
       simp [set_register_gpr0, branch_abs_gpr, conditional_branch_gpr,
         conditional_branch_likely_gpr, link_gpr0, cp0_status_updated,
         r4300i_interrupt_update, set_pc_dword_r4300i])

theorem keeps_mips_blezl (ext : Ext) (c : r4300i_t) (raw : Nat) :
    KeepsZeroReg c (mips_blezl ext c raw) := by
  unfold mips_blezl
  all_goals first
    | exact keeps_none _
    | exact keeps_handle _ _ _ _ _ rfl
    | exact keeps_tlb_fault _ _ _ _ _ rfl
    | (apply keeps_some
       simp [set_register_gpr0, branch_abs_gpr, conditional_branch_gpr,
         conditional_branch_likely_gpr, link_gpr0, cp0_status_updated,
         r4300i_interrupt_update, set_pc_dword_r4300i])

theorem keeps_mips_bne (ext : Ext) (c : r4300i_t) (raw : Nat) :
    KeepsZeroReg c (mips_bne ext c raw) := by
  unfold mips_bne
  all_goals first
    | exact keeps_none _
    | exact keeps_handle _ _ _ _ _ rfl
    | exact keeps_tlb_fault _ _ _ _ _ rfl
    | (apply keeps_some
       simp [set_register_gpr0, branch_abs_gpr, conditional_branch_gpr,
         conditional_branch_likely_gpr, link_gpr0, cp0_status_updated,
         r4300i_interrupt_update, set_pc_dword_r4300i])

theorem keeps_mips_bnel (ext : Ext) (c : r4300i_t) (raw : Nat) :
    KeepsZeroReg c (mips_bnel ext c raw) := by
  unfold mips_bnel
  all_goals first
    | exact keeps_none _
    | exact keeps_handle _ _ _ _ _ rfl
    | exact keeps_tlb_fault _ _ _ _ _ rfl
    | (apply keeps_some
       simp [set_register_gpr0, branch_abs_gpr, conditional_branch_gpr,
         conditional_branch_likely_gpr, link_gpr0, cp0_status_updated,
         r4300i_interrupt_update, set_pc_dword_r4300i])

theorem keeps_mips_cache (ext : Ext) (c : r4300i_t) (raw : Nat) :
    KeepsZeroReg c (mips_cache ext c raw) := by
  unfold mips_cache
  all_goals first
    | exact keeps_none _
    | exact keeps_handle _ _ _ _ _ rfl
    | exact keeps_tlb_fault _ _ _ _ _ rfl
    | (apply keeps_some
       simp [set_register_gpr0, branch_abs_gpr, conditional_branch_gpr,
         conditional_branch_likely_gpr, link_gpr0, cp0_status_updated,
         r4300i_interrupt_update, set_pc_dword_r4300i])

theorem keeps_mips_cfc1 (ext : Ext) (c : r4300i_t) (raw : Nat) :
    KeepsZeroReg c (mips_cfc1 ext c raw) := by
  unfold mips_cfc1
  repeat' split
  all_goals first
    | exact keeps_none _
    | exact keeps_handle _ _ _ _ _ rfl
    | exact keeps_tlb_fault _ _ _ _ _ rfl
    | (apply keeps_some
       simp [set_register_gpr0, branch_abs_gpr, conditional_branch_gpr,
         conditional_branch_likely_gpr, link_gpr0, cp0_status_updated,
         r4300i_interrupt_update, set_pc_dword_r4300i])

theorem keeps_mips_cp_absent (ext : Ext) (c : r4300i_t) (raw : Nat) :
    KeepsZeroReg c (mips_cp_absent ext c raw) := by
  unfold mips_cp_absent
  all_goals first
    | exact keeps_none _
    | exact keeps_handle _ _ _ _ _ rfl
    | exact keeps_tlb_fault _ _ _ _ _ rfl
    | (apply keeps_some
       simp [set_register_gpr0, branch_abs_gpr, conditional_branch_gpr,
         conditional_branch_likely_gpr, link_gpr0, cp0_status_updated,
         r4300i_interrupt_update, set_pc_dword_r4300i])

theorem keeps_mips_cp_arith (ext : Ext) (c : r4300i_t) (raw : Nat) :
    KeepsZeroReg c (mips_cp_arith ext c raw) := by
  unfold mips_cp_arith
  all_goals first
    | exact keeps_none _
    | exact keeps_handle _ _ _ _ _ rfl
    | exact keeps_tlb_fault _ _ _ _ _ rfl
    | (apply keeps_some
       simp [set_register_gpr0, branch_abs_gpr, conditional_branch_gpr,
         conditional_branch_likely_gpr, link_gpr0, cp0_status_updated,
         r4300i_interrupt_update, set_pc_dword_r4300i])

theorem keeps_mips_cp_bc1f (ext : Ext) (c : r4300i_t) (raw : Nat) :
    KeepsZeroReg c (mips_cp_bc1f ext c raw) := by
  unfold mips_cp_bc1f
  all_goals first
    | exact keeps_none _
    | exact keeps_handle _ _ _ _ _ rfl
    | exact keeps_tlb_fault _ _ _ _ _ rfl
    | (apply keeps_some
       simp [set_register_gpr0, branch_abs_gpr, conditional_branch_gpr,
         conditional_branch_likely_gpr, link_gpr0, cp0_status_updated,
         r4300i_interrupt_update, set_pc_dword_r4300i])

theorem keeps_mips_cp_bc1fl (ext : Ext) (c : r4300i_t) (raw : Nat) :
    KeepsZeroReg c (mips_cp_bc1fl ext c raw) := by
  unfold mips_cp_bc1fl
  all_goals first
    | exact keeps_none _
    | exact keeps_handle _ _ _ _ _ rfl
    | exact keeps_tlb_fault _ _ _ _ _ rfl
    | (apply keeps_some
       simp [set_register_gpr0, branch_abs_gpr, conditional_branch_gpr,
         mips_c_conditional_branch_likely_gpr, link_gpr0, cp0_status_updated,
         r4300i_interrupt_update, set_pc_dword_r4300i])

theorem keeps_mips_cp_bc1t (ext : Ext) (c : r4300i_t) (raw : Nat) :
    KeepsZeroReg c (mips_cp_bc1t ext c raw) := by
  unfold mips_cp_bc1t
  all_goals first
    | exact keeps_none _
    | exact keeps_handle _ _ _ _ _ rfl
    | exact keeps_tlb_fault _ _ _ _ _ rfl
    | (apply keeps_some
       simp [set_register_gpr0, branch_abs_gpr, conditional_branch_gpr,
         conditional_branch_likely_gpr, link_gpr0, cp0_status_updated,
         r4300i_interrupt_update, set_pc_dword_r4300i])

theorem keeps_mips_cp_bc1tl (ext : Ext) (c : r4300i_t) (raw : Nat) :
    KeepsZeroReg c (mips_cp_bc1tl ext c raw) := by
  unfold mips_cp_bc1tl
  all_goals first
    | exact keeps_none _
    | exact keeps_handle _ _ _ _ _ rfl
    | exact keeps_tlb_fault _ _ _ _ _ rfl
    | (apply keeps_some
       simp [set_register_gpr0, branch_abs_gpr, conditional_branch_gpr,
         mips_c_conditional_branch_likely_gpr, link_gpr0, cp0_status_updated,
         r4300i_interrupt_update, set_pc_dword_r4300i])

theorem keeps_mips_cp_unimplemented (ext : Ext) (c : r4300i_t) (raw : Nat) :
    KeepsZeroReg c (mips_cp_unimplemented ext c raw) :=
  keeps_none c

theorem keeps_mips_ctc1 (ext : Ext) (c : r4300i_t) (raw : Nat) :
    KeepsZeroReg c (mips_ctc1 ext c raw) := by
  unfold mips_ctc1
  simp only []
  repeat' split
  all_goals first
    | exact keeps_none _
    | exact keeps_handle _ _ _ _ _ rfl
    | exact keeps_tlb_fault _ _ _ _ _ rfl
    | (apply keeps_some
       simp [set_register_gpr0, branch_abs_gpr, conditional_branch_gpr,
         conditional_branch_likely_gpr, link_gpr0, cp0_status_updated,
         r4300i_interrupt_update, set_pc_dword_r4300i])

theorem keeps_mips_daddi (ext : Ext) (c : r4300i_t) (raw : Nat) :
    KeepsZeroReg c (mips_daddi ext c raw) := by
  unfold mips_daddi
  simp only []
  repeat' split
  all_goals first
    | exact keeps_none _
    | exact keeps_handle _ _ _ _ _ rfl
    | exact keeps_tlb_fault _ _ _ _ _ rfl
    | (apply keeps_some
       simp [set_register_gpr0, branch_abs_gpr, conditional_branch_gpr,
         conditional_branch_likely_gpr, link_gpr0, cp0_status_updated,
         r4300i_interrupt_update, set_pc_dword_r4300i])

theorem keeps_mips_daddiu (ext : Ext) (c : r4300i_t) (raw : Nat) :
    KeepsZeroReg c (mips_daddiu ext c raw) := by
  unfold mips_daddiu
  all_goals first
    | exact keeps_none _
    | exact keeps_handle _ _ _ _ _ rfl
    | exact keeps_tlb_fault _ _ _ _ _ rfl
    | (apply keeps_some
       simp [set_register_gpr0, branch_abs_gpr, conditional_branch_gpr,
         conditional_branch_likely_gpr, link_gpr0, cp0_status_updated,
         r4300i_interrupt_update, set_pc_dword_r4300i])

theorem keeps_mips_dmfc0 (ext : Ext) (c : r4300i_t) (raw : Nat) :
    KeepsZeroReg c (mips_dmfc0 ext c raw) := by
  unfold mips_dmfc0
  all_goals first
    | exact keeps_none _
    | exact keeps_handle _ _ _ _ _ rfl
    | exact keeps_tlb_fault _ _ _ _ _ rfl
    | (apply keeps_some
       simp [set_register_gpr0, branch_abs_gpr, conditional_branch_gpr,
         conditional_branch_likely_gpr, link_gpr0, cp0_status_updated,
         r4300i_interrupt_update, set_pc_dword_r4300i])

theorem keeps_mips_dmfc1 (ext : Ext) (c : r4300i_t) (raw : Nat) :
    KeepsZeroReg c (mips_dmfc1 ext c raw) := by
  unfold mips_dmfc1
  all_goals first
    | exact keeps_none _
    | exact keeps_handle _ _ _ _ _ rfl
    | exact keeps_tlb_fault _ _ _ _ _ rfl
    | (apply keeps_some
       simp [set_register_gpr0, branch_abs_gpr, conditional_branch_gpr,
         conditional_branch_likely_gpr, link_gpr0, cp0_status_updated,
         r4300i_interrupt_update, set_pc_dword_r4300i])

theorem keeps_mips_dmtc0 (ext : Ext) (c : r4300i_t) (raw : Nat) :
    KeepsZeroReg c (mips_dmtc0 ext c raw) := by
  unfold mips_dmtc0
  repeat' split
  all_goals first
    | exact keeps_none _
    | exact keeps_handle _ _ _ _ _ rfl
    | exact keeps_tlb_fault _ _ _ _ _ rfl
    | (apply keeps_some
       simp [set_register_gpr0, branch_abs_gpr, conditional_branch_gpr,
         conditional_branch_likely_gpr, link_gpr0, cp0_status_updated,
         r4300i_interrupt_update, set_pc_dword_r4300i])

theorem keeps_mips_dmtc1 (ext : Ext) (c : r4300i_t) (raw : Nat) :
    KeepsZeroReg c (mips_dmtc1 ext c raw) := by
  unfold mips_dmtc1
  all_goals first
    | exact keeps_none _
    | exact keeps_handle _ _ _ _ _ rfl
    | exact keeps_tlb_fault _ _ _ _ _ rfl
    | (apply keeps_some
       simp [set_register_gpr0, branch_abs_gpr, conditional_branch_gpr,
         conditional_branch_likely_gpr, link_gpr0, cp0_status_updated,
         r4300i_interrupt_update, set_pc_dword_r4300i])

theorem keeps_mips_eret (ext : Ext) (c : r4300i_t) (raw : Nat) :
    KeepsZeroReg c (mips_eret ext c raw) := by
  unfold mips_eret
  simp only []
  repeat' split
  all_goals first
    | exact keeps_none _
    | exact keeps_handle _ _ _ _ _ rfl
    | exact keeps_tlb_fault _ _ _ _ _ rfl
    | (apply keeps_some
       simp [set_register_gpr0, branch_abs_gpr, conditional_branch_gpr,
         conditional_branch_likely_gpr, link_gpr0, cp0_status_updated,
         r4300i_interrupt_update, set_pc_dword_r4300i])

theorem keeps_mips_j (ext : Ext) (c : r4300i_t) (raw : Nat) :
    KeepsZeroReg c (mips_j ext c raw) := by
  unfold mips_j
  all_goals first
    | exact keeps_none _
    | exact keeps_handle _ _ _ _ _ rfl
    | exact keeps_tlb_fault _ _ _ _ _ rfl
    | (apply keeps_some
       simp [set_register_gpr0, branch_abs_gpr, conditional_branch_gpr,
         conditional_branch_likely_gpr, link_gpr0, cp0_status_updated,
         r4300i_interrupt_update, set_pc_dword_r4300i])

theorem keeps_mips_jal (ext : Ext) (c : r4300i_t) (raw : Nat) :
    KeepsZeroReg c (mips_jal ext c raw) := by
  unfold mips_jal
  simp only []
  all_goals first
    | exact keeps_none _
    | exact keeps_handle _ _ _ _ _ rfl
    | exact keeps_tlb_fault _ _ _ _ _ rfl
    | (apply keeps_some
       simp [set_register_gpr0, branch_abs_gpr, conditional_branch_gpr,
         conditional_branch_likely_gpr, link_gpr0, cp0_status_updated,
         r4300i_interrupt_update, set_pc_dword_r4300i])

theorem keeps_mips_lb (ext : Ext) (c : r4300i_t) (raw : Nat) :
    KeepsZeroReg c (mips_lb ext c raw) := by
  unfold mips_lb
  simp only []
  repeat' split
  all_goals first
    | exact keeps_none _
    | exact keeps_handle _ _ _ _ _ rfl
    | exact keeps_tlb_fault _ _ _ _ _ rfl
    | (apply keeps_some
       simp [set_register_gpr0, branch_abs_gpr, conditional_branch_gpr,
         conditional_branch_likely_gpr, link_gpr0, cp0_status_updated,
         r4300i_interrupt_update, set_pc_dword_r4300i])

theorem keeps_mips_lbu (ext : Ext) (c : r4300i_t) (raw : Nat) :
    KeepsZeroReg c (mips_lbu ext c raw) := by
  unfold mips_lbu
  simp only []
  repeat' split
  all_goals first
    | exact keeps_none _
    | exact keeps_handle _ _ _ _ _ rfl
    | exact keeps_tlb_fault _ _ _ _ _ rfl
    | (apply keeps_some
       simp [set_register_gpr0, branch_abs_gpr, conditional_branch_gpr,
         conditional_branch_likely_gpr, link_gpr0, cp0_status_updated,
         r4300i_interrupt_update, set_pc_dword_r4300i])

theorem keeps_mips_ld (ext : Ext) (c : r4300i_t) (raw : Nat) :
    KeepsZeroReg c (mips_ld ext c raw) := by
  unfold mips_ld
  simp only []
  repeat' split
  all_goals first
    | exact keeps_none _
    | exact keeps_handle _ _ _ _ _ rfl
    | exact keeps_tlb_fault _ _ _ _ _ rfl
    | (apply keeps_some
       simp [set_register_gpr0, branch_abs_gpr, conditional_branch_gpr,
         conditional_branch_likely_gpr, link_gpr0, cp0_status_updated,
         r4300i_interrupt_update, set_pc_dword_r4300i])

theorem keeps_mips_ldc1 (ext : Ext) (c : r4300i_t) (raw : Nat) :
    KeepsZeroReg c (mips_ldc1 ext c raw) := by
  unfold mips_ldc1
  simp only []
  repeat' split
  all_goals first
    | exact keeps_none _
    | exact keeps_handle _ _ _ _ _ rfl
    | exact keeps_tlb_fault _ _ _ _ _ rfl
    | (apply keeps_some
       simp [set_register_gpr0, branch_abs_gpr, conditional_branch_gpr,
         conditional_branch_likely_gpr, link_gpr0, cp0_status_updated,
         r4300i_interrupt_update, set_pc_dword_r4300i])

theorem keeps_mips_ldl (ext : Ext) (c : r4300i_t) (raw : Nat) :
    KeepsZeroReg c (mips_ldl ext c raw) := by
  unfold mips_ldl
  simp only []
  repeat' split
  all_goals first
    | exact keeps_none _
    | exact keeps_handle _ _ _ _ _ rfl
    | exact keeps_tlb_fault _ _ _ _ _ rfl
    | (apply keeps_some
       simp [set_register_gpr0, branch_abs_gpr, conditional_branch_gpr,
         conditional_branch_likely_gpr, link_gpr0, cp0_status_updated,
         r4300i_interrupt_update, set_pc_dword_r4300i])

theorem keeps_mips_ldr (ext : Ext) (c : r4300i_t) (raw : Nat) :
    KeepsZeroReg c (mips_ldr ext c raw) := by
  unfold mips_ldr
  simp only []
  repeat' split
  all_goals first
    | exact keeps_none _
    | exact keeps_handle _ _ _ _ _ rfl
    | exact keeps_tlb_fault _ _ _ _ _ rfl
    | (apply keeps_some
       simp [set_register_gpr0, branch_abs_gpr, conditional_branch_gpr,
         conditional_branch_likely_gpr, link_gpr0, cp0_status_updated,
         r4300i_interrupt_update, set_pc_dword_r4300i])

theorem keeps_mips_lh (ext : Ext) (c : r4300i_t) (raw : Nat) :
    KeepsZeroReg c (mips_lh ext c raw) := by
  unfold mips_lh
  simp only []
  repeat' split
  all_goals first
    | exact keeps_none _
    | exact keeps_handle _ _ _ _ _ rfl
    | exact keeps_tlb_fault _ _ _ _ _ rfl
    | (apply keeps_some
       simp [set_register_gpr0, branch_abs_gpr, conditional_branch_gpr,
         conditional_branch_likely_gpr, link_gpr0, cp0_status_updated,
         r4300i_interrupt_update, set_pc_dword_r4300i])

theorem keeps_mips_lhu (ext : Ext) (c : r4300i_t) (raw : Nat) :
    KeepsZeroReg c (mips_lhu ext c raw) := by
  unfold mips_lhu
  simp only []
  repeat' split
  all_goals first
    | exact keeps_none _
    | exact keeps_handle _ _ _ _ _ rfl
    | exact keeps_tlb_fault _ _ _ _ _ rfl
    | (apply keeps_some
       simp [set_register_gpr0, branch_abs_gpr, conditional_branch_gpr,
         conditional_branch_likely_gpr, link_gpr0, cp0_status_updated,
         r4300i_interrupt_update, set_pc_dword_r4300i])

theorem keeps_mips_lld (ext : Ext) (c : r4300i_t) (raw : Nat) :
    KeepsZeroReg c (mips_lld ext c raw) := by
  unfold mips_lld
  simp only []
  repeat' split
  all_goals first
    | exact keeps_none _
    | exact keeps_handle _ _ _ _ _ rfl
    | exact keeps_tlb_fault _ _ _ _ _ rfl
    | (apply keeps_some
       simp [set_register_gpr0, branch_abs_gpr, conditional_branch_gpr,
         conditional_branch_likely_gpr, link_gpr0, cp0_status_updated,
         r4300i_interrupt_update, set_pc_dword_r4300i])

theorem keeps_mips_lui (ext : Ext) (c : r4300i_t) (raw : Nat) :
    KeepsZeroReg c (mips_lui ext c raw) := by
  unfold mips_lui
  all_goals first
    | exact keeps_none _
    | exact keeps_handle _ _ _ _ _ rfl
    | exact keeps_tlb_fault _ _ _ _ _ rfl
    | (apply keeps_some
       simp [set_register_gpr0, branch_abs_gpr, conditional_branch_gpr,
         conditional_branch_likely_gpr, link_gpr0, cp0_status_updated,
         r4300i_interrupt_update, set_pc_dword_r4300i])

theorem keeps_mips_lw (ext : Ext) (c : r4300i_t) (raw : Nat) :
    KeepsZeroReg c (mips_lw ext c raw) := by
  unfold mips_lw
  simp only []
  repeat' split
  all_goals first
    | exact keeps_none _
    | exact keeps_handle _ _ _ _ _ rfl
    | exact keeps_tlb_fault _ _ _ _ _ rfl
    | (apply keeps_some
       simp [set_register_gpr0, branch_abs_gpr, conditional_branch_gpr,
         conditional_branch_likely_gpr, link_gpr0, cp0_status_updated,
         r4300i_interrupt_update, set_pc_dword_r4300i])

theorem keeps_mips_lwc1 (ext : Ext) (c : r4300i_t) (raw : Nat) :
    KeepsZeroReg c (mips_lwc1 ext c raw) := by
  unfold mips_lwc1
  simp only []
  all_goals first
    | exact keeps_none _
    | exact keeps_handle _ _ _ _ _ rfl
    | exact keeps_tlb_fault _ _ _ _ _ rfl
    | (apply keeps_some
       simp [set_register_gpr0, branch_abs_gpr, conditional_branch_gpr,
         conditional_branch_likely_gpr, link_gpr0, cp0_status_updated,
         r4300i_interrupt_update, set_pc_dword_r4300i])

theorem keeps_mips_lwl (ext : Ext) (c : r4300i_t) (raw : Nat) :
    KeepsZeroReg c (mips_lwl ext c raw) := by
  unfold mips_lwl
  simp only []
  repeat' split
  all_goals first
    | exact keeps_none _
    | exact keeps_handle _ _ _ _ _ rfl
    | exact keeps_tlb_fault _ _ _ _ _ rfl
    | (apply keeps_some
       simp [set_register_gpr0, branch_abs_gpr, conditional_branch_gpr,
         conditional_branch_likely_gpr, link_gpr0, cp0_status_updated,
         r4300i_interrupt_update, set_pc_dword_r4300i])

theorem keeps_mips_lwr (ext : Ext) (c : r4300i_t) (raw : Nat) :
    KeepsZeroReg c (mips_lwr ext c raw) := by
  unfold mips_lwr
  simp only []
  repeat' split
  all_goals first
    | exact keeps_none _
    | exact keeps_handle _ _ _ _ _ rfl
    | exact keeps_tlb_fault _ _ _ _ _ rfl
    | (apply keeps_some
       simp [set_register_gpr0, branch_abs_gpr, conditional_branch_gpr,
         conditional_branch_likely_gpr, link_gpr0, cp0_status_updated,
         r4300i_interrupt_update, set_pc_dword_r4300i])

theorem keeps_mips_lwu (ext : Ext) (c : r4300i_t) (raw : Nat) :
    KeepsZeroReg c (mips_lwu ext c raw) := by
  unfold mips_lwu
  simp only []
  repeat' split
  all_goals first
    | exact keeps_none _
    | exact keeps_handle _ _ _ _ _ rfl
    | exact keeps_tlb_fault _ _ _ _ _ rfl
    | (apply keeps_some
       simp [set_register_gpr0, branch_abs_gpr, conditional_branch_gpr,
         conditional_branch_likely_gpr, link_gpr0, cp0_status_updated,
         r4300i_interrupt_update, set_pc_dword_r4300i])

theorem keeps_mips_mfc0 (ext : Ext) (c : r4300i_t) (raw : Nat) :
    KeepsZeroReg c (mips_mfc0 ext c raw) := by
  unfold mips_mfc0
  all_goals first
    | exact keeps_none _
    | exact keeps_handle _ _ _ _ _ rfl
    | exact keeps_tlb_fault _ _ _ _ _ rfl
    | (apply keeps_some
       simp [set_register_gpr0, branch_abs_gpr, conditional_branch_gpr,
         conditional_branch_likely_gpr, link_gpr0, cp0_status_updated,
         r4300i_interrupt_update, set_pc_dword_r4300i])

theorem keeps_mips_mfc1 (ext : Ext) (c : r4300i_t) (raw : Nat) :
    KeepsZeroReg c (mips_mfc1 ext c raw) := by
  unfold mips_mfc1
  all_goals first
    | exact keeps_none _
    | exact keeps_handle _ _ _ _ _ rfl
    | exact keeps_tlb_fault _ _ _ _ _ rfl
    | (apply keeps_some
       simp [set_register_gpr0, branch_abs_gpr, conditional_branch_gpr,
         conditional_branch_likely_gpr, link_gpr0, cp0_status_updated,
         r4300i_interrupt_update, set_pc_dword_r4300i])

theorem keeps_mips_mtc0 (ext : Ext) (c : r4300i_t) (raw : Nat) :
    KeepsZeroReg c (mips_mtc0 ext c raw) := by
  unfold mips_mtc0
  repeat' split
  all_goals first
    | exact keeps_none _
    | exact keeps_handle _ _ _ _ _ rfl
    | exact keeps_tlb_fault _ _ _ _ _ rfl
    | (apply keeps_some
       simp [set_register_gpr0, branch_abs_gpr, conditional_branch_gpr,
         conditional_branch_likely_gpr, link_gpr0, cp0_status_updated,
         r4300i_interrupt_update, set_pc_dword_r4300i])

theorem keeps_mips_mtc1 (ext : Ext) (c : r4300i_t) (raw : Nat) :
    KeepsZeroReg c (mips_mtc1 ext c raw) := by
  unfold mips_mtc1
  all_goals first
    | exact keeps_none _
    | exact keeps_handle _ _ _ _ _ rfl
    | exact keeps_tlb_fault _ _ _ _ _ rfl
    | (apply keeps_some
       simp [set_register_gpr0, branch_abs_gpr, conditional_branch_gpr,
         conditional_branch_likely_gpr, link_gpr0, cp0_status_updated,
         r4300i_interrupt_update, set_pc_dword_r4300i])

theorem keeps_mips_nop (ext : Ext) (c : r4300i_t) (raw : Nat) :
    KeepsZeroReg c (mips_nop ext c raw) := by
  unfold mips_nop
  all_goals first
    | exact keeps_none _
    | exact keeps_handle _ _ _ _ _ rfl
    | exact keeps_tlb_fault _ _ _ _ _ rfl
    | (apply keeps_some
       simp [set_register_gpr0, branch_abs_gpr, conditional_branch_gpr,
         conditional_branch_likely_gpr, link_gpr0, cp0_status_updated,
         r4300i_interrupt_update, set_pc_dword_r4300i])

theorem keeps_mips_ori (ext : Ext) (c : r4300i_t) (raw : Nat) :
    KeepsZeroReg c (mips_ori ext c raw) := by
  unfold mips_ori
  all_goals first
    | exact keeps_none _
    | exact keeps_handle _ _ _ _ _ rfl
    | exact keeps_tlb_fault _ _ _ _ _ rfl
    | (apply keeps_some
       simp [set_register_gpr0, branch_abs_gpr, conditional_branch_gpr,
         conditional_branch_likely_gpr, link_gpr0, cp0_status_updated,
         r4300i_interrupt_update, set_pc_dword_r4300i])

theorem keeps_mips_ri_bgez (ext : Ext) (c : r4300i_t) (raw : Nat) :
    KeepsZeroReg c (mips_ri_bgez ext c raw) := by
  unfold mips_ri_bgez
  all_goals first
    | exact keeps_none _
    | exact keeps_handle _ _ _ _ _ rfl
    | exact keeps_tlb_fault _ _ _ _ _ rfl
    | (apply keeps_some
       simp [set_register_gpr0, branch_abs_gpr, conditional_branch_gpr,
         conditional_branch_likely_gpr, link_gpr0, cp0_status_updated,
         r4300i_interrupt_update, set_pc_dword_r4300i])

theorem keeps_mips_ri_bgezal (ext : Ext) (c : r4300i_t) (raw : Nat) :
    KeepsZeroReg c (mips_ri_bgezal ext c raw) := by
  unfold mips_ri_bgezal
  simp only []
  all_goals first
    | exact keeps_none _
    | exact keeps_handle _ _ _ _ _ rfl
    | exact keeps_tlb_fault _ _ _ _ _ rfl
    | (apply keeps_some
       simp [set_register_gpr0, branch_abs_gpr, conditional_branch_gpr,
         conditional_branch_likely_gpr, link_gpr0, cp0_status_updated,
         r4300i_interrupt_update, set_pc_dword_r4300i])

theorem keeps_mips_ri_bgezl (ext : Ext) (c : r4300i_t) (raw : Nat) :
    KeepsZeroReg c (mips_ri_bgezl ext c raw) := by
  unfold mips_ri_bgezl
  all_goals first
    | exact keeps_none _
    | exact keeps_handle _ _ _ _ _ rfl
    | exact keeps_tlb_fault _ _ _ _ _ rfl
    | (apply keeps_some
       simp [set_register_gpr0, branch_abs_gpr, conditional_branch_gpr,
         conditional_branch_likely_gpr, link_gpr0, cp0_status_updated,
         r4300i_interrupt_update, set_pc_dword_r4300i])

theorem keeps_mips_ri_bltz (ext : Ext) (c : r4300i_t) (raw : Nat) :
    KeepsZeroReg c (mips_ri_bltz ext c raw) := by
  unfold mips_ri_bltz
  all_goals first
    | exact keeps_none _
    | exact keeps_handle _ _ _ _ _ rfl
    | exact keeps_tlb_fault _ _ _ _ _ rfl
    | (apply keeps_some
       simp [set_register_gpr0, branch_abs_gpr, conditional_branch_gpr,
         conditional_branch_likely_gpr, link_gpr0, cp0_status_updated,
         r4300i_interrupt_update, set_pc_dword_r4300i])

theorem keeps_mips_ri_bltzal (ext : Ext) (c : r4300i_t) (raw : Nat) :
    KeepsZeroReg c (mips_ri_bltzal ext c raw) := by
  unfold mips_ri_bltzal
  simp only []
  all_goals first
    | exact keeps_none _
    | exact keeps_handle _ _ _ _ _ rfl
    | exact keeps_tlb_fault _ _ _ _ _ rfl
    | (apply keeps_some
       simp [set_register_gpr0, branch_abs_gpr, conditional_branch_gpr,
         conditional_branch_likely_gpr, link_gpr0, cp0_status_updated,
         r4300i_interrupt_update, set_pc_dword_r4300i])

theorem keeps_mips_ri_bltzl (ext : Ext) (c : r4300i_t) (raw : Nat) :
    KeepsZeroReg c (mips_ri_bltzl ext c raw) := by
  unfold mips_ri_bltzl
  all_goals first
    | exact keeps_none _
    | exact keeps_handle _ _ _ _ _ rfl
    | exact keeps_tlb_fault _ _ _ _ _ rfl
    | (apply keeps_some
       simp [set_register_gpr0, branch_abs_gpr, conditional_branch_gpr,
         conditional_branch_likely_gpr, link_gpr0, cp0_status_updated,
         r4300i_interrupt_update, set_pc_dword_r4300i])

theorem keeps_mips_sb (ext : Ext) (c : r4300i_t) (raw : Nat) :
    KeepsZeroReg c (mips_sb ext c raw) := by
  unfold mips_sb
  simp only []
  repeat' split
  all_goals first
    | exact keeps_none _
    | exact keeps_handle _ _ _ _ _ rfl
    | exact keeps_tlb_fault _ _ _ _ _ rfl
    | (apply keeps_some
       simp [set_register_gpr0, branch_abs_gpr, conditional_branch_gpr,
         conditional_branch_likely_gpr, link_gpr0, cp0_status_updated,
         r4300i_interrupt_update, set_pc_dword_r4300i])

theorem keeps_mips_sc (ext : Ext) (c : r4300i_t) (raw : Nat) :
    KeepsZeroReg c (mips_sc ext c raw) := by
  unfold mips_sc
  simp only []
  repeat' split
  all_goals first
    | exact keeps_none _
    | exact keeps_handle _ _ _ _ _ rfl
    | exact keeps_tlb_fault _ _ _ _ _ rfl
    | (apply keeps_some
       simp [set_register_gpr0, branch_abs_gpr, conditional_branch_gpr,
         conditional_branch_likely_gpr, link_gpr0, cp0_status_updated,
         r4300i_interrupt_update, set_pc_dword_r4300i])

theorem keeps_mips_scd (ext : Ext) (c : r4300i_t) (raw : Nat) :
    KeepsZeroReg c (mips_scd ext c raw) := by
  unfold mips_scd
  simp only []
  repeat' split
  all_goals first
    | exact keeps_none _
    | exact keeps_handle _ _ _ _ _ rfl
    | exact keeps_tlb_fault _ _ _ _ _ rfl
    | (apply keeps_some
       simp [set_register_gpr0, branch_abs_gpr, conditional_branch_gpr,
         conditional_branch_likely_gpr, link_gpr0, cp0_status_updated,
         r4300i_interrupt_update, set_pc_dword_r4300i])

theorem keeps_mips_sd (ext : Ext) (c : r4300i_t) (raw : Nat) :
    KeepsZeroReg c (mips_sd ext c raw) := by
  unfold mips_sd
  simp only []
  repeat' split
  all_goals first
    | exact keeps_none _
    | exact keeps_handle _ _ _ _ _ rfl
    | exact keeps_tlb_fault _ _ _ _ _ rfl
    | (apply keeps_some
       simp [set_register_gpr0, branch_abs_gpr, conditional_branch_gpr,
         conditional_branch_likely_gpr, link_gpr0, cp0_status_updated,
         r4300i_interrupt_update, set_pc_dword_r4300i])

theorem keeps_mips_sdc1 (ext : Ext) (c : r4300i_t) (raw : Nat) :
    KeepsZeroReg c (mips_sdc1 ext c raw) := by
  unfold mips_sdc1
  simp only []
  all_goals first
    | exact keeps_none _
    | exact keeps_handle _ _ _ _ _ rfl
    | exact keeps_tlb_fault _ _ _ _ _ rfl
    | (apply keeps_some
       simp [set_register_gpr0, branch_abs_gpr, conditional_branch_gpr,
         conditional_branch_likely_gpr, link_gpr0, cp0_status_updated,
         r4300i_interrupt_update, set_pc_dword_r4300i])

theorem keeps_mips_sdl (ext : Ext) (c : r4300i_t) (raw : Nat) :
    KeepsZeroReg c (mips_sdl ext c raw) := by
  unfold mips_sdl
  simp only []
  repeat' split
  all_goals first
    | exact keeps_none _
    | exact keeps_handle _ _ _ _ _ rfl
    | exact keeps_tlb_fault _ _ _ _ _ rfl
    | (apply keeps_some
       simp [set_register_gpr0, branch_abs_gpr, conditional_branch_gpr,
         conditional_branch_likely_gpr, link_gpr0, cp0_status_updated,
         r4300i_interrupt_update, set_pc_dword_r4300i])

theorem keeps_mips_sdr (ext : Ext) (c : r4300i_t) (raw : Nat) :
    KeepsZeroReg c (mips_sdr ext c raw) := by
  unfold mips_sdr
  simp only []
  repeat' split
  all_goals first
    | exact keeps_none _
    | exact keeps_handle _ _ _ _ _ rfl
    | exact keeps_tlb_fault _ _ _ _ _ rfl
    | (apply keeps_some
       simp [set_register_gpr0, branch_abs_gpr, conditional_branch_gpr,
         conditional_branch_likely_gpr, link_gpr0, cp0_status_updated,
         r4300i_interrupt_update, set_pc_dword_r4300i])

theorem keeps_mips_sh (ext : Ext) (c : r4300i_t) (raw : Nat) :
    KeepsZeroReg c (mips_sh ext c raw) := by
  unfold mips_sh
  simp only []
  repeat' split
  all_goals first
    | exact keeps_none _
    | exact keeps_handle _ _ _ _ _ rfl
    | exact keeps_tlb_fault _ _ _ _ _ rfl
    | (apply keeps_some
       simp [set_register_gpr0, branch_abs_gpr, conditional_branch_gpr,
         conditional_branch_likely_gpr, link_gpr0, cp0_status_updated,
         r4300i_interrupt_update, set_pc_dword_r4300i])

theorem keeps_mips_slti (ext : Ext) (c : r4300i_t) (raw : Nat) :
    KeepsZeroReg c (mips_slti ext c raw) := by
  unfold mips_slti
  repeat' split
  all_goals first
    | exact keeps_none _
    | exact keeps_handle _ _ _ _ _ rfl
    | exact keeps_tlb_fault _ _ _ _ _ rfl
    | (apply keeps_some
       simp [set_register_gpr0, branch_abs_gpr, conditional_branch_gpr,
         conditional_branch_likely_gpr, link_gpr0, cp0_status_updated,
         r4300i_interrupt_update, set_pc_dword_r4300i])

theorem keeps_mips_sltiu (ext : Ext) (c : r4300i_t) (raw : Nat) :
    KeepsZeroReg c (mips_sltiu ext c raw) := by
  unfold mips_sltiu
  repeat' split
  all_goals first
    | exact keeps_none _
    | exact keeps_handle _ _ _ _ _ rfl
    | exact keeps_tlb_fault _ _ _ _ _ rfl
    | (apply keeps_some
       simp [set_register_gpr0, branch_abs_gpr, conditional_branch_gpr,
         conditional_branch_likely_gpr, link_gpr0, cp0_status_updated,
         r4300i_interrupt_update, set_pc_dword_r4300i])

theorem keeps_mips_spc_add (ext : Ext) (c : r4300i_t) (raw : Nat) :
    KeepsZeroReg c (mips_spc_add ext c raw) := by
  unfold mips_spc_add
  simp only []
  repeat' split
  all_goals first
    | exact keeps_none _
    | exact keeps_handle _ _ _ _ _ rfl
    | exact keeps_tlb_fault _ _ _ _ _ rfl
    | (apply keeps_some
       simp [set_register_gpr0, branch_abs_gpr, conditional_branch_gpr,
         conditional_branch_likely_gpr, link_gpr0, cp0_status_updated,
         r4300i_interrupt_update, set_pc_dword_r4300i])

theorem keeps_mips_spc_addu (ext : Ext) (c : r4300i_t) (raw : Nat) :
    KeepsZeroReg c (mips_spc_addu ext c raw) := by
  unfold mips_spc_addu
  simp only []
  all_goals first
    | exact keeps_none _
    | exact keeps_handle _ _ _ _ _ rfl
    | exact keeps_tlb_fault _ _ _ _ _ rfl
    | (apply keeps_some
       simp [set_register_gpr0, branch_abs_gpr, conditional_branch_gpr,
         conditional_branch_likely_gpr, link_gpr0, cp0_status_updated,
         r4300i_interrupt_update, set_pc_dword_r4300i])

theorem keeps_mips_spc_and (ext : Ext) (c : r4300i_t) (raw : Nat) :
    KeepsZeroReg c (mips_spc_and ext c raw) := by
  unfold mips_spc_and
  all_goals first
    | exact keeps_none _
    | exact keeps_handle _ _ _ _ _ rfl
    | exact keeps_tlb_fault _ _ _ _ _ rfl
    | (apply keeps_some
       simp [set_register_gpr0, branch_abs_gpr, conditional_branch_gpr,
         conditional_branch_likely_gpr, link_gpr0, cp0_status_updated,
         r4300i_interrupt_update, set_pc_dword_r4300i])

theorem keeps_mips_spc_dadd (ext : Ext) (c : r4300i_t) (raw : Nat) :
    KeepsZeroReg c (mips_spc_dadd ext c raw) := by
  unfold mips_spc_dadd
  simp only []
  repeat' split
  all_goals first
    | exact keeps_none _
    | exact keeps_handle _ _ _ _ _ rfl
    | exact keeps_tlb_fault _ _ _ _ _ rfl
    | (apply keeps_some
       simp [set_register_gpr0, branch_abs_gpr, conditional_branch_gpr,
         conditional_branch_likely_gpr, link_gpr0, cp0_status_updated,
         r4300i_interrupt_update, set_pc_dword_r4300i])

theorem keeps_mips_spc_daddu (ext : Ext) (c : r4300i_t) (raw : Nat) :
    KeepsZeroReg c (mips_spc_daddu ext c raw) := by
  unfold mips_spc_daddu
  all_goals first
    | exact keeps_none _
    | exact keeps_handle _ _ _ _ _ rfl
    | exact keeps_tlb_fault _ _ _ _ _ rfl
    | (apply keeps_some
       simp [set_register_gpr0, branch_abs_gpr, conditional_branch_gpr,
         conditional_branch_likely_gpr, link_gpr0, cp0_status_updated,
         r4300i_interrupt_update, set_pc_dword_r4300i])

theorem keeps_mips_spc_ddiv (ext : Ext) (c : r4300i_t) (raw : Nat) :
    KeepsZeroReg c (mips_spc_ddiv ext c raw) := by
  unfold mips_spc_ddiv
  simp only []
  repeat' split
  all_goals first
    | exact keeps_none _
    | exact keeps_handle _ _ _ _ _ rfl
    | exact keeps_tlb_fault _ _ _ _ _ rfl
    | (apply keeps_some
       simp [set_register_gpr0, branch_abs_gpr, conditional_branch_gpr,
         conditional_branch_likely_gpr, link_gpr0, cp0_status_updated,
         r4300i_interrupt_update, set_pc_dword_r4300i])

theorem keeps_mips_spc_ddivu (ext : Ext) (c : r4300i_t) (raw : Nat) :
    KeepsZeroReg c (mips_spc_ddivu ext c raw) := by
  unfold mips_spc_ddivu
  simp only []
  repeat' split
  all_goals first
    | exact keeps_none _
    | exact keeps_handle _ _ _ _ _ rfl
    | exact keeps_tlb_fault _ _ _ _ _ rfl
    | (apply keeps_some
       simp [set_register_gpr0, branch_abs_gpr, conditional_branch_gpr,
         conditional_branch_likely_gpr, link_gpr0, cp0_status_updated,
         r4300i_interrupt_update, set_pc_dword_r4300i])

theorem keeps_mips_spc_div (ext : Ext) (c : r4300i_t) (raw : Nat) :
    KeepsZeroReg c (mips_spc_div ext c raw) := by
  unfold mips_spc_div
  simp only []
  repeat' split
  all_goals first
    | exact keeps_none _
    | exact keeps_handle _ _ _ _ _ rfl
    | exact keeps_tlb_fault _ _ _ _ _ rfl
    | (apply keeps_some
       simp [set_register_gpr0, branch_abs_gpr, conditional_branch_gpr,
         conditional_branch_likely_gpr, link_gpr0, cp0_status_updated,
         r4300i_interrupt_update, set_pc_dword_r4300i])

theorem keeps_mips_spc_divu (ext : Ext) (c : r4300i_t) (raw : Nat) :
    KeepsZeroReg c (mips_spc_divu ext c raw) := by
  unfold mips_spc_divu
  simp only []
  repeat' split
  all_goals first
    | exact keeps_none _
    | exact keeps_handle _ _ _ _ _ rfl
    | exact keeps_tlb_fault _ _ _ _ _ rfl
    | (apply keeps_some
       simp [set_register_gpr0, branch_abs_gpr, conditional_branch_gpr,
         conditional_branch_likely_gpr, link_gpr0, cp0_status_updated,
         r4300i_interrupt_update, set_pc_dword_r4300i])

theorem keeps_mips_spc_dmult (ext : Ext) (c : r4300i_t) (raw : Nat) :
    KeepsZeroReg c (mips_spc_dmult ext c raw) := by
  unfold mips_spc_dmult
  simp only []
  all_goals first
    | exact keeps_none _
    | exact keeps_handle _ _ _ _ _ rfl
    | exact keeps_tlb_fault _ _ _ _ _ rfl
    | (apply keeps_some
       simp [set_register_gpr0, branch_abs_gpr, conditional_branch_gpr,
         conditional_branch_likely_gpr, link_gpr0, cp0_status_updated,
         r4300i_interrupt_update, set_pc_dword_r4300i])

theorem keeps_mips_spc_dmultu (ext : Ext) (c : r4300i_t) (raw : Nat) :
    KeepsZeroReg c (mips_spc_dmultu ext c raw) := by
  unfold mips_spc_dmultu
  simp only []
  all_goals first
    | exact keeps_none _
    | exact keeps_handle _ _ _ _ _ rfl
    | exact keeps_tlb_fault _ _ _ _ _ rfl
    | (apply keeps_some
       simp [set_register_gpr0, branch_abs_gpr, conditional_branch_gpr,
         conditional_branch_likely_gpr, link_gpr0, cp0_status_updated,
         r4300i_interrupt_update, set_pc_dword_r4300i])

theorem keeps_mips_spc_dsll (ext : Ext) (c : r4300i_t) (raw : Nat) :
    KeepsZeroReg c (mips_spc_dsll ext c raw) := by
  unfold mips_spc_dsll
  all_goals first
    | exact keeps_none _
    | exact keeps_handle _ _ _ _ _ rfl
    | exact keeps_tlb_fault _ _ _ _ _ rfl
    | (apply keeps_some
       simp [set_register_gpr0, branch_abs_gpr, conditional_branch_gpr,
         conditional_branch_likely_gpr, link_gpr0, cp0_status_updated,
         r4300i_interrupt_update, set_pc_dword_r4300i])

theorem keeps_mips_spc_dsll32 (ext : Ext) (c : r4300i_t) (raw : Nat) :
    KeepsZeroReg c (mips_spc_dsll32 ext c raw) := by
  unfold mips_spc_dsll32
  all_goals first
    | exact keeps_none _
    | exact keeps_handle _ _ _ _ _ rfl
    | exact keeps_tlb_fault _ _ _ _ _ rfl
    | (apply keeps_some
       simp [set_register_gpr0, branch_abs_gpr, conditional_branch_gpr,
         conditional_branch_likely_gpr, link_gpr0, cp0_status_updated,
         r4300i_interrupt_update, set_pc_dword_r4300i])

theorem keeps_mips_spc_dsllv (ext : Ext) (c : r4300i_t) (raw : Nat) :
    KeepsZeroReg c (mips_spc_dsllv ext c raw) := by
  unfold mips_spc_dsllv
  all_goals first
    | exact keeps_none _
    | exact keeps_handle _ _ _ _ _ rfl
    | exact keeps_tlb_fault _ _ _ _ _ rfl
    | (apply keeps_some
       simp [set_register_gpr0, branch_abs_gpr, conditional_branch_gpr,
         conditional_branch_likely_gpr, link_gpr0, cp0_status_updated,
         r4300i_interrupt_update, set_pc_dword_r4300i])

theorem keeps_mips_spc_dsra (ext : Ext) (c : r4300i_t) (raw : Nat) :
    KeepsZeroReg c (mips_spc_dsra ext c raw) := by
  unfold mips_spc_dsra
  all_goals first
    | exact keeps_none _
    | exact keeps_handle _ _ _ _ _ rfl
    | exact keeps_tlb_fault _ _ _ _ _ rfl
    | (apply keeps_some
       simp [set_register_gpr0, branch_abs_gpr, conditional_branch_gpr,
         conditional_branch_likely_gpr, link_gpr0, cp0_status_updated,
         r4300i_interrupt_update, set_pc_dword_r4300i])

theorem keeps_mips_spc_dsra32 (ext : Ext) (c : r4300i_t) (raw : Nat) :
    KeepsZeroReg c (mips_spc_dsra32 ext c raw) := by
  unfold mips_spc_dsra32
  all_goals first
    | exact keeps_none _
    | exact keeps_handle _ _ _ _ _ rfl
    | exact keeps_tlb_fault _ _ _ _ _ rfl
    | (apply keeps_some
       simp [set_register_gpr0, branch_abs_gpr, conditional_branch_gpr,
         conditional_branch_likely_gpr, link_gpr0, cp0_status_updated,
         r4300i_interrupt_update, set_pc_dword_r4300i])

theorem keeps_mips_spc_dsrl (ext : Ext) (c : r4300i_t) (raw : Nat) :
    KeepsZeroReg c (mips_spc_dsrl ext c raw) := by
  unfold mips_spc_dsrl
  all_goals first
    | exact keeps_none _
    | exact keeps_handle _ _ _ _ _ rfl
    | exact keeps_tlb_fault _ _ _ _ _ rfl
    | (apply keeps_some
       simp [set_register_gpr0, branch_abs_gpr, conditional_branch_gpr,
         conditional_branch_likely_gpr, link_gpr0, cp0_status_updated,
         r4300i_interrupt_update, set_pc_dword_r4300i])

theorem keeps_mips_spc_dsrl32 (ext : Ext) (c : r4300i_t) (raw : Nat) :
    KeepsZeroReg c (mips_spc_dsrl32 ext c raw) := by
  unfold mips_spc_dsrl32
  all_goals first
    | exact keeps_none _
    | exact keeps_handle _ _ _ _ _ rfl
    | exact keeps_tlb_fault _ _ _ _ _ rfl
    | (apply keeps_some
       simp [set_register_gpr0, branch_abs_gpr, conditional_branch_gpr,
         conditional_branch_likely_gpr, link_gpr0, cp0_status_updated,
         r4300i_interrupt_update, set_pc_dword_r4300i])

theorem keeps_mips_spc_dsrlv (ext : Ext) (c : r4300i_t) (raw : Nat) :
    KeepsZeroReg c (mips_spc_dsrlv ext c raw) := by
  unfold mips_spc_dsrlv
  all_goals first
    | exact keeps_none _
    | exact keeps_handle _ _ _ _ _ rfl
    | exact keeps_tlb_fault _ _ _ _ _ rfl
    | (apply keeps_some
       simp [set_register_gpr0, branch_abs_gpr, conditional_branch_gpr,
         conditional_branch_likely_gpr, link_gpr0, cp0_status_updated,
         r4300i_interrupt_update, set_pc_dword_r4300i])

theorem keeps_mips_spc_dsubu (ext : Ext) (c : r4300i_t) (raw : Nat) :
    KeepsZeroReg c (mips_spc_dsubu ext c raw) := by
  unfold mips_spc_dsubu
  all_goals first
    | exact keeps_none _
    | exact keeps_handle _ _ _ _ _ rfl
    | exact keeps_tlb_fault _ _ _ _ _ rfl
    | (apply keeps_some
       simp [set_register_gpr0, branch_abs_gpr, conditional_branch_gpr,
         conditional_branch_likely_gpr, link_gpr0, cp0_status_updated,
         r4300i_interrupt_update, set_pc_dword_r4300i])

theorem keeps_mips_spc_jalr (ext : Ext) (c : r4300i_t) (raw : Nat) :
    KeepsZeroReg c (mips_spc_jalr ext c raw) := by
  unfold mips_spc_jalr
  all_goals first
    | exact keeps_none _
    | exact keeps_handle _ _ _ _ _ rfl
    | exact keeps_tlb_fault _ _ _ _ _ rfl
    | (apply keeps_some
       simp [set_register_gpr0, branch_abs_gpr, conditional_branch_gpr,
         conditional_branch_likely_gpr, link_gpr0, cp0_status_updated,
         r4300i_interrupt_update, set_pc_dword_r4300i])

theorem keeps_mips_spc_jr (ext : Ext) (c : r4300i_t) (raw : Nat) :
    KeepsZeroReg c (mips_spc_jr ext c raw) := by
  unfold mips_spc_jr
  all_goals first
    | exact keeps_none _
    | exact keeps_handle _ _ _ _ _ rfl
    | exact keeps_tlb_fault _ _ _ _ _ rfl
    | (apply keeps_some
       simp [set_register_gpr0, branch_abs_gpr, conditional_branch_gpr,
         conditional_branch_likely_gpr, link_gpr0, cp0_status_updated,
         r4300i_interrupt_update, set_pc_dword_r4300i])

theorem keeps_mips_spc_mfhi (ext : Ext) (c : r4300i_t) (raw : Nat) :
    KeepsZeroReg c (mips_spc_mfhi ext c raw) := by
  unfold mips_spc_mfhi
  all_goals first
    | exact keeps_none _
    | exact keeps_handle _ _ _ _ _ rfl
    | exact keeps_tlb_fault _ _ _ _ _ rfl
    | (apply keeps_some
       simp [set_register_gpr0, branch_abs_gpr, conditional_branch_gpr,
         conditional_branch_likely_gpr, link_gpr0, cp0_status_updated,
         r4300i_interrupt_update, set_pc_dword_r4300i])

theorem keeps_mips_spc_mflo (ext : Ext) (c : r4300i_t) (raw : Nat) :
    KeepsZeroReg c (mips_spc_mflo ext c raw) := by
  unfold mips_spc_mflo
  all_goals first
    | exact keeps_none _
    | exact keeps_handle _ _ _ _ _ rfl
    | exact keeps_tlb_fault _ _ _ _ _ rfl
    | (apply keeps_some
       simp [set_register_gpr0, branch_abs_gpr, conditional_branch_gpr,
         conditional_branch_likely_gpr, link_gpr0, cp0_status_updated,
         r4300i_interrupt_update, set_pc_dword_r4300i])

theorem keeps_mips_spc_mthi (ext : Ext) (c : r4300i_t) (raw : Nat) :
    KeepsZeroReg c (mips_spc_mthi ext c raw) := by
  unfold mips_spc_mthi
  all_goals first
    | exact keeps_none _
    | exact keeps_handle _ _ _ _ _ rfl
    | exact keeps_tlb_fault _ _ _ _ _ rfl
    | (apply keeps_some
       simp [set_register_gpr0, branch_abs_gpr, conditional_branch_gpr,
         conditional_branch_likely_gpr, link_gpr0, cp0_status_updated,
         r4300i_interrupt_update, set_pc_dword_r4300i])

theorem keeps_mips_spc_mtlo (ext : Ext) (c : r4300i_t) (raw : Nat) :
    KeepsZeroReg c (mips_spc_mtlo ext c raw) := by
  unfold mips_spc_mtlo
  all_goals first
    | exact keeps_none _
    | exact keeps_handle _ _ _ _ _ rfl
    | exact keeps_tlb_fault _ _ _ _ _ rfl
    | (apply keeps_some
       simp [set_register_gpr0, branch_abs_gpr, conditional_branch_gpr,
         conditional_branch_likely_gpr, link_gpr0, cp0_status_updated,
         r4300i_interrupt_update, set_pc_dword_r4300i])

theorem keeps_mips_spc_mult (ext : Ext) (c : r4300i_t) (raw : Nat) :
    KeepsZeroReg c (mips_spc_mult ext c raw) := by
  unfold mips_spc_mult
  simp only []
  all_goals first
    | exact keeps_none _
    | exact keeps_handle _ _ _ _ _ rfl
    | exact keeps_tlb_fault _ _ _ _ _ rfl
    | (apply keeps_some
       simp [set_register_gpr0, branch_abs_gpr, conditional_branch_gpr,
         conditional_branch_likely_gpr, link_gpr0, cp0_status_updated,
         r4300i_interrupt_update, set_pc_dword_r4300i])

theorem keeps_mips_spc_multu (ext : Ext) (c : r4300i_t) (raw : Nat) :
    KeepsZeroReg c (mips_spc_multu ext c raw) := by
  unfold mips_spc_multu
  simp only []
  all_goals first
    | exact keeps_none _
    | exact keeps_handle _ _ _ _ _ rfl
    | exact keeps_tlb_fault _ _ _ _ _ rfl
    | (apply keeps_some
       simp [set_register_gpr0, branch_abs_gpr, conditional_branch_gpr,
         conditional_branch_likely_gpr, link_gpr0, cp0_status_updated,
         r4300i_interrupt_update, set_pc_dword_r4300i])

theorem keeps_mips_spc_nor (ext : Ext) (c : r4300i_t) (raw : Nat) :
    KeepsZeroReg c (mips_spc_nor ext c raw) := by
  unfold mips_spc_nor
  all_goals first
    | exact keeps_none _
    | exact keeps_handle _ _ _ _ _ rfl
    | exact keeps_tlb_fault _ _ _ _ _ rfl
    | (apply keeps_some
       simp [set_register_gpr0, branch_abs_gpr, conditional_branch_gpr,
         conditional_branch_likely_gpr, link_gpr0, cp0_status_updated,
         r4300i_interrupt_update, set_pc_dword_r4300i])

theorem keeps_mips_spc_or (ext : Ext) (c : r4300i_t) (raw : Nat) :
    KeepsZeroReg c (mips_spc_or ext c raw) := by
  unfold mips_spc_or
  all_goals first
    | exact keeps_none _
    | exact keeps_handle _ _ _ _ _ rfl
    | exact keeps_tlb_fault _ _ _ _ _ rfl
    | (apply keeps_some
       simp [set_register_gpr0, branch_abs_gpr, conditional_branch_gpr,
         conditional_branch_likely_gpr, link_gpr0, cp0_status_updated,
         r4300i_interrupt_update, set_pc_dword_r4300i])

theorem keeps_mips_spc_sll (ext : Ext) (c : r4300i_t) (raw : Nat) :
    KeepsZeroReg c (mips_spc_sll ext c raw) := by
  unfold mips_spc_sll
  all_goals first
    | exact keeps_none _
    | exact keeps_handle _ _ _ _ _ rfl
    | exact keeps_tlb_fault _ _ _ _ _ rfl
    | (apply keeps_some
       simp [set_register_gpr0, branch_abs_gpr, conditional_branch_gpr,
         conditional_branch_likely_gpr, link_gpr0, cp0_status_updated,
         r4300i_interrupt_update, set_pc_dword_r4300i])

theorem keeps_mips_spc_sllv (ext : Ext) (c : r4300i_t) (raw : Nat) :
    KeepsZeroReg c (mips_spc_sllv ext c raw) := by
  unfold mips_spc_sllv
  all_goals first
    | exact keeps_none _
    | exact keeps_handle _ _ _ _ _ rfl
    | exact keeps_tlb_fault _ _ _ _ _ rfl
    | (apply keeps_some
       simp [set_register_gpr0, branch_abs_gpr, conditional_branch_gpr,
         conditional_branch_likely_gpr, link_gpr0, cp0_status_updated,
         r4300i_interrupt_update, set_pc_dword_r4300i])

theorem keeps_mips_spc_slt (ext : Ext) (c : r4300i_t) (raw : Nat) :
    KeepsZeroReg c (mips_spc_slt ext c raw) := by
  unfold mips_spc_slt
  all_goals first
    | exact keeps_none _
    | exact keeps_handle _ _ _ _ _ rfl
    | exact keeps_tlb_fault _ _ _ _ _ rfl
    | (apply keeps_some
       simp [set_register_gpr0, branch_abs_gpr, conditional_branch_gpr,
         conditional_branch_likely_gpr, link_gpr0, cp0_status_updated,
         r4300i_interrupt_update, set_pc_dword_r4300i])

theorem keeps_mips_spc_sltu (ext : Ext) (c : r4300i_t) (raw : Nat) :
    KeepsZeroReg c (mips_spc_sltu ext c raw) := by
  unfold mips_spc_sltu
  all_goals first
    | exact keeps_none _
    | exact keeps_handle _ _ _ _ _ rfl
    | exact keeps_tlb_fault _ _ _ _ _ rfl
    | (apply keeps_some
       simp [set_register_gpr0, branch_abs_gpr, conditional_branch_gpr,
         conditional_branch_likely_gpr, link_gpr0, cp0_status_updated,
         r4300i_interrupt_update, set_pc_dword_r4300i])

theorem keeps_mips_spc_sra (ext : Ext) (c : r4300i_t) (raw : Nat) :
    KeepsZeroReg c (mips_spc_sra ext c raw) := by
  unfold mips_spc_sra
  all_goals first
    | exact keeps_none _
    | exact keeps_handle _ _ _ _ _ rfl
    | exact keeps_tlb_fault _ _ _ _ _ rfl
    | (apply keeps_some
       simp [set_register_gpr0, branch_abs_gpr, conditional_branch_gpr,
         conditional_branch_likely_gpr, link_gpr0, cp0_status_updated,
         r4300i_interrupt_update, set_pc_dword_r4300i])

theorem keeps_mips_spc_srav (ext : Ext) (c : r4300i_t) (raw : Nat) :
    KeepsZeroReg c (mips_spc_srav ext c raw) := by
  unfold mips_spc_srav
  all_goals first
    | exact keeps_none _
    | exact keeps_handle _ _ _ _ _ rfl
    | exact keeps_tlb_fault _ _ _ _ _ rfl
    | (apply keeps_some
       simp [set_register_gpr0, branch_abs_gpr, conditional_branch_gpr,
         conditional_branch_likely_gpr, link_gpr0, cp0_status_updated,
         r4300i_interrupt_update, set_pc_dword_r4300i])

theorem keeps_mips_spc_srl (ext : Ext) (c : r4300i_t) (raw : Nat) :
    KeepsZeroReg c (mips_spc_srl ext c raw) := by
  unfold mips_spc_srl
  all_goals first
    | exact keeps_none _
    | exact keeps_handle _ _ _ _ _ rfl
    | exact keeps_tlb_fault _ _ _ _ _ rfl
    | (apply keeps_some
       simp [set_register_gpr0, branch_abs_gpr, conditional_branch_gpr,
         conditional_branch_likely_gpr, link_gpr0, cp0_status_updated,
         r4300i_interrupt_update, set_pc_dword_r4300i])

theorem keeps_mips_spc_srlv (ext : Ext) (c : r4300i_t) (raw : Nat) :
    KeepsZeroReg c (mips_spc_srlv ext c raw) := by
  unfold mips_spc_srlv
  all_goals first
    | exact keeps_none _
    | exact keeps_handle _ _ _ _ _ rfl
    | exact keeps_tlb_fault _ _ _ _ _ rfl
    | (apply keeps_some
       simp [set_register_gpr0, branch_abs_gpr, conditional_branch_gpr,
         conditional_branch_likely_gpr, link_gpr0, cp0_status_updated,
         r4300i_interrupt_update, set_pc_dword_r4300i])

theorem keeps_mips_spc_sub (ext : Ext) (c : r4300i_t) (raw : Nat) :
    KeepsZeroReg c (mips_spc_sub ext c raw) := by
  unfold mips_spc_sub
  simp only []
  repeat' split
  all_goals first
    | exact keeps_none _
    | exact keeps_handle _ _ _ _ _ rfl
    | exact keeps_tlb_fault _ _ _ _ _ rfl
    | (apply keeps_some
       simp [set_register_gpr0, branch_abs_gpr, conditional_branch_gpr,
         conditional_branch_likely_gpr, link_gpr0, cp0_status_updated,
         r4300i_interrupt_update, set_pc_dword_r4300i])

theorem keeps_mips_spc_subu (ext : Ext) (c : r4300i_t) (raw : Nat) :
    KeepsZeroReg c (mips_spc_subu ext c raw) := by
  unfold mips_spc_subu
  simp only []
  all_goals first
    | exact keeps_none _
    | exact keeps_handle _ _ _ _ _ rfl
    | exact keeps_tlb_fault _ _ _ _ _ rfl
    | (apply keeps_some
       simp [set_register_gpr0, branch_abs_gpr, conditional_branch_gpr,
         conditional_branch_likely_gpr, link_gpr0, cp0_status_updated,
         r4300i_interrupt_update, set_pc_dword_r4300i])

theorem keeps_mips_spc_teq (ext : Ext) (c : r4300i_t) (raw : Nat) :
    KeepsZeroReg c (mips_spc_teq ext c raw) := by
  unfold mips_spc_teq
  repeat' split
  all_goals first
    | exact keeps_none _
    | exact keeps_handle _ _ _ _ _ rfl
    | exact keeps_tlb_fault _ _ _ _ _ rfl
    | (apply keeps_some
       simp [set_register_gpr0, branch_abs_gpr, conditional_branch_gpr,
         conditional_branch_likely_gpr, link_gpr0, cp0_status_updated,
         r4300i_interrupt_update, set_pc_dword_r4300i])

theorem keeps_mips_spc_tne (ext : Ext) (c : r4300i_t) (raw : Nat) :
    KeepsZeroReg c (mips_spc_tne ext c raw) := by
  unfold mips_spc_tne
  repeat' split
  all_goals first
    | exact keeps_none _
    | exact keeps_handle _ _ _ _ _ rfl
    | exact keeps_tlb_fault _ _ _ _ _ rfl
    | (apply keeps_some
       simp [set_register_gpr0, branch_abs_gpr, conditional_branch_gpr,
         conditional_branch_likely_gpr, link_gpr0, cp0_status_updated,
         r4300i_interrupt_update, set_pc_dword_r4300i])

theorem keeps_mips_spc_xor (ext : Ext) (c : r4300i_t) (raw : Nat) :
    KeepsZeroReg c (mips_spc_xor ext c raw) := by
  unfold mips_spc_xor
  all_goals first
    | exact keeps_none _
    | exact keeps_handle _ _ _ _ _ rfl
    | exact keeps_tlb_fault _ _ _ _ _ rfl
    | (apply keeps_some
       simp [set_register_gpr0, branch_abs_gpr, conditional_branch_gpr,
         conditional_branch_likely_gpr, link_gpr0, cp0_status_updated,
         r4300i_interrupt_update, set_pc_dword_r4300i])

theorem keeps_mips_sw (ext : Ext) (c : r4300i_t) (raw : Nat) :
    KeepsZeroReg c (mips_sw ext c raw) := by
  unfold mips_sw
  simp only []
  repeat' split
  all_goals first
    | exact keeps_none _
    | exact keeps_handle _ _ _ _ _ rfl
    | exact keeps_tlb_fault _ _ _ _ _ rfl
    | (apply keeps_some
       simp [set_register_gpr0, branch_abs_gpr, conditional_branch_gpr,
         conditional_branch_likely_gpr, link_gpr0, cp0_status_updated,
         r4300i_interrupt_update, set_pc_dword_r4300i])

theorem keeps_mips_swc1 (ext : Ext) (c : r4300i_t) (raw : Nat) :
    KeepsZeroReg c (mips_swc1 ext c raw) := by
  unfold mips_swc1
  simp only []
  all_goals first
    | exact keeps_none _
    | exact keeps_handle _ _ _ _ _ rfl
    | exact keeps_tlb_fault _ _ _ _ _ rfl
    | (apply keeps_some
       simp [set_register_gpr0, branch_abs_gpr, conditional_branch_gpr,
         conditional_branch_likely_gpr, link_gpr0, cp0_status_updated,
         r4300i_interrupt_update, set_pc_dword_r4300i])

theorem keeps_mips_swl (ext : Ext) (c : r4300i_t) (raw : Nat) :
    KeepsZeroReg c (mips_swl ext c raw) := by
  unfold mips_swl
  simp only []
  repeat' split
  all_goals first
    | exact keeps_none _
    | exact keeps_handle _ _ _ _ _ rfl
    | exact keeps_tlb_fault _ _ _ _ _ rfl
    | (apply keeps_some
       simp [set_register_gpr0, branch_abs_gpr, conditional_branch_gpr,
         conditional_branch_likely_gpr, link_gpr0, cp0_status_updated,
         r4300i_interrupt_update, set_pc_dword_r4300i])

theorem keeps_mips_swr (ext : Ext) (c : r4300i_t) (raw : Nat) :
    KeepsZeroReg c (mips_swr ext c raw) := by
  unfold mips_swr
  simp only []
  repeat' split
  all_goals first
    | exact keeps_none _
    | exact keeps_handle _ _ _ _ _ rfl
    | exact keeps_tlb_fault _ _ _ _ _ rfl
    | (apply keeps_some
       simp [set_register_gpr0, branch_abs_gpr, conditional_branch_gpr,
         conditional_branch_likely_gpr, link_gpr0, cp0_status_updated,
         r4300i_interrupt_update, set_pc_dword_r4300i])

theorem keeps_mips_tlb (ext : Ext) (c : r4300i_t) (raw : Nat) :
    KeepsZeroReg c (mips_tlb ext c raw) := by
  unfold mips_tlb
  repeat' split
  all_goals first
    | exact keeps_none _
    | exact keeps_handle _ _ _ _ _ rfl
    | exact keeps_tlb_fault _ _ _ _ _ rfl
    | (apply keeps_some
       simp [set_register_gpr0, branch_abs_gpr, conditional_branch_gpr,
         conditional_branch_likely_gpr, link_gpr0, cp0_status_updated,
         r4300i_interrupt_update, set_pc_dword_r4300i])

theorem keeps_mips_xori (ext : Ext) (c : r4300i_t) (raw : Nat) :
    KeepsZeroReg c (mips_xori ext c raw) := by
  unfold mips_xori
  all_goals first
    | exact keeps_none _
    | exact keeps_handle _ _ _ _ _ rfl
    | exact keeps_tlb_fault _ _ _ _ _ rfl
    | (apply keeps_some
       simp [set_register_gpr0, branch_abs_gpr, conditional_branch_gpr,
         conditional_branch_likely_gpr, link_gpr0, cp0_status_updated,
         r4300i_interrupt_update, set_pc_dword_r4300i])

theorem run_handler_keeps (ext : Ext) (h : mipsinstr_handler_t) (c : r4300i_t) (raw : Nat) :
    KeepsZeroReg c (run_handler ext h c raw) :=
  match h with
  | mipsinstr_handler_t.mips_addi => keeps_mips_addi ext c raw
  | mipsinstr_handler_t.mips_addiu => keeps_mips_addiu ext c raw
  | mipsinstr_handler_t.mips_andi => keeps_mips_andi ext c raw
  | mipsinstr_handler_t.mips_beq => keeps_mips_beq ext c raw
  | mipsinstr_handler_t.mips_beql => keeps_mips_beql ext c raw
  | mipsinstr_handler_t.mips_bgtz => keeps_mips_bgtz ext c raw
  | mipsinstr_handler_t.mips_bgtzl => keeps_mips_bgtzl ext c raw
  | mipsinstr_handler_t.mips_blez => keeps_mips_blez ext c raw
  | mipsinstr_handler_t.mips_blezl => keeps_mips_blezl ext c raw
  | mipsinstr_handler_t.mips_bne => keeps_mips_bne ext c raw
  | mipsinstr_handler_t.mips_bnel => keeps_mips_bnel ext c raw
  | mipsinstr_handler_t.mips_cache => keeps_mips_cache ext c raw
  | mipsinstr_handler_t.mips_cfc1 => keeps_mips_cfc1 ext c raw
  | mipsinstr_handler_t.mips_cp_abs_d => keeps_mips_cp_absent ext c raw
  | mipsinstr_handler_t.mips_cp_abs_s => keeps_mips_cp_absent ext c raw
  | mipsinstr_handler_t.mips_cp_add_d => keeps_mips_cp_arith ext c raw
  | mipsinstr_handler_t.mips_cp_add_s => keeps_mips_cp_arith ext c raw
  | mipsinstr_handler_t.mips_cp_bc1f => keeps_mips_cp_bc1f ext c raw
  | mipsinstr_handler_t.mips_cp_bc1fl => keeps_mips_cp_bc1fl ext c raw
  | mipsinstr_handler_t.mips_cp_bc1t => keeps_mips_cp_bc1t ext c raw
  | mipsinstr_handler_t.mips_cp_bc1tl => keeps_mips_cp_bc1tl ext c raw
  | mipsinstr_handler_t.mips_cp_c_eq_d => keeps_mips_cp_unimplemented ext c raw
  | mipsinstr_handler_t.mips_cp_c_eq_s => keeps_mips_cp_unimplemented ext c raw
  | mipsinstr_handler_t.mips_cp_c_le_d => keeps_mips_cp_arith ext c raw
  | mipsinstr_handler_t.mips_cp_c_le_s => keeps_mips_cp_arith ext c raw
  | mipsinstr_handler_t.mips_cp_c_lt_d => keeps_mips_cp_arith ext c raw
  | mipsinstr_handler_t.mips_cp_c_lt_s => keeps_mips_cp_arith ext c raw
  | mipsinstr_handler_t.mips_cp_c_ule_d => keeps_mips_cp_unimplemented ext c raw
  | mipsinstr_handler_t.mips_cp_c_ule_s => keeps_mips_cp_unimplemented ext c raw
  | mipsinstr_handler_t.mips_cp_c_un_d => keeps_mips_cp_unimplemented ext c raw
  | mipsinstr_handler_t.mips_cp_c_un_s => keeps_mips_cp_unimplemented ext c raw
  | mipsinstr_handler_t.mips_cp_cvt_d_l => keeps_mips_cp_arith ext c raw
  | mipsinstr_handler_t.mips_cp_cvt_d_s => keeps_mips_cp_arith ext c raw
  | mipsinstr_handler_t.mips_cp_cvt_d_w => keeps_mips_cp_arith ext c raw
  | mipsinstr_handler_t.mips_cp_cvt_l_d => keeps_mips_cp_arith ext c raw
  | mipsinstr_handler_t.mips_cp_cvt_l_s => keeps_mips_cp_arith ext c raw
  | mipsinstr_handler_t.mips_cp_cvt_s_d => keeps_mips_cp_arith ext c raw
  | mipsinstr_handler_t.mips_cp_cvt_s_l => keeps_mips_cp_arith ext c raw
  | mipsinstr_handler_t.mips_cp_cvt_s_w => keeps_mips_cp_arith ext c raw
  | mipsinstr_handler_t.mips_cp_cvt_w_d => keeps_mips_cp_arith ext c raw
  | mipsinstr_handler_t.mips_cp_cvt_w_s => keeps_mips_cp_arith ext c raw
  | mipsinstr_handler_t.mips_cp_div_d => keeps_mips_cp_arith ext c raw
  | mipsinstr_handler_t.mips_cp_div_s => keeps_mips_cp_arith ext c raw
  | mipsinstr_handler_t.mips_cp_mov_d => keeps_mips_cp_arith ext c raw
  | mipsinstr_handler_t.mips_cp_mov_s => keeps_mips_cp_arith ext c raw
  | mipsinstr_handler_t.mips_cp_mul_d => keeps_mips_cp_arith ext c raw
  | mipsinstr_handler_t.mips_cp_mul_s => keeps_mips_cp_arith ext c raw
  | mipsinstr_handler_t.mips_cp_neg_d => keeps_mips_cp_absent ext c raw
  | mipsinstr_handler_t.mips_cp_neg_s => keeps_mips_cp_absent ext c raw
  | mipsinstr_handler_t.mips_cp_sqrt_d => keeps_mips_cp_absent ext c raw
  | mipsinstr_handler_t.mips_cp_sqrt_s => keeps_mips_cp_absent ext c raw
  | mipsinstr_handler_t.mips_cp_sub_d => keeps_mips_cp_absent ext c raw
  | mipsinstr_handler_t.mips_cp_sub_s => keeps_mips_cp_absent ext c raw
  | mipsinstr_handler_t.mips_cp_trunc_l_d => keeps_mips_cp_arith ext c raw
  | mipsinstr_handler_t.mips_cp_trunc_l_s => keeps_mips_cp_arith ext c raw
  | mipsinstr_handler_t.mips_cp_trunc_w_d => keeps_mips_cp_arith ext c raw
  | mipsinstr_handler_t.mips_cp_trunc_w_s => keeps_mips_cp_arith ext c raw
  | mipsinstr_handler_t.mips_ctc1 => keeps_mips_ctc1 ext c raw
  | mipsinstr_handler_t.mips_daddi => keeps_mips_daddi ext c raw
  | mipsinstr_handler_t.mips_daddiu => keeps_mips_daddiu ext c raw
  | mipsinstr_handler_t.mips_dmfc0 => keeps_mips_dmfc0 ext c raw
  | mipsinstr_handler_t.mips_dmfc1 => keeps_mips_dmfc1 ext c raw
  | mipsinstr_handler_t.mips_dmtc0 => keeps_mips_dmtc0 ext c raw
  | mipsinstr_handler_t.mips_dmtc1 => keeps_mips_dmtc1 ext c raw
  | mipsinstr_handler_t.mips_eret => keeps_mips_eret ext c raw
  | mipsinstr_handler_t.mips_j => keeps_mips_j ext c raw
  | mipsinstr_handler_t.mips_jal => keeps_mips_jal ext c raw
  | mipsinstr_handler_t.mips_lb => keeps_mips_lb ext c raw
  | mipsinstr_handler_t.mips_lbu => keeps_mips_lbu ext c raw
  | mipsinstr_handler_t.mips_ld => keeps_mips_ld ext c raw
  | mipsinstr_handler_t.mips_ldc1 => keeps_mips_ldc1 ext c raw
  | mipsinstr_handler_t.mips_ldl => keeps_mips_ldl ext c raw
  | mipsinstr_handler_t.mips_ldr => keeps_mips_ldr ext c raw
  | mipsinstr_handler_t.mips_lh => keeps_mips_lh ext c raw
  | mipsinstr_handler_t.mips_lhu => keeps_mips_lhu ext c raw
  | mipsinstr_handler_t.mips_ll => keeps_ll ext c raw
  | mipsinstr_handler_t.mips_lld => keeps_mips_lld ext c raw
  | mipsinstr_handler_t.mips_lui => keeps_mips_lui ext c raw
  | mipsinstr_handler_t.mips_lw => keeps_mips_lw ext c raw
  | mipsinstr_handler_t.mips_lwc1 => keeps_mips_lwc1 ext c raw
  | mipsinstr_handler_t.mips_lwl => keeps_mips_lwl ext c raw
  | mipsinstr_handler_t.mips_lwr => keeps_mips_lwr ext c raw
  | mipsinstr_handler_t.mips_lwu => keeps_mips_lwu ext c raw
  | mipsinstr_handler_t.mips_mfc0 => keeps_mips_mfc0 ext c raw
  | mipsinstr_handler_t.mips_mfc1 => keeps_mips_mfc1 ext c raw
  | mipsinstr_handler_t.mips_mtc0 => keeps_mips_mtc0 ext c raw
  | mipsinstr_handler_t.mips_mtc1 => keeps_mips_mtc1 ext c raw
  | mipsinstr_handler_t.mips_nop => keeps_mips_nop ext c raw
  | mipsinstr_handler_t.mips_ori => keeps_mips_ori ext c raw
  | mipsinstr_handler_t.mips_ri_bgez => keeps_mips_ri_bgez ext c raw
  | mipsinstr_handler_t.mips_ri_bgezal => keeps_mips_ri_bgezal ext c raw
  | mipsinstr_handler_t.mips_ri_bgezl => keeps_mips_ri_bgezl ext c raw
  | mipsinstr_handler_t.mips_ri_bltz => keeps_mips_ri_bltz ext c raw
  | mipsinstr_handler_t.mips_ri_bltzal => keeps_mips_ri_bltzal ext c raw
  | mipsinstr_handler_t.mips_ri_bltzl => keeps_mips_ri_bltzl ext c raw
  | mipsinstr_handler_t.mips_sb => keeps_mips_sb ext c raw
  | mipsinstr_handler_t.mips_sc => keeps_mips_sc ext c raw
  | mipsinstr_handler_t.mips_scd => keeps_mips_scd ext c raw
  | mipsinstr_handler_t.mips_sd => keeps_mips_sd ext c raw
  | mipsinstr_handler_t.mips_sdc1 => keeps_mips_sdc1 ext c raw
  | mipsinstr_handler_t.mips_sdl => keeps_mips_sdl ext c raw
  | mipsinstr_handler_t.mips_sdr => keeps_mips_sdr ext c raw
  | mipsinstr_handler_t.mips_sh => keeps_mips_sh ext c raw
  | mipsinstr_handler_t.mips_slti => keeps_mips_slti ext c raw
  | mipsinstr_handler_t.mips_sltiu => keeps_mips_sltiu ext c raw
  | mipsinstr_handler_t.mips_spc_add => keeps_mips_spc_add ext c raw
  | mipsinstr_handler_t.mips_spc_addu => keeps_mips_spc_addu ext c raw
  | mipsinstr_handler_t.mips_spc_and => keeps_mips_spc_and ext c raw
  | mipsinstr_handler_t.mips_spc_dadd => keeps_mips_spc_dadd ext c raw
  | mipsinstr_handler_t.mips_spc_daddu => keeps_mips_spc_daddu ext c raw
  | mipsinstr_handler_t.mips_spc_ddiv => keeps_mips_spc_ddiv ext c raw
  | mipsinstr_handler_t.mips_spc_ddivu => keeps_mips_spc_ddivu ext c raw
  | mipsinstr_handler_t.mips_spc_div => keeps_mips_spc_div ext c raw
  | mipsinstr_handler_t.mips_spc_divu => keeps_mips_spc_divu ext c raw
  | mipsinstr_handler_t.mips_spc_dmult => keeps_mips_spc_dmult ext c raw
  | mipsinstr_handler_t.mips_spc_dmultu => keeps_mips_spc_dmultu ext c raw
  | mipsinstr_handler_t.mips_spc_dsll => keeps_mips_spc_dsll ext c raw
  | mipsinstr_handler_t.mips_spc_dsll32 => keeps_mips_spc_dsll32 ext c raw
  | mipsinstr_handler_t.mips_spc_dsllv => keeps_mips_spc_dsllv ext c raw
  | mipsinstr_handler_t.mips_spc_dsra => keeps_mips_spc_dsra ext c raw
  | mipsinstr_handler_t.mips_spc_dsra32 => keeps_mips_spc_dsra32 ext c raw
  | mipsinstr_handler_t.mips_spc_dsrl => keeps_mips_spc_dsrl ext c raw
  | mipsinstr_handler_t.mips_spc_dsrl32 => keeps_mips_spc_dsrl32 ext c raw
  | mipsinstr_handler_t.mips_spc_dsrlv => keeps_mips_spc_dsrlv ext c raw
  | mipsinstr_handler_t.mips_spc_dsubu => keeps_mips_spc_dsubu ext c raw
  | mipsinstr_handler_t.mips_spc_jalr => keeps_mips_spc_jalr ext c raw
  | mipsinstr_handler_t.mips_spc_jr => keeps_mips_spc_jr ext c raw
  | mipsinstr_handler_t.mips_spc_mfhi => keeps_mips_spc_mfhi ext c raw
  | mipsinstr_handler_t.mips_spc_mflo => keeps_mips_spc_mflo ext c raw
  | mipsinstr_handler_t.mips_spc_mthi => keeps_mips_spc_mthi ext c raw
  | mipsinstr_handler_t.mips_spc_mtlo => keeps_mips_spc_mtlo ext c raw
  | mipsinstr_handler_t.mips_spc_mult => keeps_mips_spc_mult ext c raw
  | mipsinstr_handler_t.mips_spc_multu => keeps_mips_spc_multu ext c raw
  | mipsinstr_handler_t.mips_spc_nor => keeps_mips_spc_nor ext c raw
  | mipsinstr_handler_t.mips_spc_or => keeps_mips_spc_or ext c raw
  | mipsinstr_handler_t.mips_spc_sll => keeps_mips_spc_sll ext c raw
  | mipsinstr_handler_t.mips_spc_sllv => keeps_mips_spc_sllv ext c raw
  | mipsinstr_handler_t.mips_spc_slt => keeps_mips_spc_slt ext c raw
  | mipsinstr_handler_t.mips_spc_sltu => keeps_mips_spc_sltu ext c raw
  | mipsinstr_handler_t.mips_spc_sra => keeps_mips_spc_sra ext c raw
  | mipsinstr_handler_t.mips_spc_srav => keeps_mips_spc_srav ext c raw
  | mipsinstr_handler_t.mips_spc_srl => keeps_mips_spc_srl ext c raw
  | mipsinstr_handler_t.mips_spc_srlv => keeps_mips_spc_srlv ext c raw
  | mipsinstr_handler_t.mips_spc_sub => keeps_mips_spc_sub ext c raw
  | mipsinstr_handler_t.mips_spc_subu => keeps_mips_spc_subu ext c raw
  | mipsinstr_handler_t.mips_spc_teq => keeps_mips_spc_teq ext c raw
  | mipsinstr_handler_t.mips_spc_tne => keeps_mips_spc_tne ext c raw
  | mipsinstr_handler_t.mips_spc_xor => keeps_mips_spc_xor ext c raw
  | mipsinstr_handler_t.mips_sw => keeps_mips_sw ext c raw
  | mipsinstr_handler_t.mips_swc1 => keeps_mips_swc1 ext c raw
  | mipsinstr_handler_t.mips_swl => keeps_mips_swl ext c raw
  | mipsinstr_handler_t.mips_swr => keeps_mips_swr ext c raw
  | mipsinstr_handler_t.mips_tlbp => keeps_mips_tlb ext c raw
  | mipsinstr_handler_t.mips_tlbr => keeps_mips_tlb ext c raw
  | mipsinstr_handler_t.mips_tlbwi => keeps_mips_tlb ext c raw
  | mipsinstr_handler_t.mips_xori => keeps_mips_xori ext c raw

/-- C4: for every CPU state in which register 0 holds zero, every collaborator
behaviour and every instruction word the fetch returns, register 0 holds zero
(and reads as zero) in the state `r4300i_step` produces, whether the step
delivers an interrupt or runs the decoded handler; a write that names
register 0 is discarded by `set_register` itself. -/
theorem C4_register_zero_invariant (ext : Ext) (c c' : r4300i_t)
    (h0 : c.gpr 0 = 0) (hstep : r4300i_step ext c = some c') :
    c'.gpr 0 = 0 ∧ get_register c' 0 = 0 ∧ (∀ v, set_register c' 0 v = c') := by
  have hc1 : (r4300i_step_count ext c).gpr 0 = 0 := by
    rw [(step_count_pc ext c).2.1, h0]
  have key : c'.gpr 0 = 0 := by
    unfold r4300i_step at hstep
    simp only [] at hstep
    split at hstep
    · rw [keeps_handle _ _ _ _ _ rfl c' hstep, hc1]
    · split at hstep
      · cases hstep
      · next h hd =>
        split at hstep
        · cases hstep
        · next c3 hr =>
          cases hstep
          show c3.gpr 0 = 0
          rw [run_handler_keeps ext h _ _ c3 hr]
          exact hc1
  exact ⟨key, key, fun _ => rfl⟩

/-- Witness of C4: `ORI r0, r1, 0xBEEF` leaves register 0 at zero. -/
theorem C4_register_zero_invariant_witness :
    ∃ c', r4300i_step flat_ext ori_zero_state = some c' ∧ c'.gpr 0 = 0 ∧
      c'.pc = 0xFFFFFFFF80001004 :=
  ⟨_, rfl, (C4_register_zero_invariant flat_ext ori_zero_state _ rfl rfl).1, rfl⟩

/-! ### Division by zero -/

theorem ofSigned_toSigned32 (x : Nat) : ofSigned 64 (toSigned 32 (u32 x)) = sext32 x := by
  unfold sext32 ofSigned toSigned u32
  norm_num
  split_ifs <;> omega

theorem toSigned32_eq_zero (x : Nat) : toSigned 32 (u32 x) = 0 ↔ u32 x = 0 := by
  have := u32_lt x
  unfold toSigned
  norm_num
  split_ifs <;> omega

theorem toSigned32_nonneg (x : Nat) : 0 ≤ toSigned 32 (u32 x) ↔ u32 x < 0x80000000 := by
  have := u32_lt x
  unfold toSigned
  norm_num
  split_ifs <;> omega

/-- C11: for every state in which the low 32 bits of rt are zero, DIV and DIVU
return without entering the exception engine and change HI and LO only: DIV
writes HI = the low word of rs sign-extended and LO = all ones when that
dividend is non-negative, 1 when it is negative; DIVU writes HI = the low word
of rs sign-extended and LO = all ones. -/
theorem C11_div_by_zero (ext : Ext) (c : r4300i_t) (raw : Nat)
    (hz : u32 (c.gpr (instr_rt raw)) = 0) :
    mips_spc_div ext c raw = some { c with
        mult_hi := sext32 (c.gpr (instr_rs raw)),
        mult_lo := if u32 (c.gpr (instr_rs raw)) < 0x80000000 then 0xFFFFFFFFFFFFFFFF else 1 }
    ∧ mips_spc_divu ext c raw = some { c with
        mult_hi := sext32 (c.gpr (instr_rs raw)),
        mult_lo := 0xFFFFFFFFFFFFFFFF } := by
  constructor
  · have hd : toSigned 32 (u32 (c.gpr (instr_rt raw))) = 0 := (toSigned32_eq_zero _).mpr hz
    simp only [mips_spc_div, get_register, hd, if_true, ofSigned_toSigned32, toSigned32_nonneg]
    by_cases h : u32 (c.gpr (instr_rs raw)) < 0x80000000
    · simp only [h, if_true]
      rfl
    · simp only [h, if_false]
      rfl
  · simp only [mips_spc_divu, get_register, hz, if_true]
    congr 2
    unfold sext32 u32
    simp

/-- Witness of C11: `DIV r1, r2` with r1 = 0xFFFFFFFF80000000, r2 = 0 gives
HI = 0xFFFFFFFF80000000 and LO = 1. -/
theorem C11_div_by_zero_witness :
    ∃ c', mips_spc_div flat_ext div_zero_state 0x0022001A = some c' ∧
      c'.mult_hi = 0xFFFFFFFF80000000 ∧ c'.mult_lo = 1 ∧
      ∃ c'', mips_spc_divu flat_ext div_zero_state 0x0022001B = some c'' ∧
        c''.mult_hi = 0xFFFFFFFF80000000 ∧ c''.mult_lo = 0xFFFFFFFFFFFFFFFF :=
  ⟨_, (C11_div_by_zero flat_ext div_zero_state 0x0022001A (by decide)).1, by decide, by decide,
   _, (C11_div_by_zero flat_ext div_zero_state 0x0022001B (by decide)).2, by decide, by decide⟩

/-! ### 64-bit division -/

theorem toSigned64_ofSigned (q : Int) (h1 : -(2 : Int) ^ 63 ≤ q) (h2 : q < (2 : Int) ^ 63) :
    toSigned 64 (ofSigned 64 q) = q := by
  unfold toSigned ofSigned
  norm_num at h1 h2 ⊢
  split_ifs <;> omega

theorem ofSigned64_lt (q : Int) : ofSigned 64 q < 0x10000000000000000 := by
  unfold ofSigned
  norm_num
  omega

theorem toSigned64_range (x : Nat) (h : x < 0x10000000000000000) :
    -(2 : Int) ^ 63 ≤ toSigned 64 x ∧ toSigned 64 x < (2 : Int) ^ 63 := by
  unfold toSigned
  norm_num
  split_ifs <;> omega

theorem neg_tmod (a b : Int) : Int.tmod (-a) b = -Int.tmod a b := by
  rw [Int.tmod_def, Int.tmod_def, Int.neg_tdiv]
  ring

theorem tmod_bounds (a b : Int) (hb : b ≠ 0) :
    |Int.tmod a b| < |b| ∧ (0 ≤ a → 0 ≤ Int.tmod a b) ∧ (a ≤ 0 → Int.tmod a b ≤ 0) := by
  have pos : ∀ x y : Int, 0 ≤ x → y ≠ 0 → 0 ≤ Int.tmod x y ∧ Int.tmod x y < |y| := by
    intro x y hx hy
    refine ⟨Int.tmod_nonneg y hx, ?_⟩
    rcases lt_or_gt_of_ne hy with h | h
    · have := Int.tmod_lt_of_pos x (show 0 < -y by omega)
      rw [Int.tmod_neg] at this
      rw [abs_of_neg h]
      exact this
    · have := Int.tmod_lt_of_pos x h
      rw [abs_of_pos h]
      exact this
  rcases le_or_lt 0 a with ha | ha
  · obtain ⟨h1, h2⟩ := pos a b ha hb
    refine ⟨by rw [abs_of_nonneg h1]; exact h2, fun _ => h1, fun h => ?_⟩
    have : a = 0 := le_antisymm h ha
    subst this
    simp
  · obtain ⟨h1, h2⟩ := pos (-a) b (by omega) hb
    rw [neg_tmod] at h1 h2
    refine ⟨?_, fun h => by omega, fun _ => by omega⟩
    rw [abs_of_nonpos (by omega)]
    exact h2

theorem tdiv_range (a b : Int) (hb : b ≠ 0) (h1 : -(2 : Int) ^ 63 ≤ a) (h2 : a < (2 : Int) ^ 63)
    (hov : ¬ (b = -1 ∧ a = -(2 : Int) ^ 63)) :
    -(2 : Int) ^ 63 ≤ Int.tdiv a b ∧ Int.tdiv a b < (2 : Int) ^ 63 := by
  by_cases hb1 : b = 1
  · subst hb1
    rw [Int.tdiv_one]
    exact ⟨h1, h2⟩
  by_cases hbm : b = -1
  · subst hbm
    have : Int.tdiv a (-1) = -a := by
      rw [show (-1 : Int) = -(1 : Int) by rfl, Int.tdiv_neg, Int.tdiv_one]
    rw [this]
    have : a ≠ -(2 : Int) ^ 63 := fun h => hov ⟨rfl, h⟩
    norm_num at h1 h2 this ⊢
    omega
  · have hnb : 2 ≤ b.natAbs := by omega
    have hq : (Int.tdiv a b).natAbs ≤ a.natAbs / 2 := by
      rw [Int.natAbs_tdiv]
      exact Nat.div_le_div_left hnb (by norm_num)
    norm_num at h1 h2 ⊢
    omega

/-- C12: for 64-bit register values, DDIV with rs = INT64_MIN and rt = -1
writes LO = INT64_MIN and HI = 0 and returns; for every other pair with
rt != 0 it writes LO and HI whose signed readings are the quotient truncated
toward zero and its remainder, so that rs = LO * rt + HI, |HI| < |rt|, and HI
is zero or has the sign of rs.  Nothing else changes. -/
theorem C12_ddiv (ext : Ext) (c : r4300i_t) (raw : Nat)
    (hrs : c.gpr (instr_rs raw) < 0x10000000000000000)
    (hrt : c.gpr (instr_rt raw) < 0x10000000000000000) :
    (toSigned 64 (c.gpr (instr_rs raw)) = -(2 : Int) ^ 63 →
      toSigned 64 (c.gpr (instr_rt raw)) = -1 →
      mips_spc_ddiv ext c raw = some { c with mult_lo := 0x8000000000000000, mult_hi := 0 })
    ∧ (toSigned 64 (c.gpr (instr_rt raw)) ≠ 0 →
      ¬ (toSigned 64 (c.gpr (instr_rt raw)) = -1 ∧
          toSigned 64 (c.gpr (instr_rs raw)) = -(2 : Int) ^ 63) →
      ∃ lo hi, mips_spc_ddiv ext c raw = some { c with mult_lo := lo, mult_hi := hi } ∧
        lo < 0x10000000000000000 ∧ hi < 0x10000000000000000 ∧
        toSigned 64 lo = Int.tdiv (toSigned 64 (c.gpr (instr_rs raw)))
          (toSigned 64 (c.gpr (instr_rt raw))) ∧
        toSigned 64 hi = Int.tmod (toSigned 64 (c.gpr (instr_rs raw)))
          (toSigned 64 (c.gpr (instr_rt raw))) ∧
        toSigned 64 (c.gpr (instr_rs raw))
          = toSigned 64 lo * toSigned 64 (c.gpr (instr_rt raw)) + toSigned 64 hi ∧
        |toSigned 64 hi| < |toSigned 64 (c.gpr (instr_rt raw))| ∧
        (0 ≤ toSigned 64 (c.gpr (instr_rs raw)) → 0 ≤ toSigned 64 hi) ∧
        (toSigned 64 (c.gpr (instr_rs raw)) ≤ 0 → toSigned 64 hi ≤ 0)) := by
  obtain ⟨ha1, ha2⟩ := toSigned64_range _ hrs
  obtain ⟨hb1, hb2⟩ := toSigned64_range _ hrt
  constructor
  · intro ha hb
    simp only [mips_spc_ddiv, get_register, ha, hb]
    rfl
  · intro hb hov
    obtain ⟨hq1, hq2⟩ := tdiv_range _ _ hb ha1 ha2 hov
    obtain ⟨hr1, hr2, hr3⟩ := tmod_bounds (toSigned 64 (c.gpr (instr_rs raw))) _ hb
    have hrr : -(2 : Int) ^ 63 ≤ Int.tmod (toSigned 64 (c.gpr (instr_rs raw)))
          (toSigned 64 (c.gpr (instr_rt raw))) ∧
        Int.tmod (toSigned 64 (c.gpr (instr_rs raw))) (toSigned 64 (c.gpr (instr_rt raw)))
          < (2 : Int) ^ 63 := by
      have h3 := abs_lt.mp hr1
      have h4 := abs_le.mp (le_refl |toSigned 64 (c.gpr (instr_rt raw))|)
      rcases abs_cases (toSigned 64 (c.gpr (instr_rt raw))) with ⟨h5, -⟩ | ⟨h5, -⟩ <;>
        constructor <;> omega
    have hov' : ¬ (toSigned 64 (c.gpr (instr_rt raw)) = -1 ∧
        toSigned 64 (c.gpr (instr_rs raw)) = -(2 : Int) ^ 63) := hov
    refine ⟨_, _, ?_, ofSigned64_lt _, ofSigned64_lt _, toSigned64_ofSigned _ hq1 hq2,
      toSigned64_ofSigned _ hrr.1 hrr.2, ?_, ?_, ?_, ?_⟩
    · simp only [mips_spc_ddiv, get_register, hb, if_false, hov']
    · rw [toSigned64_ofSigned _ hq1 hq2, toSigned64_ofSigned _ hrr.1 hrr.2]
      exact (Int.tdiv_add_tmod' _ _).symm
    · rw [toSigned64_ofSigned _ hrr.1 hrr.2]
      exact hr1
    · rw [toSigned64_ofSigned _ hrr.1 hrr.2]
      exact hr2
    · rw [toSigned64_ofSigned _ hrr.1 hrr.2]
      exact hr3

/-- Witness of C12: `DDIV r1, r2` with r1 = -7 and r2 = 2 gives LO = -3 and
HI = -1. -/
theorem C12_ddiv_witness :
    ∃ lo hi, mips_spc_ddiv flat_ext ddiv_state 0x0022001E
        = some { ddiv_state with mult_lo := lo, mult_hi := hi } ∧
      toSigned 64 lo = -3 ∧ toSigned 64 hi = -1 := by
  obtain ⟨lo, hi, h, -, -, hq, hr, -⟩ :=
    (C12_ddiv flat_ext ddiv_state 0x0022001E (by decide) (by decide)).2 (by decide) (by decide)
  refine ⟨lo, hi, h, ?_, ?_⟩
  · rw [hq]
    decide
  · rw [hr]
    decide

/-! ### 32-bit multiplication -/

theorem and_mask32 (x : Nat) : x &&& 0xFFFFFFFF = x % 0x100000000 := by
  have h := Nat.and_pow_two_sub_one_eq_mod x 32
  norm_num at h
  exact h

theorem and_mask64 (x : Nat) : x &&& 0xFFFFFFFFFFFFFFFF = x % 0x10000000000000000 := by
  have h := Nat.and_pow_two_sub_one_eq_mod x 64
  norm_num at h
  exact h

theorem sext32_mod (x : Nat) : sext32 (x % 0x100000000) = sext32 x := by
  unfold sext32
  simp

theorem asr64_32_low (x : Nat) (h : x < 0x10000000000000000) :
    asr64 x 32 % 0x100000000 = x / 0x100000000 % 0x100000000 := by
  unfold asr64 ofSigned toSigned
  norm_num
  split_ifs <;> omega

theorem toSigned32_range (x : Nat) :
    -(2 : Int) ^ 31 ≤ toSigned 32 (u32 x) ∧ toSigned 32 (u32 x) < (2 : Int) ^ 31 := by
  have := u32_lt x
  unfold toSigned
  norm_num
  split_ifs <;> omega

theorem product32_fits (x y : Nat) :
    fitsSigned 64 (toSigned 32 (u32 x) * toSigned 32 (u32 y)) := by
  obtain ⟨h1, h2⟩ := toSigned32_range x
  obtain ⟨h3, h4⟩ := toSigned32_range y
  unfold fitsSigned
  norm_num at h1 h2 h3 h4 ⊢
  constructor <;> nlinarith

/-- C13: for every rs and rt, the exact product of the low words read as
signed integers fits 64 bits, and MULT writes LO = bits 31..0 and HI = bits
63..32 of its two's-complement pattern, each sign-extended from bit 31; the
exact product of the low words read as unsigned integers is below 2^64, and
MULTU writes LO = bits 31..0 and HI = bits 63..32 of it, each sign-extended
from bit 31.  Nothing else changes. -/
theorem C13_mult (ext : Ext) (c : r4300i_t) (raw : Nat) :
    fitsSigned 64 (toSigned 32 (u32 (c.gpr (instr_rs raw)))
        * toSigned 32 (u32 (c.gpr (instr_rt raw))))
    ∧ mips_spc_mult ext c raw = some { c with
        mult_lo := sext32 (ofSigned 64 (toSigned 32 (u32 (c.gpr (instr_rs raw)))
            * toSigned 32 (u32 (c.gpr (instr_rt raw)))) % 0x100000000),
        mult_hi := sext32 (ofSigned 64 (toSigned 32 (u32 (c.gpr (instr_rs raw)))
            * toSigned 32 (u32 (c.gpr (instr_rt raw)))) / 0x100000000) }
    ∧ u32 (c.gpr (instr_rs raw)) * u32 (c.gpr (instr_rt raw)) < 0x10000000000000000
    ∧ mips_spc_multu ext c raw = some { c with
        mult_lo := sext32 (u32 (c.gpr (instr_rs raw)) * u32 (c.gpr (instr_rt raw)) % 0x100000000),
        mult_hi := sext32 (u32 (c.gpr (instr_rs raw)) * u32 (c.gpr (instr_rt raw)) / 0x100000000) } := by
  have hlt : u32 (c.gpr (instr_rs raw)) * u32 (c.gpr (instr_rt raw)) < 0x10000000000000000 := by
    have h1 := u32_lt (c.gpr (instr_rs raw))
    have h2 := u32_lt (c.gpr (instr_rt raw))
    calc u32 (c.gpr (instr_rs raw)) * u32 (c.gpr (instr_rt raw))
        < 0x100000000 * 0x100000000 := Nat.mul_lt_mul'' h1 h2
      _ = 0x10000000000000000 := by norm_num
  refine ⟨product32_fits _ _, ?_, hlt, ?_⟩
  · simp only [mips_spc_mult, get_register, and_mask32, sext32_mod]
    rw [← sext32_mod (asr64 _ 32), asr64_32_low _ (ofSigned64_lt _), sext32_mod]
  · simp only [mips_spc_multu, get_register, and_mask32, sext32_mod]
    have hu : u64 (c.gpr (instr_rs raw) % 0x100000000 * (c.gpr (instr_rt raw) % 0x100000000))
        = u32 (c.gpr (instr_rs raw)) * u32 (c.gpr (instr_rt raw)) := by
      unfold u64
      exact Nat.mod_eq_of_lt hlt
    rw [hu, Nat.shiftRight_eq_div_pow]

/-! ### 64-bit multiplication -/

theorem split128 (p : Nat) (h : p < 2 ^ 128) :
    u64 (p >>> 64) * 0x10000000000000000 + (p &&& 0xFFFFFFFFFFFFFFFF) = p
    ∧ (p &&& 0xFFFFFFFFFFFFFFFF) < 0x10000000000000000
    ∧ u64 (p >>> 64) < 0x10000000000000000 := by
  rw [and_mask64, Nat.shiftRight_eq_div_pow]
  unfold u64
  norm_num at h ⊢
  omega

theorem ofSigned128_lt (i : Int) : ofSigned 128 i < 2 ^ 128 := by
  unfold ofSigned
  norm_num
  omega

/-- C14: for 64-bit register values, DMULTU leaves HI and LO with
HI * 2^64 + LO equal to the exact unsigned product rs * rt, and DMULT leaves
HI * 2^64 + LO equal to the 128-bit two's-complement pattern of the exact
signed product, which fits 128 bits (128-bit-integer build of the two multiply
helpers).  Nothing else changes. -/
theorem C14_dmult (ext : Ext) (c : r4300i_t) (raw : Nat)
    (hrs : c.gpr (instr_rs raw) < 0x10000000000000000)
    (hrt : c.gpr (instr_rt raw) < 0x10000000000000000) :
    (∃ lo hi, mips_spc_dmultu ext c raw = some { c with mult_lo := lo, mult_hi := hi } ∧
      lo < 0x10000000000000000 ∧ hi < 0x10000000000000000 ∧
      hi * 0x10000000000000000 + lo = c.gpr (instr_rs raw) * c.gpr (instr_rt raw))
    ∧ (∃ lo hi, mips_spc_dmult ext c raw = some { c with mult_lo := lo, mult_hi := hi } ∧
      lo < 0x10000000000000000 ∧ hi < 0x10000000000000000 ∧
      hi * 0x10000000000000000 + lo
        = ofSigned 128 (toSigned 64 (c.gpr (instr_rs raw)) * toSigned 64 (c.gpr (instr_rt raw))) ∧
      fitsSigned 128 (toSigned 64 (c.gpr (instr_rs raw)) * toSigned 64 (c.gpr (instr_rt raw)))) := by
  constructor
  · have hlt : c.gpr (instr_rs raw) * c.gpr (instr_rt raw) < 2 ^ 128 := by
      calc c.gpr (instr_rs raw) * c.gpr (instr_rt raw)
          < 0x10000000000000000 * 0x10000000000000000 := Nat.mul_lt_mul'' hrs hrt
        _ = 2 ^ 128 := by norm_num
    obtain ⟨h1, h2, h3⟩ := split128 _ hlt
    refine ⟨_, _, ?_, h2, h3, h1⟩
    simp only [mips_spc_dmultu, multu_64_to_128, get_register, Nat.mod_eq_of_lt hlt]
  · obtain ⟨h1, h2, h3⟩ := split128 _ (ofSigned128_lt
      (toSigned 64 (c.gpr (instr_rs raw)) * toSigned 64 (c.gpr (instr_rt raw))))
    refine ⟨_, _, ?_, h2, h3, h1, ?_⟩
    · simp only [mips_spc_dmult, mult_64_to_128, get_register]
    · obtain ⟨a1, a2⟩ := toSigned64_range _ hrs
      obtain ⟨b1, b2⟩ := toSigned64_range _ hrt
      unfold fitsSigned
      norm_num at a1 a2 b1 b2 ⊢
      constructor <;> nlinarith

/-- Witness of C14: DMULTU and DMULT of r1 = 0xFFFFFFFFFFFFFFF9 (-7) and
r2 = 2. -/
theorem C14_dmult_witness :
    (∃ lo hi, mips_spc_dmultu flat_ext ddiv_state 0x0022001D
        = some { ddiv_state with mult_lo := lo, mult_hi := hi } ∧
      hi * 0x10000000000000000 + lo = 0xFFFFFFFFFFFFFFF9 * 2)
    ∧ (∃ lo hi, mips_spc_dmult flat_ext ddiv_state 0x0022001C
        = some { ddiv_state with mult_lo := lo, mult_hi := hi } ∧
      hi * 0x10000000000000000 + lo = ofSigned 128 (-14)) := by
  obtain ⟨⟨lo, hi, h, -, -, hp⟩, ⟨lo', hi', h', -, -, hp', -⟩⟩ :=
    C14_dmult flat_ext ddiv_state 0x0022001D (by decide) (by decide)
  obtain ⟨-, ⟨lo2, hi2, h2, -, -, hp2, -⟩⟩ :=
    C14_dmult flat_ext ddiv_state 0x0022001C (by decide) (by decide)
  exact ⟨⟨lo, hi, h, hp⟩, ⟨lo2, hi2, h2, hp2⟩⟩

/-! ### Shift amounts -/

theorem and_mask5 (x : Nat) : x &&& 0b11111 = x % 32 := by
  have h := Nat.and_pow_two_sub_one_eq_mod x 5
  norm_num at h
  exact h

theorem and_mask6 (x : Nat) : x &&& 0b111111 = x % 64 := by
  have h := Nat.and_pow_two_sub_one_eq_mod x 6
  norm_num at h
  exact h

/-- C15: for every state and instruction word, SLLV, SRLV and SRAV shift by
exactly rs mod 32 (the low word of rt times 2^n wrapped to 32 bits, the low
word of rt divided by 2^n, the signed rt divided by 2^n rounding down, each
then sign-extended from bit 31), DSLLV, DSRLV and DSRAV shift the 64-bit rt by
exactly rs mod 64, and DSLL32, DSRL32 and DSRA32 shift it by exactly sa + 32;
rs enters the result only through rs mod 32, respectively rs mod 64. -/
theorem C15_shift_amounts (ext : Ext) (c : r4300i_t) (raw : Nat) :
    mips_spc_sllv ext c raw = some (set_register c (instr_rd raw)
        (sext32 (u32 (u32 (c.gpr (instr_rt raw)) * 2 ^ (c.gpr (instr_rs raw) % 32)))))
    ∧ mips_spc_srlv ext c raw = some (set_register c (instr_rd raw)
        (sext32 (u32 (c.gpr (instr_rt raw)) / 2 ^ (c.gpr (instr_rs raw) % 32))))
    ∧ mips_spc_srav ext c raw = some (set_register c (instr_rd raw)
        (sext32 (ofSigned 64 (toSigned 64 (c.gpr (instr_rt raw))
          / (2 : Int) ^ (c.gpr (instr_rs raw) % 32)))))
    ∧ mips_spc_dsllv ext c raw = some (set_register c (instr_rd raw)
        (u64 (c.gpr (instr_rt raw) * 2 ^ (c.gpr (instr_rs raw) % 64))))
    ∧ mips_spc_dsrlv ext c raw = some (set_register c (instr_rd raw)
        (c.gpr (instr_rt raw) / 2 ^ (c.gpr (instr_rs raw) % 64)))
    ∧ mips_spc_dsrav ext c raw = some (set_register c (instr_rd raw)
        (ofSigned 64 (toSigned 64 (c.gpr (instr_rt raw))
          / (2 : Int) ^ (c.gpr (instr_rs raw) % 64))))
    ∧ mips_spc_dsll32 ext c raw = some (set_register c (instr_rd raw)
        (u64 (c.gpr (instr_rt raw) * 2 ^ (instr_sa raw + 32))))
    ∧ mips_spc_dsrl32 ext c raw = some (set_register c (instr_rd raw)
        (c.gpr (instr_rt raw) / 2 ^ (instr_sa raw + 32)))
    ∧ mips_spc_dsra32 ext c raw = some (set_register c (instr_rd raw)
        (ofSigned 64 (toSigned 64 (c.gpr (instr_rt raw)) / (2 : Int) ^ (instr_sa raw + 32)))) := by
  refine ⟨?_, ?_, ?_, ?_, ?_, ?_, ?_, ?_, ?_⟩
  · simp only [mips_spc_sllv, get_register, and_mask5, Nat.shiftLeft_eq]
  · simp only [mips_spc_srlv, get_register, and_mask5, Nat.shiftRight_eq_div_pow]
  · simp only [mips_spc_srav, get_register, and_mask5, asr64]
  · simp only [mips_spc_dsllv, get_register, and_mask6, Nat.shiftLeft_eq]
  · simp only [mips_spc_dsrlv, get_register, and_mask6, Nat.shiftRight_eq_div_pow]
  · simp only [mips_spc_dsrav, get_register, and_mask6, asr64]
  · simp only [mips_spc_dsll32, get_register, Nat.shiftLeft_eq]
  · simp only [mips_spc_dsrl32, get_register, Nat.shiftRight_eq_div_pow]
  · simp only [mips_spc_dsra32, get_register, asr64]

/-! ### Load linked and store conditional -/

theorem set_register_llbit (c : r4300i_t) (r v : Nat) :
    (set_register c r v).llbit = c.llbit := by
  unfold set_register
  split <;> rfl

theorem set_register_mem (c : r4300i_t) (r v : Nat) :
    (set_register c r v).mem = c.mem := by
  unfold set_register
  split <;> rfl

theorem set_register_gpr_self (c : r4300i_t) (r v : Nat) (h : r ≠ 0) :
    (set_register c r v).gpr r = v := by
  unfold set_register
  simp [h]

theorem and_mask2 (x : Nat) : x &&& 0b11 = x % 4 := by
  have h := Nat.and_pow_two_sub_one_eq_mod x 2
  norm_num at h
  exact h

theorem and_mask3 (x : Nat) : x &&& 0b111 = x % 8 := by
  have h := Nat.and_pow_two_sub_one_eq_mod x 3
  norm_num at h
  exact h

/-- C19 (counterexample): in 32-bit user mode SCD at an aligned kseg0 address
with the link bit set ends in the fatal diagnostic; it neither stores nor
writes rt, while SC on the same state stores and writes 1. -/
theorem C19_counterexample :
    effective_address scd_user_state 0xF0220000 % 8 = 0
    ∧ flat_ext.resolve_virtual_address { scd_user_state with llbit := false }
        (effective_address scd_user_state 0xF0220000) bus_access_t.BUS_STORE
        = Except.ok 0x100
    ∧ mips_scd flat_ext scd_user_state 0xF0220000 = none
    ∧ (mips_sc flat_ext scd_user_state 0xE0220000).map (fun s => (s.gpr 2, s.llbit))
        = some (1, false) := by
  refine ⟨by decide, rfl, rfl, rfl⟩

/-- C19 (amended): for every state whose effective address translates for a
store to the physical address p: when the address is a multiple of 4, SC with
the link bit set stores the low 32 bits of rt at p and then writes 1 to rt, SC
with the link bit clear leaves memory alone and writes 0 to rt, and the link
bit is clear afterwards in both cases; when the address is a multiple of 8 and
the processor is in 64-bit addressing mode or in kernel mode, SCD does the same
with a 64-bit store of rt. -/
theorem C19_sc_scd (ext : Ext) (c : r4300i_t) (raw p : Nat)
    (hres : ext.resolve_virtual_address { c with llbit := false } (effective_address c raw)
      bus_access_t.BUS_STORE = Except.ok p) :
    (effective_address c raw % 4 = 0 →
      (c.llbit = true → mips_sc ext c raw = some (set_register
          { c with llbit := false,
                   mem := n64_write_physical_word c.mem (u32 p) (u32 (c.gpr (instr_rt raw))) }
          (instr_rt raw) 1))
      ∧ (c.llbit = false → mips_sc ext c raw = some (set_register c (instr_rt raw) 0))
      ∧ ∃ c', mips_sc ext c raw = some c' ∧ c'.llbit = false)
    ∧ (effective_address c raw % 8 = 0 →
      (c.cp0.is_64bit_addressing = true ∨ c.cp0.kernel_mode = true) →
      (c.llbit = true → mips_scd ext c raw = some (set_register
          { c with llbit := false,
                   mem := n64_write_physical_dword c.mem (u32 p) (c.gpr (instr_rt raw)) }
          (instr_rt raw) 1))
      ∧ (c.llbit = false → mips_scd ext c raw = some (set_register c (instr_rt raw) 0))
      ∧ ∃ c', mips_scd ext c raw = some c' ∧ c'.llbit = false) := by
  constructor
  · intro ha
    have hal : ¬ (0 < effective_address c raw &&& 0b11) := by
      rw [and_mask2, ha]
      decide
    have h1 : c.llbit = true → mips_sc ext c raw = some (set_register
          { c with llbit := false,
                   mem := n64_write_physical_word c.mem (u32 p) (u32 (c.gpr (instr_rt raw))) }
          (instr_rt raw) 1) := by
      intro hl
      unfold mips_sc
      simp only [if_neg hal, hl, if_true, hres]
      rfl
    have h0 : c.llbit = false → mips_sc ext c raw = some (set_register c (instr_rt raw) 0) := by
      intro hl
      unfold mips_sc
      simp only [if_neg hal, hl]
      rfl
    refine ⟨h1, h0, ?_⟩
    cases hl : c.llbit
    · exact ⟨_, h0 hl, by rw [set_register_llbit, hl]⟩
    · exact ⟨_, h1 hl, by rw [set_register_llbit]⟩
  · intro ha hmode
    have hal : ¬ (0 < effective_address c raw &&& 0b111) := by
      rw [and_mask3, ha]
      decide
    have hm : (!c.cp0.is_64bit_addressing && !c.cp0.kernel_mode) = false := by
      rcases hmode with h | h <;> simp [h]
    have h1 : c.llbit = true → mips_scd ext c raw = some (set_register
          { c with llbit := false,
                   mem := n64_write_physical_dword c.mem (u32 p) (c.gpr (instr_rt raw)) }
          (instr_rt raw) 1) := by
      intro hl
      unfold mips_scd
      simp only [hm, if_neg hal, hl, if_true, hres]
      rfl
    have h0 : c.llbit = false → mips_scd ext c raw = some (set_register c (instr_rt raw) 0) := by
      intro hl
      unfold mips_scd
      simp only [hm, if_neg hal, hl]
      rfl
    refine ⟨h1, h0, ?_⟩
    cases hl : c.llbit
    · exact ⟨_, h0 hl, by rw [set_register_llbit, hl]⟩
    · exact ⟨_, h1 hl, by rw [set_register_llbit]⟩

/-- C19 (amended), at SC r2, 0(r1) and SCD r2, 0(r1) in kernel mode with the
link bit set: both write 1 to r2 and clear the link bit. -/
theorem C19_sc_scd_witness :
    (mips_sc flat_ext { llsc_state with llbit := true } 0xE0220000).map
        (fun s => (s.gpr 2, s.llbit, n64_read_physical_word s.mem 0x100)) = some (1, false, 0x1234)
    ∧ (mips_scd flat_ext { llsc_state with llbit := true } 0xF0220000).map
        (fun s => (s.gpr 2, s.llbit, n64_read_physical_dword s.mem 0x100)) = some (1, false, 0x1234) := by
  have h := C19_sc_scd flat_ext { llsc_state with llbit := true } 0xE0220000 0x100 rfl
  have h2 := C19_sc_scd flat_ext { llsc_state with llbit := true } 0xF0220000 0x100 rfl
  constructor
  · rw [(h.1 (by decide)).1 rfl]
    rfl
  · rw [(h2.2 (by decide) (Or.inr rfl)).1 rfl]
    rfl

theorem handle_exception_llbit (c c' : r4300i_t) (pc code : Nat) (ce : Int)
    (h : r4300i_handle_exception c pc code ce = some c') : c'.llbit = c.llbit := by
  by_cases hb : (c.branch = true ∧ c.cp0.status.exl = true)
  · simp [r4300i_handle_exception, exception_entry, hb.1, hb.2] at h
  · obtain ⟨c1, h1, -, -, -, -, -, -, -, -, -, -, hl, -⟩ := exception_entry_spec c pc code ce hb
    simp only [r4300i_handle_exception, h1, exception_vector] at h
    split at h
    · cases h
    · next c2 hv =>
      cases h
      split at hv
      · cases hv
      · split at hv
        · cases hv
          exact hl
        · split at hv
          · cases hv
            exact hl
          · cases hv

theorem tlb_fault_llbit (c c' : r4300i_t) (e : tlb_error_t) (address : Nat) (a : bus_access_t)
    (h : tlb_fault c e address a = some c') : c'.llbit = c.llbit := by
  unfold tlb_fault at h
  have h2 := handle_exception_llbit _ _ _ _ _ h
  exact h2

theorem llbit_mips_sb (ext : Ext) (c c' : r4300i_t) (raw : Nat)
    (h : mips_sb ext c raw = some c') : c'.llbit = c.llbit := by
  unfold mips_sb at h
  simp only [] at h
  repeat' split at h
  all_goals first
    | exact handle_exception_llbit _ _ _ _ _ h
    | exact tlb_fault_llbit _ _ _ _ _ h
    | (cases h
       rfl)

theorem llbit_mips_sh (ext : Ext) (c c' : r4300i_t) (raw : Nat)
    (h : mips_sh ext c raw = some c') : c'.llbit = c.llbit := by
  unfold mips_sh at h
  simp only [] at h
  repeat' split at h
  all_goals first
    | exact handle_exception_llbit _ _ _ _ _ h
    | exact tlb_fault_llbit _ _ _ _ _ h
    | (cases h
       rfl)

theorem llbit_mips_sw (ext : Ext) (c c' : r4300i_t) (raw : Nat)
    (h : mips_sw ext c raw = some c') : c'.llbit = c.llbit := by
  unfold mips_sw at h
  simp only [] at h
  split at h
  · have h2 := handle_exception_llbit _ _ _ _ _ h
    exact h2
  · split at h
    · exact tlb_fault_llbit _ _ _ _ _ h
    · cases h
      rfl

theorem llbit_mips_sd (ext : Ext) (c c' : r4300i_t) (raw : Nat)
    (h : mips_sd ext c raw = some c') : c'.llbit = c.llbit := by
  unfold mips_sd at h
  simp only [] at h
  split at h
  · have h2 := handle_exception_llbit _ _ _ _ _ h
    exact h2
  · split at h
    · exact tlb_fault_llbit _ _ _ _ _ h
    · cases h
      rfl

theorem llbit_mips_swl (ext : Ext) (c c' : r4300i_t) (raw : Nat)
    (h : mips_swl ext c raw = some c') : c'.llbit = c.llbit := by
  unfold mips_swl at h
  simp only [] at h
  repeat' split at h
  all_goals first
    | exact handle_exception_llbit _ _ _ _ _ h
    | exact tlb_fault_llbit _ _ _ _ _ h
    | (cases h
       rfl)

theorem llbit_mips_swr (ext : Ext) (c c' : r4300i_t) (raw : Nat)
    (h : mips_swr ext c raw = some c') : c'.llbit = c.llbit := by
  unfold mips_swr at h
  simp only [] at h
  repeat' split at h
  all_goals first
    | exact handle_exception_llbit _ _ _ _ _ h
    | exact tlb_fault_llbit _ _ _ _ _ h
    | (cases h
       rfl)

theorem llbit_mips_sdl (ext : Ext) (c c' : r4300i_t) (raw : Nat)
    (h : mips_sdl ext c raw = some c') : c'.llbit = c.llbit := by
  unfold mips_sdl at h
  simp only [] at h
  repeat' split at h
  all_goals first
    | exact handle_exception_llbit _ _ _ _ _ h
    | exact tlb_fault_llbit _ _ _ _ _ h
    | (cases h
       rfl)

theorem llbit_mips_sdr (ext : Ext) (c c' : r4300i_t) (raw : Nat)
    (h : mips_sdr ext c raw = some c') : c'.llbit = c.llbit := by
  unfold mips_sdr at h
  simp only [] at h
  repeat' split at h
  all_goals first
    | exact handle_exception_llbit _ _ _ _ _ h
    | exact tlb_fault_llbit _ _ _ _ _ h
    | (cases h
       rfl)

theorem llbit_mips_ll (ext : Ext) (c c' : r4300i_t) (raw : Nat)
    (h : mips_ll ext c raw = some c') : c'.llbit = true := by
  unfold mips_ll at h
  simp only [] at h
  have fin : ∀ s a r q, mips_ll_finish s raw a r q = some c' → c'.llbit = true := by
    intro s a r q hf
    unfold mips_ll_finish at hf
    split at hf
    · cases hf
    · cases hf
      rfl
  split at h
  · split at h
    · cases h
    · exact fin _ _ _ _ h
  · exact fin _ _ _ _ h

/-- C20 (counterexample): with flat kseg0 memory, LL r3, 0(r1); SW r2, 4(r1);
SC r2, 0(r1) at an aligned address: the store goes to the same 16-byte line as
the LL, and the SC still succeeds: it writes 1 to r2 and stores 0x1234. -/
theorem C20_counterexample :
    (((mips_ll flat_ext llsc_state 0xC0230000).bind
        (fun s => mips_sw flat_ext s 0xAC220004)).bind
        (fun s => mips_sc flat_ext s 0xE0220000)).map
      (fun s => (s.gpr 2, n64_read_physical_word s.mem 0x100, n64_read_physical_word s.mem 0x104,
        s.cp0.lladdr, s.llbit))
      = some (1, 0x1234, 0x1234, 0x10, false) := by
  rfl

/-- C20 (amended): for every state, when LL returns and is followed by an
ordinary store (SB, SH, SW, SD, SWL, SWR, SDL or SDR, to any address) that
returns, the link bit is still set after the store, and an SC at an address
that is a multiple of 4 and translates for a store to p succeeds: it stores
the low 32 bits of rt at p, writes 1 to rt and clears the link bit. -/
theorem C20_store_keeps_link (ext : Ext) (c0 c1 c2 : r4300i_t) (rawLL rawST rawSC p : Nat)
    (store : Ext → r4300i_t → Nat → Option r4300i_t)
    (hst : store = mips_sb ∨ store = mips_sh ∨ store = mips_sw ∨ store = mips_sd
      ∨ store = mips_swl ∨ store = mips_swr ∨ store = mips_sdl ∨ store = mips_sdr)
    (hll : mips_ll ext c0 rawLL = some c1)
    (hstore : store ext c1 rawST = some c2)
    (halign : effective_address c2 rawSC % 4 = 0)
    (hres : ext.resolve_virtual_address { c2 with llbit := false } (effective_address c2 rawSC)
      bus_access_t.BUS_STORE = Except.ok p) :
    c1.llbit = true ∧ c2.llbit = true
    ∧ mips_sc ext c2 rawSC = some (set_register
        { c2 with llbit := false,
                  mem := n64_write_physical_word c2.mem (u32 p) (u32 (c2.gpr (instr_rt rawSC))) }
        (instr_rt rawSC) 1) := by
  have h1 : c1.llbit = true := llbit_mips_ll ext c0 c1 rawLL hll
  have h2 : c2.llbit = true := by
    rw [← h1]
    rcases hst with h | h | h | h | h | h | h | h <;> subst h
    · exact llbit_mips_sb ext c1 c2 rawST hstore
    · exact llbit_mips_sh ext c1 c2 rawST hstore
    · exact llbit_mips_sw ext c1 c2 rawST hstore
    · exact llbit_mips_sd ext c1 c2 rawST hstore
    · exact llbit_mips_swl ext c1 c2 rawST hstore
    · exact llbit_mips_swr ext c1 c2 rawST hstore
    · exact llbit_mips_sdl ext c1 c2 rawST hstore
    · exact llbit_mips_sdr ext c1 c2 rawST hstore
  refine ⟨h1, h2, ?_⟩
  have hal : ¬ (0 < effective_address c2 rawSC &&& 0b11) := by
    rw [and_mask2, halign]
    decide
  unfold mips_sc
  simp only [if_neg hal, h2, if_true, hres]
  rfl

/-- C20 (amended), at LL r3, 0(r1); SW r2, 4(r1); SC r2, 0(r1) over flat kseg0
memory. -/
theorem C20_store_keeps_link_witness :
    ∃ c1 c2, mips_ll flat_ext llsc_state 0xC0230000 = some c1
      ∧ mips_sw flat_ext c1 0xAC220004 = some c2
      ∧ c2.llbit = true
      ∧ (mips_sc flat_ext c2 0xE0220000).map (fun s => s.gpr 2) = some 1 := by
  refine ⟨_, _, rfl, rfl, ?_, ?_⟩
  · exact (C20_store_keeps_link flat_ext llsc_state _ _ 0xC0230000 0xAC220004 0xE0220000 0x100
      mips_sw (Or.inr (Or.inr (Or.inl rfl))) rfl rfl (by decide) rfl).2.1
  · rfl

/-! ### Unaligned loads and stores -/

theorem read_word_lt (m : Nat → Nat) (p : Nat) : n64_read_physical_word m p < 0x100000000 := by
  unfold n64_read_physical_word n64_read_physical_half n64_read_physical_byte
  omega

theorem read_dword_lt (m : Nat → Nat) (p : Nat) :
    n64_read_physical_dword m p < 0x10000000000000000 := by
  have h1 := read_word_lt m p
  have h2 := read_word_lt m (p + 4)
  unfold n64_read_physical_dword
  omega

theorem write_word_frame (m : Nat → Nat) (p V a : Nat) (h : a < p ∨ p + 4 ≤ a) :
    n64_write_physical_word m p V a = m a := by
  unfold n64_write_physical_word n64_write_physical_half n64_write_physical_byte
  have h0 : a ≠ p := by omega
  have h1 : a ≠ p + 1 := by omega
  have h2 : a ≠ p + 2 := by omega
  have h3 : a ≠ p + 2 + 1 := by omega
  simp only [if_neg h0, if_neg h1, if_neg h2, if_neg h3]

theorem write_dword_frame (m : Nat → Nat) (p V a : Nat) (h : a < p ∨ p + 8 ≤ a) :
    n64_write_physical_dword m p V a = m a := by
  unfold n64_write_physical_dword
  rw [write_word_frame _ _ _ _ (by omega), write_word_frame _ _ _ _ (by omega)]

theorem read_write_word (m : Nat → Nat) (p V : Nat) :
    n64_read_physical_word (n64_write_physical_word m p V) p = V % 0x100000000 := by
  unfold n64_read_physical_word n64_read_physical_half n64_read_physical_byte
    n64_write_physical_word n64_write_physical_half n64_write_physical_byte
  have e1 : ¬ (p = p + 1) := by omega
  have e2 : ¬ (p = p + 2) := by omega
  have e3 : ¬ (p = p + 2 + 1) := by omega
  have e4 : ¬ (p + 1 = p + 2) := by omega
  have e5 : ¬ (p + 1 = p + 2 + 1) := by omega
  have e6 : ¬ (p + 2 = p + 2 + 1) := by omega
  simp only [if_true, if_neg e1, if_neg e2, if_neg e3, if_neg e4, if_neg e5, if_neg e6]
  omega

theorem read_word_frame (m : Nat → Nat) (p q V : Nat) (h : q + 4 ≤ p ∨ p + 4 ≤ q) :
    n64_read_physical_word (n64_write_physical_word m p V) q = n64_read_physical_word m q := by
  unfold n64_read_physical_word n64_read_physical_half n64_read_physical_byte
  rw [write_word_frame _ _ _ _ (by omega), write_word_frame _ _ _ _ (by omega),
    write_word_frame _ _ _ _ (by omega), write_word_frame _ _ _ _ (by omega)]

theorem read_write_dword (m : Nat → Nat) (p V : Nat) :
    n64_read_physical_dword (n64_write_physical_dword m p V) p = V % 0x10000000000000000 := by
  unfold n64_read_physical_dword n64_write_physical_dword
  rw [read_write_word, read_word_frame _ _ _ _ (Or.inl (le_refl _)), read_write_word]
  omega

theorem and_bnot_shl (B s A : Nat) (hs : s ≤ B) :
    A &&& bnot B (((2 ^ B - 1) <<< s) % 2 ^ B) = A % 2 ^ s := by
  rw [← Nat.and_pow_two_sub_one_eq_mod]
  apply Nat.eq_of_testBit_eq
  intro i
  simp only [bnot, Nat.testBit_and, Nat.testBit_xor, Nat.testBit_two_pow_sub_one,
    Nat.testBit_mod_two_pow, Nat.testBit_shiftLeft]
  by_cases h1 : i < B <;> by_cases h2 : i < s <;> simp [h1, h2] <;> omega

theorem and_bnot_shr (B s A : Nat) (hs : s ≤ B) :
    A &&& bnot B ((2 ^ B - 1) >>> s) = 2 ^ (B - s) * (A % 2 ^ B / 2 ^ (B - s)) := by
  apply Nat.eq_of_testBit_eq
  intro i
  simp only [bnot, Nat.testBit_and, Nat.testBit_xor, Nat.testBit_two_pow_sub_one,
    Nat.testBit_shiftRight, Nat.testBit_mul_pow_two, ← Nat.shiftRight_eq_div_pow,
    Nat.testBit_mod_two_pow]
  by_cases h1 : i < B <;> by_cases h2 : B - s ≤ i <;> simp [h1, h2] <;> omega

theorem cat_div_mod (n a b : Nat) (hb : b < 2 ^ n) :
    (2 ^ n * a + b) / 2 ^ n = a ∧ (2 ^ n * a + b) % 2 ^ n = b := by
  have hpos : 0 < 2 ^ n := Nat.two_pow_pos _
  constructor
  · rw [Nat.mul_add_div hpos, Nat.div_eq_of_lt hb, Nat.add_zero]
  · rw [Nat.mul_add_mod, Nat.mod_eq_of_lt hb]

theorem cat_lt (n m a b : Nat) (ha : a < 2 ^ m) (hb : b < 2 ^ n) :
    2 ^ n * a + b < 2 ^ (n + m) := by
  have h1 : 2 ^ n * a + b < 2 ^ n * (a + 1) := by
    rw [Nat.mul_add, Nat.mul_one]
    omega
  have h2 : 2 ^ n * (a + 1) ≤ 2 ^ n * 2 ^ m := Nat.mul_le_mul_left _ ha
  rw [Nat.pow_add]
  omega

theorem merge_left (B s A D : Nat) (hs : s ≤ B) :
    (A &&& bnot B (((2 ^ B - 1) <<< s) % 2 ^ B)) ||| ((D <<< s) % 2 ^ B)
      = 2 ^ s * (D % 2 ^ (B - s)) + A % 2 ^ s := by
  have hB : 2 ^ B = 2 ^ s * 2 ^ (B - s) := by
    rw [← Nat.pow_add]
    congr 1
    omega
  rw [and_bnot_shl B s A hs, Nat.shiftLeft_eq, Nat.mul_comm D, hB, Nat.mul_mod_mul_left, Nat.lor_comm]
  exact (Nat.mul_add_lt_is_or (Nat.mod_lt _ (Nat.two_pow_pos _)) _).symm

theorem merge_right (B s A D : Nat) (hs : s ≤ B) (hD : D < 2 ^ B) :
    (A &&& bnot B ((2 ^ B - 1) >>> s)) ||| (D >>> s)
      = 2 ^ (B - s) * (A % 2 ^ B / 2 ^ (B - s)) + D / 2 ^ s := by
  have hB : 2 ^ B = 2 ^ s * 2 ^ (B - s) := by
    rw [← Nat.pow_add]
    congr 1
    omega
  have hlt : D / 2 ^ s < 2 ^ (B - s) := by
    apply Nat.div_lt_of_lt_mul
    rw [← hB]
    exact hD
  rw [and_bnot_shr B s A hs, Nat.shiftRight_eq_div_pow]
  exact (Nat.mul_add_lt_is_or hlt _).symm

theorem merge_left32 (s A D : Nat) (hs : s ≤ 32) :
    (A &&& bnot 32 (u32 (0xFFFFFFFF <<< s))) ||| u32 (D <<< s)
      = 2 ^ s * (D % 2 ^ (32 - s)) + A % 2 ^ s :=
  merge_left 32 s A D hs

theorem merge_right32 (s A D : Nat) (hs : s ≤ 32) (hD : D < 0x100000000) :
    (A &&& bnot 32 (0xFFFFFFFF >>> s)) ||| (D >>> s)
      = 2 ^ (32 - s) * (u32 A / 2 ^ (32 - s)) + D / 2 ^ s :=
  merge_right 32 s A D hs hD

theorem merge_left64 (s A D : Nat) (hs : s ≤ 64) :
    (A &&& bnot 64 (u64 (0xFFFFFFFFFFFFFFFF <<< s))) ||| u64 (D <<< s)
      = 2 ^ s * (D % 2 ^ (64 - s)) + A % 2 ^ s :=
  merge_left 64 s A D hs

theorem merge_right64 (s A D : Nat) (hs : s ≤ 64) (hD : D < 0x10000000000000000) :
    (A &&& bnot 64 (0xFFFFFFFFFFFFFFFF >>> s)) ||| (D >>> s)
      = 2 ^ (64 - s) * (u64 A / 2 ^ (64 - s)) + D / 2 ^ s :=
  merge_right 64 s A D hs hD

theorem xor0_and3 (a : Nat) : (a ^^^ 0) &&& 3 = a % 4 := by
  rw [Nat.xor_zero]
  exact Nat.and_pow_two_sub_one_eq_mod a 2

theorem xor3_and3 (a : Nat) : (a ^^^ 3) &&& 3 = 3 - a % 4 := by
  rw [Nat.and_xor_distrib_right]
  have h : a &&& 3 = a % 4 := Nat.and_pow_two_sub_one_eq_mod a 2
  rw [h]
  have hk : a % 4 < 4 := Nat.mod_lt _ (by decide)
  generalize a % 4 = k at hk
  interval_cases k <;> rfl

theorem xor0_and7 (a : Nat) : (a ^^^ 0) &&& 7 = a % 8 := by
  rw [Nat.xor_zero]
  exact Nat.and_pow_two_sub_one_eq_mod a 3

theorem xor7_and7 (a : Nat) : (a ^^^ 7) &&& 7 = 7 - a % 8 := by
  rw [Nat.and_xor_distrib_right]
  have h : a &&& 7 = a % 8 := Nat.and_pow_two_sub_one_eq_mod a 3
  rw [h]
  have hk : a % 8 < 8 := Nat.mod_lt _ (by decide)
  generalize a % 8 = k at hk
  interval_cases k <;> rfl

theorem swl_eq (ext : Ext) (c : r4300i_t) (raw p : Nat)
    (h : ext.resolve_virtual_address c (effective_address c raw) bus_access_t.BUS_STORE = Except.ok p) :
    mips_swl ext c raw = some ({ c with mem := n64_write_physical_word c.mem (u32 p &&& 0xFFFFFFFC) (2 ^ (8 * (4 - (effective_address c raw % 4))) * (n64_read_physical_word c.mem (u32 p &&& 0xFFFFFFFC) / 2 ^ (8 * (4 - (effective_address c raw % 4)))) + u32 (c.gpr (instr_rt raw)) / 2 ^ (8 * (effective_address c raw % 4))) }) := by
  have hk4 : effective_address c raw % 4 < 4 := Nat.mod_lt _ (by decide)
  have hk8 : effective_address c raw % 8 < 8 := Nat.mod_lt _ (by decide)
  unfold mips_swl
  simp only [h, get_register]
  rw [xor0_and3, merge_right32 _ _ _ (by omega) (u32_lt _),
    show 32 - 8 * (effective_address c raw % 4) = 8 * (4 - (effective_address c raw % 4)) from by omega,
    show u32 (n64_read_physical_word c.mem (u32 p &&& 0xFFFFFFFC)) = n64_read_physical_word c.mem (u32 p &&& 0xFFFFFFFC) from Nat.mod_eq_of_lt (read_word_lt _ _)]

theorem swr_eq (ext : Ext) (c : r4300i_t) (raw p : Nat)
    (h : ext.resolve_virtual_address c (effective_address c raw) bus_access_t.BUS_STORE = Except.ok p) :
    mips_swr ext c raw = some ({ c with mem := n64_write_physical_word c.mem (u32 p &&& 0xFFFFFFFC) (2 ^ (8 * (3 - (effective_address c raw % 4))) * (u32 (c.gpr (instr_rt raw)) % 2 ^ (8 * ((effective_address c raw % 4) + 1))) + n64_read_physical_word c.mem (u32 p &&& 0xFFFFFFFC) % 2 ^ (8 * (3 - (effective_address c raw % 4)))) }) := by
  have hk4 : effective_address c raw % 4 < 4 := Nat.mod_lt _ (by decide)
  have hk8 : effective_address c raw % 8 < 8 := Nat.mod_lt _ (by decide)
  unfold mips_swr
  simp only [h, get_register]
  rw [xor3_and3, merge_left32 _ _ _ (by omega),
    show 32 - 8 * (3 - (effective_address c raw % 4)) = 8 * ((effective_address c raw % 4) + 1) from by omega]

theorem lwl_eq (ext : Ext) (c : r4300i_t) (raw p : Nat)
    (h : ext.resolve_virtual_address c (effective_address c raw) bus_access_t.BUS_LOAD = Except.ok p) :
    mips_lwl ext c raw = some (set_register c (instr_rt raw)
      (sext32 (2 ^ (8 * (effective_address c raw % 4)) * (n64_read_physical_word c.mem (u32 p &&& 0xFFFFFFFC) % 2 ^ (8 * (4 - (effective_address c raw % 4))))
        + c.gpr (instr_rt raw) % 2 ^ (8 * (effective_address c raw % 4))))) := by
  have hk4 : effective_address c raw % 4 < 4 := Nat.mod_lt _ (by decide)
  have hk8 : effective_address c raw % 8 < 8 := Nat.mod_lt _ (by decide)
  unfold mips_lwl
  simp only [h, get_register]
  rw [xor0_and3, merge_left32 _ _ _ (by omega),
    show 32 - 8 * (effective_address c raw % 4) = 8 * (4 - (effective_address c raw % 4)) from by omega]

theorem lwr_eq (ext : Ext) (c : r4300i_t) (raw p : Nat)
    (h : ext.resolve_virtual_address c (effective_address c raw) bus_access_t.BUS_LOAD = Except.ok p) :
    mips_lwr ext c raw = some (set_register c (instr_rt raw)
      (sext32 (2 ^ (8 * ((effective_address c raw % 4) + 1)) * (u32 (c.gpr (instr_rt raw)) / 2 ^ (8 * ((effective_address c raw % 4) + 1)))
        + n64_read_physical_word c.mem (u32 p &&& 0xFFFFFFFC) / 2 ^ (8 * (3 - (effective_address c raw % 4)))))) := by
  have hk4 : effective_address c raw % 4 < 4 := Nat.mod_lt _ (by decide)
  have hk8 : effective_address c raw % 8 < 8 := Nat.mod_lt _ (by decide)
  unfold mips_lwr
  simp only [h, get_register]
  rw [xor3_and3, merge_right32 _ _ _ (by omega) (read_word_lt _ _),
    show 32 - 8 * (3 - (effective_address c raw % 4)) = 8 * ((effective_address c raw % 4) + 1) from by omega]

theorem sdl_eq (ext : Ext) (c : r4300i_t) (raw p : Nat)
    (h : ext.resolve_virtual_address c (effective_address c raw) bus_access_t.BUS_STORE = Except.ok p)
    (hR : c.gpr (instr_rt raw) < 0x10000000000000000) :
    mips_sdl ext c raw = some ({ c with mem := n64_write_physical_dword c.mem (u32 p &&& 0xFFFFFFF8) (2 ^ (8 * (8 - (effective_address c raw % 8))) * (n64_read_physical_dword c.mem (u32 p &&& 0xFFFFFFF8) / 2 ^ (8 * (8 - (effective_address c raw % 8)))) + c.gpr (instr_rt raw) / 2 ^ (8 * (effective_address c raw % 8))) }) := by
  have hk4 : effective_address c raw % 4 < 4 := Nat.mod_lt _ (by decide)
  have hk8 : effective_address c raw % 8 < 8 := Nat.mod_lt _ (by decide)
  unfold mips_sdl
  simp only [h, get_register]
  rw [xor0_and7, merge_right64 _ _ _ (by omega) hR,
    show 64 - 8 * (effective_address c raw % 8) = 8 * (8 - (effective_address c raw % 8)) from by omega,
    show u64 (n64_read_physical_dword c.mem (u32 p &&& 0xFFFFFFF8)) = n64_read_physical_dword c.mem (u32 p &&& 0xFFFFFFF8) from Nat.mod_eq_of_lt (read_dword_lt _ _)]

theorem sdr_eq (ext : Ext) (c : r4300i_t) (raw p : Nat)
    (h : ext.resolve_virtual_address c (effective_address c raw) bus_access_t.BUS_STORE = Except.ok p) :
    mips_sdr ext c raw = some ({ c with mem := n64_write_physical_dword c.mem (u32 p &&& 0xFFFFFFF8) (2 ^ (8 * (7 - (effective_address c raw % 8))) * (c.gpr (instr_rt raw) % 2 ^ (8 * ((effective_address c raw % 8) + 1))) + n64_read_physical_dword c.mem (u32 p &&& 0xFFFFFFF8) % 2 ^ (8 * (7 - (effective_address c raw % 8)))) }) := by
  have hk4 : effective_address c raw % 4 < 4 := Nat.mod_lt _ (by decide)
  have hk8 : effective_address c raw % 8 < 8 := Nat.mod_lt _ (by decide)
  unfold mips_sdr
  simp only [h, get_register]
  rw [xor7_and7, merge_left64 _ _ _ (by omega),
    show 64 - 8 * (7 - (effective_address c raw % 8)) = 8 * ((effective_address c raw % 8) + 1) from by omega]

theorem ldl_eq (ext : Ext) (c : r4300i_t) (raw p : Nat)
    (h : ext.resolve_virtual_address c (effective_address c raw) bus_access_t.BUS_LOAD = Except.ok p) :
    mips_ldl ext c raw = some (set_register c (instr_rt raw)
      (2 ^ (8 * (effective_address c raw % 8)) * (n64_read_physical_dword c.mem (u32 p &&& 0xFFFFFFF8) % 2 ^ (8 * (8 - (effective_address c raw % 8))))
        + c.gpr (instr_rt raw) % 2 ^ (8 * (effective_address c raw % 8)))) := by
  have hk4 : effective_address c raw % 4 < 4 := Nat.mod_lt _ (by decide)
  have hk8 : effective_address c raw % 8 < 8 := Nat.mod_lt _ (by decide)
  unfold mips_ldl
  simp only [h, get_register]
  rw [xor0_and7, merge_left64 _ _ _ (by omega),
    show 64 - 8 * (effective_address c raw % 8) = 8 * (8 - (effective_address c raw % 8)) from by omega]

theorem ldr_eq (ext : Ext) (c : r4300i_t) (raw p : Nat)
    (h : ext.resolve_virtual_address c (effective_address c raw) bus_access_t.BUS_LOAD = Except.ok p) :
    mips_ldr ext c raw = some (set_register c (instr_rt raw)
      (2 ^ (8 * ((effective_address c raw % 8) + 1)) * (u64 (c.gpr (instr_rt raw)) / 2 ^ (8 * ((effective_address c raw % 8) + 1)))
        + n64_read_physical_dword c.mem (u32 p &&& 0xFFFFFFF8) / 2 ^ (8 * (7 - (effective_address c raw % 8))))) := by
  have hk4 : effective_address c raw % 4 < 4 := Nat.mod_lt _ (by decide)
  have hk8 : effective_address c raw % 8 < 8 := Nat.mod_lt _ (by decide)
  unfold mips_ldr
  simp only [h, get_register]
  rw [xor7_and7, merge_right64 _ _ _ (by omega) (read_dword_lt _ _),
    show 64 - 8 * (7 - (effective_address c raw % 8)) = 8 * ((effective_address c raw % 8) + 1) from by omega]

theorem div_lt_pow (x n m : Nat) (h : x < 2 ^ (n + m)) : x / 2 ^ n < 2 ^ m := by
  apply Nat.div_lt_of_lt_mul
  rw [← Nat.pow_add]
  exact h

theorem cat_facts (n m a b B : Nat) (hB : n + m = B) (ha : a < 2 ^ m) (hb : b < 2 ^ n) :
    2 ^ n * a + b < 2 ^ B ∧ (2 ^ n * a + b) / 2 ^ n = a ∧ (2 ^ n * a + b) % 2 ^ n = b := by
  subst hB
  exact ⟨cat_lt n m a b ha hb, cat_div_mod n a b hb⟩

/-- C16: for every state whose effective address translates, for loads and for
stores, with k the address mod 4, W the aligned memory word holding the
translated address and R the value of rt (a 64-bit value): SWL changes no
register and no memory byte outside that aligned word, the k most significant
bytes of the word stay those of W and the other 4-k bytes are the low word of
R shifted right by 8k; SWR likewise keeps the 3-k least significant bytes of W
and puts the low k+1 bytes of R above them (a left shift by 8(3-k)); LWL
writes to rt the sign extension of a word V whose k least significant bytes
are those of R and whose other bytes are W shifted left by 8k; LWR writes the
sign extension of a word V whose 3-k most significant bytes are those of the
low word of R and whose other bytes are W shifted right by 8(3-k).  SDL, SDR,
LDL and LDR do the same over the aligned doubleword with k the address mod 8,
8-k and 7-k in place of 4-k and 3-k, and no sign extension. -/
theorem C16_unaligned_merge (ext : Ext) (c : r4300i_t) (raw pl ps : Nat)
    (hl : ext.resolve_virtual_address c (effective_address c raw) bus_access_t.BUS_LOAD
      = Except.ok pl)
    (hs : ext.resolve_virtual_address c (effective_address c raw) bus_access_t.BUS_STORE
      = Except.ok ps)
    (hR : c.gpr (instr_rt raw) < 0x10000000000000000) :
    (∃ c', mips_swl ext c raw = some c' ∧ c'.gpr = c.gpr
        ∧ (∀ a, a < (u32 ps &&& 0xFFFFFFFC) ∨ (u32 ps &&& 0xFFFFFFFC) + 4 ≤ a → c'.mem a = c.mem a)
        ∧ n64_read_physical_word c'.mem (u32 ps &&& 0xFFFFFFFC) / 2 ^ (8 * (4 - (effective_address c raw % 4))) = n64_read_physical_word c.mem (u32 ps &&& 0xFFFFFFFC) / 2 ^ (8 * (4 - (effective_address c raw % 4)))
        ∧ n64_read_physical_word c'.mem (u32 ps &&& 0xFFFFFFFC) % 2 ^ (8 * (4 - (effective_address c raw % 4))) = u32 (c.gpr (instr_rt raw)) / 2 ^ (8 * (effective_address c raw % 4)))
    ∧ (∃ c', mips_swr ext c raw = some c' ∧ c'.gpr = c.gpr
        ∧ (∀ a, a < (u32 ps &&& 0xFFFFFFFC) ∨ (u32 ps &&& 0xFFFFFFFC) + 4 ≤ a → c'.mem a = c.mem a)
        ∧ n64_read_physical_word c'.mem (u32 ps &&& 0xFFFFFFFC) % 2 ^ (8 * (3 - (effective_address c raw % 4))) = n64_read_physical_word c.mem (u32 ps &&& 0xFFFFFFFC) % 2 ^ (8 * (3 - (effective_address c raw % 4)))
        ∧ n64_read_physical_word c'.mem (u32 ps &&& 0xFFFFFFFC) / 2 ^ (8 * (3 - (effective_address c raw % 4))) = u32 (c.gpr (instr_rt raw)) % 2 ^ (8 * ((effective_address c raw % 4) + 1)))
    ∧ (∃ V, mips_lwl ext c raw = some (set_register c (instr_rt raw) (sext32 V))
        ∧ V < 0x100000000
        ∧ V % 2 ^ (8 * (effective_address c raw % 4)) = c.gpr (instr_rt raw) % 2 ^ (8 * (effective_address c raw % 4))
        ∧ V / 2 ^ (8 * (effective_address c raw % 4)) = n64_read_physical_word c.mem (u32 pl &&& 0xFFFFFFFC) % 2 ^ (8 * (4 - (effective_address c raw % 4))))
    ∧ (∃ V, mips_lwr ext c raw = some (set_register c (instr_rt raw) (sext32 V))
        ∧ V < 0x100000000
        ∧ V / 2 ^ (8 * ((effective_address c raw % 4) + 1)) = u32 (c.gpr (instr_rt raw)) / 2 ^ (8 * ((effective_address c raw % 4) + 1))
        ∧ V % 2 ^ (8 * ((effective_address c raw % 4) + 1)) = n64_read_physical_word c.mem (u32 pl &&& 0xFFFFFFFC) / 2 ^ (8 * (3 - (effective_address c raw % 4))))
    ∧ (∃ c', mips_sdl ext c raw = some c' ∧ c'.gpr = c.gpr
        ∧ (∀ a, a < (u32 ps &&& 0xFFFFFFF8) ∨ (u32 ps &&& 0xFFFFFFF8) + 8 ≤ a → c'.mem a = c.mem a)
        ∧ n64_read_physical_dword c'.mem (u32 ps &&& 0xFFFFFFF8) / 2 ^ (8 * (8 - (effective_address c raw % 8))) = n64_read_physical_dword c.mem (u32 ps &&& 0xFFFFFFF8) / 2 ^ (8 * (8 - (effective_address c raw % 8)))
        ∧ n64_read_physical_dword c'.mem (u32 ps &&& 0xFFFFFFF8) % 2 ^ (8 * (8 - (effective_address c raw % 8))) = c.gpr (instr_rt raw) / 2 ^ (8 * (effective_address c raw % 8)))
    ∧ (∃ c', mips_sdr ext c raw = some c' ∧ c'.gpr = c.gpr
        ∧ (∀ a, a < (u32 ps &&& 0xFFFFFFF8) ∨ (u32 ps &&& 0xFFFFFFF8) + 8 ≤ a → c'.mem a = c.mem a)
        ∧ n64_read_physical_dword c'.mem (u32 ps &&& 0xFFFFFFF8) % 2 ^ (8 * (7 - (effective_address c raw % 8))) = n64_read_physical_dword c.mem (u32 ps &&& 0xFFFFFFF8) % 2 ^ (8 * (7 - (effective_address c raw % 8)))
        ∧ n64_read_physical_dword c'.mem (u32 ps &&& 0xFFFFFFF8) / 2 ^ (8 * (7 - (effective_address c raw % 8))) = c.gpr (instr_rt raw) % 2 ^ (8 * ((effective_address c raw % 8) + 1)))
    ∧ (∃ V, mips_ldl ext c raw = some (set_register c (instr_rt raw) (V))
        ∧ V < 0x10000000000000000
        ∧ V % 2 ^ (8 * (effective_address c raw % 8)) = c.gpr (instr_rt raw) % 2 ^ (8 * (effective_address c raw % 8))
        ∧ V / 2 ^ (8 * (effective_address c raw % 8)) = n64_read_physical_dword c.mem (u32 pl &&& 0xFFFFFFF8) % 2 ^ (8 * (8 - (effective_address c raw % 8))))
    ∧ (∃ V, mips_ldr ext c raw = some (set_register c (instr_rt raw) (V))
        ∧ V < 0x10000000000000000
        ∧ V / 2 ^ (8 * ((effective_address c raw % 8) + 1)) = c.gpr (instr_rt raw) / 2 ^ (8 * ((effective_address c raw % 8) + 1))
        ∧ V % 2 ^ (8 * ((effective_address c raw % 8) + 1)) = n64_read_physical_dword c.mem (u32 pl &&& 0xFFFFFFF8) / 2 ^ (8 * (7 - (effective_address c raw % 8)))) := by
  have hk4 : effective_address c raw % 4 < 4 := Nat.mod_lt _ (by decide)
  have hk8 : effective_address c raw % 8 < 8 := Nat.mod_lt _ (by decide)
  have hR32 := u32_lt (c.gpr (instr_rt raw))
  have hWs := read_word_lt c.mem (u32 ps &&& 0xFFFFFFFC)
  have hWl := read_word_lt c.mem (u32 pl &&& 0xFFFFFFFC)
  have hDs := read_dword_lt c.mem (u32 ps &&& 0xFFFFFFF8)
  have hDl := read_dword_lt c.mem (u32 pl &&& 0xFFFFFFF8)
  have p2 : ∀ n, 0 < 2 ^ n := fun n => Nat.two_pow_pos n
  have e32 : (0x100000000 : Nat) = 2 ^ 32 := by norm_num
  have e64 : (0x10000000000000000 : Nat) = 2 ^ 64 := by norm_num
  rw [e32] at hR32 hWs hWl
  rw [e64] at hDs hDl hR
  refine ⟨?_, ?_, ?_, ?_, ?_, ?_, ?_, ?_⟩
  · -- SWL
    obtain ⟨hV, hd, hm⟩ := cat_facts (8 * (4 - effective_address c raw % 4))
      (8 * (effective_address c raw % 4))
      (n64_read_physical_word c.mem (u32 ps &&& 0xFFFFFFFC)
        / 2 ^ (8 * (4 - effective_address c raw % 4)))
      (u32 (c.gpr (instr_rt raw)) / 2 ^ (8 * (effective_address c raw % 4))) 32 (by omega)
      (div_lt_pow _ _ _ (by rw [show 8 * (4 - effective_address c raw % 4)
        + 8 * (effective_address c raw % 4) = 32 from by omega]; exact hWs))
      (div_lt_pow _ _ _ (by rw [show 8 * (effective_address c raw % 4)
        + 8 * (4 - effective_address c raw % 4) = 32 from by omega]; exact hR32))
    refine ⟨_, swl_eq ext c raw ps hs, rfl, fun a ha => write_word_frame _ _ _ _ ha, ?_, ?_⟩
    · show n64_read_physical_word (n64_write_physical_word _ _ _) _ / _ = _
      rw [read_write_word, e32, Nat.mod_eq_of_lt hV]
      exact hd
    · show n64_read_physical_word (n64_write_physical_word _ _ _) _ % _ = _
      rw [read_write_word, e32, Nat.mod_eq_of_lt hV]
      exact hm
  · -- SWR
    obtain ⟨hV, hd, hm⟩ := cat_facts (8 * (3 - effective_address c raw % 4))
      (8 * (effective_address c raw % 4 + 1))
      (u32 (c.gpr (instr_rt raw)) % 2 ^ (8 * (effective_address c raw % 4 + 1)))
      (n64_read_physical_word c.mem (u32 ps &&& 0xFFFFFFFC)
        % 2 ^ (8 * (3 - effective_address c raw % 4))) 32 (by omega)
      (Nat.mod_lt _ (p2 _)) (Nat.mod_lt _ (p2 _))
    refine ⟨_, swr_eq ext c raw ps hs, rfl, fun a ha => write_word_frame _ _ _ _ ha, ?_, ?_⟩
    · show n64_read_physical_word (n64_write_physical_word _ _ _) _ % _ = _
      rw [read_write_word, e32, Nat.mod_eq_of_lt hV]
      exact hm
    · show n64_read_physical_word (n64_write_physical_word _ _ _) _ / _ = _
      rw [read_write_word, e32, Nat.mod_eq_of_lt hV]
      exact hd
  · -- LWL
    obtain ⟨hV, hd, hm⟩ := cat_facts (8 * (effective_address c raw % 4))
      (8 * (4 - effective_address c raw % 4))
      (n64_read_physical_word c.mem (u32 pl &&& 0xFFFFFFFC)
        % 2 ^ (8 * (4 - effective_address c raw % 4)))
      (c.gpr (instr_rt raw) % 2 ^ (8 * (effective_address c raw % 4))) 32 (by omega)
      (Nat.mod_lt _ (p2 _)) (Nat.mod_lt _ (p2 _))
    exact ⟨_, lwl_eq ext c raw pl hl, by rw [e32]; exact hV, hm, hd⟩
  · -- LWR
    obtain ⟨hV, hd, hm⟩ := cat_facts (8 * (effective_address c raw % 4 + 1))
      (8 * (3 - effective_address c raw % 4))
      (u32 (c.gpr (instr_rt raw)) / 2 ^ (8 * (effective_address c raw % 4 + 1)))
      (n64_read_physical_word c.mem (u32 pl &&& 0xFFFFFFFC)
        / 2 ^ (8 * (3 - effective_address c raw % 4))) 32 (by omega)
      (div_lt_pow _ _ _ (by rw [show 8 * (effective_address c raw % 4 + 1)
        + 8 * (3 - effective_address c raw % 4) = 32 from by omega]; exact hR32))
      (div_lt_pow _ _ _ (by rw [show 8 * (3 - effective_address c raw % 4)
        + 8 * (effective_address c raw % 4 + 1) = 32 from by omega]; exact hWl))
    exact ⟨_, lwr_eq ext c raw pl hl, by rw [e32]; exact hV, hd, hm⟩
  · -- SDL
    obtain ⟨hV, hd, hm⟩ := cat_facts (8 * (8 - effective_address c raw % 8))
      (8 * (effective_address c raw % 8))
      (n64_read_physical_dword c.mem (u32 ps &&& 0xFFFFFFF8)
        / 2 ^ (8 * (8 - effective_address c raw % 8)))
      (c.gpr (instr_rt raw) / 2 ^ (8 * (effective_address c raw % 8))) 64 (by omega)
      (div_lt_pow _ _ _ (by rw [show 8 * (8 - effective_address c raw % 8)
        + 8 * (effective_address c raw % 8) = 64 from by omega]; exact hDs))
      (div_lt_pow _ _ _ (by rw [show 8 * (effective_address c raw % 8)
        + 8 * (8 - effective_address c raw % 8) = 64 from by omega]; exact hR))
    refine ⟨_, sdl_eq ext c raw ps hs (by rw [e64]; exact hR), rfl,
      fun a ha => write_dword_frame _ _ _ _ ha, ?_, ?_⟩
    · show n64_read_physical_dword (n64_write_physical_dword _ _ _) _ / _ = _
      rw [read_write_dword, e64, Nat.mod_eq_of_lt hV]
      exact hd
    · show n64_read_physical_dword (n64_write_physical_dword _ _ _) _ % _ = _
      rw [read_write_dword, e64, Nat.mod_eq_of_lt hV]
      exact hm
  · -- SDR
    obtain ⟨hV, hd, hm⟩ := cat_facts (8 * (7 - effective_address c raw % 8))
      (8 * (effective_address c raw % 8 + 1))
      (c.gpr (instr_rt raw) % 2 ^ (8 * (effective_address c raw % 8 + 1)))
      (n64_read_physical_dword c.mem (u32 ps &&& 0xFFFFFFF8)
        % 2 ^ (8 * (7 - effective_address c raw % 8))) 64 (by omega)
      (Nat.mod_lt _ (p2 _)) (Nat.mod_lt _ (p2 _))
    refine ⟨_, sdr_eq ext c raw ps hs, rfl, fun a ha => write_dword_frame _ _ _ _ ha, ?_, ?_⟩
    · show n64_read_physical_dword (n64_write_physical_dword _ _ _) _ % _ = _
      rw [read_write_dword, e64, Nat.mod_eq_of_lt hV]
      exact hm
    · show n64_read_physical_dword (n64_write_physical_dword _ _ _) _ / _ = _
      rw [read_write_dword, e64, Nat.mod_eq_of_lt hV]
      exact hd
  · -- LDL
    obtain ⟨hV, hd, hm⟩ := cat_facts (8 * (effective_address c raw % 8))
      (8 * (8 - effective_address c raw % 8))
      (n64_read_physical_dword c.mem (u32 pl &&& 0xFFFFFFF8)
        % 2 ^ (8 * (8 - effective_address c raw % 8)))
      (c.gpr (instr_rt raw) % 2 ^ (8 * (effective_address c raw % 8))) 64 (by omega)
      (Nat.mod_lt _ (p2 _)) (Nat.mod_lt _ (p2 _))
    exact ⟨_, ldl_eq ext c raw pl hl, by rw [e64]; exact hV, hm, hd⟩
  · -- LDR
    have hu : u64 (c.gpr (instr_rt raw)) = c.gpr (instr_rt raw) := by
      unfold u64
      rw [e64]
      exact Nat.mod_eq_of_lt hR
    obtain ⟨hV, hd, hm⟩ := cat_facts (8 * (effective_address c raw % 8 + 1))
      (8 * (7 - effective_address c raw % 8))
      (c.gpr (instr_rt raw) / 2 ^ (8 * (effective_address c raw % 8 + 1)))
      (n64_read_physical_dword c.mem (u32 pl &&& 0xFFFFFFF8)
        / 2 ^ (8 * (7 - effective_address c raw % 8))) 64 (by omega)
      (div_lt_pow _ _ _ (by rw [show 8 * (effective_address c raw % 8 + 1)
        + 8 * (7 - effective_address c raw % 8) = 64 from by omega]; exact hR))
      (div_lt_pow _ _ _ (by rw [show 8 * (7 - effective_address c raw % 8)
        + 8 * (effective_address c raw % 8 + 1) = 64 from by omega]; exact hDl))
    have he := ldr_eq ext c raw pl hl
    rw [hu] at he
    exact ⟨_, he, by rw [e64]; exact hV, hd, hm⟩

/-- C16, at rt = r2 = 0xAABBCCDD and the kseg0 address 0xFFFFFFFF80000101 (k = 1)
over the memory word 0x11223344: the address translates to 0x101 and the eight
merges hold of the aligned word at 0x100. -/
theorem C16_unaligned_merge_witness :
    (flat_ext.resolve_virtual_address unaligned_state
        (effective_address unaligned_state 0xA8220000) bus_access_t.BUS_LOAD = Except.ok 0x101
      ∧ flat_ext.resolve_virtual_address unaligned_state
        (effective_address unaligned_state 0xA8220000) bus_access_t.BUS_STORE = Except.ok 0x101
      ∧ unaligned_state.gpr (instr_rt 0xA8220000) < 0x10000000000000000)
    ∧ (∃ c', mips_swl flat_ext unaligned_state 0xA8220000 = some c' ∧ c'.gpr = unaligned_state.gpr
        ∧ (∀ a, a < (u32 0x101 &&& 0xFFFFFFFC) ∨ (u32 0x101 &&& 0xFFFFFFFC) + 4 ≤ a → c'.mem a = unaligned_state.mem a)
        ∧ n64_read_physical_word c'.mem (u32 0x101 &&& 0xFFFFFFFC) / 2 ^ (8 * (4 - (effective_address unaligned_state 0xA8220000 % 4))) = n64_read_physical_word unaligned_state.mem (u32 0x101 &&& 0xFFFFFFFC) / 2 ^ (8 * (4 - (effective_address unaligned_state 0xA8220000 % 4)))
        ∧ n64_read_physical_word c'.mem (u32 0x101 &&& 0xFFFFFFFC) % 2 ^ (8 * (4 - (effective_address unaligned_state 0xA8220000 % 4))) = u32 (unaligned_state.gpr (instr_rt 0xA8220000)) / 2 ^ (8 * (effective_address unaligned_state 0xA8220000 % 4)))
    ∧ (∃ c', mips_swr flat_ext unaligned_state 0xA8220000 = some c' ∧ c'.gpr = unaligned_state.gpr
        ∧ (∀ a, a < (u32 0x101 &&& 0xFFFFFFFC) ∨ (u32 0x101 &&& 0xFFFFFFFC) + 4 ≤ a → c'.mem a = unaligned_state.mem a)
        ∧ n64_read_physical_word c'.mem (u32 0x101 &&& 0xFFFFFFFC) % 2 ^ (8 * (3 - (effective_address unaligned_state 0xA8220000 % 4))) = n64_read_physical_word unaligned_state.mem (u32 0x101 &&& 0xFFFFFFFC) % 2 ^ (8 * (3 - (effective_address unaligned_state 0xA8220000 % 4)))
        ∧ n64_read_physical_word c'.mem (u32 0x101 &&& 0xFFFFFFFC) / 2 ^ (8 * (3 - (effective_address unaligned_state 0xA8220000 % 4))) = u32 (unaligned_state.gpr (instr_rt 0xA8220000)) % 2 ^ (8 * ((effective_address unaligned_state 0xA8220000 % 4) + 1)))
    ∧ (∃ V, mips_lwl flat_ext unaligned_state 0xA8220000 = some (set_register unaligned_state (instr_rt 0xA8220000) (sext32 V))
        ∧ V < 0x100000000
        ∧ V % 2 ^ (8 * (effective_address unaligned_state 0xA8220000 % 4)) = unaligned_state.gpr (instr_rt 0xA8220000) % 2 ^ (8 * (effective_address unaligned_state 0xA8220000 % 4))
        ∧ V / 2 ^ (8 * (effective_address unaligned_state 0xA8220000 % 4)) = n64_read_physical_word unaligned_state.mem (u32 0x101 &&& 0xFFFFFFFC) % 2 ^ (8 * (4 - (effective_address unaligned_state 0xA8220000 % 4))))
    ∧ (∃ V, mips_lwr flat_ext unaligned_state 0xA8220000 = some (set_register unaligned_state (instr_rt 0xA8220000) (sext32 V))
        ∧ V < 0x100000000
        ∧ V / 2 ^ (8 * ((effective_address unaligned_state 0xA8220000 % 4) + 1)) = u32 (unaligned_state.gpr (instr_rt 0xA8220000)) / 2 ^ (8 * ((effective_address unaligned_state 0xA8220000 % 4) + 1))
        ∧ V % 2 ^ (8 * ((effective_address unaligned_state 0xA8220000 % 4) + 1)) = n64_read_physical_word unaligned_state.mem (u32 0x101 &&& 0xFFFFFFFC) / 2 ^ (8 * (3 - (effective_address unaligned_state 0xA8220000 % 4))))
    ∧ (∃ c', mips_sdl flat_ext unaligned_state 0xA8220000 = some c' ∧ c'.gpr = unaligned_state.gpr
        ∧ (∀ a, a < (u32 0x101 &&& 0xFFFFFFF8) ∨ (u32 0x101 &&& 0xFFFFFFF8) + 8 ≤ a → c'.mem a = unaligned_state.mem a)
        ∧ n64_read_physical_dword c'.mem (u32 0x101 &&& 0xFFFFFFF8) / 2 ^ (8 * (8 - (effective_address unaligned_state 0xA8220000 % 8))) = n64_read_physical_dword unaligned_state.mem (u32 0x101 &&& 0xFFFFFFF8) / 2 ^ (8 * (8 - (effective_address unaligned_state 0xA8220000 % 8)))
        ∧ n64_read_physical_dword c'.mem (u32 0x101 &&& 0xFFFFFFF8) % 2 ^ (8 * (8 - (effective_address unaligned_state 0xA8220000 % 8))) = unaligned_state.gpr (instr_rt 0xA8220000) / 2 ^ (8 * (effective_address unaligned_state 0xA8220000 % 8)))
    ∧ (∃ c', mips_sdr flat_ext unaligned_state 0xA8220000 = some c' ∧ c'.gpr = unaligned_state.gpr
        ∧ (∀ a, a < (u32 0x101 &&& 0xFFFFFFF8) ∨ (u32 0x101 &&& 0xFFFFFFF8) + 8 ≤ a → c'.mem a = unaligned_state.mem a)
        ∧ n64_read_physical_dword c'.mem (u32 0x101 &&& 0xFFFFFFF8) % 2 ^ (8 * (7 - (effective_address unaligned_state 0xA8220000 % 8))) = n64_read_physical_dword unaligned_state.mem (u32 0x101 &&& 0xFFFFFFF8) % 2 ^ (8 * (7 - (effective_address unaligned_state 0xA8220000 % 8)))
        ∧ n64_read_physical_dword c'.mem (u32 0x101 &&& 0xFFFFFFF8) / 2 ^ (8 * (7 - (effective_address unaligned_state 0xA8220000 % 8))) = unaligned_state.gpr (instr_rt 0xA8220000) % 2 ^ (8 * ((effective_address unaligned_state 0xA8220000 % 8) + 1)))
    ∧ (∃ V, mips_ldl flat_ext unaligned_state 0xA8220000 = some (set_register unaligned_state (instr_rt 0xA8220000) (V))
        ∧ V < 0x10000000000000000
        ∧ V % 2 ^ (8 * (effective_address unaligned_state 0xA8220000 % 8)) = unaligned_state.gpr (instr_rt 0xA8220000) % 2 ^ (8 * (effective_address unaligned_state 0xA8220000 % 8))
        ∧ V / 2 ^ (8 * (effective_address unaligned_state 0xA8220000 % 8)) = n64_read_physical_dword unaligned_state.mem (u32 0x101 &&& 0xFFFFFFF8) % 2 ^ (8 * (8 - (effective_address unaligned_state 0xA8220000 % 8))))
    ∧ (∃ V, mips_ldr flat_ext unaligned_state 0xA8220000 = some (set_register unaligned_state (instr_rt 0xA8220000) (V))
        ∧ V < 0x10000000000000000
        ∧ V / 2 ^ (8 * ((effective_address unaligned_state 0xA8220000 % 8) + 1)) = unaligned_state.gpr (instr_rt 0xA8220000) / 2 ^ (8 * ((effective_address unaligned_state 0xA8220000 % 8) + 1))
        ∧ V % 2 ^ (8 * ((effective_address unaligned_state 0xA8220000 % 8) + 1)) = n64_read_physical_dword unaligned_state.mem (u32 0x101 &&& 0xFFFFFFF8) / 2 ^ (8 * (7 - (effective_address unaligned_state 0xA8220000 % 8)))) :=
  ⟨⟨rfl, rfl, by decide⟩,
    C16_unaligned_merge flat_ext unaligned_state 0xA8220000 0x101 0x101 rfl rfl (by decide)⟩

/-! ### Store and reload through the unaligned pair -/

theorem u32_sext32 (x : Nat) : u32 (sext32 x) = x % 0x100000000 := by
  unfold u32 sext32
  split <;> omega

theorem bytes_of (R : Nat) : ∃ b0 b1 b2 b3 hi, b0 < 256 ∧ b1 < 256 ∧ b2 < 256 ∧ b3 < 256
    ∧ R = hi * 4294967296 + b3 * 16777216 + b2 * 65536 + b1 * 256 + b0 :=
  ⟨R % 256, R / 256 % 256, R / 65536 % 256, R / 16777216 % 256, R / 4294967296,
    by omega, by omega, by omega, by omega, by omega⟩

theorem bytes_div256 (b0 b1 b2 b3 : Nat) (hb0 : b0 < 256) :
    (b3 * 16777216 + b2 * 65536 + b1 * 256 + b0) / 256 = b3 * 65536 + b2 * 256 + b1 := by
  omega

theorem bytes_div65536 (b0 b1 b2 b3 : Nat) (hb0 : b0 < 256) (hb1 : b1 < 256) :
    (b3 * 16777216 + b2 * 65536 + b1 * 256 + b0) / 65536 = b3 * 256 + b2 := by
  omega

theorem bytes_div16777216 (b0 b1 b2 b3 : Nat) (hb0 : b0 < 256) (hb1 : b1 < 256)
    (hb2 : b2 < 256) :
    (b3 * 16777216 + b2 * 65536 + b1 * 256 + b0) / 16777216 = b3 := by
  omega

theorem roundtrip_k0 (W R X V1 V2 V3 V4 : Nat)
    (h1 : V1 = 4294967296 * (W / 4294967296) + R % 4294967296)
    (h2 : V2 = 16777216 * (R % 256) + V1 % 16777216)
    (h3 : V3 = V2 % 4294967296 + X % 1)
    (h4 : V4 = 256 * (V3 % 4294967296 / 256) + V2 % 4294967296 / 16777216) :
    V4 = R % 256 * 16777216 + R % 16777216 := by
  obtain ⟨b0, b1, b2, b3, hi, hb0, hb1, hb2, hb3, hR⟩ := bytes_of R
  have r32 : R % 4294967296 = b3 * 16777216 + b2 * 65536 + b1 * 256 + b0 := by omega
  have r24 : R % 16777216 = b2 * 65536 + b1 * 256 + b0 := by omega
  have r8 : R % 256 = b0 := by omega
  rw [r32] at h1
  rw [r8] at h2
  rw [r8, r24]
  clear r32 r24 r8 hR
  have a1 : V1 % 16777216 = b2 * 65536 + b1 * 256 + b0 := by omega
  rw [a1] at h2
  clear h1 a1
  have a2 : V2 % 4294967296 = V2 := by omega
  rw [a2, Nat.mod_one, Nat.add_zero] at h3
  rw [h3, a2] at h4
  have a3 : V2 / 256 = b0 * 65536 + b2 * 256 + b1 := by omega
  have a4 : V2 / 16777216 = b0 := by omega
  rw [a3, a4] at h4
  omega

theorem roundtrip_k1 (W R X V1 V2 V3 V4 : Nat)
    (h1 : V1 = 16777216 * (W / 16777216) + R % 4294967296 / 256)
    (h2 : V2 = 65536 * (R % 65536) + V1 % 65536)
    (h3 : V3 = 256 * (V2 % 16777216) + X % 256)
    (h4 : V4 = 65536 * (V3 % 4294967296 / 65536) + V2 % 4294967296 / 65536) :
    V4 = R % 256 * 16777216 + R % 16777216 := by
  obtain ⟨b0, b1, b2, b3, hi, hb0, hb1, hb2, hb3, hR⟩ := bytes_of R
  have r32 : R % 4294967296 = b3 * 16777216 + b2 * 65536 + b1 * 256 + b0 := by omega
  have r24 : R % 16777216 = b2 * 65536 + b1 * 256 + b0 := by omega
  have r16 : R % 65536 = b1 * 256 + b0 := by omega
  have r8 : R % 256 = b0 := by omega
  have x8 : X % 256 < 256 := Nat.mod_lt _ (by decide)
  rw [r32, bytes_div256 b0 b1 b2 b3 hb0] at h1
  rw [r16] at h2
  rw [r8, r24]
  clear r32 r24 r16 r8 hR
  have a1 : V1 % 65536 = b2 * 256 + b1 := by omega
  rw [a1] at h2
  clear h1 a1
  have a2 : V2 % 16777216 = b0 * 65536 + b2 * 256 + b1 := by omega
  have a3 : V2 % 4294967296 = V2 := by omega
  have a4 : V2 / 65536 = b1 * 256 + b0 := by omega
  rw [a2] at h3
  rw [a3, a4] at h4
  clear h2 a2 a3 a4
  have a5 : V3 % 4294967296 = V3 := by omega
  have a6 : V3 / 65536 = b0 * 256 + b2 := by omega
  rw [a5, a6] at h4
  omega

theorem roundtrip_k2 (W R X V1 V2 V3 V4 : Nat)
    (h1 : V1 = 65536 * (W / 65536) + R % 4294967296 / 65536)
    (h2 : V2 = 256 * (R % 16777216) + V1 % 256)
    (h3 : V3 = 65536 * (V2 % 65536) + X % 65536)
    (h4 : V4 = 16777216 * (V3 % 4294967296 / 16777216) + V2 % 4294967296 / 256) :
    V4 = R % 256 * 16777216 + R % 16777216 := by
  obtain ⟨b0, b1, b2, b3, hi, hb0, hb1, hb2, hb3, hR⟩ := bytes_of R
  have r32 : R % 4294967296 = b3 * 16777216 + b2 * 65536 + b1 * 256 + b0 := by omega
  have r24 : R % 16777216 = b2 * 65536 + b1 * 256 + b0 := by omega
  have r8 : R % 256 = b0 := by omega
  have x16 : X % 65536 < 65536 := Nat.mod_lt _ (by decide)
  rw [r32, bytes_div65536 b0 b1 b2 b3 hb0 hb1] at h1
  rw [r24] at h2
  rw [r8, r24]
  clear r32 r24 r8 hR
  have a1 : V1 % 256 = b2 := by omega
  rw [a1] at h2
  clear h1 a1
  have a2 : V2 % 65536 = b0 * 256 + b2 := by omega
  have a3 : V2 % 4294967296 = V2 := by omega
  have a4 : V2 / 256 = b2 * 65536 + b1 * 256 + b0 := by omega
  rw [a2] at h3
  rw [a3, a4] at h4
  clear h2 a2 a3 a4
  have a5 : V3 % 4294967296 = V3 := by omega
  have a6 : V3 / 16777216 = b0 := by omega
  rw [a5, a6] at h4
  omega

theorem roundtrip_k3 (R V1 V2 V4 : Nat)
    (h2 : V2 = R % 4294967296 + V1 % 1)
    (h4 : V4 = V2 % 4294967296) :
    V4 = R % 4294967296 / 16777216 * 16777216 + R % 16777216 := by
  rw [Nat.mod_one, Nat.add_zero] at h2
  omega

theorem roundtrip_word (k W R X V1 V2 V3 V4 : Nat) (hk : k < 4)
    (h1 : V1 = 2 ^ (8 * (4 - k)) * (W / 2 ^ (8 * (4 - k))) + u32 R / 2 ^ (8 * k))
    (h2 : V2 = 2 ^ (8 * (3 - k)) * (u32 R % 2 ^ (8 * (k + 1)))
      + V1 % 0x100000000 % 2 ^ (8 * (3 - k)))
    (h3 : V3 = 2 ^ (8 * k) * (V2 % 0x100000000 % 2 ^ (8 * (4 - k))) + X % 2 ^ (8 * k))
    (h4 : V4 = 2 ^ (8 * (k + 1)) * (u32 (sext32 V3) / 2 ^ (8 * (k + 1)))
      + V2 % 0x100000000 / 2 ^ (8 * (3 - k))) :
    V4 = (if k = 3 then u32 R / 2 ^ 24 else R % 256) * 2 ^ 24 + R % 2 ^ 24 := by
  rw [u32_sext32] at h4
  unfold u32 at *
  interval_cases k
  · norm_num at h1 h2 h3 h4 ⊢
    exact roundtrip_k0 W R X V1 V2 V3 V4 h1 h2 h3 h4
  · norm_num at h1 h2 h3 h4 ⊢
    exact roundtrip_k1 W R X V1 V2 V3 V4 h1 h2 h3 h4
  · norm_num at h1 h2 h3 h4 ⊢
    exact roundtrip_k2 W R X V1 V2 V3 V4 h1 h2 h3 h4
  · norm_num at h1 h2 h3 h4 ⊢
    exact roundtrip_k3 R V1 V2 V4 h2 h4

/-- C17 (counterexample): at an aligned kseg0 address (k = 0) with
R = 0x11223344 over the memory word 0xDEADBEEF, SWL r2; SWR r2; LWL r3; LWR r3
at that one address leaves r3 = 0x44223344: the top byte of the word is the
lowest byte of R, so R' differs from R. -/
theorem C17_counterexample :
    ((((mips_swl flat_ext (roundtrip_state 0) 0xA8220000).bind
        (fun s => mips_swr flat_ext s 0xB8220000)).bind
        (fun s => mips_lwl flat_ext s 0x88230000)).bind
        (fun s => mips_lwr flat_ext s 0x98230000)).map
      (fun s => (s.gpr 3, n64_read_physical_word s.mem 0x100))
      = some (0x44223344, 0x44223344)
    ∧ (roundtrip_state 0).gpr 2 = 0x11223344 := by
  constructor
  · rfl
  · rfl

/-- C17 (amended): for every state in which the address A+k translates to one
physical address for loads and stores, SWL and SWR of rt at A+k followed by LWL
and LWR at A+k into a register R' other than r0 and the base register return,
and R' is then the sign extension of the 32-bit word whose three low bytes are
those of R and whose top byte is bits 31..24 of R when k = 3 and the lowest
byte of R when k is 0, 1 or 2; so R' == R when k = 3 and R is a sign-extended
32-bit value. -/
theorem C17_roundtrip (ext : Ext) (c : r4300i_t) (raw1 raw2 raw3 raw4 p : Nat)
    (htr : ∀ s acc, ext.resolve_virtual_address s (effective_address c raw1) acc = Except.ok p)
    (h2 : instr_rs raw2 = instr_rs raw1 ∧ instr_immediate raw2 = instr_immediate raw1
      ∧ instr_rt raw2 = instr_rt raw1)
    (h3 : instr_rs raw3 = instr_rs raw1 ∧ instr_immediate raw3 = instr_immediate raw1)
    (h4 : instr_rs raw4 = instr_rs raw1 ∧ instr_immediate raw4 = instr_immediate raw1
      ∧ instr_rt raw4 = instr_rt raw3)
    (hne : instr_rt raw3 ≠ instr_rs raw1) (hnz : instr_rt raw3 ≠ 0) :
    ∃ c4, (((mips_swl ext c raw1).bind (fun s => mips_swr ext s raw2)).bind
        (fun s => mips_lwl ext s raw3)).bind (fun s => mips_lwr ext s raw4) = some c4
      ∧ c4.gpr (instr_rt raw3)
        = sext32 ((if effective_address c raw1 % 4 = 3 then u32 (c.gpr (instr_rt raw1)) / 2 ^ 24
            else c.gpr (instr_rt raw1) % 256) * 2 ^ 24 + c.gpr (instr_rt raw1) % 2 ^ 24)
      ∧ (effective_address c raw1 % 4 = 3 → IsSext32 (c.gpr (instr_rt raw1)) →
          c4.gpr (instr_rt raw3) = c.gpr (instr_rt raw1)) := by
  have hk : effective_address c raw1 % 4 < 4 := Nat.mod_lt _ (by decide)
  obtain ⟨c1, V1, e1, hg1, hm1, hV1⟩ : ∃ c1 V1, mips_swl ext c raw1 = some c1 ∧ c1.gpr = c.gpr
      ∧ n64_read_physical_word c1.mem (u32 p &&& 0xFFFFFFFC) = V1 % 0x100000000
      ∧ V1 = 2 ^ (8 * (4 - effective_address c raw1 % 4)) * (n64_read_physical_word c.mem (u32 p &&& 0xFFFFFFFC) / 2 ^ (8 * (4 - effective_address c raw1 % 4)))
          + u32 (c.gpr (instr_rt raw1)) / 2 ^ (8 * (effective_address c raw1 % 4)) :=
    ⟨_, _, swl_eq ext c raw1 p (htr c _), rfl, read_write_word _ _ _, rfl⟩
  have ea2 : effective_address c1 raw2 = effective_address c raw1 := by
    unfold effective_address get_register
    rw [hg1, h2.1, h2.2.1]
  obtain ⟨c2, V2, e2, hg2, hm2, hV2⟩ : ∃ c2 V2, mips_swr ext c1 raw2 = some c2 ∧ c2.gpr = c.gpr
      ∧ n64_read_physical_word c2.mem (u32 p &&& 0xFFFFFFFC) = V2 % 0x100000000
      ∧ V2 = 2 ^ (8 * (3 - effective_address c raw1 % 4)) * (u32 (c.gpr (instr_rt raw1)) % 2 ^ (8 * (effective_address c raw1 % 4 + 1)))
          + V1 % 0x100000000 % 2 ^ (8 * (3 - effective_address c raw1 % 4)) := by
    have h := swr_eq ext c1 raw2 p (by rw [ea2]; exact htr c1 _)
    rw [ea2, hg1, h2.2.2, hm1] at h
    exact ⟨_, _, h, rfl, read_write_word _ _ _, rfl⟩
  have ea3 : effective_address c2 raw3 = effective_address c raw1 := by
    unfold effective_address get_register
    rw [hg2, h3.1, h3.2]
  obtain ⟨V3, e3, hV3⟩ : ∃ V3,
      mips_lwl ext c2 raw3 = some (set_register c2 (instr_rt raw3) (sext32 V3))
      ∧ V3 = 2 ^ (8 * (effective_address c raw1 % 4)) * (V2 % 0x100000000 % 2 ^ (8 * (4 - effective_address c raw1 % 4)))
          + c2.gpr (instr_rt raw3) % 2 ^ (8 * (effective_address c raw1 % 4)) := by
    have h := lwl_eq ext c2 raw3 p (by rw [ea3]; exact htr c2 _)
    rw [ea3, hm2] at h
    exact ⟨_, h, rfl⟩
  have hg3rt : (set_register c2 (instr_rt raw3) (sext32 V3)).gpr (instr_rt raw3) = sext32 V3 :=
    set_register_gpr_self _ _ _ hnz
  have hg3rs : (set_register c2 (instr_rt raw3) (sext32 V3)).gpr (instr_rs raw1)
      = c.gpr (instr_rs raw1) := by
    unfold set_register
    rw [if_neg hnz]
    show (if instr_rs raw1 = instr_rt raw3 then _ else c2.gpr (instr_rs raw1)) = _
    rw [if_neg (fun e => hne e.symm), hg2]
  have ea4 : effective_address (set_register c2 (instr_rt raw3) (sext32 V3)) raw4
      = effective_address c raw1 := by
    unfold effective_address get_register
    rw [h4.1, h4.2.1, hg3rs]
  obtain ⟨V4, e4, hV4⟩ : ∃ V4,
      mips_lwr ext (set_register c2 (instr_rt raw3) (sext32 V3)) raw4
        = some (set_register (set_register c2 (instr_rt raw3) (sext32 V3)) (instr_rt raw3)
            (sext32 V4))
      ∧ V4 = 2 ^ (8 * (effective_address c raw1 % 4 + 1)) * (u32 (sext32 V3) / 2 ^ (8 * (effective_address c raw1 % 4 + 1)))
          + V2 % 0x100000000 / 2 ^ (8 * (3 - effective_address c raw1 % 4)) := by
    have h := lwr_eq ext (set_register c2 (instr_rt raw3) (sext32 V3)) raw4 p
      (by rw [ea4]; exact htr _ _)
    rw [ea4, h4.2.2, hg3rt, set_register_mem, hm2] at h
    exact ⟨_, h, rfl⟩
  have hfin := roundtrip_word (effective_address c raw1 % 4) (n64_read_physical_word c.mem (u32 p &&& 0xFFFFFFFC)) (c.gpr (instr_rt raw1))
    (c2.gpr (instr_rt raw3)) V1 V2 V3 V4 hk hV1 hV2 hV3 hV4
  refine ⟨set_register (set_register c2 (instr_rt raw3) (sext32 V3)) (instr_rt raw3) (sext32 V4),
    by simp only [e1, e2, e3, e4, Option.some_bind], ?_, ?_⟩
  · rw [set_register_gpr_self _ _ _ hnz, hfin]
  · intro h3k hsx
    rw [set_register_gpr_self _ _ _ hnz, hfin, if_pos h3k]
    have e : u32 (c.gpr (instr_rt raw1)) / 2 ^ 24 * 2 ^ 24 + c.gpr (instr_rt raw1) % 2 ^ 24 = c.gpr (instr_rt raw1) % 0x100000000 := by
      unfold u32
      norm_num
      omega
    rw [e, sext32_mod]
    exact hsx.symm

/-- C17 (amended), at k = 3: the address 0xFFFFFFFF80000103 translates to 0x103,
R = r2 = 0x11223344 is a sign-extended word, and the reload into r3 gives R. -/
theorem C17_roundtrip_witness :
    ∃ c4, (((mips_swl flat_ext (roundtrip_state 3) 0xA8220000).bind
        (fun s => mips_swr flat_ext s 0xB8220000)).bind
        (fun s => mips_lwl flat_ext s 0x88230000)).bind
        (fun s => mips_lwr flat_ext s 0x98230000) = some c4
      ∧ c4.gpr 3 = 0x11223344 := by
  obtain ⟨c4, h, -, h3⟩ := C17_roundtrip flat_ext (roundtrip_state 3) 0xA8220000 0xB8220000
    0x88230000 0x98230000 0x103 (fun _ _ => rfl) (by decide) (by decide) (by decide)
    (by decide) (by decide)
  exact ⟨c4, h, h3 (by decide) (by unfold IsSext32; decide)⟩

/-! ### The scenario "LWL/LWR merge" -/

/-- C18 (counterexample): with the memory word at 0x100 equal to 0x11223344 and
r1 = 0xAABBCCDD, LWL r1, 0x101(r0) leaves r1 = 0x223344DD and LWR r1, 0x103(r0)
then leaves r1 = 0x11223344, whose low 32 bits are not 0x22334444. -/
theorem C18_counterexample :
    (mips_lwl direct_ext lwl_lwr_state 0x88010101).map (fun s => s.gpr 1) = some 0x223344DD
    ∧ ((mips_lwl direct_ext lwl_lwr_state 0x88010101).bind
        (fun s => mips_lwr direct_ext s 0x98010103)).map (fun s => s.gpr 1) = some 0x11223344
    ∧ u32 0x11223344 ≠ 0x22334444 := by
  refine ⟨rfl, rfl, by decide⟩

/-- C18 (amended): for every state with r0 = 0, r1 = 0xAABBCCDD and the aligned
memory word at 0x100 equal to 0x11223344, when the addresses 0x101 and 0x103
translate to themselves, LWL r1, 0x101(r0) leaves r1 = 0x223344DD (three bytes
of the word above the low byte of r1) and LWR r1, 0x103(r0) then replaces the
whole low word: r1 = 0x0000000011223344. -/
theorem C18_lwl_lwr (ext : Ext) (c : r4300i_t)
    (h0 : c.gpr 0 = 0) (h1 : c.gpr 1 = 0xAABBCCDD)
    (hW : n64_read_physical_word c.mem 0x100 = 0x11223344)
    (ht1 : ∀ s, ext.resolve_virtual_address s 0x101 bus_access_t.BUS_LOAD = Except.ok 0x101)
    (ht3 : ∀ s, ext.resolve_virtual_address s 0x103 bus_access_t.BUS_LOAD = Except.ok 0x103) :
    mips_lwl ext c 0x88010101 = some (set_register c 1 0x223344DD)
    ∧ mips_lwr ext (set_register c 1 0x223344DD) 0x98010103
        = some (set_register (set_register c 1 0x223344DD) 1 0x11223344)
    ∧ (set_register (set_register c 1 0x223344DD) 1 0x11223344).gpr 1 = 0x11223344 := by
  have rs1 : instr_rs 0x88010101 = 0 := by decide
  have rt1 : instr_rt 0x88010101 = 1 := by decide
  have im1 : sext16 (instr_immediate 0x88010101) = 0x101 := by decide
  have rs3 : instr_rs 0x98010103 = 0 := by decide
  have rt3 : instr_rt 0x98010103 = 1 := by decide
  have im3 : sext16 (instr_immediate 0x98010103) = 0x103 := by decide
  have ea1 : effective_address c 0x88010101 = 0x101 := by
    unfold effective_address get_register
    rw [rs1, im1, h0]
    decide
  have g0 : (set_register c 1 0x223344DD).gpr 0 = 0 := by
    rw [set_register_gpr0, h0]
  have g1 : (set_register c 1 0x223344DD).gpr 1 = 0x223344DD :=
    set_register_gpr_self _ _ _ (by decide)
  have ea3 : effective_address (set_register c 1 0x223344DD) 0x98010103 = 0x103 := by
    unfold effective_address get_register
    rw [rs3, im3, g0]
    decide
  have p1 : u32 0x101 &&& 0xFFFFFFFC = 0x100 := by decide
  have p3 : u32 0x103 &&& 0xFFFFFFFC = 0x100 := by decide
  refine ⟨?_, ?_, set_register_gpr_self _ _ _ (by decide)⟩
  · have h := lwl_eq ext c 0x88010101 0x101 (by rw [ea1]; exact ht1 c)
    rw [ea1, rt1, h1, p1, hW] at h
    rw [h]
    have e : sext32 (2 ^ (8 * (0x101 % 4)) * (0x11223344 % 2 ^ (8 * (4 - 0x101 % 4)))
        + 0xAABBCCDD % 2 ^ (8 * (0x101 % 4))) = 0x223344DD := by decide
    rw [e]
  · have h := lwr_eq ext (set_register c 1 0x223344DD) 0x98010103 0x103
      (by rw [ea3]; exact ht3 _)
    rw [ea3, rt3, g1, p3, set_register_mem, hW] at h
    rw [h]
    have e : sext32 (2 ^ (8 * (0x103 % 4 + 1)) * (u32 0x223344DD / 2 ^ (8 * (0x103 % 4 + 1)))
        + 0x11223344 / 2 ^ (8 * (3 - 0x103 % 4))) = 0x11223344 := by decide
    rw [e]

/-- C18 (amended), on the scenario state with addresses translating to
themselves. -/
theorem C18_lwl_lwr_witness :
    mips_lwl direct_ext lwl_lwr_state 0x88010101 = some (set_register lwl_lwr_state 1 0x223344DD)
    ∧ mips_lwr direct_ext (set_register lwl_lwr_state 1 0x223344DD) 0x98010103
        = some (set_register (set_register lwl_lwr_state 1 0x223344DD) 1 0x11223344)
    ∧ (set_register (set_register lwl_lwr_state 1 0x223344DD) 1 0x11223344).gpr 1 = 0x11223344 :=
  C18_lwl_lwr direct_ext lwl_lwr_state rfl rfl rfl (fun _ => rfl) (fun _ => rfl)

/-! ### Address errors and failed translations -/

/-- C23 (counterexample): with an interrupt pending, IE set, EXL and ERL clear
and Status.bev set, `r4300i_step` enters the exception engine, which ends in
its fatal diagnostic: the step does not return. -/
theorem C23_counterexample :
    0 < (r4300i_step_count flat_ext (interrupt_state true)).interrupts
    ∧ (interrupt_state true).cp0.status.ie = true
    ∧ (interrupt_state true).cp0.status.exl = false
    ∧ (interrupt_state true).cp0.status.erl = false
    ∧ r4300i_step flat_ext (interrupt_state true) = none := by
  refine ⟨by decide, rfl, rfl, rfl, rfl⟩

/-- C23 (amended): for every CPU state, with the interrupt summary read after
the timer update of the step: when the summary is non-zero, Status.ie is set
and Status.exl and Status.erl are clear, `r4300i_step` runs no instruction
handler and calls the exception engine with code INTERRUPT and the current pc
as faulting PC; with Status.bev clear the step then returns with all general
registers, HI and LO unchanged, EPC = pc (pc - 4 when the branch flag was set)
and the PC at the vector 0x80000180, with Status.bev set the engine ends in its
fatal diagnostic.  In every other state the step advances the PC and runs the
handler decoded from the fetched word. -/
theorem C23_interrupt_delivery (ext : Ext) (c : r4300i_t) :
    ((0 < (r4300i_step_count ext c).interrupts ∧ c.cp0.status.ie = true
        ∧ c.cp0.status.exl = false ∧ c.cp0.status.erl = false) →
      r4300i_step ext c
        = r4300i_handle_exception (r4300i_step_count ext c) c.pc EXCEPTION_INTERRUPT (-1)
      ∧ (c.cp0.status.bev = false →
          ∃ c', r4300i_step ext c = some c' ∧ c'.gpr = c.gpr ∧ c'.mult_hi = c.mult_hi
            ∧ c'.mult_lo = c.mult_lo ∧ c'.cp0.cause.exception_code = 0
            ∧ c'.cp0.EPC = (if c.branch = true then u64 (c.pc + 0x10000000000000000 - 4)
                else c.pc)
            ∧ c'.pc = 0xFFFFFFFF80000180)
      ∧ (c.cp0.status.bev = true → r4300i_step ext c = none))
    ∧ (¬ (0 < (r4300i_step_count ext c).interrupts ∧ c.cp0.status.ie = true
        ∧ c.cp0.status.exl = false ∧ c.cp0.status.erl = false) →
      r4300i_step ext c
        = match r4300i_instruction_decode c.pc
            (u32 (ext.read_word (r4300i_step_count ext c) c.pc)) with
          | none => none
          | some h =>
            (run_handler ext h (r4300i_step_advance (r4300i_step_count ext c))
              (u32 (ext.read_word (r4300i_step_count ext c) c.pc))).map
              (fun c3 => { c3 with exception := false })) := by
  obtain ⟨hpc, hgpr, -, hbr, hhi, hlo, hst, hepc⟩ := step_count_pc ext c
  constructor
  · rintro ⟨hi, hie, hexl, herl⟩
    have hcond : 0 < (r4300i_step_count ext c).interrupts
        ∧ (r4300i_step_count ext c).cp0.status.ie = true
        ∧ (!(r4300i_step_count ext c).cp0.status.exl) = true
        ∧ (!(r4300i_step_count ext c).cp0.status.erl) = true := by
      rw [hst, hie, hexl, herl]
      exact ⟨hi, rfl, rfl, rfl⟩
    have hstep : r4300i_step ext c
        = r4300i_handle_exception (r4300i_step_count ext c) c.pc EXCEPTION_INTERRUPT (-1) := by
      unfold r4300i_step
      simp only [hpc]
      rw [if_pos hcond]
      rfl
    have hexl1 : (r4300i_step_count ext c).cp0.status.exl = false := by rw [hst, hexl]
    have hb : ¬ ((r4300i_step_count ext c).branch = true
        ∧ (r4300i_step_count ext c).cp0.status.exl = true) := by
      rw [hexl1]
      simp
    refine ⟨hstep, ?_, ?_⟩
    · intro hbev
      have hbev1 : (r4300i_step_count ext c).cp0.status.bev = false := by rw [hst, hbev]
      obtain ⟨c1, h1, -, -, -, h5, h6, -, -, hg, hh, hl, -, -⟩ :=
        exception_entry_spec (r4300i_step_count ext c) c.pc EXCEPTION_INTERRUPT (-1) hb
      obtain ⟨c2, h1', -, hres⟩ := handle_exception_some (r4300i_step_count ext c) c.pc
        EXCEPTION_INTERRUPT (-1) hb hbev1 (Or.inl rfl)
      rw [h1] at h1'
      cases h1'
      refine ⟨_, hstep.trans hres, ?_, ?_, ?_, ?_, ?_, ?_⟩
      · exact hg.trans hgpr
      · exact hh.trans hhi
      · exact hl.trans hlo
      · exact h6
      · show c1.cp0.EPC = _
        rw [h5, hexl1, hbr]
        simp
      · show sext32 0x80000180 = _
        decide
    · intro hbev
      rw [hstep]
      unfold r4300i_handle_exception
      cases h : exception_entry (r4300i_step_count ext c) c.pc EXCEPTION_INTERRUPT (-1) with
      | none => rfl
      | some c1 =>
        obtain ⟨c1', h1, -, -, -, -, -, h7, -⟩ :=
          exception_entry_spec (r4300i_step_count ext c) c.pc EXCEPTION_INTERRUPT (-1) hb
        rw [h] at h1
        cases h1
        have : c1.cp0.status.bev = true := by rw [h7, hst, hbev]
        simp [exception_vector, this]
  · intro hn
    have hcond : ¬ (0 < (r4300i_step_count ext c).interrupts
        ∧ (r4300i_step_count ext c).cp0.status.ie = true
        ∧ (!(r4300i_step_count ext c).cp0.status.exl) = true
        ∧ (!(r4300i_step_count ext c).cp0.status.erl) = true) := by
      rw [hst]
      intro ⟨h1, h2, h3, h4⟩
      exact hn ⟨h1, h2, by simpa using h3, by simpa using h4⟩
    unfold r4300i_step
    simp only [hpc]
    rw [if_neg hcond]
    cases r4300i_instruction_decode c.pc (u32 (ext.read_word (r4300i_step_count ext c) c.pc)) with
    | none => rfl
    | some h =>
      simp only []
      cases run_handler ext h (r4300i_step_advance (r4300i_step_count ext c))
        (u32 (ext.read_word (r4300i_step_count ext c) c.pc)) <;> rfl

/-- C23 (amended), on the scenario with Status.bev clear: the interrupt is
delivered, r2 is not written by the ORI at pc, and EPC = pc. -/
theorem C23_interrupt_delivery_witness :
    ∃ c', r4300i_step flat_ext (interrupt_state false) = some c'
      ∧ c'.gpr 2 = 0 ∧ c'.cp0.EPC = 0xFFFFFFFF80001000 ∧ c'.pc = 0xFFFFFFFF80000180 := by
  obtain ⟨c', h, hg, -, -, -, he, hp⟩ :=
    ((C23_interrupt_delivery flat_ext (interrupt_state false)).1
      ⟨by decide, rfl, rfl, rfl⟩).2.1 rfl
  exact ⟨c', h, by rw [hg]; rfl, by rw [he]; rfl, hp⟩

/-! ### Count and the timer interrupt -/

/-- C24: for every CPU state the timer block of `r4300i_step` leaves Count equal
to (old count + CYCLES_PER_INSTR) mod 2^33, sets IP7 and refreshes the
interrupt summary exactly when that count shifted right by one equals Compare,
and leaves both alone otherwise.  The timer block of `jit_system_step` does not
mask: from Count = 0x1FFFFFFFF with one cycle per instruction it leaves
Count = 0x200000000 where the interpreter leaves 0, also after the whole
`jit_system_step` (here one that delivers a pending interrupt). -/
theorem C24_jit_count_not_masked :
    (∀ (ext : Ext) (c : r4300i_t),
      (r4300i_step_count ext c).cp0.count
          = (c.cp0.count + ext.CYCLES_PER_INSTR) % 0x200000000
      ∧ (r4300i_step_count ext c).cp0.cause.interrupt_pending
          = (if (c.cp0.count + ext.CYCLES_PER_INSTR) % 0x200000000 / 2 = c.cp0.compare
              then c.cp0.cause.interrupt_pending ||| 0x80 else c.cp0.cause.interrupt_pending)
      ∧ (r4300i_step_count ext c).interrupts
          = (if (c.cp0.count + ext.CYCLES_PER_INSTR) % 0x200000000 / 2 = c.cp0.compare
              then (c.cp0.cause.interrupt_pending ||| 0x80) &&& c.cp0.status.im
              else c.interrupts))
    ∧ (r4300i_step_count flat_ext count_wrap_state).cp0.count = 0
    ∧ (jit_system_step_count flat_ext count_wrap_state).cp0.count = 0x200000000
    ∧ (∃ s1, jit_system_step flat_ext flat_sys_ext 0 0 (system_of count_wrap_state)
          = loop_result_t.done (s1, 1, 0)
        ∧ s1.cpu.cp0.count = 0x200000000) := by
  refine ⟨?_, rfl, rfl, ⟨_, rfl, rfl⟩⟩
  intro ext c
  have hm : u64 (c.cp0.count + ext.CYCLES_PER_INSTR) &&& 0x1FFFFFFFF
      = (c.cp0.count + ext.CYCLES_PER_INSTR) % 0x200000000 := by
    have h := Nat.and_pow_two_sub_one_eq_mod (u64 (c.cp0.count + ext.CYCLES_PER_INSTR)) 33
    norm_num at h
    rw [h]
    unfold u64
    omega
  unfold r4300i_step_count
  simp only [hm, Nat.shiftRight_eq_div_pow, Nat.pow_one]
  split <;> simp [r4300i_interrupt_update]

/-! ### The RSP credit of the scheduler -/

/-- C25: with the RSP running, the block shared by `interpreter_system_step` and
`jit_system_step` credits floor(c / 3) * 2 RSP steps for every counter value
c >= 0, but leaves `cpu_steps` equal to 3 * floor(c / 3), the multiple of
three, not the remainder c mod 3.  From `cpu_steps` = 3 a step of one cycle
(c = 4) credits 2 RSP steps and leaves `cpu_steps` = 3 in both modes where the
remainder is 1, and from `cpu_steps` = 0 it credits nothing and leaves 0, so
at one cycle per step the RSP is never credited. -/
theorem C25_cpu_steps_keeps_multiple :
    (∀ (sx : SysExt) (s : n64_system_t) (c : Nat),
      rsp_credit sx { s with rsp := { s.rsp with status := { halt := false } } } (c : Int)
        = (sx.rsp_run { s with rsp := { status := { halt := false },
                                        steps := s.rsp.steps + ((c / 3 * 2 : Nat) : Int) } },
           ((3 * (c / 3) : Nat) : Int)))
    ∧ (∀ (sx : SysExt) (s : n64_system_t) (c : Int),
      rsp_credit sx { s with rsp := { s.rsp with status := { halt := true } } } c
        = ({ s with rsp := { s.rsp with status := { halt := true } } }, c))
    ∧ (∃ s1, interpreter_system_step flat_ext flat_sys_ext 3 (running_system ori_zero_state)
          = some (s1, 1, 3) ∧ s1.rsp.steps = 2)
    ∧ (∃ s1, jit_system_step flat_ext flat_sys_ext 1 3 (running_system store_block_state)
          = loop_result_t.done (s1, 1, 3) ∧ s1.rsp.steps = 2)
    ∧ (∃ s1, interpreter_system_step flat_ext flat_sys_ext 0 (running_system ori_zero_state)
          = some (s1, 1, 0) ∧ s1.rsp.steps = 0)
    ∧ Int.tmod (3 + 1) 3 = 1 := by
  refine ⟨?_, ?_, ⟨_, rfl, rfl⟩, ⟨_, rfl, rfl⟩, ⟨_, rfl, rfl⟩, by decide⟩
  · intro sx s c
    have h1 : Int.tdiv (c : Int) 3 = ((c / 3 : Nat) : Int) := by
      rw [Int.tdiv_eq_ediv (by omega) (by decide)]
      norm_cast
    have h2 : (c : Int) - Int.tmod (c : Int) 3 = ((3 * (c / 3) : Nat) : Int) := by
      rw [Int.tmod_eq_emod (by omega) (by decide)]
      push_cast
      omega
    unfold rsp_credit
    simp only [Bool.not_false, if_true, h1, h2]
    push_cast
    rfl
  · intro sx s c
    rfl

/-! ### MI interrupt lines -/

theorem testBit_one_shiftLeft (b j : Nat) : (1 <<< b).testBit j = decide (b = j) := by
  rw [Nat.one_shiftLeft, Nat.testBit_two_pow]

theorem mi_intr_assign_true (raw b j : Nat) :
    (mi_intr_assign raw b true).testBit j = (raw.testBit j || decide (b = j)) := by
  unfold mi_intr_assign
  simp only [if_true, Nat.testBit_or, testBit_one_shiftLeft]

theorem mi_intr_assign_false (raw b j : Nat) (hraw : raw < 0x100000000) :
    (mi_intr_assign raw b false).testBit j = (raw.testBit j && !decide (b = j)) := by
  unfold mi_intr_assign bnot
  simp only [Bool.false_eq_true, if_false, Nat.testBit_and, Nat.testBit_xor,
    Nat.testBit_two_pow_sub_one, testBit_one_shiftLeft]
  by_cases hj : j < 32
  · by_cases hbj : b = j <;> simp [hj, hbj]
  · have h0 : raw.testBit j = false := by
      apply Nat.testBit_lt_two_pow
      calc raw < 2 ^ 32 := hraw
        _ ≤ 2 ^ j := Nat.pow_le_pow_right (by decide) (by omega)
    simp [h0]

theorem on_interrupt_change_spec (s : n64_system_t) :
    (on_interrupt_change s).mi = s.mi
    ∧ (on_interrupt_change s).cpu.cp0.cause.interrupt_pending.testBit 2
        = decide (s.mi.intr &&& s.mi.intr_mask ≠ 0)
    ∧ (∀ j, j < 8 → j ≠ 2 →
        (on_interrupt_change s).cpu.cp0.cause.interrupt_pending.testBit j
          = s.cpu.cp0.cause.interrupt_pending.testBit j)
    ∧ (on_interrupt_change s).cpu.interrupts
        = (on_interrupt_change s).cpu.cp0.cause.interrupt_pending
            &&& (on_interrupt_change s).cpu.cp0.status.im := by
  refine ⟨rfl, ?_, ?_, rfl⟩
  · show (if decide (s.mi.intr &&& s.mi.intr_mask ≠ 0) = true
        then s.cpu.cp0.cause.interrupt_pending ||| 0x04
        else s.cpu.cp0.cause.interrupt_pending &&& 0xFB).testBit 2 = _
    by_cases h : s.mi.intr &&& s.mi.intr_mask ≠ 0
    · have h4 : Nat.testBit 4 2 = true := by decide
      rw [decide_eq_true h, if_pos rfl, Nat.testBit_or, h4, Bool.or_true]
    · have hfb : Nat.testBit 0xFB 2 = false := by decide
      rw [decide_eq_false h, if_neg (by decide), Nat.testBit_and, hfb, Bool.and_false]
  · intro j hj hj2
    show (if decide (s.mi.intr &&& s.mi.intr_mask ≠ 0) = true
        then s.cpu.cp0.cause.interrupt_pending ||| 0x04
        else s.cpu.cp0.cause.interrupt_pending &&& 0xFB).testBit j = _
    have h4 : Nat.testBit 4 j = false := by
      interval_cases j <;> first | decide | exact absurd rfl hj2
    have hfb : Nat.testBit 0xFB j = true := by
      interval_cases j <;> first | decide | exact absurd rfl hj2
    split
    · rw [Nat.testBit_or, h4, Bool.or_false]
    · rw [Nat.testBit_and, hfb, Bool.and_true]

/-- C26: for every system state whose MI.intr is a 32-bit word and every
interrupt source s among VI, SI, AI, PI, DP and SP: `interrupt_raise` sets the
bit of s in MI.intr and `interrupt_lower` clears it, every other bit of MI.intr
and MI.intr_mask stay as they were; after either call Cause.IP2 is set exactly
when MI.intr AND MI.intr_mask is non-zero, the other IP bits are unchanged and
the CPU summary `interrupts` equals Cause.interrupt_pending AND Status.im. -/
theorem C26_interrupt_lines (s : n64_system_t) (i : n64_interrupt_t)
    (hintr : s.mi.intr < 0x100000000) :
    (interrupt_raise s i).mi.intr.testBit (mi_intr_bit i) = true
    ∧ (∀ j, j ≠ mi_intr_bit i →
        (interrupt_raise s i).mi.intr.testBit j = s.mi.intr.testBit j)
    ∧ (interrupt_raise s i).mi.intr_mask = s.mi.intr_mask
    ∧ (interrupt_lower s i).mi.intr.testBit (mi_intr_bit i) = false
    ∧ (∀ j, j ≠ mi_intr_bit i →
        (interrupt_lower s i).mi.intr.testBit j = s.mi.intr.testBit j)
    ∧ (interrupt_lower s i).mi.intr_mask = s.mi.intr_mask
    ∧ (∀ s1, s1 = interrupt_raise s i ∨ s1 = interrupt_lower s i →
        s1.cpu.cp0.cause.interrupt_pending.testBit 2
          = decide (s1.mi.intr &&& s1.mi.intr_mask ≠ 0)
        ∧ (∀ j, j < 8 → j ≠ 2 → s1.cpu.cp0.cause.interrupt_pending.testBit j
            = s.cpu.cp0.cause.interrupt_pending.testBit j)
        ∧ s1.cpu.interrupts = s1.cpu.cp0.cause.interrupt_pending &&& s1.cpu.cp0.status.im) := by
  have hr : (interrupt_raise s i).mi.intr = mi_intr_assign s.mi.intr (mi_intr_bit i) true := rfl
  have hl : (interrupt_lower s i).mi.intr = mi_intr_assign s.mi.intr (mi_intr_bit i) false := rfl
  refine ⟨?_, ?_, rfl, ?_, ?_, rfl, ?_⟩
  · rw [hr, mi_intr_assign_true]
    simp
  · intro j hj
    rw [hr, mi_intr_assign_true]
    simp [Ne.symm hj]
  · rw [hl, mi_intr_assign_false _ _ _ hintr]
    simp
  · intro j hj
    rw [hl, mi_intr_assign_false _ _ _ hintr]
    simp [Ne.symm hj]
  · intro s1 hs1
    rcases hs1 with h | h <;> subst h
    · obtain ⟨h1, h2, h3, h4⟩ := on_interrupt_change_spec
        { s with mi := { s.mi with intr := mi_intr_assign s.mi.intr (mi_intr_bit i) true } }
      exact ⟨h2, h3, h4⟩
    · obtain ⟨h1, h2, h3, h4⟩ := on_interrupt_change_spec
        { s with mi := { s.mi with intr := mi_intr_assign s.mi.intr (mi_intr_bit i) false } }
      exact ⟨h2, h3, h4⟩

/-- C26, raising and lowering VI with VI enabled in the mask: MI.intr becomes 8
and IP2 and the summary are set, then MI.intr is 0 again and both are clear. -/
theorem C26_interrupt_lines_witness :
    ((interrupt_raise vi_enabled_system n64_interrupt_t.INTERRUPT_VI).mi.intr.testBit 3 = true
      ∧ (interrupt_raise vi_enabled_system n64_interrupt_t.INTERRUPT_VI).mi.intr = 8
      ∧ (interrupt_raise vi_enabled_system n64_interrupt_t.INTERRUPT_VI).cpu.interrupts = 4)
    ∧ (interrupt_lower (interrupt_raise vi_enabled_system n64_interrupt_t.INTERRUPT_VI)
        n64_interrupt_t.INTERRUPT_VI).cpu.interrupts = 0 :=
  ⟨⟨(C26_interrupt_lines vi_enabled_system n64_interrupt_t.INTERRUPT_VI (by decide)).1,
    rfl, rfl⟩, rfl⟩

/-! ### Invalidation of a block-cache page -/

/-- C27: for every block cache and physical address P, `invalidate_dynarec_page`
sets the outer slot of P to null and changes no other outer slot; and when the
PC of the next `n64_dynarec_step` translates to an address on the page of P,
that step puts a fresh inner page into the slot, every block of which runs
`missing_block_handler`, leaves the other outer slots alone, picks a block
whose `run` is `missing_block_handler`, and its result is that of
`missing_block_handler` (compile the block at the PC, then run it) on the fresh
page. -/
theorem C27_invalidate_page (ext : Ext) (sx : SysExt) (fuel : Nat) (s : n64_system_t)
    (P : Nat) (hQ : outer_index (u32 (sx.resolve_virtual_address s.cpu.pc s.cpu.cp0)) = outer_index P) :
    (invalidate_dynarec_page s.dynarec P).blockcache (outer_index P) = none
    ∧ (∀ i, i ≠ outer_index P →
        (invalidate_dynarec_page s.dynarec P).blockcache i = s.dynarec.blockcache i)
    ∧ (n64_dynarec_step_page sx { s with dynarec := invalidate_dynarec_page s.dynarec P }).dynarec.blockcache (outer_index P)
        = some (fun _ => { run := block_run_t.missing_block_handler })
    ∧ (∀ i, i ≠ outer_index P →
        (n64_dynarec_step_page sx { s with dynarec := invalidate_dynarec_page s.dynarec P }).dynarec.blockcache i = s.dynarec.blockcache i)
    ∧ n64_dynarec_step_block sx (n64_dynarec_step_page sx { s with dynarec := invalidate_dynarec_page s.dynarec P })
        = some { run := block_run_t.missing_block_handler }
    ∧ n64_dynarec_step ext sx fuel { s with dynarec := invalidate_dynarec_page s.dynarec P }
        = (match missing_block_handler sx fuel (n64_dynarec_step_page sx { s with dynarec := invalidate_dynarec_page s.dynarec P }) with
          | loop_result_t.out_of_fuel => loop_result_t.out_of_fuel
          | loop_result_t.fatal => loop_result_t.fatal
          | loop_result_t.done (s2, taken) =>
            loop_result_t.done (s2, taken * ext.CYCLES_PER_INSTR)) := by
  have hnull : (invalidate_dynarec_page s.dynarec P).blockcache (outer_index (u32 (sx.resolve_virtual_address s.cpu.pc s.cpu.cp0))) = none := by
    rw [hQ]
    unfold invalidate_dynarec_page
    simp
  have hpage : n64_dynarec_step_page sx { s with dynarec := invalidate_dynarec_page s.dynarec P }
      = { s with dynarec := { blockcache := fun i => if i = outer_index (u32 (sx.resolve_virtual_address s.cpu.pc s.cpu.cp0)) then some (fun _ => { run := block_run_t.missing_block_handler }) else (invalidate_dynarec_page s.dynarec P).blockcache i } } := by
    unfold n64_dynarec_step_page
    simp only [hnull]
  have hblock : n64_dynarec_step_block sx (n64_dynarec_step_page sx { s with dynarec := invalidate_dynarec_page s.dynarec P })
      = some { run := block_run_t.missing_block_handler } := by
    rw [hpage]
    unfold n64_dynarec_step_block
    simp
  refine ⟨?_, ?_, ?_, ?_, hblock, ?_⟩
  · unfold invalidate_dynarec_page
    simp
  · intro i hi
    unfold invalidate_dynarec_page
    simp [hi]
  · rw [hpage, hQ]
    simp
  · intro i hi
    rw [hpage, hQ]
    unfold invalidate_dynarec_page
    simp [hi]
  · unfold n64_dynarec_step
    simp only [hblock]

/-- C27, on a page holding stale code of length 7: after `invalidate(0x1234)`
the step at pc = 0xFFFFFFFF80001000 (physical 0x1000, the same page) compiles
the one-store block afresh and runs it, and the slot then holds that block. -/
theorem C27_invalidate_page_witness :
    (n64_dynarec_step flat_ext flat_sys_ext 1
        { stale_page_system with
          dynarec := invalidate_dynarec_page stale_page_system.dynarec 0x1234 }).returned.map
      (fun r => (r.2, (r.1.dynarec.blockcache 1).map (fun page => ((page 0).run, (page 1).run))))
      = some (1, some (block_run_t.compiled
            { instructions := [(0x1000, 0xAC220000)], block_length := 1 },
          block_run_t.missing_block_handler)) := by
  rw [(C27_invalidate_page flat_ext flat_sys_ext 1 stale_page_system 0x1234 rfl).2.2.2.2.2]
  rfl

/-! ### The compile loop -/

theorem block_address_succ (start i : Nat) :
    u32 (block_address start i + 4) = block_address start (i + 1) := by
  unfold block_address u32
  omega

theorem block_instructions_succ (mem : Nat → Nat) (start n : Nat) :
    block_instructions mem start n
        ++ [(block_address start n, n64_read_physical_word mem (block_address start n))]
      = block_instructions mem start (n + 1) := by
  unfold block_instructions
  rw [List.range_succ, List.map_append]
  rfl

theorem compile_inv_start (sx : SysExt) (mem : Nat → Nat) (v p : Nat) (hp : p < 0x100000000) :
    CompileInv sx mem p 0 (compile_start v p) := by
  refine ⟨?_, rfl, ?_, ?_⟩
  · show p = u32 (p + 4 * 0)
    unfold u32
    omega
  · intro h
    exact absurd h.1 (by decide)
  · intro _
    exact ⟨le_refl _, rfl⟩

theorem compile_iteration_eq (sx : SysExt) (mem : Nat → Nat) (st : compile_state_t)
    (ends : Bool) (left1 : Int)
    (h : compile_category
        (sx.instruction_ir (n64_read_physical_word mem st.physical_address)
          st.physical_address).category
        st.prev_instr_category (st.instructions_left_in_block - 1) = some (ends, left1)) :
    compile_iteration sx mem st
      = some ({ physical_address := u32 (st.physical_address + 4),
                virtual_address := u64 (st.virtual_address + 4),
                block_length := st.block_length + 1
                  + sx.extra_cycles (n64_read_physical_word mem st.physical_address)
                      st.physical_address,
                instructions_left_in_block := left1,
                prev_instr_category :=
                  (sx.instruction_ir (n64_read_physical_word mem st.physical_address)
                    st.physical_address).category,
                emitted := st.emitted
                  ++ [(st.physical_address, n64_read_physical_word mem st.physical_address)] },
              !(ends || if left1 = 1 then false
                else IS_PAGE_BOUNDARY (u32 (st.physical_address + 4)))) := by
  unfold compile_iteration
  simp only [h]

/-- An instruction that the stop rule does not select: the loop continues and
the invariant holds for the next instruction. -/
theorem compile_iteration_continue (sx : SysExt) (mem : Nat → Nat) (start i : Nat)
    (st : compile_state_t) (hinv : CompileInv sx mem start i st)
    (hns : stop_rule sx mem start i = false) :
    ∃ st1, compile_iteration sx mem st = some (st1, true)
      ∧ CompileInv sx mem start (i + 1) st1 := by
  obtain ⟨hpa, hem, hb, hnb⟩ := hinv
  unfold stop_rule at hns
  simp only [Bool.or_eq_false_iff, Bool.and_eq_false_iff] at hns
  obtain ⟨⟨⟨⟨hs, he⟩, ht⟩, hprev⟩, hpage⟩ := hns
  have hnotprev : ¬ (0 < i ∧ prev_is_branch (block_category sx mem start (i - 1)) = true) := by
    rintro ⟨h1, h2⟩
    rcases hprev with h | h
    · simp [h1] at h
    · rw [h2] at h
      exact absurd h (by decide)
  obtain ⟨hleft, hpb⟩ := hnb hnotprev
  have hcat : (sx.instruction_ir (n64_read_physical_word mem st.physical_address)
      st.physical_address).category = block_category sx mem start i := by
    rw [hpa]
    rfl
  have key : ∀ (ends : Bool) (left1 : Int),
      compile_category (block_category sx mem start i) st.prev_instr_category
        (st.instructions_left_in_block - 1) = some (ends, left1) →
      (!(ends || if left1 = 1 then false
        else IS_PAGE_BOUNDARY (u32 (st.physical_address + 4)))) = true →
      ((0 < i + 1 ∧ prev_is_branch (block_category sx mem start (i + 1 - 1)) = true) →
        left1 = 1) →
      (¬ (0 < i + 1 ∧ prev_is_branch (block_category sx mem start (i + 1 - 1)) = true) →
        left1 ≤ -1) →
      ∃ st1, compile_iteration sx mem st = some (st1, true)
        ∧ CompileInv sx mem start (i + 1) st1 := by
    intro ends left1 hcc hflag h1 h2
    rw [← hcat] at hcc
    rw [compile_iteration_eq sx mem st ends left1 hcc, hflag]
    refine ⟨_, rfl, ?_, ?_, ?_, ?_⟩
    · show u32 (st.physical_address + 4) = _
      rw [hpa, block_address_succ]
    · show st.emitted ++ [(st.physical_address, _)] = _
      rw [hem, hpa, block_instructions_succ]
    · intro h
      refine ⟨h1 h, ?_⟩
      show prev_is_branch (sx.instruction_ir _ _).category = true
      rw [hcat]
      exact h.2
    · intro h
      refine ⟨h2 h, ?_⟩
      show prev_is_branch (sx.instruction_ir _ _).category = false
      rw [hcat]
      cases hp : prev_is_branch (block_category sx mem start i)
      · rfl
      · exact absurd ⟨Nat.succ_pos i, hp⟩ h
  cases hc : block_category sx mem start i with
  | NORMAL =>
    rw [hc] at hpage
    have hbd : IS_PAGE_BOUNDARY (u32 (st.physical_address + 4)) = false := by
      rw [hpa]
      rcases hpage with h | h
      · exact h
      · exact absurd h (by decide)
    have hl0 : (st.instructions_left_in_block - 1 == 0) = false := by
      simp only [beq_eq_false_iff_ne, ne_eq]
      omega
    have hl1 : ¬ (st.instructions_left_in_block - 1 = 1) := by omega
    rw [hc] at key
    refine key _ _ rfl ?_ ?_ ?_
    · rw [hl0, if_neg hl1, hbd]
      rfl
    · rintro ⟨-, h2⟩
      rw [Nat.add_sub_cancel, hc] at h2
      exact absurd h2 (by decide)
    · intro _
      omega
  | BRANCH =>
    rw [hc] at key
    have hcc : compile_category dynarec_instruction_category_t.BRANCH st.prev_instr_category
        (st.instructions_left_in_block - 1) = some (false, 1) := by
      simp only [compile_category, hpb, Bool.false_eq_true, if_false]
    refine key _ _ hcc rfl (fun _ => rfl) ?_
    intro h
    exfalso
    apply h
    rw [Nat.add_sub_cancel, hc]
    exact ⟨Nat.succ_pos i, rfl⟩
  | BRANCH_LIKELY =>
    rw [hc] at key
    have hcc : compile_category dynarec_instruction_category_t.BRANCH_LIKELY
        st.prev_instr_category (st.instructions_left_in_block - 1) = some (false, 1) := by
      simp only [compile_category, hpb, Bool.false_eq_true, if_false]
    refine key _ _ hcc rfl (fun _ => rfl) ?_
    intro h
    exfalso
    apply h
    rw [Nat.add_sub_cancel, hc]
    exact ⟨Nat.succ_pos i, rfl⟩
  | ERET =>
    rw [hc] at he
    exact absurd he (by decide)
  | TLB_WRITE =>
    rw [hc] at ht
    exact absurd ht (by decide)
  | STORE =>
    rw [hc] at hs
    exact absurd hs (by decide)

/-- The instruction selected by the stop rule: the iteration is fatal for a
branch in a delay slot and otherwise ends the loop. -/
theorem compile_iteration_stop (sx : SysExt) (mem : Nat → Nat) (start n : Nat)
    (st : compile_state_t) (hinv : CompileInv sx mem start n st)
    (hs : stop_rule sx mem start n = true) :
    (branch_in_delay_slot sx mem start n → compile_iteration sx mem st = none)
    ∧ (¬ branch_in_delay_slot sx mem start n →
      ∃ st1, compile_iteration sx mem st = some (st1, false)
        ∧ st1.emitted = block_instructions mem start (n + 1)) := by
  obtain ⟨hpa, hem, hb, hnb⟩ := hinv
  have hcat : (sx.instruction_ir (n64_read_physical_word mem st.physical_address)
      st.physical_address).category = block_category sx mem start n := by
    rw [hpa]
    rfl
  have key : ∀ (left1 : Int) (ends : Bool),
      compile_category (block_category sx mem start n) st.prev_instr_category
        (st.instructions_left_in_block - 1) = some (ends, left1) →
      (!(ends || if left1 = 1 then false
        else IS_PAGE_BOUNDARY (u32 (st.physical_address + 4)))) = false →
      ∃ st1, compile_iteration sx mem st = some (st1, false)
        ∧ st1.emitted = block_instructions mem start (n + 1) := by
    intro left1 ends hcc hflag
    rw [← hcat] at hcc
    rw [compile_iteration_eq sx mem st ends left1 hcc, hflag]
    refine ⟨_, rfl, ?_⟩
    show st.emitted ++ [(st.physical_address, _)] = _
    rw [hem, hpa, block_instructions_succ]
  have kfatal : compile_category (block_category sx mem start n) st.prev_instr_category
      (st.instructions_left_in_block - 1) = none → compile_iteration sx mem st = none := by
    intro hcc
    rw [← hcat] at hcc
    unfold compile_iteration
    simp only [hcc]
  by_cases hprev : 0 < n ∧ prev_is_branch (block_category sx mem start (n - 1)) = true
  · obtain ⟨hleft, hpb⟩ := hb hprev
    cases hc : block_category sx mem start n with
    | NORMAL =>
      rw [hc] at key
      refine ⟨fun h => ?_, fun _ => key _ _ rfl ?_⟩
      · rw [branch_in_delay_slot, hc] at h
        exact absurd h.1 (by decide)
      · rw [hleft]
        rfl
    | BRANCH =>
      rw [hc] at kfatal
      refine ⟨fun _ => kfatal ?_, fun h => ?_⟩
      · simp only [compile_category, hpb, if_true]
      · exfalso
        apply h
        rw [branch_in_delay_slot, hc]
        exact ⟨rfl, hprev⟩
    | BRANCH_LIKELY =>
      rw [hc] at kfatal
      refine ⟨fun _ => kfatal ?_, fun h => ?_⟩
      · simp only [compile_category, hpb, if_true]
      · exfalso
        apply h
        rw [branch_in_delay_slot, hc]
        exact ⟨rfl, hprev⟩
    | ERET =>
      rw [hc] at key
      refine ⟨fun h => ?_, fun _ => key _ _ rfl rfl⟩
      rw [branch_in_delay_slot, hc] at h
      exact absurd h.1 (by decide)
    | TLB_WRITE =>
      rw [hc] at key
      refine ⟨fun h => ?_, fun _ => key _ _ rfl rfl⟩
      rw [branch_in_delay_slot, hc] at h
      exact absurd h.1 (by decide)
    | STORE =>
      rw [hc] at key
      refine ⟨fun h => ?_, fun _ => key _ _ rfl rfl⟩
      rw [branch_in_delay_slot, hc] at h
      exact absurd h.1 (by decide)
  · obtain ⟨hleft, hpb⟩ := hnb hprev
    have hnf : ¬ branch_in_delay_slot sx mem start n := fun h => hprev h.2
    refine ⟨fun h => absurd h hnf, fun _ => ?_⟩
    have hbfalse : (decide (0 < n) && prev_is_branch (block_category sx mem start (n - 1)))
        = false := by
      cases h1 : decide (0 < n)
      · rfl
      · cases h2 : prev_is_branch (block_category sx mem start (n - 1))
        · rfl
        · exact absurd ⟨of_decide_eq_true h1, h2⟩ hprev
    unfold stop_rule at hs
    rw [hbfalse, Bool.or_false] at hs
    cases hc : block_category sx mem start n with
    | NORMAL =>
      rw [hc] at key hs
      have hbd : IS_PAGE_BOUNDARY (u32 (st.physical_address + 4)) = true := by
        rw [hpa]
        have hs2 : IS_PAGE_BOUNDARY (u32 (block_address start n + 4)) = true
            ∧ prev_is_branch dynarec_instruction_category_t.NORMAL = false := by
          simpa using hs
        exact hs2.1
      have hl0 : (st.instructions_left_in_block - 1 == 0) = false := by
        simp only [beq_eq_false_iff_ne, ne_eq]
        omega
      have hl1 : ¬ (st.instructions_left_in_block - 1 = 1) := by omega
      refine key _ _ rfl ?_
      rw [hl0, if_neg hl1, hbd]
      rfl
    | BRANCH =>
      rw [hc] at hs
      exact absurd hs (by simp [prev_is_branch])
    | BRANCH_LIKELY =>
      rw [hc] at hs
      exact absurd hs (by simp [prev_is_branch])
    | ERET =>
      rw [hc] at key
      exact key _ _ rfl rfl
    | TLB_WRITE =>
      rw [hc] at key
      exact key _ _ rfl rfl
    | STORE =>
      rw [hc] at key
      exact key _ _ rfl rfl

/-- The loop started on instruction `n - k` with the invariant, when the stop
rule selects `n` and no earlier instruction: fatal for a branch in a delay
slot, and otherwise the loop returns having emitted instructions `0 .. n`. -/
theorem compile_loop_first_stop (sx : SysExt) (mem : Nat → Nat) (start n : Nat)
    (hstop : stop_rule sx mem start n = true)
    (hfirst : ∀ i, i < n → stop_rule sx mem start i = false) :
    ∀ k, k ≤ n → ∀ st, CompileInv sx mem start (n - k) st → ∀ fuel, k < fuel →
      (branch_in_delay_slot sx mem start n →
        compile_loop sx mem fuel st = loop_result_t.fatal)
      ∧ (¬ branch_in_delay_slot sx mem start n →
        ∃ st1, compile_loop sx mem fuel st = loop_result_t.done st1
          ∧ st1.emitted = block_instructions mem start (n + 1)) := by
  intro k
  induction k with
  | zero =>
    intro _ st hinv fuel hfuel
    obtain ⟨f, rfl⟩ : ∃ f, fuel = f + 1 := ⟨fuel - 1, by omega⟩
    obtain ⟨h1, h2⟩ := compile_iteration_stop sx mem start n st hinv hstop
    constructor
    · intro h
      rw [compile_loop, h1 h]
    · intro h
      obtain ⟨st1, e, hem⟩ := h2 h
      exact ⟨st1, by rw [compile_loop, e], hem⟩
  | succ k ih =>
    intro hk st hinv fuel hfuel
    obtain ⟨f, rfl⟩ : ∃ f, fuel = f + 1 := ⟨fuel - 1, by omega⟩
    obtain ⟨st1, e, hinv1⟩ := compile_iteration_continue sx mem start (n - (k + 1)) st hinv
      (hfirst _ (by omega))
    have hidx : n - (k + 1) + 1 = n - k := by omega
    rw [hidx] at hinv1
    have := ih (by omega) st1 hinv1 f (by omega)
    rw [compile_loop, e]
    exact this

theorem page_size_eq : BLOCKCACHE_PAGE_SIZE = 4096 := by decide

theorem inner_size_eq : BLOCKCACHE_INNER_SIZE = 1024 := by decide

theorem is_page_boundary_iff (a : Nat) : IS_PAGE_BOUNDARY a = true ↔ a % 4096 = 0 := by
  unfold IS_PAGE_BOUNDARY
  rw [page_size_eq]
  have h := Nat.and_pow_two_sub_one_eq_mod a 12
  norm_num at h
  simp [h]

/-- In a page entered at a 4-byte aligned address the stop rule selects the
last word of the page or the word after it. -/
theorem stop_by_page_end (sx : SysExt) (mem : Nat → Nat) (p : Nat) (ha : p % 4 = 0) :
    stop_rule sx mem p ((4096 - p % 4096) / 4 - 1) = true
    ∨ stop_rule sx mem p ((4096 - p % 4096) / 4) = true := by
  have hbd : IS_PAGE_BOUNDARY (u32 (block_address p ((4096 - p % 4096) / 4 - 1) + 4)) = true := by
    rw [is_page_boundary_iff]
    unfold block_address u32
    omega
  cases hb : prev_is_branch (block_category sx mem p ((4096 - p % 4096) / 4 - 1))
  · left
    unfold stop_rule
    rw [hbd, hb]
    simp
  · right
    unfold stop_rule
    have hpos : 0 < (4096 - p % 4096) / 4 := by omega
    rw [hb]
    simp [hpos]

theorem exists_first_stop (sx : SysExt) (mem : Nat → Nat) (p : Nat) (ha : p % 4 = 0) :
    ∃ n, n ≤ (4096 - p % 4096) / 4 ∧ stop_rule sx mem p n = true
      ∧ ∀ i, i < n → stop_rule sx mem p i = false := by
  have hex : ∃ n, stop_rule sx mem p n = true := by
    rcases stop_by_page_end sx mem p ha with h | h
    · exact ⟨_, h⟩
    · exact ⟨_, h⟩
  refine ⟨Nat.find hex, ?_, Nat.find_spec hex, ?_⟩
  · rcases stop_by_page_end sx mem p ha with h | h
    · have := Nat.find_min' hex h
      omega
    · exact Nat.find_min' hex h
  · intro i hi
    have := Nat.find_min hex hi
    simpa using this

/-- Where the instructions up to the first one selected by the stop rule lie. -/
theorem first_stop_in_page (sx : SysExt) (mem : Nat → Nat) (p n : Nat) (hp : p < 0x100000000)
    (ha : p % 4 = 0) (hn : n ≤ (4096 - p % 4096) / 4)
    (hfirst : ∀ i, i < n → stop_rule sx mem p i = false) :
    (∀ i, i < n → block_address p i / 4096 = p / 4096)
    ∧ (block_address p n / 4096 = p / 4096
      ∨ (0 < n ∧ block_address p n % 4096 = 0
          ∧ prev_is_branch (block_category sx mem p (n - 1)) = true
          ∧ IS_PAGE_BOUNDARY (u32 (block_address p (n - 1) + 4)) = true)) := by
  have hin : ∀ i, i < (4096 - p % 4096) / 4 → block_address p i / 4096 = p / 4096 := by
    intro i hi
    unfold block_address u32
    omega
  refine ⟨fun i hi => hin i (by omega), ?_⟩
  by_cases hlt : n < (4096 - p % 4096) / 4
  · exact Or.inl (hin n hlt)
  · right
    have hn' : n = (4096 - p % 4096) / 4 := by omega
    have hpos : 0 < n := by omega
    have hbd : IS_PAGE_BOUNDARY (u32 (block_address p (n - 1) + 4)) = true := by
      rw [is_page_boundary_iff]
      unfold block_address u32
      omega
    refine ⟨hpos, ?_, ?_, hbd⟩
    · unfold block_address u32
      omega
    · have hs := hfirst (n - 1) (by omega)
      unfold stop_rule at hs
      simp only [Bool.or_eq_false_iff, Bool.and_eq_false_iff] at hs
      rcases hs.2 with h | h
      · rw [hbd] at h
        exact absurd h (by decide)
      · simpa using h

/-- C28: for every memory content and start address, when instruction n (counted
from the block's first address) is the first that is (a) of category STORE,
ERET or TLB_WRITE, or (b) directly after a BRANCH or BRANCH_LIKELY, or (c) the
last word of its physical page and not itself a BRANCH or BRANCH_LIKELY, then
`compile_new_block`, given more than n iterations, ends in the fatal diagnostic
when instruction n is a branch in a delay slot and otherwise returns the block
of exactly the instructions 0 .. n: it ends the block right after instruction
n and at no earlier instruction. -/
theorem C28_block_ends (sx : SysExt) (mem : Nat → Nat) (v p n fuel : Nat)
    (hp : p < 0x100000000)
    (hstop : stop_rule sx mem p n = true)
    (hfirst : ∀ i, i < n → stop_rule sx mem p i = false)
    (hfuel : n < fuel) :
    (branch_in_delay_slot sx mem p n →
      compile_new_block sx fuel mem v p = loop_result_t.fatal)
    ∧ (¬ branch_in_delay_slot sx mem p n →
      ∃ len, compile_new_block sx fuel mem v p
        = loop_result_t.done
            { instructions := block_instructions mem p (n + 1), block_length := len }) := by
  have hinv : CompileInv sx mem p (n - n) (compile_start v p) := by
    rw [Nat.sub_self]
    exact compile_inv_start sx mem v p hp
  obtain ⟨h1, h2⟩ := compile_loop_first_stop sx mem p n hstop hfirst n (le_refl n)
    (compile_start v p) hinv fuel hfuel
  constructor
  · intro h
    unfold compile_new_block
    rw [h1 h]
  · intro h
    obtain ⟨st1, e, hem⟩ := h2 h
    refine ⟨st1.block_length, ?_⟩
    unfold compile_new_block
    rw [e, ← hem]

/-- C28, on `BEQ r0, r0, +4` followed by `TEQ r0, r0`: the block ends after the
delay slot and holds these two instructions. -/
theorem C28_block_ends_witness :
    ∃ len, compile_new_block flat_sys_ext 2 delay_slot_state.mem 0xFFFFFFFF80001000 0x1000
      = loop_result_t.done
          { instructions := [(0x1000, 0x10000004), (0x1004, 0x34)], block_length := len } := by
  have hfirst : ∀ i, i < 1 → stop_rule flat_sys_ext delay_slot_state.mem 0x1000 i = false := by
    intro i hi
    interval_cases i
    rfl
  have hnf : ¬ branch_in_delay_slot flat_sys_ext delay_slot_state.mem 0x1000 1 := by
    intro h
    have h1 : prev_is_branch (block_category flat_sys_ext delay_slot_state.mem 0x1000 1)
        = false := rfl
    exact absurd (h1.symm.trans h.1) (by decide)
  exact (C28_block_ends flat_sys_ext delay_slot_state.mem 0xFFFFFFFF80001000 0x1000 1 2
    (by decide) rfl hfirst (by decide)).2 hnf

/-- C29: for every memory content and every 4-byte aligned start address,
`compile_new_block` given BLOCKCACHE_INNER_SIZE + 1 iterations does not run out
of them: it ends in the fatal diagnostic for a branch in a delay slot or
returns a block of n + 1 <= BLOCKCACHE_INNER_SIZE + 1 instructions; all of them
but the last lie in the page of the start address, and the last lies there too
or is the first word of a page, directly after a BRANCH or BRANCH_LIKELY that
is the last word of the start page. -/
theorem C29_block_within_page (sx : SysExt) (mem : Nat → Nat) (v p : Nat)
    (hp : p < 0x100000000) (ha : p % 4 = 0) :
    compile_new_block sx (BLOCKCACHE_INNER_SIZE + 1) mem v p = loop_result_t.fatal
    ∨ ∃ n len, compile_new_block sx (BLOCKCACHE_INNER_SIZE + 1) mem v p
          = loop_result_t.done
              { instructions := block_instructions mem p (n + 1), block_length := len }
        ∧ n + 1 ≤ BLOCKCACHE_INNER_SIZE + 1
        ∧ (∀ i, i < n → block_address p i / BLOCKCACHE_PAGE_SIZE = p / BLOCKCACHE_PAGE_SIZE)
        ∧ (block_address p n / BLOCKCACHE_PAGE_SIZE = p / BLOCKCACHE_PAGE_SIZE
          ∨ (0 < n ∧ block_address p n % BLOCKCACHE_PAGE_SIZE = 0
              ∧ prev_is_branch (block_category sx mem p (n - 1)) = true
              ∧ IS_PAGE_BOUNDARY (u32 (block_address p (n - 1) + 4)) = true
              ∧ block_address p (n - 1) / BLOCKCACHE_PAGE_SIZE = p / BLOCKCACHE_PAGE_SIZE)) := by
  obtain ⟨n, hn, hstop, hfirst⟩ := exists_first_stop sx mem p ha
  have hn1 : n < BLOCKCACHE_INNER_SIZE + 1 := by
    rw [inner_size_eq]
    omega
  have hinv : CompileInv sx mem p (n - n) (compile_start v p) := by
    rw [Nat.sub_self]
    exact compile_inv_start sx mem v p hp
  obtain ⟨h1, h2⟩ := compile_loop_first_stop sx mem p n hstop hfirst n (le_refl n)
    (compile_start v p) hinv (BLOCKCACHE_INNER_SIZE + 1) hn1
  obtain ⟨hin, hlast⟩ := first_stop_in_page sx mem p n hp ha hn hfirst
  by_cases hf : branch_in_delay_slot sx mem p n
  · left
    unfold compile_new_block
    rw [h1 hf]
  · right
    obtain ⟨st1, e, hem⟩ := h2 hf
    refine ⟨n, st1.block_length, ?_, by omega, ?_, ?_⟩
    · unfold compile_new_block
      rw [e, ← hem]
    · rw [page_size_eq]
      exact hin
    · rw [page_size_eq]
      rcases hlast with h | ⟨h1, h2, h3, h4⟩
      · exact Or.inl h
      · exact Or.inr ⟨h1, h2, h3, h4, hin (n - 1) (by omega)⟩

/-- C29, on the page of `BEQ r0, r0, +4` and `TEQ r0, r0` entered at its first
word. -/
theorem C29_block_within_page_witness :
    (compile_new_block flat_sys_ext (BLOCKCACHE_INNER_SIZE + 1) delay_slot_state.mem
        0xFFFFFFFF80001000 0x1000).returned.map (fun b => b.instructions)
      = some [(0x1000, 0x10000004), (0x1004, 0x34)] := by
  have h := C29_block_within_page flat_sys_ext delay_slot_state.mem 0xFFFFFFFF80001000 0x1000
    (by decide) (by decide)
  have e : compile_new_block flat_sys_ext (BLOCKCACHE_INNER_SIZE + 1) delay_slot_state.mem
      0xFFFFFFFF80001000 0x1000
      = loop_result_t.done
          { instructions := [(0x1000, 0x10000004), (0x1004, 0x34)], block_length := 2 } := rfl
  rcases h with h | ⟨n, len, h, -⟩
  · rw [e] at h
    cases h
  · rw [e]
    rfl

/-! ## C31: words outside the decode tables -/

theorem decode_pc_irrelevant (pc pc' raw : Nat) :
    r4300i_instruction_decode pc raw = r4300i_instruction_decode pc' raw := rfl

theorem decode_primary_none (pc raw : Nat) (h0 : raw ≠ 0)
    (h : instr_op raw ∉ primary_opcodes) : r4300i_instruction_decode pc raw = none := by
  simp only [primary_opcodes, List.mem_cons, List.mem_singleton, List.not_mem_nil, or_false,
    not_or] at h
  simp only [r4300i_instruction_decode, if_neg h0, h, if_false]

theorem decode_special_none (pc raw : Nat) (h0 : raw ≠ 0) (hop : instr_op raw = OPC_SPCL)
    (h : instr_funct raw ∉ special_functs) : r4300i_instruction_decode pc raw = none := by
  simp only [special_functs, List.mem_cons, List.mem_singleton, List.not_mem_nil, or_false,
    not_or] at h
  have e0 : ¬ (OPC_SPCL = OPC_CP0) := by decide
  have e1 : ¬ (OPC_SPCL = OPC_CP1) := by decide
  simp only [r4300i_instruction_decode, if_neg h0, hop, if_neg e0, if_neg e1, if_true,
    r4300i_special_decode, h, if_false]

theorem decode_regimm_none (pc raw : Nat) (hop : instr_op raw = OPC_REGIMM)
    (h : instr_rt raw ∉ regimm_rts) : r4300i_instruction_decode pc raw = none := by
  simp only [regimm_rts, List.mem_cons, List.mem_singleton, List.not_mem_nil, or_false,
    not_or] at h
  have h0 : raw ≠ 0 := by
    intro e; rw [e] at hop; exact absurd hop (by decide)
  have e0 : ¬ (OPC_REGIMM = OPC_CP0) := by decide
  have e1 : ¬ (OPC_REGIMM = OPC_CP1) := by decide
  have e2 : ¬ (OPC_REGIMM = OPC_SPCL) := by decide
  simp only [r4300i_instruction_decode, if_neg h0, hop, if_neg e0, if_neg e1, if_neg e2,
    if_true, r4300i_regimm_decode, h, if_false]

theorem decode_cp0_none (pc raw : Nat) (hop : instr_op raw = OPC_CP0)
    (hrs : instr_last11 raw = 0 → instr_rs raw ∉ cp0_rs_codes)
    (hf : instr_last11 raw ≠ 0 → instr_funct raw ∉ cp0_functs) :
    r4300i_instruction_decode pc raw = none := by
  have h0 : raw ≠ 0 := by
    intro e; rw [e] at hop; exact absurd hop (by decide)
  simp only [r4300i_instruction_decode, if_neg h0, hop, if_true, r4300i_cp0_decode]
  by_cases h11 : instr_last11 raw = 0
  · have h := hrs h11
    simp only [cp0_rs_codes, List.mem_cons, List.mem_singleton, List.not_mem_nil, or_false,
      not_or] at h
    simp only [h11, if_true, h, if_false]
  · have h := hf h11
    simp only [cp0_functs, List.mem_cons, List.mem_singleton, List.not_mem_nil, or_false,
      not_or] at h
    simp only [if_neg h11, h, if_false]

theorem decode_cp1_bc_none (pc raw : Nat) (hop : instr_op raw = OPC_CP1)
    (hrs : instr_rs raw = COP_BC) (h : instr_rt raw ∉ cp1_bc_rts) :
    r4300i_instruction_decode pc raw = none := by
  simp only [cp1_bc_rts, List.mem_cons, List.mem_singleton, List.not_mem_nil, or_false,
    not_or] at h
  have h0 : raw ≠ 0 := by
    intro e; rw [e] at hop; exact absurd hop (by decide)
  have e0 : ¬ (OPC_CP1 = OPC_CP0) := by decide
  have r0 : ¬ (COP_BC = COP_CF) := by decide
  have r1 : ¬ (COP_BC = COP_MF) := by decide
  have r2 : ¬ (COP_BC = COP_DMF) := by decide
  have r3 : ¬ (COP_BC = COP_MT) := by decide
  have r4 : ¬ (COP_BC = COP_DMT) := by decide
  have r5 : ¬ (COP_BC = COP_CT) := by decide
  simp only [r4300i_instruction_decode, if_neg h0, hop, if_neg e0, if_true, r4300i_cp1_decode,
    hrs, if_neg r0, if_neg r1, if_neg r2, if_neg r3, if_neg r4, if_neg r5, h, if_false]

theorem step_undecodable (ext : Ext) (c : r4300i_t)
    (hint : ¬ (0 < (r4300i_step_count ext c).interrupts ∧ (r4300i_step_count ext c).cp0.status.ie
      ∧ !(r4300i_step_count ext c).cp0.status.exl ∧ !(r4300i_step_count ext c).cp0.status.erl))
    (hdec : r4300i_instruction_decode (r4300i_step_count ext c).pc
      (u32 (ext.read_word (r4300i_step_count ext c) (r4300i_step_count ext c).pc)) = none) :
    r4300i_step ext c = none := by
  unfold r4300i_step
  simp only [if_neg hint, hdec]

/-- C31, the claim as written fails: the word 0x7C000000 has primary opcode 31,
which is in no decode table, and stepping a CPU that fetches it ends in the
fatal diagnostic of the decoder instead of a reserved-instruction exception. -/
theorem C31_counterexample :
    instr_op 0x7C000000 ∉ primary_opcodes ∧
    u32 (flat_ext.read_word (r4300i_step_count flat_ext undecodable_state)
      (r4300i_step_count flat_ext undecodable_state).pc) = 0x7C000000 ∧
    r4300i_instruction_decode undecodable_state.pc 0x7C000000 = none ∧
    r4300i_step flat_ext undecodable_state = none := by
  refine ⟨by decide, rfl, rfl, rfl⟩

/-- C31, amended: the all-zero word decodes to NOP and the decoded handler
depends only on the instruction word, not on the fetch PC (the decoder takes no
CPU state); a non-zero word whose primary opcode, SPECIAL funct, REGIMM rt,
COP0 sub-opcode or COP1 branch condition has no case in the decode tables
decodes to no handler; when no interrupt is delivered, a step that fetches a
word without handler ends in the fatal diagnostic of the decoder, and the
exception engine itself ends in a fatal diagnostic for the
reserved-instruction code. -/
theorem C31_undecodable_word_is_fatal :
    (∀ pc, r4300i_instruction_decode pc 0 = some mipsinstr_handler_t.mips_nop) ∧
    (∀ pc pc' raw, r4300i_instruction_decode pc raw = r4300i_instruction_decode pc' raw) ∧
    (∀ pc raw, raw ≠ 0 → instr_op raw ∉ primary_opcodes →
      r4300i_instruction_decode pc raw = none) ∧
    (∀ pc raw, raw ≠ 0 → instr_op raw = OPC_SPCL → instr_funct raw ∉ special_functs →
      r4300i_instruction_decode pc raw = none) ∧
    (∀ pc raw, instr_op raw = OPC_REGIMM → instr_rt raw ∉ regimm_rts →
      r4300i_instruction_decode pc raw = none) ∧
    (∀ pc raw, instr_op raw = OPC_CP0 →
      (instr_last11 raw = 0 → instr_rs raw ∉ cp0_rs_codes) →
      (instr_last11 raw ≠ 0 → instr_funct raw ∉ cp0_functs) →
      r4300i_instruction_decode pc raw = none) ∧
    (∀ pc raw, instr_op raw = OPC_CP1 → instr_rs raw = COP_BC → instr_rt raw ∉ cp1_bc_rts →
      r4300i_instruction_decode pc raw = none) ∧
    (∀ (ext : Ext) (c : r4300i_t),
      ¬ (0 < (r4300i_step_count ext c).interrupts ∧ (r4300i_step_count ext c).cp0.status.ie
        ∧ !(r4300i_step_count ext c).cp0.status.exl
        ∧ !(r4300i_step_count ext c).cp0.status.erl) →
      r4300i_instruction_decode (r4300i_step_count ext c).pc
        (u32 (ext.read_word (r4300i_step_count ext c) (r4300i_step_count ext c).pc)) = none →
      r4300i_step ext c = none) ∧
    (∀ c pc ce, r4300i_handle_exception c pc EXCEPTION_RESERVED_INSTR ce = none) :=
  ⟨fun _ => rfl, decode_pc_irrelevant, decode_primary_none, decode_special_none,
   decode_regimm_none, decode_cp0_none, decode_cp1_bc_none, step_undecodable,
   fun c pc ce => handle_exception_fatal c pc _ ce (by decide) (by decide)⟩

/-- C31, witness: the amended statement at the SYSCALL word 0x0000000C, whose
funct 12 has no case in the SPECIAL table. -/
theorem C31_undecodable_word_is_fatal_witness :
    (0x0000000C : Nat) ≠ 0 ∧ instr_op 0x0000000C = OPC_SPCL ∧
    instr_funct 0x0000000C ∉ special_functs ∧
    r4300i_instruction_decode 0xFFFFFFFF80001000 0x0000000C = none :=
  ⟨by decide, by decide, by decide,
   C31_undecodable_word_is_fatal.2.2.2.1 0xFFFFFFFF80001000 0x0000000C (by decide) (by decide)
     (by decide)⟩

/-! ### C36: unsigned comparisons against the sign-extended immediate -/

theorem sext16_eq_ofSigned (i : Nat) : sext16 i = ofSigned 64 (toSigned 16 (i % 0x10000)) := by
  unfold sext16 ofSigned toSigned
  norm_num
  split_ifs <;> omega

/-- C36: for every rs and 16-bit immediate, SLTIU returns after writing to rt
the value 1 when rs, as an unsigned 64-bit integer, is less than the 64-bit
pattern of the immediate sign-extended from 16 bits, and 0 otherwise (rs = 5
with immediate 0xFFFF compares against 0xFFFFFFFFFFFFFFFF and gives 1); TLTIU
calls the exception engine with the trap code on the same unsigned comparison
and returns unchanged otherwise, and TGEIU does so on its negation. -/
theorem C36_sltiu_unsigned (ext : Ext) (c : r4300i_t) (raw : Nat) :
    mips_sltiu ext c raw = some (set_register c (instr_rt raw)
      (if c.gpr (instr_rs raw) < ofSigned 64 (toSigned 16 (instr_immediate raw)) then 1 else 0))
    ∧ ofSigned 64 (toSigned 16 0xFFFF) = 0xFFFFFFFFFFFFFFFF
    ∧ (c.gpr (instr_rs raw) = 5 → instr_immediate raw = 0xFFFF →
        mips_sltiu ext c raw = some (set_register c (instr_rt raw) 1))
    ∧ mips_ri_tltiu ext c raw
      = (if c.gpr (instr_rs raw) < ofSigned 64 (toSigned 16 (instr_immediate raw)) then
          r4300i_handle_exception c c.prev_pc EXCEPTION_TRAP 0 else some c)
    ∧ mips_ri_tgeiu ext c raw
      = (if c.gpr (instr_rs raw) < ofSigned 64 (toSigned 16 (instr_immediate raw)) then some c
          else r4300i_handle_exception c c.prev_pc EXCEPTION_TRAP 0) := by
  have him : instr_immediate raw % 0x10000 = instr_immediate raw := by
    unfold instr_immediate
    omega
  have hs : sext16 (instr_immediate raw) = ofSigned 64 (toSigned 16 (instr_immediate raw)) := by
    rw [sext16_eq_ofSigned, him]
  have h1 : mips_sltiu ext c raw = some (set_register c (instr_rt raw)
      (if c.gpr (instr_rs raw) < ofSigned 64 (toSigned 16 (instr_immediate raw)) then 1
        else 0)) := by
    unfold mips_sltiu get_register
    rw [hs]
    split <;> rfl
  refine ⟨h1, by decide, ?_, ?_, ?_⟩
  · intro h5 hi
    rw [h1, h5, hi]
    rfl
  · unfold mips_ri_tltiu get_register
    simp only [hs]
  · unfold mips_ri_tgeiu get_register
    simp only [hs]
    by_cases h : c.gpr (instr_rs raw) < ofSigned 64 (toSigned 16 (instr_immediate raw))
    · rw [if_pos h, if_neg (by omega)]
    · rw [if_neg h, if_pos (by omega)]

/-- C36, witness: `SLTIU r2, r1, 0xFFFF` with r1 = 5 writes 1 to r2. -/
theorem C36_sltiu_unsigned_witness :
    (set_register cpu_zero 1 5).gpr (instr_rs 0x2C22FFFF) = 5
    ∧ instr_immediate 0x2C22FFFF = 0xFFFF
    ∧ mips_sltiu flat_ext (set_register cpu_zero 1 5) 0x2C22FFFF
      = some (set_register (set_register cpu_zero 1 5) (instr_rt 0x2C22FFFF) 1) :=
  ⟨by decide, by decide,
   (C36_sltiu_unsigned flat_ext (set_register cpu_zero 1 5) 0x2C22FFFF).2.2.1 (by decide)
     (by decide)⟩

/-! ### C38: the two SLT handlers -/

theorem slt_agree_without_overflow (ext : Ext) (c : r4300i_t) (raw : Nat)
    (h1 : c.gpr (instr_rs raw) < 0x10000000000000000)
    (h2 : c.gpr (instr_rt raw) < 0x10000000000000000)
    (hfit : fitsSigned 64 (toSigned 64 (c.gpr (instr_rs raw)) - toSigned 64 (c.gpr (instr_rt raw)))) :
    mips_spc_slt ext c raw = some (mips_c_mips_spc_slt c raw) := by
  unfold mips_spc_slt mips_c_mips_spc_slt get_register
  unfold fitsSigned at hfit
  have key : (toSigned 64 (u64 (c.gpr (instr_rs raw) + 0x10000000000000000 - c.gpr (instr_rt raw))) < 0)
      ↔ toSigned 64 (c.gpr (instr_rs raw)) < toSigned 64 (c.gpr (instr_rt raw)) := by
    revert hfit
    unfold toSigned u64
    norm_num
    split_ifs <;> omega
  simp only [key]
  split <;> rfl

/-- C38: the two SLT handlers disagree when the difference rs - rt overflows 64
bits.  For `SLT r3, r1, r2` with r1 = INT64_MIN and r2 = 1 the handler of
`mips_instructions.c` writes 1 (INT64_MIN is less than 1), while the handler
of `mips.c` takes the sign of the wrapped difference INT64_MAX and writes 0. -/
theorem C38_slt_handlers_disagree :
    toSigned 64 (slt_overflow_state.gpr (instr_rs 0x0022182A))
      < toSigned 64 (slt_overflow_state.gpr (instr_rt 0x0022182A))
    ∧ (mips_spc_slt flat_ext slt_overflow_state 0x0022182A).map (fun s => s.gpr 3) = some 1
    ∧ (mips_c_mips_spc_slt slt_overflow_state 0x0022182A).gpr 3 = 0 := by
  refine ⟨by decide, rfl, rfl⟩

/-! ### C39: the two overflow checks of addition -/

/-- C39: on the wrapped sum of two 32-bit (64-bit) addends,
`check_sword_add_overflow` (`check_sdword_add_overflow`) of `mips.c` reports an
overflow exactly when the MSB formula `check_signed_overflow_add` yields 1, for
all addends except the pair a = b = INT32_MIN (INT64_MIN): that sum wraps to
zero, the formula yields 1 and the `mips.c` check, which tests `result > 0`,
reports nothing. -/
theorem C39_overflow_checks_differ_at_min (a b : Nat) :
    ((check_sword_add_overflow (u32 a) (u32 b) (u32 (u32 a + u32 b)) = none
        ↔ check_signed_overflow_add 32 (u32 a) (u32 b) (u32 (u32 a + u32 b)) = 1)
      ↔ ¬ (u32 a = 0x80000000 ∧ u32 b = 0x80000000))
    ∧ ((check_sdword_add_overflow (u64 a) (u64 b) (u64 (u64 a + u64 b)) = none
        ↔ check_signed_overflow_add 64 (u64 a) (u64 b) (u64 (u64 a + u64 b)) = 1)
      ↔ ¬ (u64 a = 0x8000000000000000 ∧ u64 b = 0x8000000000000000))
    ∧ check_sword_add_overflow 0x80000000 0x80000000 (u32 (0x80000000 + 0x80000000)) = some ()
    ∧ check_signed_overflow_add 32 0x80000000 0x80000000 (u32 (0x80000000 + 0x80000000)) = 1
    ∧ check_sdword_add_overflow 0x8000000000000000 0x8000000000000000
        (u64 (0x8000000000000000 + 0x8000000000000000)) = some ()
    ∧ check_signed_overflow_add 64 0x8000000000000000 0x8000000000000000
        (u64 (0x8000000000000000 + 0x8000000000000000)) = 1 := by
  refine ⟨?_, ?_, by decide, by decide, by decide, by decide⟩
  · rw [overflow_add_32 _ _ (u32_lt a) (u32_lt b)]
    have ha := u32_lt a
    have hb := u32_lt b
    generalize u32 a = x at ha ⊢
    generalize u32 b = y at hb ⊢
    unfold check_sword_add_overflow fitsSigned toSigned u32
    norm_num
    split_ifs <;> simp <;> omega
  · rw [overflow_add_64 _ _ (u64_lt a) (u64_lt b)]
    have ha := u64_lt a
    have hb := u64_lt b
    generalize u64 a = x at ha ⊢
    generalize u64 b = y at hb ⊢
    unfold check_sdword_add_overflow fitsSigned toSigned u64
    norm_num
    split_ifs <;> simp <;> omega

/-! ### C34: DIV and DIVU with a non-zero divisor -/

theorem sext32_ofSigned64 (q : Int) :
    sext32 (ofSigned 64 q) = ofSigned 64 (toSigned 32 (ofSigned 32 q)) := by
  unfold sext32 ofSigned toSigned
  norm_num
  split_ifs <;> omega

theorem ofSigned32_u32 (x : Nat) : ofSigned 32 (x : Int) = u32 x := by
  unfold ofSigned u32
  norm_num
  omega

/-- C34: for every state in which the low 32 bits of rt are non-zero, with q
the quotient truncated toward zero and r the remainder of the low words of rs
and rt read as signed 32-bit integers (so dividend = q * divisor + r), DIV
returns with LO = q wrapped to 32 bits and sign-extended to 64 and HI = r
sign-extended, and changes nothing else; DIV of INT32_MIN by -1 gives
LO = 0xFFFFFFFF80000000 and HI = 0.  DIVU returns with LO and HI the quotient
and remainder of the low words read as unsigned integers, each sign-extended
from bit 31. -/
theorem C34_div_nonzero (ext : Ext) (c : r4300i_t) (raw : Nat)
    (hnz : u32 (c.gpr (instr_rt raw)) ≠ 0) :
    (mips_spc_div ext c raw = some { c with
        mult_lo := ofSigned 64 (toSigned 32 (ofSigned 32
          (Int.tdiv (toSigned 32 (u32 (c.gpr (instr_rs raw))))
            (toSigned 32 (u32 (c.gpr (instr_rt raw))))))),
        mult_hi := ofSigned 64
          (Int.tmod (toSigned 32 (u32 (c.gpr (instr_rs raw))))
            (toSigned 32 (u32 (c.gpr (instr_rt raw))))) }
      ∧ toSigned 32 (u32 (c.gpr (instr_rs raw)))
          = Int.tdiv (toSigned 32 (u32 (c.gpr (instr_rs raw))))
              (toSigned 32 (u32 (c.gpr (instr_rt raw))))
            * toSigned 32 (u32 (c.gpr (instr_rt raw)))
            + Int.tmod (toSigned 32 (u32 (c.gpr (instr_rs raw))))
              (toSigned 32 (u32 (c.gpr (instr_rt raw))))
      ∧ fitsSigned 32 (Int.tmod (toSigned 32 (u32 (c.gpr (instr_rs raw))))
          (toSigned 32 (u32 (c.gpr (instr_rt raw)))))
      ∧ (u32 (c.gpr (instr_rs raw)) = 0x80000000 → u32 (c.gpr (instr_rt raw)) = 0xFFFFFFFF →
          mips_spc_div ext c raw
            = some { c with mult_lo := 0xFFFFFFFF80000000, mult_hi := 0 }))
    ∧ (mips_spc_divu ext c raw = some { c with
        mult_lo := ofSigned 64 (toSigned 32
          (u32 (c.gpr (instr_rs raw)) / u32 (c.gpr (instr_rt raw)))),
        mult_hi := ofSigned 64 (toSigned 32
          (u32 (c.gpr (instr_rs raw)) % u32 (c.gpr (instr_rt raw)))) }
      ∧ u32 (c.gpr (instr_rs raw))
          = u32 (c.gpr (instr_rs raw)) / u32 (c.gpr (instr_rt raw)) * u32 (c.gpr (instr_rt raw))
            + u32 (c.gpr (instr_rs raw)) % u32 (c.gpr (instr_rt raw))) := by
  have hd : toSigned 32 (u32 (c.gpr (instr_rt raw))) ≠ 0 :=
    fun h => hnz ((toSigned32_eq_zero _).mp h)
  have hb := tmod_bounds (toSigned 32 (u32 (c.gpr (instr_rs raw))))
    (toSigned 32 (u32 (c.gpr (instr_rt raw)))) hd
  obtain ⟨r1, r2⟩ := toSigned32_range (c.gpr (instr_rt raw))
  have hfit : fitsSigned 32 (Int.tmod (toSigned 32 (u32 (c.gpr (instr_rs raw))))
      (toSigned 32 (u32 (c.gpr (instr_rt raw))))) := by
    unfold fitsSigned
    obtain ⟨hb1, -, -⟩ := hb
    rw [abs_lt] at hb1
    norm_num at r1 r2 ⊢
    rcases abs_cases (toSigned 32 (u32 (c.gpr (instr_rt raw)))) with ⟨e, -⟩ | ⟨e, -⟩ <;>
      rw [e] at hb1 <;> constructor <;> omega
  have hhi : sext32 (ofSigned 64 (Int.tmod (toSigned 32 (u32 (c.gpr (instr_rs raw))))
      (toSigned 32 (u32 (c.gpr (instr_rt raw))))))
      = ofSigned 64 (Int.tmod (toSigned 32 (u32 (c.gpr (instr_rs raw))))
      (toSigned 32 (u32 (c.gpr (instr_rt raw))))) := by
    revert hfit
    generalize Int.tmod (toSigned 32 (u32 (c.gpr (instr_rs raw))))
      (toSigned 32 (u32 (c.gpr (instr_rt raw)))) = r
    intro hfit
    unfold fitsSigned at hfit
    unfold sext32 ofSigned
    norm_num at hfit ⊢
    split_ifs <;> omega
  have hdiv : mips_spc_div ext c raw = some { c with
        mult_lo := ofSigned 64 (toSigned 32 (ofSigned 32
          (Int.tdiv (toSigned 32 (u32 (c.gpr (instr_rs raw))))
            (toSigned 32 (u32 (c.gpr (instr_rt raw))))))),
        mult_hi := ofSigned 64
          (Int.tmod (toSigned 32 (u32 (c.gpr (instr_rs raw))))
            (toSigned 32 (u32 (c.gpr (instr_rt raw))))) } := by
    simp only [mips_spc_div, get_register, if_neg hd, sext32_ofSigned64 (Int.tdiv _ _), hhi]
  refine ⟨⟨hdiv, ?_, hfit, ?_⟩, ?_, ?_⟩
  · rw [mul_comm]
    exact (Int.tdiv_add_tmod _ _).symm
  · intro h1 h2
    rw [hdiv, h1, h2]
    rfl
  · simp only [mips_spc_divu, get_register, if_neg hnz]
    rw [← ofSigned_toSigned32, ← ofSigned_toSigned32]
    have e1 : u32 (u32 (c.gpr (instr_rs raw)) / u32 (c.gpr (instr_rt raw)))
        = u32 (c.gpr (instr_rs raw)) / u32 (c.gpr (instr_rt raw)) :=
      Nat.mod_eq_of_lt (lt_of_le_of_lt (Nat.div_le_self _ _) (u32_lt _))
    have e2 : u32 (u32 (c.gpr (instr_rs raw)) % u32 (c.gpr (instr_rt raw)))
        = u32 (c.gpr (instr_rs raw)) % u32 (c.gpr (instr_rt raw)) :=
      Nat.mod_eq_of_lt (lt_of_le_of_lt (Nat.mod_le _ _) (u32_lt _))
    rw [e1, e2]
  · exact (Nat.div_add_mod' _ _).symm

/-- C34, witness: `DIV r1, r2` with r1 = INT32_MIN (sign-extended) and r2 = -1
returns with LO = 0xFFFFFFFF80000000 and HI = 0. -/
theorem C34_div_nonzero_witness :
    u32 ((set_register (set_register cpu_zero 1 0xFFFFFFFF80000000) 2
      0xFFFFFFFFFFFFFFFF).gpr (instr_rt 0x0022001A)) ≠ 0
    ∧ mips_spc_div flat_ext
        (set_register (set_register cpu_zero 1 0xFFFFFFFF80000000) 2 0xFFFFFFFFFFFFFFFF)
        0x0022001A
      = some { set_register (set_register cpu_zero 1 0xFFFFFFFF80000000) 2 0xFFFFFFFFFFFFFFFF
          with mult_lo := 0xFFFFFFFF80000000, mult_hi := 0 } :=
  ⟨by decide,
   (C34_div_nonzero flat_ext
      (set_register (set_register cpu_zero 1 0xFFFFFFFF80000000) 2 0xFFFFFFFFFFFFFFFF)
      0x0022001A (by decide)).1.2.2.2 (by decide) (by decide)⟩

/-! ### C35: the portable branch of `multu_64_to_128` -/

theorem mul32_le (x y : Nat) (hx : x < 0x100000000) (hy : y < 0x100000000) :
    x * y ≤ 0xFFFFFFFE00000001 := by
  have h : x * y ≤ 0xFFFFFFFF * 0xFFFFFFFF := Nat.mul_le_mul (by omega) (by omega)
  norm_num at h ⊢
  exact h

theorem portable_sums (P00 P10 P01 P11 N cross upper : Nat)
    (h00 : P00 ≤ 0xFFFFFFFE00000001) (h10 : P10 ≤ 0xFFFFFFFE00000001)
    (h01 : P01 ≤ 0xFFFFFFFE00000001) (h11 : P11 ≤ 0xFFFFFFFE00000001)
    (hN : N = P11 * 0x10000000000000000 + (P10 + P01) * 0x100000000 + P00)
    (hc : cross = P00 / 0x100000000 + P10 % 0x100000000 + P01)
    (hu : upper = P10 / 0x100000000 + cross / 0x100000000 + P11) :
    cross < 0x10000000000000000 ∧ upper < 0x10000000000000000
    ∧ upper * 0x10000000000000000 + (0x100000000 * (cross % 0x100000000) + P00 % 0x100000000) = N
    ∧ 0x100000000 * (cross % 0x100000000) + P00 % 0x100000000 < 0x10000000000000000 := by
  have c1 : cross < 0x10000000000000000 := by omega
  have u1 : upper < 0x10000000000000000 := by omega
  refine ⟨c1, u1, ?_, by omega⟩
  omega

theorem portable_low (cross lo : Nat) :
    u64 (cross <<< 32) ||| (lo &&& 0xFFFFFFFF)
      = 0x100000000 * (cross % 0x100000000) + lo % 0x100000000 := by
  have e1 : u64 (cross <<< 32) = 2 ^ 32 * (cross % 0x100000000) := by
    unfold u64
    rw [Nat.shiftLeft_eq]
    omega
  have e2 : lo &&& 0xFFFFFFFF = lo % 0x100000000 := and_mask32 lo
  rw [e1, e2]
  exact (Nat.mul_add_lt_is_or (Nat.mod_lt _ (by norm_num)) _).symm

theorem halves_unique (N hi lo A B : Nat) (h1 : A * 0x10000000000000000 + B = N)
    (hB : B < 0x10000000000000000) (h2 : hi * 0x10000000000000000 + lo = N)
    (hlo : lo < 0x10000000000000000) : B = lo ∧ A = hi := by
  omega

theorem split64 (x : Nat) (hx : x < 0x10000000000000000) :
    (x &&& 0xFFFFFFFF) < 0x100000000 ∧ (x >>> 32) < 0x100000000
    ∧ x = (x >>> 32) * 0x100000000 + (x &&& 0xFFFFFFFF) := by
  rw [and_mask32, Nat.shiftRight_eq_div_pow]
  norm_num
  omega

/-- C35: for every pair of 64-bit inputs, the portable branch of
`multu_64_to_128` returns the same low and high halves as the 128-bit-integer
branch, high * 2^64 + low is the exact unsigned product, and the sums assigned
to `cross` and `upper` are below 2^64 before they are stored, so no carry is
lost. -/
theorem C35_portable_multu (a b : Nat) :
    multu_64_to_128_portable (u64 a) (u64 b) = multu_64_to_128 (u64 a) (u64 b)
    ∧ (multu_64_to_128_portable (u64 a) (u64 b)).2 * 0x10000000000000000
        + (multu_64_to_128_portable (u64 a) (u64 b)).1 = u64 a * u64 b
    ∧ (multu_64_to_128_portable (u64 a) (u64 b)).1 < 0x10000000000000000
    ∧ multu_cross_sum (u64 a) (u64 b) ≤ 0xFFFFFFFFFFFFFFFF
    ∧ multu_upper_sum (u64 a) (u64 b) ≤ 0xFFFFFFFFFFFFFFFF := by
  obtain ⟨hx0, hx1, hx⟩ := split64 (u64 a) (u64_lt a)
  obtain ⟨hy0, hy1, hy⟩ := split64 (u64 b) (u64_lt b)
  generalize u64 a = x at hx0 hx1 hx ⊢
  generalize u64 b = y at hy0 hy1 hy ⊢
  have h00 := mul32_le _ _ hx0 hy0
  have h10 := mul32_le _ _ hx1 hy0
  have h01 := mul32_le _ _ hx0 hy1
  have h11 := mul32_le _ _ hx1 hy1
  have hN : x * y = (x >>> 32) * (y >>> 32) * 0x10000000000000000
      + ((x >>> 32) * (y &&& 0xFFFFFFFF) + (x &&& 0xFFFFFFFF) * (y >>> 32)) * 0x100000000
      + (x &&& 0xFFFFFFFF) * (y &&& 0xFFFFFFFF) := by
    have e := congrArg₂ (fun p q => p * q) hx hy
    simp only [] at e
    rw [e]
    ring
  have w00 : u64 ((x &&& 0xFFFFFFFF) * (y &&& 0xFFFFFFFF))
      = (x &&& 0xFFFFFFFF) * (y &&& 0xFFFFFFFF) := Nat.mod_eq_of_lt (by omega)
  have w10 : u64 ((x >>> 32) * (y &&& 0xFFFFFFFF)) = (x >>> 32) * (y &&& 0xFFFFFFFF) :=
    Nat.mod_eq_of_lt (by omega)
  have w01 : u64 ((x &&& 0xFFFFFFFF) * (y >>> 32)) = (x &&& 0xFFFFFFFF) * (y >>> 32) :=
    Nat.mod_eq_of_lt (by omega)
  have w11 : u64 ((x >>> 32) * (y >>> 32)) = (x >>> 32) * (y >>> 32) :=
    Nat.mod_eq_of_lt (by omega)
  have hc : multu_cross_sum x y
      = (x &&& 0xFFFFFFFF) * (y &&& 0xFFFFFFFF) / 0x100000000
        + (x >>> 32) * (y &&& 0xFFFFFFFF) % 0x100000000 + (x &&& 0xFFFFFFFF) * (y >>> 32) := by
    show (u64 ((x &&& 0xFFFFFFFF) * (y &&& 0xFFFFFFFF)) >>> 32)
      + (u64 ((x >>> 32) * (y &&& 0xFFFFFFFF)) &&& 0xFFFFFFFF)
      + u64 ((x &&& 0xFFFFFFFF) * (y >>> 32)) = _
    rw [w00, w10, w01, and_mask32 ((x >>> 32) * (y &&& 0xFFFFFFFF)),
      Nat.shiftRight_eq_div_pow ((x &&& 0xFFFFFFFF) * (y &&& 0xFFFFFFFF)) 32]
  obtain ⟨c1, -, -, -⟩ := portable_sums _ _ _ _ _ _ _ h00 h10 h01 h11 hN hc rfl
  have wc : u64 (multu_cross_sum x y) = multu_cross_sum x y := Nat.mod_eq_of_lt c1
  have hu : multu_upper_sum x y
      = (x >>> 32) * (y &&& 0xFFFFFFFF) / 0x100000000 + multu_cross_sum x y / 0x100000000
        + (x >>> 32) * (y >>> 32) := by
    show (u64 ((x >>> 32) * (y &&& 0xFFFFFFFF)) >>> 32) + (u64 (multu_cross_sum x y) >>> 32)
      + u64 ((x >>> 32) * (y >>> 32)) = _
    rw [w10, w11, wc, Nat.shiftRight_eq_div_pow ((x >>> 32) * (y &&& 0xFFFFFFFF)) 32,
      Nat.shiftRight_eq_div_pow (multu_cross_sum x y) 32]
  obtain ⟨-, u1, hsum, hlow⟩ := portable_sums _ _ _ _ _ _ _ h00 h10 h01 h11 hN hc hu
  have wu : u64 (multu_upper_sum x y) = multu_upper_sum x y := Nat.mod_eq_of_lt u1
  have hp : multu_64_to_128_portable x y
      = (0x100000000 * (multu_cross_sum x y % 0x100000000)
          + (x &&& 0xFFFFFFFF) * (y &&& 0xFFFFFFFF) % 0x100000000, multu_upper_sum x y) := by
    unfold multu_64_to_128_portable
    simp only [w00, wc, wu, portable_low]
  have hlt : x * y < 2 ^ 128 := by
    rw [← hsum]
    norm_num
    omega
  refine ⟨?_, ?_, ?_, by omega, by omega⟩
  · obtain ⟨s1, s2, s3⟩ := split128 (x * y) hlt
    unfold multu_64_to_128
    rw [hp, Nat.mod_eq_of_lt hlt]
    obtain ⟨e1, e2⟩ := halves_unique _ _ _ _ _ s1 s2 hsum hlow
    show _ = (x * y &&& 0xFFFFFFFFFFFFFFFF, u64 ((x * y) >>> 64))
    rw [e1, e2]
  · rw [hp]
    exact hsum
  · rw [hp]
    exact hlow

/-! ### C37: interrupt delivery by the two schedulers -/

theorem deliver_interrupt_fields (c : r4300i_t) (pc : Nat) (ce : Int)
    (hexl : c.cp0.status.exl = false) (hbev : c.cp0.status.bev = false) :
    ∃ c', r4300i_handle_exception c pc EXCEPTION_INTERRUPT ce = some c'
      ∧ c'.cp0.EPC = (if c.branch = true then u64 (pc + 0x10000000000000000 - 4) else pc)
      ∧ c'.cp0.status = { c.cp0.status with exl := true }
      ∧ c'.pc = 0xFFFFFFFF80000180 ∧ c'.next_pc = 0xFFFFFFFF80000184
      ∧ c'.cp0.cause.exception_code = 0
      ∧ c'.cp0.cause.interrupt_pending = c.cp0.cause.interrupt_pending
      ∧ c'.cp0.cause.coprocessor_error
          = (if 0 < ce then (ce % 4).toNat else c.cp0.cause.coprocessor_error) := by
  unfold r4300i_handle_exception exception_entry exception_vector
  cases hbr : c.branch <;> by_cases hce : 0 < ce <;>
    simp [hexl, hbev, hce, EXCEPTION_INTERRUPT, cp0_status_updated, r4300i_interrupt_update,
      set_pc_word_r4300i] <;> decide

/-- C37: for every system state in which the timer blocks of the two schedulers
agree and an interrupt is deliverable after it (summary non-zero, Status.ie
set, exl, erl and bev clear), `r4300i_step` and `jit_system_step` both return,
with the same EPC, Status, PC and next PC and with exception code 0; the
interpreter leaves Cause.interrupt_pending and Cause.coprocessor_error as they
were, while `jit_system_step` overwrites Cause.interrupt_pending with the
summary `interrupts` (IP masked by IM) and Cause.coprocessor_error with the
low two bits of that summary. -/
theorem C37_jit_delivery_rewrites_cause (ext : Ext) (sx : SysExt) (fuel : Nat)
    (cpu_steps : Int) (s : n64_system_t)
    (hcnt : jit_system_step_count ext s.cpu = r4300i_step_count ext s.cpu)
    (hi : 0 < (r4300i_step_count ext s.cpu).interrupts)
    (hie : s.cpu.cp0.status.ie = true) (hexl : s.cpu.cp0.status.exl = false)
    (herl : s.cpu.cp0.status.erl = false) (hbev : s.cpu.cp0.status.bev = false) :
    ∃ (ci : r4300i_t) (sj : n64_system_t), r4300i_step ext s.cpu = some ci
      ∧ jit_system_step ext sx fuel cpu_steps s
          = loop_result_t.done (sj, (ext.CYCLES_PER_INSTR : Int), cpu_steps)
      ∧ sj.cpu.cp0.EPC = ci.cp0.EPC ∧ sj.cpu.cp0.status = ci.cp0.status
      ∧ ci.cp0.status.exl = true
      ∧ sj.cpu.pc = ci.pc ∧ sj.cpu.next_pc = ci.next_pc
      ∧ ci.cp0.cause.exception_code = EXCEPTION_INTERRUPT
      ∧ sj.cpu.cp0.cause.exception_code = EXCEPTION_INTERRUPT
      ∧ ci.cp0.cause.interrupt_pending
          = (r4300i_step_count ext s.cpu).cp0.cause.interrupt_pending
      ∧ ci.cp0.cause.coprocessor_error
          = (r4300i_step_count ext s.cpu).cp0.cause.coprocessor_error
      ∧ sj.cpu.cp0.cause.interrupt_pending = (r4300i_step_count ext s.cpu).interrupts
      ∧ sj.cpu.cp0.cause.coprocessor_error = (r4300i_step_count ext s.cpu).interrupts % 4 := by
  obtain ⟨hpc, -, -, -, -, -, hst, -⟩ := step_count_pc ext s.cpu
  have hexl1 : (r4300i_step_count ext s.cpu).cp0.status.exl = false := by rw [hst, hexl]
  have hbev1 : (r4300i_step_count ext s.cpu).cp0.status.bev = false := by rw [hst, hbev]
  have hcond : 0 < (r4300i_step_count ext s.cpu).interrupts
      ∧ (r4300i_step_count ext s.cpu).cp0.status.ie = true
      ∧ (!(r4300i_step_count ext s.cpu).cp0.status.exl) = true
      ∧ (!(r4300i_step_count ext s.cpu).cp0.status.erl) = true := by
    rw [hst, hie, hexl, herl]
    exact ⟨hi, rfl, rfl, rfl⟩
  obtain ⟨ci, e1, i1, i2, i3, i4, i5, i6, i7⟩ := deliver_interrupt_fields
    (r4300i_step_count ext s.cpu) (r4300i_step_count ext s.cpu).pc (-1) hexl1 hbev1
  obtain ⟨cj, e2, j1, j2, j3, j4, j5, j6, j7⟩ := deliver_interrupt_fields
    { r4300i_step_count ext s.cpu with cp0 := { (r4300i_step_count ext s.cpu).cp0 with cause :=
        { (r4300i_step_count ext s.cpu).cp0.cause with
          interrupt_pending := (r4300i_step_count ext s.cpu).interrupts } } }
    (r4300i_step_count ext s.cpu).pc ((r4300i_step_count ext s.cpu).interrupts : Int)
    hexl1 hbev1
  have hstep : r4300i_step ext s.cpu = some ci := by
    unfold r4300i_step
    simp only []
    rw [if_pos hcond]
    exact e1
  have hjit : jit_system_step ext sx fuel cpu_steps s
      = loop_result_t.done ({ s with cpu := cj }, (ext.CYCLES_PER_INSTR : Int), cpu_steps) := by
    unfold jit_system_step
    simp only [hcnt]
    rw [if_pos hcond]
    have e2' : r4300i_handle_exception
        { r4300i_step_count ext s.cpu with cp0 := { (r4300i_step_count ext s.cpu).cp0 with
          cause := { (r4300i_step_count ext s.cpu).cp0.cause with
            interrupt_pending := (r4300i_step_count ext s.cpu).interrupts } } }
        (r4300i_step_count ext s.cpu).pc 0 ((r4300i_step_count ext s.cpu).interrupts : Int)
        = some cj := e2
    simp only [e2']
  have hpos : (0 : Int) < ((r4300i_step_count ext s.cpu).interrupts : Int) := by
    exact_mod_cast hi
  refine ⟨ci, { s with cpu := cj }, hstep, hjit, ?_, ?_, ?_, ?_, ?_, i5, j5, ?_, ?_, ?_, ?_⟩
  · show cj.cp0.EPC = ci.cp0.EPC
    rw [j1, i1]
  · show cj.cp0.status = ci.cp0.status
    rw [j2, i2]
  · rw [i2]
  · show cj.pc = ci.pc
    rw [j3, i3]
  · show cj.next_pc = ci.next_pc
    rw [j4, i4]
  · rw [i6]
  · rw [i7, if_neg (by decide)]
  · show cj.cp0.cause.interrupt_pending = _
    rw [j6]
  · show cj.cp0.cause.coprocessor_error = _
    rw [j7, if_pos hpos]
    omega

/-- C37, witness: in the scenario with IP = 5, IM = 1 and summary 1, the
interpreter delivers the interrupt with IP = 5 and coprocessor error 0, and
`jit_system_step` delivers it with IP = 1 and coprocessor error 1. -/
theorem C37_jit_delivery_rewrites_cause_witness :
    ∃ (ci : r4300i_t) (sj : n64_system_t), r4300i_step flat_ext masked_interrupt_state = some ci
      ∧ jit_system_step flat_ext flat_sys_ext 0 0 (system_of masked_interrupt_state)
          = loop_result_t.done (sj, 1, 0)
      ∧ ci.cp0.cause.interrupt_pending = 5 ∧ ci.cp0.cause.coprocessor_error = 0
      ∧ sj.cpu.cp0.cause.interrupt_pending = 1 ∧ sj.cpu.cp0.cause.coprocessor_error = 1 := by
  obtain ⟨ci, sj, h1, h2, -, -, -, -, -, -, -, h3, h4, h5, h6⟩ :=
    C37_jit_delivery_rewrites_cause flat_ext flat_sys_ext 0 0 (system_of masked_interrupt_state)
      rfl (by decide) rfl rfl rfl rfl
  exact ⟨ci, sj, h1, h2, h3, h4, h5, h6⟩

/-! ### C40: LWL and LWR of `mips.c` against `mips_instructions.c` -/

theorem effective_address_word_mod4 (c : r4300i_t) (raw : Nat) :
    effective_address_word c raw % 4 = effective_address c raw % 4 := by
  unfold effective_address_word effective_address u32 u64
  omega

/-- C40: for every state whose effective address translates and in which both
versions read the same aligned memory word W: when W is non-zero, LWL and LWR
of `mips.c` leave the state that LWL and LWR of `mips_instructions.c` return
(the merge of the shifted word with the masked old register, sign-extended
from bit 31); when W is the all-zero word, the `mips.c` handlers skip the
register write and leave the state unchanged, while the handlers of
`mips_instructions.c` write the masked old register value. -/
theorem C40_lwl_lwr_zero_word (ext : Ext) (c : r4300i_t) (raw p : Nat)
    (hl : ext.resolve_virtual_address c (effective_address c raw) bus_access_t.BUS_LOAD
      = Except.ok p)
    (hread : u32 (ext.read_word c (effective_address_word c raw &&& 0xFFFFFFFC))
      = n64_read_physical_word c.mem (u32 p &&& 0xFFFFFFFC)) :
    (n64_read_physical_word c.mem (u32 p &&& 0xFFFFFFFC) ≠ 0 →
      mips_lwl ext c raw = some (mips_c_mips_lwl ext c raw)
      ∧ mips_lwr ext c raw = some (mips_c_mips_lwr ext c raw))
    ∧ (n64_read_physical_word c.mem (u32 p &&& 0xFFFFFFFC) = 0 →
      mips_c_mips_lwl ext c raw = c ∧ mips_c_mips_lwr ext c raw = c
      ∧ mips_lwl ext c raw = some (set_register c (instr_rt raw)
          (sext32 (c.gpr (instr_rt raw) % 2 ^ (8 * (effective_address c raw % 4)))))
      ∧ mips_lwr ext c raw = some (set_register c (instr_rt raw)
          (sext32 (2 ^ (8 * (effective_address c raw % 4 + 1))
            * (u32 (c.gpr (instr_rt raw)) / 2 ^ (8 * (effective_address c raw % 4 + 1))))))) := by
  have hk := effective_address_word_mod4 c raw
  constructor
  · intro hW
    constructor
    · unfold mips_lwl mips_c_mips_lwl
      simp only [hl, hread, xor0_and3, hk, if_pos hW]
    · unfold mips_lwr mips_c_mips_lwr
      simp only [hl, hread, xor3_and3, hk, if_pos hW]
  · intro hW
    refine ⟨?_, ?_, ?_, ?_⟩
    · unfold mips_c_mips_lwl
      simp only [hread, hW, ne_eq, not_true_eq_false, if_false]
    · unfold mips_c_mips_lwr
      simp only [hread, hW, ne_eq, not_true_eq_false, if_false]
    · rw [lwl_eq ext c raw p hl, hW, Nat.zero_mod, Nat.mul_zero, Nat.zero_add]
    · rw [lwr_eq ext c raw p hl, hW, Nat.zero_div, Nat.add_zero]

/-- C40, witness: with r2 = 0x1234 and the memory word at 0x100 zero,
`LWL r2, 0(r1)` of `mips_instructions.c` writes 0 to r2 and LWL of `mips.c`
leaves r2 = 0x1234. -/
theorem C40_lwl_lwr_zero_word_witness :
    n64_read_physical_word zero_word_state.mem (u32 0x100 &&& 0xFFFFFFFC) = 0
    ∧ (mips_lwl flat_ext zero_word_state 0x88220000).map (fun s => s.gpr 2) = some 0
    ∧ (mips_c_mips_lwl flat_ext zero_word_state 0x88220000).gpr 2 = 0x1234 := by
  obtain ⟨h1, -, h3, -⟩ :=
    (C40_lwl_lwr_zero_word flat_ext zero_word_state 0x88220000 0x100 rfl rfl).2 rfl
  refine ⟨rfl, ?_, ?_⟩
  · rw [h3]
    rfl
  · rw [h1]
    rfl

/-! ### C32: the RSP test runner -/

theorem compare_row_fold (d o : Nat → Nat) (n i : Nat) (f : Bool) (k : Nat) :
    ((List.range k).foldl (fun f b =>
      if i + b < n then (if d (0x800 + i + b) ≠ o (i + b) then true else f) else f) f = true)
    ↔ (f = true ∨ ∃ b, b < k ∧ i + b < n ∧ d (0x800 + i + b) ≠ o (i + b)) := by
  induction k with
  | zero => simp
  | succ k ih =>
    rw [List.range_succ, List.foldl_append, List.foldl_cons, List.foldl_nil]
    by_cases h1 : i + k < n
    · by_cases h2 : d (0x800 + i + k) ≠ o (i + k)
      · rw [if_pos h1, if_pos h2]
        exact ⟨fun _ => Or.inr ⟨k, Nat.lt_succ_self k, h1, h2⟩, fun _ => rfl⟩
      · rw [if_pos h1, if_neg h2, ih]
        constructor
        · rintro (h | ⟨b, hb, hbn, hne⟩)
          · exact Or.inl h
          · exact Or.inr ⟨b, Nat.lt_succ_of_lt hb, hbn, hne⟩
        · rintro (h | ⟨b, hb, hbn, hne⟩)
          · exact Or.inl h
          · rcases Nat.lt_succ_iff_lt_or_eq.mp hb with hlt | heq
            · exact Or.inr ⟨b, hlt, hbn, hne⟩
            · subst heq
              exact absurd hne h2
    · rw [if_neg h1, ih]
      constructor
      · rintro (h | ⟨b, hb, hbn, hne⟩)
        · exact Or.inl h
        · exact Or.inr ⟨b, Nat.lt_succ_of_lt hb, hbn, hne⟩
      · rintro (h | ⟨b, hb, hbn, hne⟩)
        · exact Or.inl h
        · rcases Nat.lt_succ_iff_lt_or_eq.mp hb with hlt | heq
          · exact Or.inr ⟨b, hlt, hbn, hne⟩
          · subst heq
            exact absurd hbn h1

theorem compare_row_spec (d o : Nat → Nat) (n i : Nat) (f : Bool) :
    compare_row d o n i f = true
      ↔ (f = true ∨ ∃ b, b < 16 ∧ i + b < n ∧ d (0x800 + i + b) ≠ o (i + b)) :=
  compare_row_fold d o n i f 16

theorem compare_rows_fold (d o : Nat → Nat) (n : Nat) (f : Bool) (m : Nat) :
    ((List.range m).foldl (fun f r => compare_row d o n (16 * r) f) f = true)
    ↔ (f = true ∨ ∃ r b, r < m ∧ b < 16 ∧ 16 * r + b < n
        ∧ d (0x800 + 16 * r + b) ≠ o (16 * r + b)) := by
  induction m with
  | zero => simp
  | succ m ih =>
    rw [List.range_succ, List.foldl_append, List.foldl_cons, List.foldl_nil, compare_row_spec, ih]
    constructor
    · rintro ((h | ⟨r, b, hr, hb, hn, hne⟩) | ⟨b, hb, hn, hne⟩)
      · exact Or.inl h
      · exact Or.inr ⟨r, b, Nat.lt_succ_of_lt hr, hb, hn, hne⟩
      · exact Or.inr ⟨m, b, Nat.lt_succ_self m, hb, hn, hne⟩
    · rintro (h | ⟨r, b, hr, hb, hn, hne⟩)
      · exact Or.inl (Or.inl h)
      · rcases Nat.lt_succ_iff_lt_or_eq.mp hr with hlt | heq
        · exact Or.inl (Or.inr ⟨r, b, hlt, hb, hn, hne⟩)
        · subst heq
          exact Or.inr ⟨b, hb, hn, hne⟩

theorem compare_output_spec (d o : Nat → Nat) (n : Nat) :
    compare_output d o n = true ↔ ∃ i, i < n ∧ d (0x800 + i) ≠ o i := by
  unfold compare_output
  rw [compare_rows_fold]
  constructor
  · rintro (h | ⟨r, b, -, -, hn, hne⟩)
    · exact absurd h (by decide)
    · exact ⟨16 * r + b, hn, by rw [← Nat.add_assoc]; exact hne⟩
  · rintro ⟨i, hi, hne⟩
    refine Or.inr ⟨i / 16, i % 16, by omega, Nat.mod_lt _ (by decide), by omega, ?_⟩
    have e : 16 * (i / 16) + i % 16 = i := Nat.div_add_mod i 16
    rw [Nat.add_assoc, e]
    exact hne

theorem run_until_halt_halted (x : TestExt) (log : Nat) (n cycles : Nat)
    (s s3 : rsp_test_system_t) (h : run_until_halt x log n cycles s = some s3) :
    s3.halt = true := by
  induction n generalizing cycles s with
  | zero => exact absurd h (by simp [run_until_halt])
  | succ n ih =>
    unfold run_until_halt at h
    by_cases hh : s.halt = true
    · rw [if_pos hh] at h
      cases h
      exact hh
    · rw [if_neg hh] at h
      by_cases hc : MAX_CYCLES ≤ cycles
      · rw [if_pos hc] at h
        exact absurd h (by simp)
      · rw [if_neg hc] at h
        by_cases hl : x.log_line_ok log cycles s = true
        · rw [if_pos hl] at h
          exact ih _ _ h
        · rw [if_neg hl] at h
          exact absurd h (by simp)

theorem run_test_spec (x : TestExt) (s s3 : rsp_test_system_t) (t : rsp_subtest_t)
    (input_size output_size : Nat) (failed : Bool)
    (h : run_test x s t input_size output_size = some (s3, failed)) :
    s3.halt = true ∧ (failed = true ↔ ∃ i, i < output_size ∧ s3.sp_dmem (0x800 + i) ≠ t.output i) := by
  unfold run_test at h
  simp only [] at h
  split at h
  · exact absurd h (by simp)
  · rename_i s4 hrun
    simp only [Option.some.injEq, Prod.mk.injEq] at h
    obtain ⟨h1, h2⟩ := h
    subst h1
    refine ⟨run_until_halt_halted _ _ _ _ _ _ hrun, ?_⟩
    rw [← h2]
    exact compare_output_spec _ _ _

theorem main_subtests_pass (x : TestExt) (input_size output_size : Nat)
    (tests : List rsp_subtest_t) (s : rsp_test_system_t) :
    main_subtests x input_size output_size tests s false = some false
      ↔ (after_passing x input_size output_size tests s).isSome = true := by
  induction tests generalizing s with
  | nil => simp [main_subtests, after_passing]
  | cons t ts ih =>
    unfold main_subtests after_passing
    cases hr : run_test x s t input_size output_size with
    | none => simp
    | some r =>
      obtain ⟨s1, f⟩ := r
      cases f
      · simp only [Bool.or_false, Bool.false_eq_true, if_false]
        exact ih s1
      · simp

theorem main_subtests_first_failure (x : TestExt) (input_size output_size : Nat)
    (pre post : List rsp_subtest_t) (t : rsp_subtest_t) (s s1 s2 : rsp_test_system_t)
    (hpre : after_passing x input_size output_size pre s = some s1)
    (hfail : run_test x s1 t input_size output_size = some (s2, true)) :
    main_subtests x input_size output_size (pre ++ t :: post) s false = some true := by
  induction pre generalizing s with
  | nil =>
    simp only [after_passing, Option.some.injEq] at hpre
    subst hpre
    simp [main_subtests, hfail]
  | cons u us ih =>
    unfold after_passing at hpre
    cases hr : run_test x s u input_size output_size with
    | none => simp [hr] at hpre
    | some r =>
      obtain ⟨s', f⟩ := r
      cases f
      · simp only [hr] at hpre
        simp only [List.cons_append, main_subtests, hr, Bool.or_false, Bool.false_eq_true,
          if_false]
        exact ih s' hpre
      · simp [hr] at hpre

/-- C32: `main` exits with status 0 exactly when it was given at least one
subtest and sizes divisible by 4 and every subtest ran to the halt of the RSP
and passed; `run_test` returns only after the RSP halts, and then reports
failure exactly when some byte i < output_size of RSP data memory at offset
0x800 + i differs from byte i of the golden output; when the subtests before
one have passed and that one fails, `main` stops there and exits with status 1,
whatever subtests follow. -/
theorem C32_test_runner (x : TestExt) (input_size output_size : Nat) :
    (∀ tests s, test_main x input_size output_size tests s = some 0
      ↔ (tests ≠ [] ∧ input_size % 4 = 0 ∧ output_size % 4 = 0
          ∧ (after_passing x input_size output_size tests s).isSome = true))
    ∧ (∀ s t s3 failed, run_test x s t input_size output_size = some (s3, failed) →
        s3.halt = true
        ∧ (failed = true ↔ ∃ i, i < output_size ∧ s3.sp_dmem (0x800 + i) ≠ t.output i))
    ∧ (∀ pre t post s s1 s2, input_size % 4 = 0 → output_size % 4 = 0 →
        after_passing x input_size output_size pre s = some s1 →
        run_test x s1 t input_size output_size = some (s2, true) →
        test_main x input_size output_size (pre ++ t :: post) s = some 1) := by
  refine ⟨?_, ?_, ?_⟩
  · intro tests s
    unfold test_main
    by_cases h0 : tests.length = 0
    · have : tests = [] := List.length_eq_zero.mp h0
      simp [h0, this]
    · have hne : tests ≠ [] := fun e => h0 (by rw [e]; rfl)
      rw [if_neg h0]
      by_cases hi : input_size % 4 = 0
      · by_cases ho : output_size % 4 = 0
        · rw [if_neg (not_not.mpr hi), if_neg (not_not.mpr ho),
            ← main_subtests_pass x input_size output_size tests s]
          cases hm : main_subtests x input_size output_size tests s false with
          | none => simp
          | some f => cases f <;> simp [hne, hi, ho]
        · rw [if_neg (not_not.mpr hi), if_pos ho]
          simp [ho]
      · rw [if_pos hi]
        simp [hi]
  · intro s t s3 failed h
    exact run_test_spec x s s3 t input_size output_size failed h
  · intro pre t post s s1 s2 hi ho hpre hfail
    unfold test_main
    have hl : ¬ ((pre ++ t :: post).length = 0) := by simp
    rw [if_neg hl, if_neg (not_not.mpr hi), if_neg (not_not.mpr ho),
      main_subtests_first_failure x input_size output_size pre post t s s1 s2 hpre hfail]
    rfl

/-- C32, witness: with four output bytes, a first subtest whose golden output
matches the zeroed data memory passes and a second one whose golden byte 2 is
0xAB fails, so the runner exits with status 1 whatever follows; with the first
subtest alone it exits with status 0. -/
theorem C32_test_runner_witness :
    test_main halting_test_ext 0 4
        [subtest_of (fun _ => 0), subtest_of (fun i => if i = 2 then 0xAB else 0),
         subtest_of (fun _ => 0)] rsp_test_zero = some 1
    ∧ test_main halting_test_ext 0 4 [subtest_of (fun _ => 0)] rsp_test_zero = some 0 :=
  ⟨(C32_test_runner halting_test_ext 0 4).2.2 [subtest_of (fun _ => 0)]
      (subtest_of (fun i => if i = 2 then 0xAB else 0)) [subtest_of (fun _ => 0)]
      rsp_test_zero _ _ rfl rfl rfl rfl,
   ((C32_test_runner halting_test_ext 0 4).1 [subtest_of (fun _ => 0)] rsp_test_zero).mpr
      ⟨by simp, rfl, rfl, rfl⟩⟩

/-! ### C33: store and reload through the pair at a and a + 3 -/

theorem align4 (p : Nat) (hp : p < 0x100000000) : u32 p &&& 0xFFFFFFFC = 4 * (p / 4) := by
  have h0 : u32 p = p := Nat.mod_eq_of_lt hp
  rw [h0]
  have e : (0xFFFFFFFC : Nat) = (2 ^ 30 - 1) <<< 2 := by decide
  have e2 : 4 * (p / 4) = (p >>> 2) <<< 2 := by
    rw [Nat.shiftLeft_eq, Nat.shiftRight_eq_div_pow]
    omega
  rw [e, e2]
  apply Nat.eq_of_testBit_eq
  intro i
  rw [Nat.testBit_and, Nat.testBit_shiftLeft, Nat.testBit_shiftLeft, Nat.testBit_two_pow_sub_one,
    Nat.testBit_shiftRight]
  by_cases h2 : 2 ≤ i
  · by_cases h3 : i - 2 < 30
    · have e3 : 2 + (i - 2) = i := by omega
      simp [h2, h3, e3]
    · have hi : 32 ≤ i := by omega
      have hlt : p < 2 ^ i := lt_of_lt_of_le hp (Nat.pow_le_pow_right (show 0 < 2 by decide) hi)
      have e3 : 2 + (i - 2) = i := by omega
      simp [h2, h3, e3, Nat.testBit_lt_two_pow hlt]
  · simp [h2]

theorem write_word_byte (m : Nat → Nat) (w V j : Nat) (hj : j < 4) :
    n64_read_physical_byte (n64_write_physical_word m w V) (w + j) = V / 256 ^ (3 - j) % 256 := by
  unfold n64_read_physical_byte n64_write_physical_word n64_write_physical_half
    n64_write_physical_byte
  interval_cases j
  · have e1 : ¬ (w = w + 2 + 1) := by omega
    have e2 : ¬ (w = w + 2) := by omega
    have e3 : ¬ (w = w + 1) := by omega
    simp only [Nat.add_zero, if_neg e1, if_neg e2, if_neg e3, if_true]
    norm_num
    omega
  · have e1 : ¬ (w + 1 = w + 2 + 1) := by omega
    have e2 : ¬ (w + 1 = w + 2) := by omega
    simp only [if_neg e1, if_neg e2, if_true]
    norm_num
  · have e1 : ¬ (w + 2 = w + 2 + 1) := by omega
    simp only [if_neg e1, if_true]
    norm_num
  · have e : w + 3 = w + 2 + 1 := rfl
    simp only [e, if_true]
    norm_num

theorem read_word_bytes (b0 b1 b2 b3 : Nat) (h0 : b0 < 256) (h1 : b1 < 256) (h2 : b2 < 256)
    (h3 : b3 < 256) :
    ((b0 * 256 + b1) * 65536 + (b2 * 256 + b3)) / 16777216 % 256 = b0
    ∧ ((b0 * 256 + b1) * 65536 + (b2 * 256 + b3)) / 65536 % 256 = b1
    ∧ ((b0 * 256 + b1) * 65536 + (b2 * 256 + b3)) / 256 % 256 = b2
    ∧ ((b0 * 256 + b1) * 65536 + (b2 * 256 + b3)) % 256 = b3 := by
  refine ⟨by omega, by omega, by omega, by omega⟩

theorem read_word_byte (m : Nat → Nat) (w j : Nat) (hj : j < 4) :
    n64_read_physical_word m w / 256 ^ (3 - j) % 256 = n64_read_physical_byte m (w + j) := by
  unfold n64_read_physical_word n64_read_physical_half n64_read_physical_byte
  obtain ⟨r0, r1, r2, r3⟩ := read_word_bytes (m w % 256) (m (w + 1) % 256) (m (w + 2) % 256)
    (m (w + 2 + 1) % 256) (Nat.mod_lt _ (by decide)) (Nat.mod_lt _ (by decide))
    (Nat.mod_lt _ (by decide)) (Nat.mod_lt _ (by decide))
  interval_cases j
  · exact r0
  · exact r1
  · exact r2
  · rw [show (256 : Nat) ^ (3 - 3) = 1 from rfl, Nat.div_one]
    exact r3

theorem pair_value_aligned (W R X V1 V2 V3 V4 : Nat)
    (h1 : V1 = 2 ^ (8 * (4 - 0)) * (W / 2 ^ (8 * (4 - 0))) + u32 R / 2 ^ (8 * 0))
    (h2 : V2 = 2 ^ (8 * (3 - 3)) * (u32 R % 2 ^ (8 * (3 + 1)))
      + V1 % 0x100000000 % 2 ^ (8 * (3 - 3)))
    (h3 : V3 = 2 ^ (8 * 0) * (V2 % 0x100000000 % 2 ^ (8 * (4 - 0))) + X % 2 ^ (8 * 0))
    (h4 : V4 = 2 ^ (8 * (3 + 1)) * (u32 (sext32 V3) / 2 ^ (8 * (3 + 1)))
      + V2 % 0x100000000 / 2 ^ (8 * (3 - 3))) :
    V4 = u32 R := by
  rw [u32_sext32] at h4
  unfold u32 at *
  norm_num at h1 h2 h3 h4
  omega

theorem pair_value_split (k W0 W1 R X V1 V2 V3 V4 : Nat) (hk1 : 1 ≤ k) (hk : k < 4)
    (h1 : V1 = 2 ^ (8 * (4 - k)) * (W0 / 2 ^ (8 * (4 - k))) + u32 R / 2 ^ (8 * k))
    (h2 : V2 = 2 ^ (8 * (3 - (k - 1))) * (u32 R % 2 ^ (8 * (k - 1 + 1)))
      + W1 % 2 ^ (8 * (3 - (k - 1))))
    (h3 : V3 = 2 ^ (8 * k) * (V1 % 0x100000000 % 2 ^ (8 * (4 - k))) + X % 2 ^ (8 * k))
    (h4 : V4 = 2 ^ (8 * (k - 1 + 1)) * (u32 (sext32 V3) / 2 ^ (8 * (k - 1 + 1)))
      + V2 % 0x100000000 / 2 ^ (8 * (3 - (k - 1)))) :
    V4 = u32 R := by
  rw [u32_sext32] at h4
  have hR : u32 R < 0x100000000 := Nat.mod_lt _ (by norm_num)
  generalize u32 R = r at *
  interval_cases k
  · norm_num at h1 h2 h3 h4
    have a1 : V1 % 16777216 = r / 256 := by omega
    rw [a1] at h3
    have a3 : V3 % 4294967296 / 256 = r / 256 := by omega
    have a2 : V2 % 4294967296 / 16777216 = r % 256 := by omega
    omega
  · norm_num at h1 h2 h3 h4
    have a1 : V1 % 65536 = r / 65536 := by omega
    rw [a1] at h3
    have a3 : V3 % 4294967296 / 65536 = r / 65536 := by omega
    have a2 : V2 % 4294967296 / 65536 = r % 65536 := by omega
    omega
  · norm_num at h1 h2 h3 h4
    have a1 : V1 % 256 = r / 16777216 := by omega
    rw [a1] at h3
    have a3 : V3 % 4294967296 / 16777216 = r / 16777216 := by omega
    have a2 : V2 % 4294967296 / 256 = r % 16777216 := by omega
    omega

theorem swl_keeps_top (k j W B V1 : Nat) (hk : k < 4) (hj : j < k)
    (hB : B < 2 ^ (8 * (4 - k)))
    (h1 : V1 = 2 ^ (8 * (4 - k)) * (W / 2 ^ (8 * (4 - k))) + B) :
    V1 / 256 ^ (3 - j) % 256 = W / 256 ^ (3 - j) % 256 := by
  interval_cases k <;> interval_cases j <;> norm_num at hB h1 ⊢ <;> omega

theorem swr_keeps_low (k j W C V2 : Nat) (hk1 : 1 ≤ k) (hk : k < 4) (hj : k ≤ j) (hj4 : j < 4)
    (h2 : V2 = 2 ^ (8 * (3 - (k - 1))) * C + W % 2 ^ (8 * (3 - (k - 1)))) :
    V2 / 256 ^ (3 - j) % 256 = W / 256 ^ (3 - j) % 256 := by
  interval_cases k <;> interval_cases j <;> norm_num at h2 ⊢ <;> omega

theorem pair_chain (ext : Ext) (c : r4300i_t) (raw1 raw2 raw3 raw4 p : Nat)
    (ht1 : ∀ s acc, ext.resolve_virtual_address s (effective_address c raw1) acc = Except.ok p)
    (ht2 : ∀ s acc, ext.resolve_virtual_address s (effective_address c raw1 + 3) acc
      = Except.ok (p + 3))
    (ha2 : effective_address c raw2 = effective_address c raw1 + 3)
    (ha3 : effective_address c raw3 = effective_address c raw1)
    (ha4 : effective_address c raw4 = effective_address c raw1 + 3)
    (hrt : instr_rt raw2 = instr_rt raw1) (hrd : instr_rt raw4 = instr_rt raw3)
    (hnz : instr_rt raw3 ≠ 0) (hne : instr_rs raw4 ≠ instr_rt raw3) :
    ∃ V1 V2 V3 V4 c4,
      (((mips_swl ext c raw1).bind (fun s => mips_swr ext s raw2)).bind
        (fun s => mips_lwl ext s raw3)).bind (fun s => mips_lwr ext s raw4) = some c4
      ∧ c4.gpr (instr_rt raw3) = sext32 V4
      ∧ c4.mem = n64_write_physical_word
          (n64_write_physical_word c.mem (u32 p &&& 0xFFFFFFFC) V1) (u32 (p + 3) &&& 0xFFFFFFFC) V2
      ∧ V1 = 2 ^ (8 * (4 - effective_address c raw1 % 4)) * (n64_read_physical_word c.mem (u32 p &&& 0xFFFFFFFC) / 2 ^ (8 * (4 - effective_address c raw1 % 4)))
          + u32 (c.gpr (instr_rt raw1)) / 2 ^ (8 * (effective_address c raw1 % 4))
      ∧ V2 = 2 ^ (8 * (3 - (effective_address c raw1 + 3) % 4)) * (u32 (c.gpr (instr_rt raw1)) % 2 ^ (8 * ((effective_address c raw1 + 3) % 4 + 1)))
          + n64_read_physical_word (n64_write_physical_word c.mem (u32 p &&& 0xFFFFFFFC) V1) (u32 (p + 3) &&& 0xFFFFFFFC) % 2 ^ (8 * (3 - (effective_address c raw1 + 3) % 4))
      ∧ V3 = 2 ^ (8 * (effective_address c raw1 % 4)) * (n64_read_physical_word (n64_write_physical_word (n64_write_physical_word c.mem (u32 p &&& 0xFFFFFFFC) V1) (u32 (p + 3) &&& 0xFFFFFFFC) V2) (u32 p &&& 0xFFFFFFFC) % 2 ^ (8 * (4 - effective_address c raw1 % 4)))
          + c.gpr (instr_rt raw3) % 2 ^ (8 * (effective_address c raw1 % 4))
      ∧ V4 = 2 ^ (8 * ((effective_address c raw1 + 3) % 4 + 1)) * (u32 (sext32 V3) / 2 ^ (8 * ((effective_address c raw1 + 3) % 4 + 1)))
          + n64_read_physical_word (n64_write_physical_word (n64_write_physical_word c.mem (u32 p &&& 0xFFFFFFFC) V1) (u32 (p + 3) &&& 0xFFFFFFFC) V2) (u32 (p + 3) &&& 0xFFFFFFFC) / 2 ^ (8 * (3 - (effective_address c raw1 + 3) % 4)) := by
  obtain ⟨c1, V1, e1, hg1, hm1, hV1⟩ : ∃ c1 V1, mips_swl ext c raw1 = some c1 ∧ c1.gpr = c.gpr
      ∧ c1.mem = n64_write_physical_word c.mem (u32 p &&& 0xFFFFFFFC) V1
      ∧ V1 = 2 ^ (8 * (4 - effective_address c raw1 % 4)) * (n64_read_physical_word c.mem (u32 p &&& 0xFFFFFFFC) / 2 ^ (8 * (4 - effective_address c raw1 % 4)))
          + u32 (c.gpr (instr_rt raw1)) / 2 ^ (8 * (effective_address c raw1 % 4)) :=
    ⟨_, _, swl_eq ext c raw1 p (ht1 c _), rfl, rfl, rfl⟩
  have ea2 : effective_address c1 raw2 = effective_address c raw1 + 3 := by
    rw [← ha2]
    unfold effective_address get_register
    rw [hg1]
  obtain ⟨c2, V2, e2, hg2, hm2, hV2⟩ : ∃ c2 V2, mips_swr ext c1 raw2 = some c2 ∧ c2.gpr = c.gpr
      ∧ c2.mem = n64_write_physical_word c1.mem (u32 (p + 3) &&& 0xFFFFFFFC) V2
      ∧ V2 = 2 ^ (8 * (3 - (effective_address c raw1 + 3) % 4)) * (u32 (c.gpr (instr_rt raw1)) % 2 ^ (8 * ((effective_address c raw1 + 3) % 4 + 1)))
          + n64_read_physical_word c1.mem (u32 (p + 3) &&& 0xFFFFFFFC) % 2 ^ (8 * (3 - (effective_address c raw1 + 3) % 4)) := by
    have h := swr_eq ext c1 raw2 (p + 3) (by rw [ea2]; exact ht2 c1 _)
    rw [ea2, hg1, hrt] at h
    exact ⟨_, _, h, rfl, rfl, rfl⟩
  have ea3 : effective_address c2 raw3 = effective_address c raw1 := by
    rw [← ha3]
    unfold effective_address get_register
    rw [hg2]
  obtain ⟨V3, e3, hV3⟩ : ∃ V3,
      mips_lwl ext c2 raw3 = some (set_register c2 (instr_rt raw3) (sext32 V3))
      ∧ V3 = 2 ^ (8 * (effective_address c raw1 % 4)) * (n64_read_physical_word c2.mem (u32 p &&& 0xFFFFFFFC) % 2 ^ (8 * (4 - effective_address c raw1 % 4)))
          + c.gpr (instr_rt raw3) % 2 ^ (8 * (effective_address c raw1 % 4)) := by
    have h := lwl_eq ext c2 raw3 p (by rw [ea3]; exact ht1 c2 _)
    rw [ea3, hg2] at h
    exact ⟨_, h, rfl⟩
  have hg3rt : (set_register c2 (instr_rt raw3) (sext32 V3)).gpr (instr_rt raw3) = sext32 V3 :=
    set_register_gpr_self _ _ _ hnz
  have hg3rs : (set_register c2 (instr_rt raw3) (sext32 V3)).gpr (instr_rs raw4)
      = c.gpr (instr_rs raw4) := by
    unfold set_register
    rw [if_neg hnz]
    show (if instr_rs raw4 = instr_rt raw3 then _ else c2.gpr (instr_rs raw4)) = _
    rw [if_neg hne, hg2]
  have ea4 : effective_address (set_register c2 (instr_rt raw3) (sext32 V3)) raw4
      = effective_address c raw1 + 3 := by
    rw [← ha4]
    unfold effective_address get_register
    rw [hg3rs]
  obtain ⟨V4, e4, hV4⟩ : ∃ V4,
      mips_lwr ext (set_register c2 (instr_rt raw3) (sext32 V3)) raw4
        = some (set_register (set_register c2 (instr_rt raw3) (sext32 V3)) (instr_rt raw3)
            (sext32 V4))
      ∧ V4 = 2 ^ (8 * ((effective_address c raw1 + 3) % 4 + 1)) * (u32 (sext32 V3) / 2 ^ (8 * ((effective_address c raw1 + 3) % 4 + 1)))
          + n64_read_physical_word c2.mem (u32 (p + 3) &&& 0xFFFFFFFC) / 2 ^ (8 * (3 - (effective_address c raw1 + 3) % 4)) := by
    have h := lwr_eq ext (set_register c2 (instr_rt raw3) (sext32 V3)) raw4 (p + 3)
      (by rw [ea4]; exact ht2 _ _)
    rw [ea4, hrd, hg3rt, set_register_mem] at h
    exact ⟨_, h, rfl⟩
  rw [hm2, hm1] at hV3 hV4
  rw [hm1] at hV2
  refine ⟨V1, V2, V3, V4,
    set_register (set_register c2 (instr_rt raw3) (sext32 V3)) (instr_rt raw3) (sext32 V4),
    by simp only [e1, e2, e3, e4, Option.some_bind], set_register_gpr_self _ _ _ hnz, ?_,
    hV1, hV2, hV3, hV4⟩
  rw [set_register_mem, set_register_mem, hm2, hm1]

/-- C33: for every state and every address a = the effective address of the
first instruction, when a translates to the physical address p and a + 3 to
p + 3 (for loads and for stores, with the same low two bits and within the
32-bit physical space): SWL rt, (a); SWR rt, (a+3); LWL rd, (a); LWR rd, (a+3)
all return, rd (a register other than r0 and the base of the last load) then
holds the low 32 bits of rt sign-extended to 64 bits, whatever rd and memory
held before, and every memory byte outside p..p+3 reads as before. -/
theorem C33_unaligned_pair_roundtrip (ext : Ext) (c : r4300i_t) (raw1 raw2 raw3 raw4 p : Nat)
    (ht1 : ∀ s acc, ext.resolve_virtual_address s (effective_address c raw1) acc = Except.ok p)
    (ht2 : ∀ s acc, ext.resolve_virtual_address s (effective_address c raw1 + 3) acc
      = Except.ok (p + 3))
    (hp : p + 3 < 0x100000000) (hpk : p % 4 = effective_address c raw1 % 4)
    (ha2 : effective_address c raw2 = effective_address c raw1 + 3)
    (ha3 : effective_address c raw3 = effective_address c raw1)
    (ha4 : effective_address c raw4 = effective_address c raw1 + 3)
    (hrt : instr_rt raw2 = instr_rt raw1) (hrd : instr_rt raw4 = instr_rt raw3)
    (hnz : instr_rt raw3 ≠ 0) (hne : instr_rs raw4 ≠ instr_rt raw3) :
    ∃ c4, (((mips_swl ext c raw1).bind (fun s => mips_swr ext s raw2)).bind
        (fun s => mips_lwl ext s raw3)).bind (fun s => mips_lwr ext s raw4) = some c4
      ∧ c4.gpr (instr_rt raw3) = sext32 (c.gpr (instr_rt raw1))
      ∧ (∀ q, q < p ∨ p + 4 ≤ q →
          n64_read_physical_byte c4.mem q = n64_read_physical_byte c.mem q) := by
  obtain ⟨V1, V2, V3, V4, c4, hchain, hg, hm, hV1, hV2, hV3, hV4⟩ :=
    pair_chain ext c raw1 raw2 raw3 raw4 p ht1 ht2 ha2 ha3 ha4 hrt hrd hnz hne
  have hw0 : u32 p &&& 0xFFFFFFFC = 4 * (p / 4) := align4 p (by omega)
  have hw1 : u32 (p + 3) &&& 0xFFFFFFFC = 4 * ((p + 3) / 4) := align4 (p + 3) hp
  rw [hw0, hw1] at hm hV2 hV3 hV4
  rw [hw0] at hV1
  have hk : effective_address c raw1 % 4 < 4 := Nat.mod_lt _ (by decide)
  refine ⟨c4, hchain, ?_, ?_⟩
  · rw [hg, ← sext32_mod (c.gpr (instr_rt raw1))]
    congr 1
    by_cases hk0 : effective_address c raw1 % 4 = 0
    · have hk2 : (effective_address c raw1 + 3) % 4 = 3 := by omega
      have hw : 4 * ((p + 3) / 4) = 4 * (p / 4) := by omega
      rw [hk0] at hV1 hV3
      rw [hk2, hw] at hV2 hV4
      rw [hw] at hV3
      rw [read_write_word] at hV2 hV3 hV4
      exact pair_value_aligned _ _ _ V1 V2 V3 V4 hV1 hV2 hV3 hV4
    · have hk2 : (effective_address c raw1 + 3) % 4 = effective_address c raw1 % 4 - 1 := by
        omega
      have hw : 4 * ((p + 3) / 4) = 4 * (p / 4) + 4 := by omega
      rw [hk2, hw] at hV2 hV4
      rw [hw] at hV3
      rw [read_word_frame _ _ _ _ (Or.inr (le_refl _))] at hV2
      rw [read_word_frame _ _ _ _ (Or.inl (le_refl _)), read_write_word] at hV3
      rw [read_write_word] at hV4
      exact pair_value_split (effective_address c raw1 % 4) _ _ _ _ V1 V2 V3 V4 (by omega) hk
        hV1 hV2 hV3 hV4
  · intro q hq
    unfold n64_read_physical_byte
    rw [hm]
    by_cases hk0 : effective_address c raw1 % 4 = 0
    · have hw : 4 * ((p + 3) / 4) = 4 * (p / 4) := by omega
      have hpw : 4 * (p / 4) = p := by omega
      rw [hw, hpw, write_word_frame _ _ _ _ hq, write_word_frame _ _ _ _ hq]
    · have hw : 4 * ((p + 3) / 4) = 4 * (p / 4) + 4 := by omega
      rw [hw]
      have hk2 : (effective_address c raw1 + 3) % 4 = effective_address c raw1 % 4 - 1 := by
        omega
      rw [hk2, hw, read_word_frame _ _ _ _ (Or.inr (le_refl _))] at hV2
      by_cases hout : q < 4 * (p / 4) ∨ 4 * (p / 4) + 8 ≤ q
      · rw [write_word_frame _ _ _ _ (by omega), write_word_frame _ _ _ _ (by omega)]
      · by_cases hlow : q < p
        · obtain ⟨j, hj, hjk⟩ : ∃ j, q = 4 * (p / 4) + j ∧ j < effective_address c raw1 % 4 :=
            ⟨q - 4 * (p / 4), by omega, by omega⟩
          rw [write_word_frame _ _ _ _ (by omega)]
          have h1 := write_word_byte c.mem (4 * (p / 4)) V1 j (by omega)
          have h2 := read_word_byte c.mem (4 * (p / 4)) j (by omega)
          have hB : u32 (c.gpr (instr_rt raw1)) / 2 ^ (8 * (effective_address c raw1 % 4))
              < 2 ^ (8 * (4 - effective_address c raw1 % 4)) := by
            apply div_lt_pow
            rw [show 8 * (effective_address c raw1 % 4) + 8 * (4 - effective_address c raw1 % 4)
              = 32 from by omega]
            exact u32_lt _
          have h3 := swl_keeps_top (effective_address c raw1 % 4) j _ _ V1 hk hjk hB hV1
          unfold n64_read_physical_byte at h1 h2
          rw [hj, h1, h3, h2]
        · obtain ⟨j, hj, hjk, hj4⟩ : ∃ j, q = 4 * (p / 4) + 4 + j
              ∧ effective_address c raw1 % 4 ≤ j ∧ j < 4 :=
            ⟨q - (4 * (p / 4) + 4), by omega, by omega, by omega⟩
          have h1 := write_word_byte (n64_write_physical_word c.mem (4 * (p / 4)) V1)
            (4 * (p / 4) + 4) V2 j hj4
          have h2 := read_word_byte c.mem (4 * (p / 4) + 4) j hj4
          have h3 := swr_keeps_low (effective_address c raw1 % 4) j _ _ V2 (by omega) hk hjk hj4
            hV2
          unfold n64_read_physical_byte at h1 h2
          rw [hj, h1, h3, h2]

/-- C33, witness: at the unaligned kseg0 address 0xFFFFFFFF80000101 (physical
0x101) with r2 = 0xAABBCCDD, the stores and reloads leave
r3 = 0xFFFFFFFFAABBCCDD. -/
theorem C33_unaligned_pair_roundtrip_witness :
    ∃ c4, (((mips_swl flat_ext unaligned_state 0xA8220000).bind
        (fun s => mips_swr flat_ext s 0xB8220003)).bind
        (fun s => mips_lwl flat_ext s 0x88230000)).bind
        (fun s => mips_lwr flat_ext s 0x98230003) = some c4
      ∧ c4.gpr 3 = 0xFFFFFFFFAABBCCDD := by
  obtain ⟨c4, h, hg, -⟩ := C33_unaligned_pair_roundtrip flat_ext unaligned_state 0xA8220000
    0xB8220003 0x88230000 0x98230003 0x101 (fun _ _ => rfl) (fun _ _ => rfl) (by decide)
    (by decide) (by decide) (by decide) (by decide) (by decide) (by decide) (by decide)
    (by decide)
  exact ⟨c4, h, hg⟩

end N64
